import Mathlib

/-!
The library sql-plus-plus.

A shallow embedding of the prepared-statement layer (`mysql_connection.hpp`,
`sqlserver_connection.hpp`), of the connection pools (`mysql_connection_pool.hpp`,
`sqlserver_connection_pool.hpp`), of the borrow guard (`db_common.h`) and of the exception
classes (`exception.hpp`).

Conventions of the embedding:
* the native client library is not part of the repository; what it answers is an input
  (a record of return codes and of the stores it makes through the bound pointers);
* a member function becomes a function from the object state to the new state and an `outcome`;
* `std::string` and `std::vector<char>` are lists of bytes, `unsigned long`/`size_t` are 64 bit.
-/

namespace sqlcpp

/-! ## Common definitions -/

/-- How a C++ call ends: it returns, it throws an exception carrying `what()`, it reaches
`std::terminate`, or it has undefined behaviour. -/
inductive outcome (α : Type) where
  | returned (value : α)
  | thrown (what : String)
  | terminated
  | undefined
deriving DecidableEq, Repr

/-- The built-in arithmetic types the type maps know. -/
inductive arith_type where
  | int8_t | uint8_t | int16_t | uint16_t | int32_t | uint32_t
  | float | double | int64_t | uint64_t
deriving DecidableEq, Repr

/-- The row shape `ReturnType` of `query`: `void`, a `std::tuple`, a reflected struct,
or any other (single) type. `F` is the type of field descriptions of the driver. -/
inductive ReturnType (F : Type) where
  | void
  | tuple (elements : List F)
  | reflection (members : List F)
  | single (type : F)
deriving DecidableEq, Repr

/-- Value of `(unsigned long)-1` and of `(size_t)-1`. -/
def ulong_minus_one : Nat := 2 ^ 64 - 1

/-- Conversion of a signed integer to `size_t` (the usual arithmetic conversions). -/
def to_size_t (x : Int) : Nat := (x % (2 ^ 64 : Int)).toNat

/-- A staging buffer gets `data` written at its start; its size does not change. -/
def overwrite : List UInt8 → List UInt8 → List UInt8
  | [], _ => []
  | b :: buffer, [] => b :: buffer
  | _ :: buffer, d :: data => d :: overwrite buffer data

/-- The bytes `std::string(p, n)` copies from a buffer of which `p` is the start:
reading past the end of the buffer is undefined. -/
def string_from : List UInt8 → Nat → Option (List UInt8)
  | _, 0 => some []
  | [], _ + 1 => none
  | b :: buffer, n + 1 => (string_from buffer n).map fun s => b :: s

/-- Where a pointer handed to the driver for a result column points: nowhere, at the storage
of element `index` of the row object `r`, or at the start of `buf_keeper[index].first`. -/
inductive pointer where
  | null
  | element (index : Nat)
  | staging (index : Nat)
deriving DecidableEq, Repr

/-- The `connection_options` of db_common.h. -/
structure connection_options where
  ip : String
  port : String := ""
  user : String := ""
  passwd : String := ""
deriving DecidableEq, Repr

/-- The `node_info` of db_common.h. -/
structure node_info where
  ip : String
  port : String := ""
  role : String := ""
deriving DecidableEq, Repr

/-! ## MySQL connection (`mysql_connection.hpp`) -/

namespace mysql

/-- The `enum_field_types` values of `mysql.h` that `mysql_type_map` returns, and the value 0
(`MYSQL_TYPE_DECIMAL`) of a zero-initialised `MYSQL_BIND`. -/
inductive enum_field_types where
  | MYSQL_TYPE_DECIMAL | MYSQL_TYPE_TINY | MYSQL_TYPE_SHORT | MYSQL_TYPE_LONG
  | MYSQL_TYPE_FLOAT | MYSQL_TYPE_DOUBLE | MYSQL_TYPE_NULL | MYSQL_TYPE_TIMESTAMP
  | MYSQL_TYPE_LONGLONG | MYSQL_TYPE_MEDIUM_BLOB | MYSQL_TYPE_STRING
deriving DecidableEq, Repr

/-- The value types `mysql_type_map` accepts. -/
inductive value_type where
  | arithmetic (t : arith_type)
  | string | char_array | char_pointer | string_view
  | mysql_timestamp
  | mysql_mediumtext
deriving DecidableEq, Repr

/-- The `connection::mysql_type_map`: wire type and signedness of a value type. -/
def mysql_type_map : value_type → enum_field_types × Bool
  | .arithmetic .int8_t => (.MYSQL_TYPE_TINY, false)
  | .arithmetic .uint8_t => (.MYSQL_TYPE_TINY, true)
  | .arithmetic .int16_t => (.MYSQL_TYPE_SHORT, false)
  | .arithmetic .uint16_t => (.MYSQL_TYPE_SHORT, true)
  | .arithmetic .int32_t => (.MYSQL_TYPE_LONG, false)
  | .arithmetic .uint32_t => (.MYSQL_TYPE_LONG, true)
  | .arithmetic .float => (.MYSQL_TYPE_FLOAT, false)
  | .arithmetic .double => (.MYSQL_TYPE_DOUBLE, false)
  | .arithmetic .int64_t => (.MYSQL_TYPE_LONGLONG, false)
  | .arithmetic .uint64_t => (.MYSQL_TYPE_LONGLONG, true)
  | .string => (.MYSQL_TYPE_STRING, false)
  | .char_array => (.MYSQL_TYPE_STRING, false)
  | .char_pointer => (.MYSQL_TYPE_STRING, false)
  | .string_view => (.MYSQL_TYPE_STRING, false)
  | .mysql_timestamp => (.MYSQL_TYPE_TIMESTAMP, false)
  | .mysql_mediumtext => (.MYSQL_TYPE_MEDIUM_BLOB, false)

/-- The element types `build_result_param` accepts for a column of a row shape. -/
inductive field_type where
  | arithmetic (t : arith_type)
  | string
  | mediumtext
  | optional_arithmetic (t : arith_type)
  | optional_string
  | optional_mediumtext
deriving DecidableEq, Repr

/-- An element of the row object `r`. An `std::optional` of an arithmetic type is its
engaged flag together with its storage, into which the driver writes through the bound pointer. -/
inductive field where
  | arithmetic (t : arith_type) (value : Int)
  | string (s : List UInt8)
  | mediumtext (content : List UInt8)
  | optional_arithmetic (t : arith_type) (engaged : Bool) (storage : Int)
  | optional_string (value : Option (List UInt8))
  | optional_mediumtext (value : Option (List UInt8))
deriving DecidableEq, Repr

/-- The `has_value()` of an optional element (`true` for an element that is not an optional). -/
def field.has_value : field → Bool
  | .optional_arithmetic _ engaged _ => engaged
  | .optional_string value => value.isSome
  | .optional_mediumtext value => value.isSome
  | _ => true

/-- The element of `ReturnType r{}` (value-initialised). -/
def value_initialized : field_type → field
  | .arithmetic t => .arithmetic t 0
  | .string => .string []
  | .mediumtext => .mediumtext []
  | .optional_arithmetic t => .optional_arithmetic t false 0
  | .optional_string => .optional_string none
  | .optional_mediumtext => .optional_mediumtext none

/-- The element left behind in `r` by `back_data.emplace_back(std::move(r))`: arithmetic
values and the engaged flag of an optional are unchanged, a moved-from `std::string` is empty. -/
def moved_from : field → field
  | .arithmetic t v => .arithmetic t v
  | .string _ => .string []
  | .mediumtext _ => .mediumtext []
  | .optional_arithmetic t engaged storage => .optional_arithmetic t engaged storage
  | .optional_string value => .optional_string (value.map fun _ => [])
  | .optional_mediumtext value => .optional_mediumtext (value.map fun _ => [])

/-- Whether `assign_result` reads a staging buffer and advances the iterator for the
element: the string-like elements and the optionals of them. -/
def field.advances : field → Bool
  | .string _ => true
  | .mediumtext _ => true
  | .optional_string _ => true
  | .optional_mediumtext _ => true
  | _ => false

/-- The members of `MYSQL_BIND` the connection sets; `length` points at
`buf_keeper[j].second`, `is_null` at `is_null[j]`. The default is the zero-initialised slot. -/
structure MYSQL_BIND where
  buffer : pointer := .null
  buffer_length : Nat := 0
  buffer_type : enum_field_types := .MYSQL_TYPE_DECIMAL
  length : Option Nat := none
  is_null : Option Nat := none
  is_unsigned : Bool := false
deriving DecidableEq, Repr

/-- The staging buffers `buf_keeper`: bytes and the length written by the driver. -/
abbrev staging_buffers := List (List UInt8 × Nat)

/-- The `connection::build_result_param` (both overloads) for the element `t` of `r` at
position `address`, with `&is_null[is_null]` as last argument. -/
def build_result_param (buf : staging_buffers) (param : MYSQL_BIND) (t : field)
    (address : Nat) (is_null : Nat) : staging_buffers × MYSQL_BIND × field :=
  match t with
  | .optional_arithmetic u _ _ =>
    (buf, { param with buffer := .element address,
                       buffer_type := (mysql_type_map (.arithmetic u)).1,
                       is_null := some is_null },
     .optional_arithmetic u true 0)
  | .optional_string _ =>
    (buf ++ [(List.replicate 65536 0, ulong_minus_one)],
     { param with buffer := .staging buf.length, buffer_length := 65536,
                  buffer_type := (mysql_type_map .string).1,
                  length := some buf.length, is_null := some is_null }, t)
  | .optional_mediumtext _ =>
    (buf ++ [(List.replicate (16 * 1024 * 1024) 0, ulong_minus_one)],
     { param with buffer := .staging buf.length, buffer_length := 16 * 1024 * 1024,
                  buffer_type := (mysql_type_map .mysql_mediumtext).1,
                  length := some buf.length, is_null := some is_null }, t)
  | .arithmetic u _ =>
    (buf, { param with buffer := .element address,
                       buffer_type := (mysql_type_map (.arithmetic u)).1 }, t)
  | .string _ =>
    (buf ++ [(List.replicate 65536 0, ulong_minus_one)],
     { param with buffer := .staging buf.length, buffer_length := 65536,
                  buffer_type := (mysql_type_map .string).1,
                  length := some buf.length }, t)
  | .mediumtext _ =>
    (buf ++ [(List.replicate (16 * 1024 * 1024) 0, ulong_minus_one)],
     { param with buffer := .staging buf.length, buffer_length := 16 * 1024 * 1024,
                  buffer_type := (mysql_type_map .mysql_mediumtext).1,
                  length := some buf.length }, t)

/-- The `connection::assign_result` for the element `e` with `iter` the position of the
iterator in `buf_keeper`; the result is the new element and the new iterator. `none` stands
for undefined behaviour (the iterator is dereferenced past the end, or the string is built
from more bytes than the buffer has). -/
def assign_result (is_field_null : Bool) (e : field) (buf_keeper : staging_buffers)
    (iter : Nat) : Option (field × Nat) :=
  match e with
  | .optional_arithmetic t engaged storage =>
    if is_field_null then some (.optional_arithmetic t false storage, iter)
    else some (.optional_arithmetic t engaged storage, iter)
  | .optional_mediumtext value =>
    match buf_keeper[iter]? with
    | none => none
    | some p =>
      if p.2 ≠ ulong_minus_one then
        (string_from p.1 p.2).map fun s => (.optional_mediumtext (some s), iter + 1)
      else some (.optional_mediumtext value, iter + 1)
  | .optional_string value =>
    match buf_keeper[iter]? with
    | none => none
    | some p =>
      if p.2 ≠ ulong_minus_one then
        (string_from p.1 p.2).map fun s => (.optional_string (some s), iter + 1)
      else some (.optional_string value, iter + 1)
  | .string s =>
    match buf_keeper[iter]? with
    | none => none
    | some p =>
      if p.2 ≠ ulong_minus_one then
        (string_from p.1 p.2).map fun s1 => (.string s1, iter + 1)
      else some (.string s, iter + 1)
  | .mediumtext content =>
    match buf_keeper[iter]? with
    | none => none
    | some p =>
      if p.2 ≠ ulong_minus_one then
        (string_from p.1 p.2).map fun s1 => (.mediumtext s1, iter + 1)
      else some (.mediumtext content, iter + 1)
  | .arithmetic t value => some (.arithmetic t value, iter)

/-- What one `mysql_stmt_fetch` stores for one column through the pointers of its
`MYSQL_BIND`: the NULL flag through `is_null`, an arithmetic value or bytes through
`buffer`, the byte count through `length` (`none`: that location is left untouched). -/
structure column_store where
  is_null : Bool
  value : Option Int := none
  data : Option (List UInt8) := none
  length : Option Nat := none
deriving DecidableEq, Repr

/-- The locals of `after_execute` the driver writes to and the row decoder reads. -/
structure fetch_state where
  r : List field
  is_null : List Bool
  buf_keeper : staging_buffers
deriving DecidableEq, Repr

/-- An arithmetic value written into the storage of an element. -/
def store_value (v : Int) : field → field
  | .arithmetic t _ => .arithmetic t v
  | .optional_arithmetic t engaged _ => .optional_arithmetic t engaged v
  | e => e

/-- The stores of one fetch for the column bound by `param`. -/
def store_column (param : MYSQL_BIND) (s : column_store) (st : fetch_state) : fetch_state :=
  { r := match param.buffer, s.value with
      | .element k, some v => st.r.modify (store_value v) k
      | _, _ => st.r
    is_null := match param.is_null with
      | some k => st.is_null.set k s.is_null
      | none => st.is_null
    buf_keeper :=
      let written := match param.buffer, s.data with
        | .staging j, some bytes => st.buf_keeper.modify (fun p => (overwrite p.1 bytes, p.2)) j
        | _, _ => st.buf_keeper
      match param.length, s.length with
      | some j, some n => written.modify (fun p => (p.1, n % 2 ^ 64)) j
      | _, _ => written }

/-- The stores of one fetch for all bound columns. -/
def store_columns : List MYSQL_BIND → List column_store → fetch_state → fetch_state
  | param :: params, s :: ss, st => store_columns params ss (store_column param s st)
  | _, _, st => st

/-- The `for_each_tuple` of `after_execute` that calls `assign_result(is_null[index], element
index of r, iter)` for every index in turn. -/
def assign_results (buf_keeper : staging_buffers) :
    List Bool → List field → Nat → Option (List field × Nat)
  | n :: ns, e :: es, iter =>
    match assign_result n e buf_keeper iter with
    | none => none
    | some (e1, iter1) =>
      match assign_results buf_keeper ns es iter1 with
      | none => none
      | some (es1, iter2) => some (e1 :: es1, iter2)
  | _, _, iter => some ([], iter)

/-- The `for_each_tuple` of `after_execute` that calls `build_result_param(buf_keeper,
param_binds[index], element index of r, &is_null[index])` for every index in turn. -/
def build_result_params :
    List field → Nat → staging_buffers → staging_buffers × List MYSQL_BIND × List field
  | [], _, buf => (buf, [], [])
  | t :: ts, index, buf =>
    let b := build_result_param buf {} t index index
    let bs := build_result_params ts (index + 1) b.1
    (bs.1, b.2.1 :: bs.2.1, b.2.2 :: bs.2.2)

/-- The functions of the MySQL client library a statement calls. -/
inductive api where
  | mysql_query
  | mysql_stmt_prepare | mysql_stmt_param_count | mysql_stmt_result_metadata
  | mysql_num_fields | mysql_free_result | mysql_stmt_bind_param | mysql_stmt_execute
  | mysql_stmt_bind_result | mysql_stmt_store_result | mysql_stmt_num_rows | mysql_stmt_fetch
deriving DecidableEq, Repr

/-- What the MySQL client library answers while one statement runs: the return value of
each function (`mysql_stmt_result_metadata` is `none` for a null pointer and otherwise the
`mysql_num_fields` of the metadata), the successive `mysql_stmt_fetch` calls with their
return value and stores (after the last one the library answers `MYSQL_NO_DATA`), and the
`mysql_error` text. -/
structure statement where
  mysql_query : Int := 0
  mysql_stmt_prepare : Int := 0
  mysql_stmt_param_count : Nat := 0
  mysql_stmt_result_metadata : Option Nat := none
  mysql_stmt_bind_param : Int := 0
  mysql_stmt_execute : Int := 0
  mysql_stmt_bind_result : Int := 0
  mysql_stmt_store_result : Int := 0
  mysql_stmt_fetch : List (Int × List column_store) := []
  mysql_error : String := ""
deriving Repr

/-- The state of a `mysql::connection` object: its identity, `ip_` and `is_health_`. -/
structure connection where
  id : Nat
  ip_ : String
  is_health_ : Bool
deriving DecidableEq, Repr

/-- The `connection::is_health`. -/
def connection.is_health (c : connection) : Bool := c.is_health_

/-- The `connection::get_ip`. -/
def connection.get_ip (c : connection) : String := c.ip_

/-- A finished member call: the connection afterwards, the library calls made, in order,
and how the call ended. -/
structure run (α : Type) where
  conn : connection
  calls : List api
  result : outcome α
deriving Repr

/-- The number of elements the output size check of `before_execute` compares the column
count with: `std::tuple_size_v`, `args_size_t::value`, or 1. -/
def element_size : ReturnType field_type → Nat
  | .void => 0
  | .tuple elements => elements.length
  | .reflection members => members.length
  | .single _ => 1

/-- The block "check output size match" of `before_execute` for a non-void `ReturnType`:
the library calls it makes and the message of the exception it throws, if any. -/
def check_output_size (R : ReturnType field_type) (d : statement) : List api × Option String :=
  match d.mysql_stmt_result_metadata with
  | none =>
    ([.mysql_stmt_result_metadata], some ("Failed to stmt_result_metadata : " ++ d.mysql_error))
  | some column_count =>
    ([.mysql_stmt_result_metadata, .mysql_num_fields, .mysql_free_result],
      match R with
      | .tuple elements =>
        if column_count ≠ elements.length then
          some "columns in the query do not match tuple element size"
        else none
      | .reflection members =>
        if column_count ≠ members.length then
          some "columns in the query do not match struct element size"
        else none
      | _ =>
        if column_count ≠ 1 then some "columns size in the query must be 1" else none)

/-- The `connection::before_execute<ReturnType>(statement_sql, args...)`. -/
def before_execute {A : Type} (R : ReturnType field_type) (statement_sql : String)
    (args : List A) (d : statement) (c : connection) : run Unit :=
  if d.mysql_stmt_prepare ≠ 0 then
    { conn := { c with is_health_ := false }, calls := [.mysql_stmt_prepare],
      result := .thrown ("Failed to stmt_prepare sql<" ++ statement_sql ++ ">: " ++ d.mysql_error) }
  else if d.mysql_stmt_param_count ≠ args.length then
    { conn := c, calls := [.mysql_stmt_prepare, .mysql_stmt_param_count],
      result := .thrown "param size do not match placeholder size" }
  else
    let checked : List api × Option String :=
      if R = .void then ([], none) else check_output_size R d
    match checked.2 with
    | some what =>
      { conn := c, calls := [.mysql_stmt_prepare, .mysql_stmt_param_count] ++ checked.1,
        result := .thrown what }
    | none =>
      if args.length > 0 then
        if d.mysql_stmt_bind_param ≠ 0 then
          { conn := c,
            calls := [.mysql_stmt_prepare, .mysql_stmt_param_count] ++ checked.1
              ++ [.mysql_stmt_bind_param],
            result := .thrown ("Failed to stmt_bind_param : " ++ d.mysql_error) }
        else
          { conn := c,
            calls := [.mysql_stmt_prepare, .mysql_stmt_param_count] ++ checked.1
              ++ [.mysql_stmt_bind_param],
            result := .returned () }
      else
        { conn := c, calls := [.mysql_stmt_prepare, .mysql_stmt_param_count] ++ checked.1,
          result := .returned () }

/-- The fetch loop of `after_execute`: the library calls made and the rows collected in
`back_data`. Any return value of `mysql_stmt_fetch` other than 0 ends the loop. -/
def fetch_rows (param_binds : List MYSQL_BIND) :
    List (Int × List column_store) → fetch_state → List api × outcome (List (List field))
  | [], _ => ([.mysql_stmt_fetch], .returned [])
  | (ret, stores) :: rest, st =>
    if ret ≠ 0 then ([.mysql_stmt_fetch], .returned [])
    else
      let st1 := store_columns param_binds stores st
      match assign_results st1.buf_keeper st1.is_null st1.r 0 with
      | none => ([.mysql_stmt_fetch], .undefined)
      | some (r1, _) =>
        let next := fetch_rows param_binds rest { st1 with r := r1.map moved_from }
        (.mysql_stmt_fetch :: next.1,
          match next.2 with
          | .returned back_data => .returned (r1 :: back_data)
          | other => other)

/-- The `connection::after_execute<ElementSize, ReturnType>()` for the row shape with
the given element types. -/
def after_execute (elements : List field_type) (d : statement) (c : connection) :
    run (List (List field)) :=
  let built := build_result_params (elements.map value_initialized) 0 []
  if d.mysql_stmt_bind_result ≠ 0 then
    { conn := c, calls := [.mysql_stmt_bind_result],
      result := .thrown ("Failed to stmt_bind_param : " ++ d.mysql_error) }
  else if d.mysql_stmt_store_result ≠ 0 then
    { conn := c, calls := [.mysql_stmt_bind_result, .mysql_stmt_store_result],
      result := .thrown ("Failed to stmt_store_result : " ++ d.mysql_error) }
  else
    let fetched := fetch_rows built.2.1 d.mysql_stmt_fetch
      { r := built.2.2, is_null := elements.map fun _ => false, buf_keeper := built.1 }
    { conn := c,
      calls := [.mysql_stmt_bind_result, .mysql_stmt_store_result, .mysql_stmt_num_rows]
        ++ fetched.1,
      result := fetched.2 }

/-- The three overloads of `connection::query<ReturnType>(statement_sql, args...)`; the
overload without data back returns no rows. -/
def query {A : Type} (R : ReturnType field_type) (statement_sql : String) (args : List A)
    (d : statement) (c : connection) : run (List (List field)) :=
  let before := before_execute R statement_sql args d c
  match before.result with
  | .thrown what => { conn := before.conn, calls := before.calls, result := .thrown what }
  | .terminated => { conn := before.conn, calls := before.calls, result := .terminated }
  | .undefined => { conn := before.conn, calls := before.calls, result := .undefined }
  | .returned _ =>
    if d.mysql_stmt_execute ≠ 0 then
      { conn := { before.conn with is_health_ := false },
        calls := before.calls ++ [.mysql_stmt_execute],
        result := .thrown
          ((match R with
            | .tuple _ => "Failed to stmt_execute : "
            | .reflection _ => "Failed to stmt_execute : "
            | _ => "failed to stmt_execute : ") ++ d.mysql_error) }
    else
      match R with
      | .void =>
        { conn := before.conn, calls := before.calls ++ [.mysql_stmt_execute],
          result := .returned [] }
      | .tuple elements =>
        let after := after_execute elements d before.conn
        { after with calls := before.calls ++ [.mysql_stmt_execute] ++ after.calls }
      | .reflection members =>
        let after := after_execute members d before.conn
        { after with calls := before.calls ++ [.mysql_stmt_execute] ++ after.calls }
      | .single type =>
        let after := after_execute [type] d before.conn
        { after with calls := before.calls ++ [.mysql_stmt_execute] ++ after.calls }

/-- The element types of a row shape, in order. -/
def row_elements : ReturnType field_type → List field_type
  | .void => []
  | .tuple elements => elements
  | .reflection members => members
  | .single type => [type]

/-- The `param_binds` that `after_execute` fills for a row with the given element types. -/
def result_binds (elements : List field_type) : List MYSQL_BIND :=
  (build_result_params (elements.map value_initialized) 0 []).2.1

/-- Whether the byte count that a fetch stores through the `length` pointer of a bind is at
most the `buffer_length` of the bind (no truncation). -/
def fits (param : MYSQL_BIND) (s : column_store) : Bool :=
  match param.length, s.length with
  | some _, some n => decide (n ≤ param.buffer_length)
  | _, _ => true

/-- Every library call of a query with row shape `R` succeeds: bind, execute, bind result
and store result return 0, the metadata is there with as many columns as `R` has elements,
and a fetch that returns 0 reports for no column a length above the `buffer_length` of
its bind. -/
def statement.succeeds (d : statement) (R : ReturnType field_type) : Prop :=
  d.mysql_stmt_bind_param = 0 ∧ d.mysql_stmt_execute = 0 ∧
  (R ≠ .void →
    d.mysql_stmt_result_metadata = some (element_size R) ∧
    d.mysql_stmt_bind_result = 0 ∧ d.mysql_stmt_store_result = 0 ∧
    ∀ f ∈ d.mysql_stmt_fetch, f.1 = 0 →
      ∀ bs ∈ (result_binds (row_elements R)).zip f.2, fits bs.1 bs.2 = true)

/-- The `connection::execute(sql)`. -/
def execute (sql : String) (d : statement) (c : connection) : run Unit :=
  if d.mysql_query ≠ 0 then
    { conn := { c with is_health_ := false }, calls := [.mysql_query],
      result := .thrown ("Failed to excute sql<" ++ sql ++ ">: " ++ d.mysql_error) }
  else { conn := c, calls := [.mysql_query], result := .returned () }

end mysql

/-! ## SQL Server connection (`sqlserver_connection.hpp`) -/

namespace sqlserver

/-- The `SQL_SUCCESS` of sql.h. -/
def SQL_SUCCESS : Int := 0

/-- The `SQL_NO_DATA` of sql.h. -/
def SQL_NO_DATA : Int := 100

/-- The `SQL_ERROR` of sql.h. -/
def SQL_ERROR : Int := -1

/-- The `SQL_NULL_DATA` of sql.h. -/
def SQL_NULL_DATA : Int := -1

/-- The ODBC C data type identifiers `sqlserver_type_map` returns. -/
inductive c_type where
  | SQL_C_STINYINT | SQL_C_UTINYINT | SQL_C_SSHORT | SQL_C_USHORT | SQL_C_SLONG | SQL_C_ULONG
  | SQL_C_FLOAT | SQL_C_DOUBLE | SQL_C_SBIGINT | SQL_C_UBIGINT | SQL_C_CHAR
  | SQL_C_TYPE_DATE | SQL_C_TYPE_TIMESTAMP
deriving DecidableEq, Repr

/-- The ODBC SQL data type identifiers `sqlserver_type_map` returns. -/
inductive sql_type where
  | SQL_TINYINT | SQL_SMALLINT | SQL_INTEGER | SQL_REAL | SQL_DOUBLE | SQL_BIGINT | SQL_CHAR
  | SQL_TYPE_DATE | SQL_TYPE_TIMESTAMP
deriving DecidableEq, Repr

/-- The value types `sqlserver_type_map` accepts. -/
inductive value_type where
  | arithmetic (t : arith_type)
  | string | char_array | char_pointer | string_view
  | sqlserver_date
  | sqlserver_datetime
deriving DecidableEq, Repr

/-- The `connection::sqlserver_type_map`: C type and SQL type of a value type. -/
def sqlserver_type_map : value_type → c_type × sql_type
  | .arithmetic .int8_t => (.SQL_C_STINYINT, .SQL_TINYINT)
  | .arithmetic .uint8_t => (.SQL_C_UTINYINT, .SQL_TINYINT)
  | .arithmetic .int16_t => (.SQL_C_SSHORT, .SQL_SMALLINT)
  | .arithmetic .uint16_t => (.SQL_C_USHORT, .SQL_SMALLINT)
  | .arithmetic .int32_t => (.SQL_C_SLONG, .SQL_INTEGER)
  | .arithmetic .uint32_t => (.SQL_C_ULONG, .SQL_INTEGER)
  | .arithmetic .float => (.SQL_C_FLOAT, .SQL_REAL)
  | .arithmetic .double => (.SQL_C_DOUBLE, .SQL_DOUBLE)
  | .arithmetic .int64_t => (.SQL_C_SBIGINT, .SQL_BIGINT)
  | .arithmetic .uint64_t => (.SQL_C_UBIGINT, .SQL_BIGINT)
  | .string => (.SQL_C_CHAR, .SQL_CHAR)
  | .char_array => (.SQL_C_CHAR, .SQL_CHAR)
  | .char_pointer => (.SQL_C_CHAR, .SQL_CHAR)
  | .string_view => (.SQL_C_CHAR, .SQL_CHAR)
  | .sqlserver_date => (.SQL_C_TYPE_DATE, .SQL_TYPE_DATE)
  | .sqlserver_datetime => (.SQL_C_TYPE_TIMESTAMP, .SQL_TYPE_TIMESTAMP)

/-- The `sizeof` of an arithmetic type. -/
def sizeof : arith_type → Nat
  | .int8_t => 1 | .uint8_t => 1 | .int16_t => 2 | .uint16_t => 2
  | .int32_t => 4 | .uint32_t => 4 | .float => 4 | .double => 8
  | .int64_t => 8 | .uint64_t => 8

/-- The element types `build_result_param` accepts for a column of a row shape. -/
inductive field_type where
  | arithmetic (t : arith_type)
  | string
  | optional_arithmetic (t : arith_type)
  | optional_string
deriving DecidableEq, Repr

/-- An element of the row object `r`. An `std::optional` of an arithmetic type is its
engaged flag together with its storage, into which the driver writes through the bound pointer. -/
inductive field where
  | arithmetic (t : arith_type) (value : Int)
  | string (s : List UInt8)
  | optional_arithmetic (t : arith_type) (engaged : Bool) (storage : Int)
  | optional_string (value : Option (List UInt8))
deriving DecidableEq, Repr

/-- The `has_value()` of an optional element (`true` for an element that is not an optional). -/
def field.has_value : field → Bool
  | .optional_arithmetic _ engaged _ => engaged
  | .optional_string value => value.isSome
  | _ => true

/-- The element of `ReturnType r{}` (value-initialised). -/
def value_initialized : field_type → field
  | .arithmetic t => .arithmetic t 0
  | .string => .string []
  | .optional_arithmetic t => .optional_arithmetic t false 0
  | .optional_string => .optional_string none

/-- The element left behind in `r` by `back_data.emplace_back(std::move(r))`: arithmetic
values and the engaged flag of an optional are unchanged, a moved-from `std::string` is empty. -/
def moved_from : field → field
  | .arithmetic t v => .arithmetic t v
  | .string _ => .string []
  | .optional_arithmetic t engaged storage => .optional_arithmetic t engaged storage
  | .optional_string value => .optional_string (value.map fun _ => [])

/-- Whether `assign_result` advances the iterator for the element: the string elements
and the optionals of them. -/
def field.advances : field → Bool
  | .string _ => true
  | .optional_string _ => true
  | _ => false

/-- The arguments of one `SQLBindCol` call; `StrLen_or_IndPtr` points at `ind[j]`. -/
structure bound_column where
  ColumnNumber : Nat
  TargetType : c_type
  TargetValuePtr : pointer
  BufferLength : Nat
  StrLen_or_IndPtr : Nat
deriving DecidableEq, Repr

/-- The staging buffers `buf_keeper`: bytes and the (unused) `int` set to -1. -/
abbrev staging_buffers := List (List UInt8 × Int)

/-- The `connection::build_result_param` (both overloads) up to the check of the return code:
the new `buf`, the arguments of its `SQLBindCol` call and the new element. `address` is the
position of `t` in `r` and `ind` the position of the indicator passed by reference. -/
def build_result_param (index : Nat) (buf : staging_buffers) (t : field) (address : Nat)
    (ind : Nat) : staging_buffers × bound_column × field :=
  match t with
  | .arithmetic u _ =>
    (buf, { ColumnNumber := index, TargetType := (sqlserver_type_map (.arithmetic u)).1,
            TargetValuePtr := .element address, BufferLength := sizeof u,
            StrLen_or_IndPtr := ind }, t)
  | .string _ =>
    (buf ++ [(List.replicate 65536 0, -1)],
     { ColumnNumber := index, TargetType := (sqlserver_type_map .string).1,
       TargetValuePtr := .staging buf.length, BufferLength := 65536,
       StrLen_or_IndPtr := ind }, t)
  | .optional_arithmetic u _ _ =>
    (buf, { ColumnNumber := index, TargetType := (sqlserver_type_map (.arithmetic u)).1,
            TargetValuePtr := .element address, BufferLength := sizeof u,
            StrLen_or_IndPtr := ind },
     .optional_arithmetic u true 0)
  | .optional_string _ =>
    (buf ++ [(List.replicate 65536 0, -1)],
     { ColumnNumber := index, TargetType := (sqlserver_type_map .string).1,
       TargetValuePtr := .staging buf.length, BufferLength := 65536,
       StrLen_or_IndPtr := ind }, t)

/-- The `connection::assign_result` for the element `e`, with `ind` the indicator of the
column (`none` while it is uninitialised) and `iter` the position of the iterator in
`buf_keeper`; the result is the new element and the new iterator. `none` stands for
undefined behaviour (an uninitialised indicator is read, the iterator is dereferenced past
the end, or the string is built from more bytes than the buffer has). -/
def assign_result (ind : Option Int) (e : field) (buf_keeper : staging_buffers)
    (iter : Nat) : Option (field × Nat) :=
  match e with
  | .optional_arithmetic t engaged storage =>
    match ind with
    | none => none
    | some i =>
      if i = SQL_NULL_DATA then some (.optional_arithmetic t false storage, iter)
      else some (.optional_arithmetic t engaged storage, iter)
  | .optional_string value =>
    match ind with
    | none => none
    | some i =>
      if i ≠ SQL_NULL_DATA then
        match buf_keeper[iter]? with
        | none => none
        | some p =>
          (string_from p.1 (to_size_t i)).map fun s => (.optional_string (some s), iter + 1)
      else some (.optional_string value, iter + 1)
  | .string s =>
    match ind with
    | none => none
    | some i =>
      if i ≠ SQL_NULL_DATA then
        match buf_keeper[iter]? with
        | none => none
        | some p => (string_from p.1 (to_size_t i)).map fun s1 => (.string s1, iter + 1)
      else some (.string s, iter + 1)
  | .arithmetic t value => some (.arithmetic t value, iter)

/-- What one `SQLFetch` stores for one bound column: the length or `SQL_NULL_DATA` through
the indicator pointer, an arithmetic value or bytes through the target pointer (`none`:
the target is left untouched). -/
structure column_store where
  ind : Int
  value : Option Int := none
  data : Option (List UInt8) := none
deriving DecidableEq, Repr

/-- The locals of `after_execute` the driver writes to and the row decoder reads; an
element of `ind` is `none` until the driver has written it. -/
structure fetch_state where
  r : List field
  ind : List (Option Int)
  buf_keeper : staging_buffers
deriving DecidableEq, Repr

/-- An arithmetic value written into the storage of an element. -/
def store_value (v : Int) : field → field
  | .arithmetic t _ => .arithmetic t v
  | .optional_arithmetic t engaged _ => .optional_arithmetic t engaged v
  | e => e

/-- The stores of one fetch for the column bound by `column`. -/
def store_column (column : bound_column) (s : column_store) (st : fetch_state) : fetch_state :=
  { r := match column.TargetValuePtr, s.value with
      | .element k, some v => st.r.modify (store_value v) k
      | _, _ => st.r
    ind := st.ind.set column.StrLen_or_IndPtr (some s.ind)
    buf_keeper := match column.TargetValuePtr, s.data with
      | .staging j, some bytes => st.buf_keeper.modify (fun p => (overwrite p.1 bytes, p.2)) j
      | _, _ => st.buf_keeper }

/-- The stores of one fetch for all bound columns. -/
def store_columns : List bound_column → List column_store → fetch_state → fetch_state
  | column :: columns, s :: ss, st => store_columns columns ss (store_column column s st)
  | _, _, st => st

/-- The `for_each_tuple` of `after_execute` that calls `assign_result(ind[index], element
index of r, iter)` for every index in turn. -/
def assign_results (buf_keeper : staging_buffers) :
    List (Option Int) → List field → Nat → Option (List field × Nat)
  | i :: is, e :: es, iter =>
    match assign_result i e buf_keeper iter with
    | none => none
    | some (e1, iter1) =>
      match assign_results buf_keeper is es iter1 with
      | none => none
      | some (es1, iter2) => some (e1 :: es1, iter2)
  | _, _, iter => some ([], iter)

/-- The functions of the ODBC driver manager a statement calls. -/
inductive api where
  | SQLExecDirect | SQLPrepare | SQLNumParams | SQLNumResultCols | SQLBindParameter
  | SQLExecute | SQLBindCol | SQLFetch | SQLFreeStmt
deriving DecidableEq, Repr

/-- What the ODBC driver answers while one statement runs: the return code of each function
(for `SQLNumParams` and `SQLNumResultCols` with the `SQLSMALLINT` they store, for
`SQLBindParameter` and `SQLBindCol` by parameter or column number), the successive
`SQLFetch` calls with their return code and stores (after the last one the driver answers
`SQL_NO_DATA`), and the message `sqlserver_error` gets from `SQLGetDiagRec`. -/
structure statement where
  SQLExecDirect : Int := 0
  SQLPrepare : Int := 0
  SQLNumParams : Int × Int := (0, 0)
  SQLNumResultCols : Int × Int := (0, 0)
  SQLBindParameter : Nat → Int := fun _ => 0
  SQLExecute : Int := 0
  SQLBindCol : Nat → Int := fun _ => 0
  SQLFetch : List (Int × List column_store) := []
  SQLFreeStmt : Int := 0
  sqlserver_error : String := ""

/-- The state of a `sqlserver::connection` object: its identity, `opt_` and `is_health_`. -/
structure connection where
  id : Nat
  opt_ : connection_options
  is_health_ : Bool
deriving DecidableEq, Repr

/-- The `connection::is_health`. -/
def connection.is_health (c : connection) : Bool := c.is_health_

/-- A finished member call: the connection afterwards, the driver calls made, in order,
and how the call ended. -/
structure run (α : Type) where
  conn : connection
  calls : List api
  result : outcome α
deriving Repr

/-- The `for_each_tuple` of `after_execute` that calls `build_result_param(index + 1,
buf_keeper, element index of r, ind[index])` for every index in turn; a `SQLBindCol` that
does not return `SQL_SUCCESS` makes it throw. -/
def build_result_params (d : statement) : List field → Nat → staging_buffers →
    List api × Except String (staging_buffers × List bound_column × List field)
  | [], _, buf => ([], .ok (buf, [], []))
  | t :: ts, index, buf =>
    let b := build_result_param (index + 1) buf t index index
    if d.SQLBindCol (index + 1) ≠ SQL_SUCCESS then
      ([.SQLBindCol], .error ("SQLBindCol error: " ++ d.sqlserver_error))
    else
      let bs := build_result_params d ts (index + 1) b.1
      (.SQLBindCol :: bs.1,
        match bs.2 with
        | .ok built => .ok (built.1, b.2.1 :: built.2.1, b.2.2 :: built.2.2)
        | .error what => .error what)

/-- The `for_each_tuple` of `before_execute` that calls `build_bind_param(index + 1,
argument index)` for every index in turn: the driver calls made and the message of the
exception thrown, if any. -/
def build_bind_params {A : Type} (d : statement) : List A → Nat → List api × Option String
  | [], _ => ([], none)
  | _ :: args, index =>
    if d.SQLBindParameter (index + 1) ≠ SQL_SUCCESS then
      ([.SQLBindParameter], some ("SQLBindParameter error: " ++ d.sqlserver_error))
    else
      let rest := build_bind_params d args (index + 1)
      (.SQLBindParameter :: rest.1, rest.2)

/-- The number of elements the output size check of `before_execute` compares the column
count with: `std::tuple_size_v`, `args_size_t::value`, or 1. -/
def element_size : ReturnType field_type → Nat
  | .void => 0
  | .tuple elements => elements.length
  | .reflection members => members.length
  | .single _ => 1

/-- The block "check output size match" of `before_execute` for a non-void `ReturnType`:
the driver calls it makes and the message of the exception it throws, if any. The
`SQLSMALLINT column_count` is converted to `size_t` for the comparison with a tuple or
struct size and compared as an `int` with 1. -/
def check_output_size (R : ReturnType field_type) (d : statement) : List api × Option String :=
  if d.SQLNumResultCols.1 ≠ SQL_SUCCESS then
    ([.SQLNumResultCols], some ("SQLNumResultCols error: " ++ d.sqlserver_error))
  else
    ([.SQLNumResultCols],
      match R with
      | .tuple elements =>
        if to_size_t d.SQLNumResultCols.2 ≠ elements.length then
          some "columns in the query do not match tuple element size"
        else none
      | .reflection members =>
        if to_size_t d.SQLNumResultCols.2 ≠ members.length then
          some "columns in the query do not match struct element size"
        else none
      | _ =>
        if d.SQLNumResultCols.2 ≠ 1 then some "columns size in the query must be 1" else none)

/-- The `connection::before_execute<ReturnType>(statement_sql, args...)`. -/
def before_execute {A : Type} (R : ReturnType field_type) (statement_sql : String)
    (args : List A) (d : statement) (c : connection) : run Unit :=
  if d.SQLPrepare ≠ SQL_SUCCESS then
    { conn := { c with is_health_ := false }, calls := [.SQLPrepare],
      result := .thrown
        ("Failed to SQLPrepare sql<" ++ statement_sql ++ ">: " ++ d.sqlserver_error) }
  else if d.SQLNumParams.1 ≠ SQL_SUCCESS then
    { conn := c, calls := [.SQLPrepare, .SQLNumParams],
      result := .thrown ("SQLNumParams error: " ++ d.sqlserver_error) }
  else if to_size_t d.SQLNumParams.2 ≠ args.length then
    { conn := c, calls := [.SQLPrepare, .SQLNumParams],
      result := .thrown "param size do not match placeholder size" }
  else
    let checked : List api × Option String :=
      if R = .void then ([], none) else check_output_size R d
    match checked.2 with
    | some what =>
      { conn := c, calls := [.SQLPrepare, .SQLNumParams] ++ checked.1, result := .thrown what }
    | none =>
      let bound := build_bind_params d args 0
      { conn := c, calls := [.SQLPrepare, .SQLNumParams] ++ checked.1 ++ bound.1,
        result := match bound.2 with
          | some what => .thrown what
          | none => .returned () }

/-- The fetch loop of `after_execute`: `SQL_NO_DATA` ends it, `SQL_ERROR` makes it throw
after clearing `is_health_`, every other return code makes it decode a row. -/
def fetch_rows (columns : List bound_column) (d : statement) :
    List (Int × List column_store) → fetch_state → connection → run (List (List field))
  | [], _, c => { conn := c, calls := [.SQLFetch], result := .returned [] }
  | (retcode, stores) :: rest, st, c =>
    if retcode = SQL_NO_DATA then { conn := c, calls := [.SQLFetch], result := .returned [] }
    else if retcode = SQL_ERROR then
      { conn := { c with is_health_ := false }, calls := [.SQLFetch],
        result := .thrown ("SQLFetch error:" ++ d.sqlserver_error) }
    else
      let st1 := store_columns columns stores st
      match assign_results st1.buf_keeper st1.ind st1.r 0 with
      | none => { conn := c, calls := [.SQLFetch], result := .undefined }
      | some (r1, _) =>
        let next := fetch_rows columns d rest { st1 with r := r1.map moved_from } c
        { conn := next.conn, calls := .SQLFetch :: next.calls,
          result := match next.result with
            | .returned back_data => .returned (r1 :: back_data)
            | other => other }

/-- The `connection::after_execute<ElementSize, ReturnType>()` for the row shape with
the given element types. -/
def after_execute (elements : List field_type) (d : statement) (c : connection) :
    run (List (List field)) :=
  let built := build_result_params d (elements.map value_initialized) 0 []
  match built.2 with
  | .error what => { conn := c, calls := built.1, result := .thrown what }
  | .ok b =>
    let fetched := fetch_rows b.2.1 d d.SQLFetch
      { r := b.2.2, ind := elements.map fun _ => none, buf_keeper := b.1 } c
    { fetched with calls := built.1 ++ fetched.calls }

/-- The destructor of the `scope_guard sg` of `execute` and `query`, run when the body
after its construction has returned or thrown: it calls `SQLFreeStmt(stmt_, SQL_CLOSE)`,
and on failure clears `is_health_` and throws out of the destructor, which ends in
`std::terminate`. -/
def scope_guard {α : Type} (d : statement) (body : run α) : run α :=
  match body.result with
  | .undefined => body
  | .terminated => body
  | _ =>
    if d.SQLFreeStmt ≠ SQL_SUCCESS then
      { conn := { body.conn with is_health_ := false },
        calls := body.calls ++ [.SQLFreeStmt], result := .terminated }
    else { body with calls := body.calls ++ [.SQLFreeStmt] }

/-- The three overloads of `connection::query<ReturnType>(statement_sql, args...)`; the
overload without data back returns no rows. -/
def query {A : Type} (R : ReturnType field_type) (statement_sql : String) (args : List A)
    (d : statement) (c : connection) : run (List (List field)) :=
  let before := before_execute R statement_sql args d c
  match before.result with
  | .thrown what => { conn := before.conn, calls := before.calls, result := .thrown what }
  | .terminated => { conn := before.conn, calls := before.calls, result := .terminated }
  | .undefined => { conn := before.conn, calls := before.calls, result := .undefined }
  | .returned _ =>
    if d.SQLExecute ≠ SQL_SUCCESS then
      { conn := { before.conn with is_health_ := false },
        calls := before.calls ++ [.SQLExecute],
        result := .thrown ("failed to SQLExecute : " ++ d.sqlserver_error) }
    else
      let body : run (List (List field)) :=
        match R with
        | .void => { conn := before.conn, calls := [], result := .returned [] }
        | .tuple elements => after_execute elements d before.conn
        | .reflection members => after_execute members d before.conn
        | .single type => after_execute [type] d before.conn
      scope_guard d { body with calls := before.calls ++ [.SQLExecute] ++ body.calls }

/-- Every driver call of a query with row shape `R` succeeds: each function returns
`SQL_SUCCESS` (`SQLFetch` also `SQL_NO_DATA`), the column count is the number of elements
of `R` (which fits a `SQLSMALLINT`), and a successful fetch stores for every column of the row an indicator that is
`SQL_NULL_DATA` or a length of at most 65536, the size of a staging buffer. -/
def statement.succeeds (d : statement) (R : ReturnType field_type) : Prop :=
  (∀ n, d.SQLBindParameter n = SQL_SUCCESS) ∧ d.SQLExecute = SQL_SUCCESS ∧
  d.SQLFreeStmt = SQL_SUCCESS ∧
  (R ≠ .void →
    d.SQLNumResultCols = (SQL_SUCCESS, (element_size R : Int)) ∧ element_size R < 2 ^ 15 ∧
    (∀ n, d.SQLBindCol n = SQL_SUCCESS) ∧
    ∀ f ∈ d.SQLFetch, (f.1 = SQL_SUCCESS ∨ f.1 = SQL_NO_DATA) ∧
      (f.1 = SQL_SUCCESS → f.2.length = element_size R ∧
        ∀ s ∈ f.2, s.ind = SQL_NULL_DATA ∨ (0 ≤ s.ind ∧ s.ind ≤ 65536)))

/-- The `connection::execute(sql)`. -/
def execute (sql : String) (d : statement) (c : connection) : run Unit :=
  if d.SQLExecDirect ≠ SQL_SUCCESS then
    { conn := { c with is_health_ := false }, calls := [.SQLExecDirect],
      result := .thrown ("Failed to excute sql<" ++ sql ++ ">: " ++ d.sqlserver_error) }
  else scope_guard d { conn := c, calls := [.SQLExecDirect], result := .returned () }

end sqlserver

/-! ## Pools and borrow guard (`db_common.h`, `mysql_connection_pool.hpp`,
`sqlserver_connection_pool.hpp`) -/

/-- The `enum class model` of db_common.h. -/
inductive model where
  | single
  | cluster
deriving DecidableEq, Repr

/-- The `enum class conn_type` of db_common.h. -/
inductive conn_type where
  | slave
  | master
  | general
deriving DecidableEq, Repr

namespace mysql

/-- A `std::queue<std::unique_ptr<connection>>`, front first. -/
abbrev queue := List connection

/-- A `std::unordered_map<std::string, queue>` (`master_pool`, `slave_pool`) as the list of
its entries; a key is looked up from the front and never inserted twice. -/
abbrev pool_map := List (String × queue)

/-- The `unordered_map::find`: the queue stored under `ip`, if any. -/
def pool_map.find (m : pool_map) (ip : String) : Option queue :=
  match m with
  | [] => none
  | (k, q) :: rest => if k = ip then some q else pool_map.find rest ip

/-- The entry of `ip`, if any, gets its queue replaced by `f` of it. -/
def pool_map.update (m : pool_map) (ip : String) (f : queue → queue) : pool_map :=
  match m with
  | [] => []
  | (k, q) :: rest => if k = ip then (k, f q) :: rest else (k, q) :: pool_map.update rest ip f

/-- The `unordered_map::emplace(ip, q)`: nothing is inserted when the key is present. -/
def pool_map.emplace (m : pool_map) (ip : String) (q : queue) : pool_map :=
  match pool_map.find m ip with
  | some _ => m
  | none => m ++ [(ip, q)]

/-- The `unordered_map::operator[]` used as a statement: an absent key gets an empty queue. -/
def pool_map.subscript (m : pool_map) (ip : String) : pool_map :=
  pool_map.emplace m ip []

/-- The members of `mysql::connection_pool<Model>` the operations use. The counters are
`uint64_t`, the counts `uint8_t`. `created` counts the connections constructed so far and
gives each new connection its identity. -/
structure connection_pool where
  master_fetch_times_ : Nat := 0
  masters_ : List node_info := []
  masters_count_ : Nat := 0
  master_pool_ : pool_map := []
  slave_fetch_times_ : Nat := 0
  slaves_ : List node_info := []
  slaves_count_ : Nat := 0
  slave_pool_ : pool_map := []
  node_ : node_info := { ip := "" }
  pool_ : queue := []
  created : Nat := 0
deriving DecidableEq, Repr

/-- The `connection_guard<connection, connection_pool>`: the `conn_` it holds, if any. -/
structure connection_guard where
  conn_ : Option connection
deriving DecidableEq, Repr

/-- The `std::make_unique<connection>(connection_options ...)` for the node: a failing
`mysql_real_connect` (`connect_error` is its message) makes the constructor throw. -/
def create_connection (node : node_info) (connect_error : Option String)
    (s : connection_pool) : connection_pool × outcome connection_guard :=
  match connect_error with
  | some what => (s, .thrown ("Failed to connect to database: " ++ what))
  | none =>
    ({ s with created := s.created + 1 },
      .returned { conn_ := some { id := s.created, ip_ := node.ip, is_health_ := true } })

/-- The tail of `get_connection`: a popped healthy connection goes into the guard, otherwise
a new connection to `node` is created (and a popped unhealthy one is destroyed). -/
def guard_or_create (conn : Option connection) (node : node_info)
    (connect_error : Option String) (s : connection_pool) :
    connection_pool × outcome connection_guard :=
  match conn with
  | some c =>
    if c.is_health then (s, .returned { conn_ := some c })
    else create_connection node connect_error s
  | none => create_connection node connect_error s

/-- The `connection_pool::get_connection<Type>()`. Indexing `masters_` or `slaves_` out of
range and dereferencing the end iterator of a failed `find` are undefined. -/
def get_connection (type : conn_type) (connect_error : Option String)
    (s : connection_pool) : connection_pool × outcome connection_guard :=
  match type with
  | .slave =>
    let s1 := { s with slave_fetch_times_ := (s.slave_fetch_times_ + 1) % 2 ^ 64 }
    if s1.slaves_count_ = 0 then (s1, .thrown "mysql cluster no slave node found now")
    else
      let index := s1.slave_fetch_times_ % s1.slaves_count_
      match s1.slaves_[index]? with
      | none => (s1, .undefined)
      | some node =>
        match s1.slave_pool_.find node.ip with
        | none => (s1, .undefined)
        | some q =>
          guard_or_create q.head? node connect_error
            { s1 with slave_pool_ := s1.slave_pool_.update node.ip List.tail }
  | .master =>
    let s1 := { s with master_fetch_times_ := (s.master_fetch_times_ + 1) % 2 ^ 64 }
    if s1.masters_count_ = 0 then (s1, .thrown "mysql cluster no master node found now")
    else
      let index := s1.master_fetch_times_ % s1.masters_count_
      match s1.masters_[index]? with
      | none => (s1, .undefined)
      | some node =>
        match s1.master_pool_.find node.ip with
        | none => (s1, .undefined)
        | some q =>
          guard_or_create q.head? node connect_error
            { s1 with master_pool_ := s1.master_pool_.update node.ip List.tail }
  | .general =>
    guard_or_create s.pool_.head? s.node_ connect_error { s with pool_ := s.pool_.tail }

/-- The `connection_pool<Model>::return_back(p)`: the pool afterwards and what is left in
`p` (nothing when the connection was moved into a queue). -/
def return_back (Model : model) (p : connection) (s : connection_pool) :
    connection_pool × Option connection :=
  match Model with
  | .cluster =>
    match s.slave_pool_.find p.get_ip with
    | some _ =>
      ({ s with slave_pool_ := s.slave_pool_.update p.get_ip fun q => q ++ [p] }, none)
    | none =>
      match s.master_pool_.find p.get_ip with
      | some _ =>
        ({ s with master_pool_ := s.master_pool_.update p.get_ip fun q => q ++ [p] }, none)
      | none => (s, some p)
  | .single => ({ s with pool_ := s.pool_ ++ [p] }, none)

/-- The destructor `~connection_guard()`: a held connection is passed to `return_back`;
what `return_back` leaves in `conn_` is destroyed with the guard. -/
def connection_guard.destroy (Model : model) (g : connection_guard) (s : connection_pool) :
    connection_pool :=
  match g.conn_ with
  | some c => (return_back Model c s).1
  | none => s

/-- The maps and vectors the loop body of `update_cluster_connections` works on: the members
`master_pool_` and `slave_pool_` (whose queues are moved out of), the locals `master_pool`
and `slave_pool`, and the members `masters_` and `slaves_`. -/
structure reconciliation where
  master_pool_ : pool_map
  slave_pool_ : pool_map
  master_pool : pool_map := []
  slave_pool : pool_map := []
  masters_ : List node_info := []
  slaves_ : List node_info := []
deriving DecidableEq, Repr

/-- The body of the `for (auto& node : changed_cluster)` loop of `update_cluster_connections`.
A queue passed to `emplace` as `std::move(iter->second)` is left empty in the old map. -/
def update_node (st : reconciliation) (node : node_info) : reconciliation :=
  if node.role = "PRIMARY" then
    match st.master_pool_.find node.ip with
    | some q =>
      { st with master_pool := st.master_pool.emplace node.ip q,
                master_pool_ := st.master_pool_.update node.ip fun _ => [],
                masters_ := st.masters_ ++ [node] }
    | none =>
      match st.slave_pool_.find node.ip with
      | some q =>
        { st with master_pool := st.master_pool.emplace node.ip q,
                  slave_pool_ := st.slave_pool_.update node.ip fun _ => [],
                  masters_ := st.masters_ ++ [node] }
      | none =>
        { st with master_pool := st.master_pool.subscript node.ip,
                  masters_ := st.masters_ ++ [node] }
  else
    match st.slave_pool_.find node.ip with
    | some q =>
      { st with slave_pool := st.slave_pool.emplace node.ip q,
                slave_pool_ := st.slave_pool_.update node.ip fun _ => [],
                slaves_ := st.slaves_ ++ [node] }
    | none =>
      match st.master_pool_.find node.ip with
      | some q =>
        { st with slave_pool := st.slave_pool.emplace node.ip q,
                  master_pool_ := st.master_pool_.update node.ip fun _ => [],
                  slaves_ := st.slaves_ ++ [node] }
      | none =>
        { st with slave_pool := st.slave_pool.subscript node.ip,
                  slaves_ := st.slaves_ ++ [node] }

/-- One round of the loop of `connection_pool::update_cluster_connections` for the snapshot
`changed_cluster` returned by `wait_for_cluster_change` (reconciliation). -/
def update_cluster_connections (changed_cluster : List node_info) (s : connection_pool) :
    connection_pool :=
  let st := changed_cluster.foldl update_node
    { master_pool_ := s.master_pool_, slave_pool_ := s.slave_pool_ }
  { s with master_pool_ := st.master_pool, masters_count_ := st.master_pool.length % 256,
           slave_pool_ := st.slave_pool, slaves_count_ := st.slave_pool.length % 256,
           masters_ := st.masters_, slaves_ := st.slaves_ }

/-- The connections enqueued under `ip` in `master_pool_` or `slave_pool_`, front first. -/
def enqueued (s : connection_pool) (ip : String) : List connection :=
  (s.master_pool_.find ip).getD [] ++ (s.slave_pool_.find ip).getD []

/-- The index `get_connection<master>` computes in state `s`: the incremented counter
modulo `masters_count_`. -/
def master_index (s : connection_pool) : Nat :=
  (s.master_fetch_times_ + 1) % 2 ^ 64 % s.masters_count_

/-- The index `get_connection<slave>` computes in state `s`. -/
def slave_index (s : connection_pool) : Nat :=
  (s.slave_fetch_times_ + 1) % 2 ^ 64 % s.slaves_count_

/-- Consecutive `get_connection<type>()` calls, one per element of `connects` (the outcome
of the connection attempt the call would make): the pool afterwards, and for each call the
index it computed (for master and slave) and how it ended. -/
def get_connections (type : conn_type) :
    List (Option String) → connection_pool →
    connection_pool × List (Nat × outcome connection_guard)
  | [], s => (s, [])
  | connect_error :: connects, s =>
    let called := get_connection type connect_error s
    let rest := get_connections type connects called.1
    (rest.1,
      ((match type with
        | .master => master_index s
        | .slave => slave_index s
        | .general => 0), called.2) :: rest.2)

/-- Consecutive `return_back` calls for the connections of `ps`, in order. -/
def return_backs (Model : model) : List connection → connection_pool → connection_pool
  | [], s => s
  | p :: ps, s => return_backs Model ps (return_back Model p s).1

end mysql

namespace sqlserver

/-- A `std::queue<std::unique_ptr<connection>>`, front first. -/
abbrev queue := List connection

/-- The members of `sqlserver::connection_pool<model::single>` the operations use;
`created` counts the connections constructed so far and gives each its identity. -/
structure connection_pool where
  node_ : node_info := { ip := "" }
  pool_ : queue := []
  user_ : String := ""
  passwd_ : String := ""
  drive_name_ : String := ""
  created : Nat := 0
deriving DecidableEq, Repr

/-- The `connection_guard<connection, connection_pool>`: the `conn_` it holds, if any. -/
structure connection_guard where
  conn_ : Option connection
deriving DecidableEq, Repr

/-- The `std::make_unique<connection>(connection_options{ node_.ip, node_.port, user_,
passwd_ }, drive_name_)`: the constructor stores the options in `opt_` and connects with
them and with the driver name; a failing driver call (`constructor_error` is the message)
makes it throw. -/
def create_connection (constructor_error : Option String) (s : connection_pool) :
    connection_pool × outcome connection_guard :=
  match constructor_error with
  | some what => (s, .thrown what)
  | none =>
    ({ s with created := s.created + 1 },
      .returned { conn_ := some { id := s.created,
                                  opt_ := { ip := s.node_.ip, port := s.node_.port,
                                            user := s.user_, passwd := s.passwd_ },
                                  is_health_ := true } })

/-- The `connection_pool::get_connection<conn_type::general>()` (the other two selectors
are rejected by a `static_assert`). -/
def get_connection (constructor_error : Option String) (s : connection_pool) :
    connection_pool × outcome connection_guard :=
  match s.pool_.head? with
  | some c =>
    if c.is_health then ({ s with pool_ := s.pool_.tail }, .returned { conn_ := some c })
    else create_connection constructor_error { s with pool_ := s.pool_.tail }
  | none => create_connection constructor_error { s with pool_ := s.pool_.tail }

/-- The `connection_pool<model::single>::return_back(p)`. -/
def return_back (p : connection) (s : connection_pool) : connection_pool :=
  { s with pool_ := s.pool_ ++ [p] }

/-- The destructor `~connection_guard()`. -/
def connection_guard.destroy (g : connection_guard) (s : connection_pool) : connection_pool :=
  match g.conn_ with
  | some c => return_back c s
  | none => s

/-- Consecutive `get_connection<general>()` calls, one per element of `connects`. -/
def get_connections :
    List (Option String) → connection_pool → connection_pool × List (outcome connection_guard)
  | [], s => (s, [])
  | constructor_error :: connects, s =>
    let called := get_connection constructor_error s
    let rest := get_connections connects called.1
    (rest.1, called.2 :: rest.2)

/-- Consecutive `return_back` calls for the connections of `ps`, in order. -/
def return_backs : List connection → connection_pool → connection_pool
  | [], s => s
  | p :: ps, s => return_backs ps (return_back p s)

end sqlserver

/-! ## Predicates used in the statements -/

namespace mysql

/-- The recorded length of every staging buffer is `(unsigned long)-1` or at most the size
of the buffer. -/
def staged_ok (buf : staging_buffers) : Prop :=
  ∀ p ∈ buf, p.2 = ulong_minus_one ∨ p.2 ≤ p.1.length

/-- Every bind that has a `length` pointer points with it at a staging buffer whose size,
listed in `sizes`, is the `buffer_length` of the bind. -/
def linked (param_binds : List MYSQL_BIND) (sizes : List Nat) : Prop :=
  ∀ b ∈ param_binds, ∀ j, b.length = some j → ∀ n, sizes[j]? = some n → n = b.buffer_length

end mysql

namespace sqlserver

/-- The staging buffers are at least 65536 bytes long. -/
def staged_ok (buf : staging_buffers) : Prop :=
  ∀ p ∈ buf, 65536 ≤ p.1.length

/-- An indicator is `SQL_NULL_DATA` or a length of at most 65536. -/
def ind_ok (i : Int) : Prop :=
  i = SQL_NULL_DATA ∨ (0 ≤ i ∧ i ≤ 65536)

end sqlserver

namespace mysql

/-- The invariant of the loop of `update_cluster_connections` for one ip `X` that is not a key
of both old maps: the connections `Q` that were enqueued under `X` are, in order, what the
new and the old maps hold under `X`, and once a new map has the key the old queues of `X`
are empty. -/
def reconciliation.conserves (st : reconciliation) (X : String) (Q : List connection) : Prop :=
  (st.master_pool.find X).getD [] ++ (st.slave_pool.find X).getD []
      ++ ((st.master_pool_.find X).getD [] ++ (st.slave_pool_.find X).getD []) = Q
  ∧ ¬ ((st.master_pool_.find X).isSome ∧ (st.slave_pool_.find X).isSome)
  ∧ ((st.master_pool.find X).isSome ∨ (st.slave_pool.find X).isSome →
      (st.master_pool_.find X).getD [] = [] ∧ (st.slave_pool_.find X).getD [] = [])

end mysql

namespace mysql

/-- A call on the pool: `get_connection<type>()` (with the outcome of the connection attempt
it would make) or `return_back(p)`. -/
inductive pool_call where
  | get_connection (type : conn_type) (connect_error : Option String)
  | return_back (p : connection)
deriving DecidableEq, Repr

/-- The pool after a sequence of `get_connection` and `return_back` calls. -/
def pool_calls (Model : model) : List pool_call → connection_pool → connection_pool
  | [], s => s
  | .get_connection type connect_error :: calls, s =>
    pool_calls Model calls (get_connection type connect_error s).1
  | .return_back p :: calls, s => pool_calls Model calls (return_back Model p s).1

end mysql

namespace mysql

/-- The keys of a map, in the order of its entries. -/
def pool_map.keys (m : pool_map) : List String := m.map Prod.fst

end mysql

/-! ## Public operations of a connection -/

namespace mysql

/-- The `connection::ping()`; `mysql_ping` is what the library returns. -/
def ping (mysql_ping : Int) (c : connection) : connection × Bool :=
  (c, decide (mysql_ping = 0))

/-- The `connection::get_last_insert_id()`; `mysql_stmt_insert_id` is what the library
returns. -/
def get_last_insert_id (mysql_stmt_insert_id : Nat) (c : connection) : connection × Nat :=
  (c, mysql_stmt_insert_id % 2 ^ 64)

/-- The `connection::begin_transaction()`. -/
def begin_transaction (d : statement) (c : connection) : run Unit :=
  execute "START TRANSACTION" d c

/-- The `connection::commit_transaction()`. -/
def commit_transaction (d : statement) (c : connection) : run Unit :=
  execute "COMMIT" d c

/-- The `connection::rollback()`. -/
def rollback (d : statement) (c : connection) : run Unit :=
  execute "ROLLBACK" d c

/-- A call of a public member function of `connection`, with what the library answers
during the call. -/
inductive operation (A : Type) where
  | execute (sql : String) (d : statement)
  | query (R : ReturnType field_type) (statement_sql : String) (args : List A) (d : statement)
  | begin_transaction (d : statement)
  | commit_transaction (d : statement)
  | rollback (d : statement)
  | ping (mysql_ping : Int)
  | get_last_insert_id (mysql_stmt_insert_id : Nat)
  | is_health

/-- The connection object after the call. -/
def operation.conn {A : Type} : operation A → connection → connection
  | .execute sql d, c => (mysql.execute sql d c).conn
  | .query R statement_sql args d, c => (mysql.query R statement_sql args d c).conn
  | .begin_transaction d, c => (mysql.begin_transaction d c).conn
  | .commit_transaction d, c => (mysql.commit_transaction d c).conn
  | .rollback d, c => (mysql.rollback d c).conn
  | .ping mysql_ping, c => (mysql.ping mysql_ping c).1
  | .get_last_insert_id mysql_stmt_insert_id, c =>
    (mysql.get_last_insert_id mysql_stmt_insert_id c).1
  | .is_health, c => c

/-- The connection object after a sequence of calls. -/
def operations {A : Type} : List (operation A) → connection → connection
  | [], c => c
  | op :: ops, c => operations ops (op.conn c)

end mysql

namespace sqlserver

/-- The `connection::begin_transaction()`. -/
def begin_transaction (d : statement) (c : connection) : run Unit :=
  execute "begin tran" d c

/-- The `connection::commit_transaction()`. -/
def commit_transaction (d : statement) (c : connection) : run Unit :=
  execute "commit tran" d c

/-- The `connection::rollback()`. -/
def rollback (d : statement) (c : connection) : run Unit :=
  execute "rollback tran" d c

/-- A call of a public member function of `connection`, with what the driver answers during
the call. -/
inductive operation (A : Type) where
  | execute (sql : String) (d : statement)
  | query (R : ReturnType field_type) (statement_sql : String) (args : List A) (d : statement)
  | begin_transaction (d : statement)
  | commit_transaction (d : statement)
  | rollback (d : statement)
  | is_health

/-- The connection object after the call. -/
def operation.conn {A : Type} : operation A → connection → connection
  | .execute sql d, c => (sqlserver.execute sql d c).conn
  | .query R statement_sql args d, c => (sqlserver.query R statement_sql args d c).conn
  | .begin_transaction d, c => (sqlserver.begin_transaction d c).conn
  | .commit_transaction d, c => (sqlserver.commit_transaction d c).conn
  | .rollback d, c => (sqlserver.rollback d c).conn
  | .is_health, c => c

/-- The connection object after a sequence of calls. -/
def operations {A : Type} : List (operation A) → connection → connection
  | [], c => c
  | op :: ops, c => operations ops (op.conn c)

end sqlserver

/-! ## The borrow guard as a template (`db_common.h`) -/

/-- What a member function of `connection_guard<Conn, ConnPool>` does to connections, in
order: the call `connection_pool_.return_back(std::move(conn_))` while `conn_` holds `p`,
the assignment `this->conn_ = std::move(cg.conn_)` by which the guard takes `p`, and the
deletion of a connection `p` that a `std::unique_ptr` still owns when it is overwritten or
destroyed. -/
inductive guard_event (Conn : Type) where
  | return_back (p : Conn)
  | take (p : Conn)
  | deleted (p : Conn)
deriving DecidableEq, Repr

/-- The objects a member function of a guard has worked on: `this->conn_`, the `conn_` of the
argument `cg`, the pool `connection_pool_` refers to, and the events in order. -/
structure guard_run (Conn Pool : Type) where
  conn_ : Option Conn
  cg : Option Conn
  connection_pool_ : Pool
  events : List (guard_event Conn)

/-- The `connection_guard::operator=(connection_guard&& cg)` for a guard `cg` that is
another object. `return_back` is the member function of `ConnPool`: it gives the pool
afterwards and what it leaves in its argument. The move assignment of `std::unique_ptr`
stores the new pointer and then deletes the connection it owned before. -/
def connection_guard.move_assignment {Conn Pool : Type}
    (return_back : Conn → Pool → Pool × Option Conn) (conn_ cg : Option Conn) (s : Pool) :
    guard_run Conn Pool :=
  let returned : guard_run Conn Pool :=
    match conn_ with
    | some a =>
      { conn_ := (return_back a s).2, cg := cg, connection_pool_ := (return_back a s).1,
        events := [.return_back a] }
    | none => { conn_ := none, cg := cg, connection_pool_ := s, events := [] }
  match cg with
  | some b =>
    { conn_ := some b, cg := none, connection_pool_ := returned.connection_pool_,
      events := returned.events ++ [.take b] ++
        match returned.conn_ with
        | some a => [.deleted a]
        | none => [] }
  | none => returned

/-- The `connection_guard::operator=(connection_guard&& cg)` when `cg` is the guard itself:
`cg.conn_` is `this->conn_`, and a `std::unique_ptr` moved to itself keeps what it owns. -/
def connection_guard.self_move_assignment {Conn Pool : Type}
    (return_back : Conn → Pool → Pool × Option Conn) (conn_ : Option Conn) (s : Pool) :
    guard_run Conn Pool :=
  match conn_ with
  | some a =>
    { conn_ := (return_back a s).2, cg := (return_back a s).2,
      connection_pool_ := (return_back a s).1,
      events := .return_back a ::
        match (return_back a s).2 with
        | some left => [.take left]
        | none => [] }
  | none => { conn_ := none, cg := none, connection_pool_ := s, events := [] }

/-- The `connection_guard::~connection_guard()`, followed by the destruction of the member
`conn_`, which deletes the connection that `return_back` has left in it. -/
def connection_guard.destructor {Conn Pool : Type}
    (return_back : Conn → Pool → Pool × Option Conn) (conn_ : Option Conn) (s : Pool) :
    guard_run Conn Pool :=
  match conn_ with
  | some a =>
    { conn_ := none, cg := none, connection_pool_ := (return_back a s).1,
      events := .return_back a ::
        match (return_back a s).2 with
        | some left => [.deleted left]
        | none => [] }
  | none => { conn_ := none, cg := none, connection_pool_ := s, events := [] }

/-- Whether the event is a call of `return_back`. -/
def guard_event.is_return_back {Conn : Type} : guard_event Conn → Bool
  | .return_back _ => true
  | _ => false

/-! ## Exceptions (`exception.hpp`) -/

namespace except

/-- The position after the last `sep` of a C string, as `strrchr(s, sep) + 1` gives it
(`none` when `strrchr` returns a null pointer). -/
def strrchr_plus_one (sep : Char) : List Char → Option (List Char)
  | [] => none
  | c :: cs =>
    match strrchr_plus_one sep cs with
    | some rest => some rest
    | none => if c = sep then some cs else none

/-- The macro `EXCEPTION_SRC` (outside Windows) for a translation unit whose `__FILE__` is
`file`: what follows the last slash, or all of `file` without a slash. -/
def EXCEPTION_SRC (file : String) : String :=
  match strrchr_plus_one '/' file.data with
  | some rest => String.mk rest
  | none => file

/-- An object of a class declared with `DECLARE_EXCEPTION` (`sql_exception`,
`mysql_exception`, `sqlserver_exception`, `deserialize_exception`): the members `error_msg_`
and `error_code_`. -/
structure exception where
  error_msg_ : String := ""
  error_code_ : Int := 0
deriving DecidableEq, Repr

/-- The constructor `class_name(std::string error_msg, int error_code,
const std::string& src_name, int src_line)`. -/
def exception.with_code_and_location (error_msg : String) (error_code : Int) (src_name : String)
    (src_line : Int) : exception :=
  { error_msg_ := "Exception occured at " ++ src_name ++ ":" ++ toString src_line ++ ". "
      ++ error_msg,
    error_code_ := error_code }

/-- The constructor `class_name(std::string error_msg, const std::string& src_name,
int src_line)`. -/
def exception.with_location (error_msg : String) (src_name : String) (src_line : Int) : exception :=
  { error_msg_ := "Exception occured at " ++ src_name ++ ":" ++ toString src_line ++ ". "
      ++ error_msg }

/-- The constructor `class_name(std::string error_msg, int error_code)`. -/
def exception.with_code (error_msg : String) (error_code : Int) : exception :=
  { error_msg_ := error_msg, error_code_ := error_code }

/-- The constructor `class_name(std::string error_msg)`, the one every `throw` of the
connections and pools uses; `outcome.thrown` carries the `what()` of such an object. -/
def exception.of_msg (error_msg : String) : exception :=
  { error_msg_ := error_msg }

/-- The member `what()`. -/
def exception.what (e : exception) : String := e.error_msg_

/-- The text has the form "Exception occured at file:line. message". -/
def located (what : String) : Prop :=
  ∃ (src_name : String) (src_line : Int) (error_msg : String),
    what = "Exception occured at " ++ src_name ++ ":" ++ toString src_line ++ ". " ++ error_msg

/-- The text starts with a character other than the `E` of "Exception occured at ". -/
def plain (what : String) : Prop :=
  ∃ c rest, what.data = c :: rest ∧ c ≠ 'E'

end except

/-! ## A pool with its borrow guards -/

namespace mysql

/-- The connections of all queues of a map, in the order of its entries. -/
def pool_map.connections : pool_map → List connection
  | [] => []
  | (_, q) :: rest => q ++ pool_map.connections rest

/-- The connections stored in the queues of the pool: those of `master_pool_`, of
`slave_pool_` and of `pool_`. -/
def queued (s : connection_pool) : List connection :=
  s.master_pool_.connections ++ s.slave_pool_.connections ++ s.pool_

/-- The local `conn` of `get_connection<Type>()` after its first part: the front of the
queue the call chose, when the call got that far and the queue was not empty. -/
def popped (type : conn_type) (s : connection_pool) : Option connection :=
  match type with
  | .slave =>
    if s.slaves_count_ = 0 then none
    else
      match s.slaves_[slave_index s]? with
      | none => none
      | some node =>
        match s.slave_pool_.find node.ip with
        | none => none
        | some q => q.head?
  | .master =>
    if s.masters_count_ = 0 then none
    else
      match s.masters_[master_index s]? with
      | none => none
      | some node =>
        match s.master_pool_.find node.ip with
        | none => none
        | some q => q.head?
  | .general => s.pool_.head?

/-- The connection that the local `conn` of `get_connection<Type>()` still owns when the
call ends, and that is destroyed with it: the popped connection when it is not healthy. -/
def get_connection_destroys (type : conn_type) (s : connection_pool) : Option connection :=
  (popped type s).filter fun c => !c.is_health

/-- The loop of `update_cluster_connections` for the snapshot `changed_cluster`: the locals
`master_pool` and `slave_pool` and what is left in the members `master_pool_` and
`slave_pool_`, which the move assignments after the loop destroy. -/
def reconciled (changed_cluster : List node_info) (s : connection_pool) : reconciliation :=
  changed_cluster.foldl update_node { master_pool_ := s.master_pool_, slave_pool_ := s.slave_pool_ }

/-- The connections an event list reports as deleted. -/
def deleted_by (events : List (guard_event connection)) : List connection :=
  events.filterMap fun e =>
    match e with
    | .deleted p => some p
    | _ => none

/-- The guard object a call of `get_connection` hands to its caller, when it returns. -/
def returned_guard : outcome connection_guard → List connection_guard
  | .returned g => [g]
  | _ => []

/-- A pool, the guard objects alive (in the order of their construction) and the connections
destroyed so far. -/
structure pool_system where
  pool : connection_pool
  guards : List connection_guard := []
  destroyed : List connection := []
deriving DecidableEq, Repr

/-- A step of a program that uses the pool: a call of `get_connection<type>()` (with the
outcome of the connection attempt it would make) whose guard is kept, the end of the
lifetime of guard `g`, the move assignment `guards[g] = std::move(guards[h])`, the move
construction of a new guard from guard `h`, a call `guards[g]->execute(sql)` (with what the
library answers), and one round of `update_cluster_connections`. -/
inductive system_call where
  | get_connection (type : conn_type) (connect_error : Option String)
  | destroy (g : Nat)
  | move_assign (g h : Nat)
  | move_construct (h : Nat)
  | execute (g : Nat) (sql : String) (d : statement)
  | update_cluster_connections (changed_cluster : List node_info)

/-- The system after a step. A step that names a guard that does not exist, or that calls
through a guard that holds nothing, is not taken. -/
def pool_system.call (Model : model) (sys : pool_system) : system_call → pool_system
  | .get_connection type connect_error =>
    { pool := (mysql.get_connection type connect_error sys.pool).1,
      guards := sys.guards ++ returned_guard (mysql.get_connection type connect_error sys.pool).2,
      destroyed := sys.destroyed ++ (get_connection_destroys type sys.pool).toList }
  | .destroy g =>
    match sys.guards[g]? with
    | none => sys
    | some guard =>
      { pool := (connection_guard.destructor (return_back Model) guard.conn_ sys.pool
          ).connection_pool_,
        guards := sys.guards.eraseIdx g,
        destroyed := sys.destroyed ++ deleted_by
          (connection_guard.destructor (return_back Model) guard.conn_ sys.pool).events }
  | .move_assign g h =>
    match sys.guards[g]?, sys.guards[h]? with
    | some this, some cg =>
      if g = h then
        { pool := (connection_guard.self_move_assignment (return_back Model) this.conn_
            sys.pool).connection_pool_,
          guards := sys.guards.set g
            { conn_ := (connection_guard.self_move_assignment (return_back Model) this.conn_
                sys.pool).conn_ },
          destroyed := sys.destroyed ++ deleted_by
            (connection_guard.self_move_assignment (return_back Model) this.conn_
              sys.pool).events }
      else
        { pool := (connection_guard.move_assignment (return_back Model) this.conn_ cg.conn_
            sys.pool).connection_pool_,
          guards := (sys.guards.set g
            { conn_ := (connection_guard.move_assignment (return_back Model) this.conn_
                cg.conn_ sys.pool).conn_ }).set h
            { conn_ := (connection_guard.move_assignment (return_back Model) this.conn_
                cg.conn_ sys.pool).cg },
          destroyed := sys.destroyed ++ deleted_by
            (connection_guard.move_assignment (return_back Model) this.conn_ cg.conn_
              sys.pool).events }
    | _, _ => sys
  | .move_construct h =>
    match sys.guards[h]? with
    | none => sys
    | some cg =>
      { sys with guards := sys.guards.set h { conn_ := none } ++ [{ conn_ := cg.conn_ }] }
  | .execute g sql d =>
    match sys.guards[g]? with
    | some { conn_ := some c } =>
      { sys with guards := sys.guards.set g { conn_ := some (mysql.execute sql d c).conn } }
    | _ => sys
  | .update_cluster_connections changed_cluster =>
    { pool := mysql.update_cluster_connections changed_cluster sys.pool,
      guards := sys.guards,
      destroyed := sys.destroyed ++ (reconciled changed_cluster sys.pool).master_pool_.connections
        ++ (reconciled changed_cluster sys.pool).slave_pool_.connections }

/-- The system after a sequence of steps. -/
def pool_system.calls (Model : model) : List system_call → pool_system → pool_system
  | [], sys => sys
  | call :: calls, sys => pool_system.calls Model calls (sys.call Model call)

/-- The connections held by the guards. -/
def pool_system.held (sys : pool_system) : List connection :=
  sys.guards.filterMap fun g => g.conn_

/-- How often the connection with identity `n` occurs in a list of connections. -/
def occurrences (n : Nat) (l : List connection) : Nat :=
  l.countP fun c => decide (c.id = n)

end mysql

namespace mysql

/-- The invariant of the loop of `update_cluster_connections` for one ip `X`: once a new map
has the key `X`, the old queue that a node of that role with ip `X` looks up (first in the
old map of its role, then in the other one) has been moved from and is empty. -/
def reconciliation.emptied (st : reconciliation) (X : String) : Prop :=
  ((st.master_pool.find X).isSome →
      match st.master_pool_.find X with
      | some q => q = []
      | none => (st.slave_pool_.find X).getD [] = [])
  ∧ ((st.slave_pool.find X).isSome →
      match st.slave_pool_.find X with
      | some q => q = []
      | none => (st.master_pool_.find X).getD [] = [])

/-- How often the connection with identity `n` occurs in the four maps of the loop. -/
def reconciliation.occurrences (n : Nat) (st : reconciliation) : Nat :=
  mysql.occurrences n st.master_pool.connections + mysql.occurrences n st.slave_pool.connections
    + mysql.occurrences n st.master_pool_.connections
    + mysql.occurrences n st.slave_pool_.connections

end mysql

namespace mysql

/-- How often the connection with identity `n` occurs in the system: in the hands of the
guards, in the queues of the pool, and among the destroyed connections. -/
def pool_system.occurrences (n : Nat) (sys : pool_system) : Nat :=
  mysql.occurrences n sys.held + mysql.occurrences n (queued sys.pool)
    + mysql.occurrences n sys.destroyed

end mysql

/-! ## Comparison of nodes (`db_common.h`) -/

/-- The `node_info::operator==`: role and ip are compared, the port is not. -/
def node_info.operator_eq (a n : node_info) : Bool :=
  a.role == n.role && a.ip == n.ip

/-- The `node_info::operator<`: the order of the ips as strings. -/
def node_info.operator_lt (a n : node_info) : Bool :=
  decide (a.ip < n.ip)

/-! ## Parameter binders (`build_bind_param`) -/

/-- The `strlen` of a C string whose bytes, before the terminator, are `chars`. -/
def strlen (chars : List UInt8) : Nat :=
  (chars.takeWhile fun b => b != 0).length

namespace mysql

/-- A value that is passed to `query` as an argument for a placeholder and is not an
optional: an arithmetic value, a `char[N]` or `const char*` (the bytes before the
terminator), a `std::string`, a `std::string_view`, a `mysql_timestamp` (the epoch it was
built from) or a `mysql_mediumtext`. -/
inductive param_value where
  | arithmetic (t : arith_type) (value : Int)
  | char_array (chars : List UInt8)
  | char_pointer (chars : List UInt8)
  | string (s : List UInt8)
  | string_view (s : List UInt8)
  | mysql_timestamp (timestamp : Nat)
  | mysql_mediumtext (content : List UInt8)
deriving DecidableEq, Repr

/-- An argument of `query`: a value, a `std::optional<U>` that holds a value, or an empty
`std::optional<U>`. -/
inductive argument where
  | value (v : param_value)
  | optional (v : param_value)
  | nullopt (U : value_type)
deriving DecidableEq, Repr

/-- The `connection::build_bind_param(param, t)` (both overloads) for the argument `t` at
position `address` of `param_tup`; `buffer` points into that argument. The result is an
error when the call does not compile: the branch for an optional `mysql_mediumtext` passes
the optional itself to `mysql_type_map`, which rejects it with a `static_assert`. -/
def build_bind_param (param : MYSQL_BIND) (t : argument) (address : Nat) :
    Except String MYSQL_BIND :=
  match t with
  | .nullopt .mysql_mediumtext => .error "can not map to mysql type"
  | .nullopt _ => .ok { param with buffer_type := .MYSQL_TYPE_NULL }
  | .optional (.arithmetic u _) =>
    .ok { param with buffer := .element address,
                     buffer_type := (mysql_type_map (.arithmetic u)).1,
                     is_unsigned :=
                       if u ≠ .float ∧ u ≠ .double then (mysql_type_map (.arithmetic u)).2
                       else param.is_unsigned }
  | .optional (.char_array chars) =>
    .ok { param with buffer := .element address, buffer_length := strlen chars % 2 ^ 64,
                     buffer_type := (mysql_type_map .char_array).1 }
  | .optional (.char_pointer chars) =>
    .ok { param with buffer := .element address, buffer_length := strlen chars % 2 ^ 64,
                     buffer_type := (mysql_type_map .char_pointer).1 }
  | .optional (.string s) =>
    .ok { param with buffer := .element address, buffer_length := s.length % 2 ^ 64,
                     buffer_type := (mysql_type_map .string).1 }
  | .optional (.string_view s) =>
    .ok { param with buffer := .element address, buffer_length := s.length % 2 ^ 64,
                     buffer_type := (mysql_type_map .string_view).1 }
  | .optional (.mysql_timestamp _) =>
    .ok { param with buffer := .element address,
                     buffer_type := (mysql_type_map .mysql_timestamp).1 }
  | .optional (.mysql_mediumtext _) => .error "can not map to mysql type"
  | .value (.arithmetic u _) =>
    .ok { param with buffer := .element address,
                     buffer_type := (mysql_type_map (.arithmetic u)).1,
                     is_unsigned :=
                       if u ≠ .float ∧ u ≠ .double then (mysql_type_map (.arithmetic u)).2
                       else param.is_unsigned }
  | .value (.char_array chars) =>
    .ok { param with buffer := .element address, buffer_length := strlen chars % 2 ^ 64,
                     buffer_type := (mysql_type_map .char_array).1 }
  | .value (.char_pointer chars) =>
    .ok { param with buffer := .element address, buffer_length := strlen chars % 2 ^ 64,
                     buffer_type := (mysql_type_map .char_pointer).1 }
  | .value (.string s) =>
    .ok { param with buffer := .element address, buffer_length := s.length % 2 ^ 64,
                     buffer_type := (mysql_type_map .string).1 }
  | .value (.string_view s) =>
    .ok { param with buffer := .element address, buffer_length := s.length % 2 ^ 64,
                     buffer_type := (mysql_type_map .string_view).1 }
  | .value (.mysql_timestamp _) =>
    .ok { param with buffer := .element address,
                     buffer_type := (mysql_type_map .mysql_timestamp).1 }
  | .value (.mysql_mediumtext content) =>
    .ok { param with buffer := .element address, buffer_length := content.length % 2 ^ 64,
                     buffer_type := (mysql_type_map .mysql_mediumtext).1 }

end mysql

namespace sqlserver

/-- A value that is passed to `query` as an argument for a placeholder and is not an
optional: an arithmetic value, a `char[N]` or `const char*` (the bytes before the
terminator), a `std::string`, a `std::string_view`, a `sqlserver_date` or a
`sqlserver_datetime` (the epoch it was built from). -/
inductive param_value where
  | arithmetic (t : arith_type) (value : Int)
  | char_array (chars : List UInt8)
  | char_pointer (chars : List UInt8)
  | string (s : List UInt8)
  | string_view (s : List UInt8)
  | sqlserver_date (timestamp : Nat)
  | sqlserver_datetime (timestamp : Nat)
deriving DecidableEq, Repr

/-- The type of a value, as `sqlserver_type_map` sees it. -/
def param_value.type : param_value → value_type
  | .arithmetic t _ => .arithmetic t
  | .char_array _ => .char_array
  | .char_pointer _ => .char_pointer
  | .string _ => .string
  | .string_view _ => .string_view
  | .sqlserver_date _ => .sqlserver_date
  | .sqlserver_datetime _ => .sqlserver_datetime

/-- An argument of `query`: a value, a `std::optional<U>` that holds a value, or an empty
`std::optional<U>`. -/
inductive argument where
  | value (v : param_value)
  | optional (v : param_value)
  | nullopt (U : value_type)
deriving DecidableEq, Repr

/-- The arguments of one `SQLBindParameter` call (input/output type, decimal digits and
buffer length are constant): `StrLen_or_IndPtr` is what the pointer points at, `none` for a
null pointer. -/
structure bound_parameter where
  ParameterNumber : Nat
  ValueType : c_type
  ParameterType : sql_type
  ColumnSize : Nat
  ParameterValuePtr : pointer
  StrLen_or_IndPtr : Option Int
deriving DecidableEq, Repr

/-- The `std::size_t` a bound value gives as `ColumnSize`: 0 for arithmetic values and
dates, `sizeof(U) - 1` for a `char[N]`, `strlen` for a `const char*`, `length()` for
strings. -/
def param_value.column_size : param_value → Nat
  | .arithmetic _ _ => 0
  | .char_array chars => chars.length
  | .char_pointer chars => strlen chars
  | .string s => s.length
  | .string_view s => s.length
  | .sqlserver_date _ => 0
  | .sqlserver_datetime _ => 0

/-- The `connection::build_bind_param(index, t)` (both overloads) up to the check of the
return code: the arguments of its `SQLBindParameter` call for the argument `t` at position
`address` of `param_tup`. -/
def build_bind_param (index : Nat) (t : argument) (address : Nat) : bound_parameter :=
  match t with
  | .nullopt U =>
    { ParameterNumber := index, ValueType := (sqlserver_type_map U).1,
      ParameterType := (sqlserver_type_map U).2, ColumnSize := 0, ParameterValuePtr := .null,
      StrLen_or_IndPtr := some SQL_NULL_DATA }
  | .optional v =>
    { ParameterNumber := index, ValueType := (sqlserver_type_map v.type).1,
      ParameterType := (sqlserver_type_map v.type).2, ColumnSize := v.column_size,
      ParameterValuePtr := .element address, StrLen_or_IndPtr := none }
  | .value v =>
    { ParameterNumber := index, ValueType := (sqlserver_type_map v.type).1,
      ParameterType := (sqlserver_type_map v.type).2, ColumnSize := v.column_size,
      ParameterValuePtr := .element address, StrLen_or_IndPtr := none }

end sqlserver

namespace mysql

/-- A snapshot of `k` members of one role on `k` different hosts: the host of member `i` is
named "h" followed by `i` zeros. -/
def members (role : String) (k : Nat) : List node_info :=
  (List.range k).map fun i =>
    { ip := String.mk ('h' :: List.replicate i '0'), port := "3306", role := role }

end mysql

namespace mysql

/-- The unchecked lookups of `get_connection` hit: each count is at most the length of the
vector of its role, and the ip of every node of a role vector is a key of the map of that
role. -/
def lookups_hit (s : connection_pool) : Prop :=
  s.masters_count_ ≤ s.masters_.length
    ∧ (∀ n ∈ s.masters_, (s.master_pool_.find n.ip).isSome = true)
    ∧ s.slaves_count_ ≤ s.slaves_.length
    ∧ (∀ n ∈ s.slaves_, (s.slave_pool_.find n.ip).isSome = true)

end mysql

/-! ## Sentinel (`mysql_sentinel.hpp`) -/

/-- The `std::set_union` of two ranges with `node_info::operator<`, written to an empty
vector through `std::back_inserter`: while both ranges have elements the smaller front
element is copied, and of two equivalent front elements the one of the first range is
copied and both are passed; then the rest of either range is copied. -/
def set_union : List node_info → List node_info → List node_info
  | [], range2 => range2
  | first1 :: range1, [] => first1 :: range1
  | first1 :: range1, first2 :: range2 =>
    if first1.operator_lt first2 then first1 :: set_union range1 (first2 :: range2)
    else if first2.operator_lt first1 then first2 :: set_union (first1 :: range1) range2
    else first1 :: set_union range1 range2
termination_by range1 range2 => range1.length + range2.length

/-- A range is sorted with respect to `node_info::operator<` (`std::is_sorted`): no node
has an ip smaller than the ip of a node before it. -/
def sorted_by_ip (nodes : List node_info) : Prop :=
  nodes.Pairwise fun a b => a.ip ≤ b.ip

/-- The `operator!=` of two `std::vector<node_info>`: the sizes differ or two elements at
the same position are not `==`. -/
def vector_ne (a b : List node_info) : Bool :=
  !(a.length == b.length && (a.zip b).all fun p => p.1.operator_eq p.2)

namespace mysql

/-- What one iteration of the loop over the seeds meets: an exception, thrown by the
constructor of the connection or by the query, or the vector `get_node<all_members>()`
returns. -/
inductive attempt where
  | throws (what : String)
  | returns (nodes : List node_info)
deriving DecidableEq, Repr

/-- The state of a `sentinel` the monitor thread works on; `conn_` is the options the
monitor connection was made with, and `notify_one` counts the calls of
`cond_.notify_one()`. -/
structure sentinel where
  global_user_ : String := ""
  global_passwd_ : String := ""
  seed_nodes_ : List node_info := []
  online_nodes_ : List node_info := []
  conn_ : Option connection_options := none
  notify_one : Nat := 0
deriving DecidableEq, Repr

/-- The loop `for (const auto& node : seed_nodes_)` of the monitor thread over the seeds
still to visit; `attempts k` is what iteration `k` meets and `sort` what `std::sort` makes
of the fetched vector. An exception and an empty vector reset `conn_` and go on with the
next seed; a vector that is not empty is sorted and compared with `online_nodes_`, and
the loop is left. -/
def monitor_loop (sort : List node_info → List node_info) (attempts : Nat → attempt) :
    List node_info → Nat → sentinel → sentinel
  | [], _, s => s
  | node :: seeds, k, s =>
    let s1 : sentinel :=
      if s.conn_.isNone then
        { s with conn_ := some { ip := node.ip, port := node.port, user := s.global_user_,
                                 passwd := s.global_passwd_ } }
      else s
    match attempts k with
    | .throws _ => monitor_loop sort attempts seeds (k + 1) { s1 with conn_ := none }
    | .returns fetched =>
      if fetched.isEmpty then
        monitor_loop sort attempts seeds (k + 1) { s1 with conn_ := none }
      else
        let nodes := sort fetched
        if vector_ne nodes s1.online_nodes_ then
          { s1 with seed_nodes_ := set_union nodes s1.seed_nodes_, online_nodes_ := nodes,
                    notify_one := s1.notify_one + 1 }
        else s1

/-- One pass of the `while (run_)` loop of the monitor thread up to its sleep: the loop over
`seed_nodes_` from its first node. -/
def monitor_pass (sort : List node_info → List node_info) (attempts : Nat → attempt)
    (s : sentinel) : sentinel :=
  monitor_loop sort attempts s.seed_nodes_ 0 s

/-- An iteration of the monitor loop that goes on with the next seed: an exception or an
empty vector. -/
def attempt.failed : attempt → Bool
  | .throws _ => true
  | .returns fetched => fetched.isEmpty

end mysql

end sqlcpp

/-! ## Theorems -/

namespace sqlcpp

/-! ### Staging buffers and the row decoder -/


theorem string_from_eq (buffer : List UInt8) (n : Nat) :
    string_from buffer n = if n ≤ buffer.length then some (buffer.take n) else none := by
  induction buffer generalizing n with
  | nil => cases n <;> simp [string_from]
  | cons b bs ih =>
    cases n with
    | zero => simp [string_from]
    | succ n =>
      simp only [string_from, ih, List.length_cons, Nat.add_le_add_iff_right, List.take_succ_cons]
      split <;> simp

theorem overwrite_length (buffer data : List UInt8) :
    (overwrite buffer data).length = buffer.length := by
  induction buffer generalizing data with
  | nil => simp [overwrite]
  | cons b bs ih => cases data <;> simp [overwrite, ih]

theorem countP_modify_of_same {α : Type} (p : α → Bool) (f : α → α) (hf : ∀ x, p (f x) = p x)
    (l : List α) (k : Nat) : (l.modify f k).countP p = l.countP p := by
  induction l generalizing k with
  | nil => simp
  | cons a l ih =>
    cases k with
    | zero => simp [List.countP_cons, hf]
    | succ k => simp [List.countP_cons, ih]

theorem forall_mem_modify {α : Type} (P : α → Prop) (f : α → α) (hf : ∀ x, P x → P (f x))
    (l : List α) (k : Nat) (h : ∀ x ∈ l, P x) : ∀ x ∈ l.modify f k, P x := by
  induction l generalizing k with
  | nil => simp
  | cons a l ih =>
    cases k with
    | zero =>
      intro x hx
      rw [List.modify_zero_cons, List.mem_cons] at hx
      rcases hx with hx | hx
      · rw [hx]; exact hf a (h a (by simp))
      · exact h x (by simp [hx])
    | succ k =>
      intro x hx
      rw [List.modify_succ_cons, List.mem_cons] at hx
      rcases hx with hx | hx
      · rw [hx]; exact h _ (by simp)
      · exact ih k (fun y hy => h y (by simp [hy])) x hx

theorem forall_mem_modify_at {α : Type} (P : α → Prop) (f : α → α) (l : List α) (k : Nat)
    (h : ∀ x ∈ l, P x) (hf : ∀ x, l[k]? = some x → P (f x)) : ∀ x ∈ l.modify f k, P x := by
  induction l generalizing k with
  | nil => simp
  | cons a l ih =>
    cases k with
    | zero =>
      intro x hx
      rw [List.modify_zero_cons, List.mem_cons] at hx
      rcases hx with hx | hx
      · rw [hx]; exact hf a (by simp)
      · exact h x (by simp [hx])
    | succ k =>
      intro x hx
      rw [List.modify_succ_cons, List.mem_cons] at hx
      rcases hx with hx | hx
      · rw [hx]; exact h _ (by simp)
      · exact ih k (fun y hy => h y (by simp [hy])) (fun y hy => hf y (by simpa using hy)) x hx

theorem map_modify_of_same {α β : Type} (g : α → β) (f : α → α) (hf : ∀ x, g (f x) = g x)
    (l : List α) (k : Nat) : (l.modify f k).map g = l.map g := by
  induction l generalizing k with
  | nil => simp
  | cons a l ih =>
    cases k with
    | zero => simp [hf]
    | succ k => simp [ih]

namespace mysql

theorem assign_result_some (n : Bool) (e : field) (buf : staging_buffers) (iter : Nat)
    (hbuf : staged_ok buf) (hiter : iter + (if e.advances then 1 else 0) ≤ buf.length) :
    ∃ e1, assign_result n e buf iter = some (e1, iter + (if e.advances then 1 else 0))
      ∧ e1.advances = e.advances := by
  have key : ∀ (hadv : e.advances = true), ∃ p, buf[iter]? = some p ∧
      (p.2 ≠ ulong_minus_one → ∃ s, string_from p.1 p.2 = some s) := by
    intro hadv
    rw [hadv] at hiter
    have hlt : iter < buf.length := by simpa using hiter
    refine ⟨buf[iter], List.getElem?_eq_getElem hlt, ?_⟩
    intro hne
    rcases hbuf buf[iter] (List.getElem_mem hlt) with h | h
    · exact absurd h hne
    · refine ⟨(buf[iter]).1.take (buf[iter]).2, ?_⟩
      rw [string_from_eq, if_pos h]
  cases e with
  | arithmetic t v => exact ⟨.arithmetic t v, rfl, rfl⟩
  | optional_arithmetic t en st =>
    by_cases hn : n = true
    · exact ⟨.optional_arithmetic t false st, by simp [assign_result, field.advances, hn], rfl⟩
    · exact ⟨.optional_arithmetic t en st, by simp [assign_result, field.advances, hn], rfl⟩
  | string s =>
    obtain ⟨p, hp, hs⟩ := key rfl
    by_cases h : p.2 = ulong_minus_one
    · exact ⟨.string s, by simp [assign_result, field.advances, hp, h], rfl⟩
    · obtain ⟨s1, hs1⟩ := hs h
      exact ⟨.string s1, by simp [assign_result, field.advances, hp, h, hs1], rfl⟩
  | mediumtext s =>
    obtain ⟨p, hp, hs⟩ := key rfl
    by_cases h : p.2 = ulong_minus_one
    · exact ⟨.mediumtext s, by simp [assign_result, field.advances, hp, h], rfl⟩
    · obtain ⟨s1, hs1⟩ := hs h
      exact ⟨.mediumtext s1, by simp [assign_result, field.advances, hp, h, hs1], rfl⟩
  | optional_string s =>
    obtain ⟨p, hp, hs⟩ := key rfl
    by_cases h : p.2 = ulong_minus_one
    · exact ⟨.optional_string s, by simp [assign_result, field.advances, hp, h], rfl⟩
    · obtain ⟨s1, hs1⟩ := hs h
      exact ⟨.optional_string (some s1), by simp [assign_result, field.advances, hp, h, hs1],
        rfl⟩
  | optional_mediumtext s =>
    obtain ⟨p, hp, hs⟩ := key rfl
    by_cases h : p.2 = ulong_minus_one
    · exact ⟨.optional_mediumtext s, by simp [assign_result, field.advances, hp, h], rfl⟩
    · obtain ⟨s1, hs1⟩ := hs h
      exact ⟨.optional_mediumtext (some s1),
        by simp [assign_result, field.advances, hp, h, hs1], rfl⟩

theorem assign_results_some (buf : staging_buffers) (hbuf : staged_ok buf)
    (ns : List Bool) (es : List field) (iter : Nat)
    (hiter : iter + es.countP field.advances ≤ buf.length) :
    ∃ es1 iter2, assign_results buf ns es iter = some (es1, iter2)
      ∧ es1.countP field.advances ≤ es.countP field.advances := by
  induction es generalizing ns iter with
  | nil => cases ns <;> exact ⟨[], iter, by simp [assign_results], by simp⟩
  | cons e es ih =>
    cases ns with
    | nil => exact ⟨[], iter, by simp [assign_results], by simp⟩
    | cons n ns =>
      have hc : (e :: es).countP field.advances
          = es.countP field.advances + (if e.advances then 1 else 0) := by
        rw [List.countP_cons]
      rw [hc] at hiter
      obtain ⟨e1, he1, hadv⟩ := assign_result_some n e buf iter hbuf (by omega)
      obtain ⟨es1, iter2, hes1, hle⟩ := ih ns (iter + (if e.advances then 1 else 0)) (by omega)
      refine ⟨e1 :: es1, iter2, by simp [assign_results, he1, hes1], ?_⟩
      rw [hc, List.countP_cons, hadv]
      omega

theorem store_value_advances (v : Int) (e : field) :
    (store_value v e).advances = e.advances := by
  cases e <;> rfl

theorem moved_from_advances (e : field) : (moved_from e).advances = e.advances := by
  cases e <;> rfl

theorem store_column_inv (param : MYSQL_BIND) (s : column_store) (st : fetch_state)
    (hfit : fits param s = true) (hbuf : staged_ok st.buf_keeper)
    (hlink : ∀ j, param.length = some j → ∀ n,
      (st.buf_keeper.map fun p => p.1.length)[j]? = some n → n = param.buffer_length) :
    staged_ok (store_column param s st).buf_keeper
      ∧ ((store_column param s st).buf_keeper.map fun p => p.1.length)
          = (st.buf_keeper.map fun p => p.1.length)
      ∧ (store_column param s st).r.countP field.advances = st.r.countP field.advances := by
  have hsize : ∀ (buf : staging_buffers) (j : Nat) (bytes : List UInt8),
      ((buf.modify (fun p => (overwrite p.1 bytes, p.2)) j).map fun p => p.1.length)
        = (buf.map fun p => p.1.length) := by
    intro buf j bytes
    exact map_modify_of_same _ _ (fun p => by simp [overwrite_length]) _ _
  have hsize2 : ∀ (buf : staging_buffers) (j n : Nat),
      ((buf.modify (fun p => (p.1, n)) j).map fun p => p.1.length)
        = (buf.map fun p => p.1.length) := by
    intro buf j n
    exact map_modify_of_same (fun p : List UInt8 × Nat => p.1.length) (fun p => (p.1, n))
      (fun p => rfl) _ _
  have hw : ∀ (j : Nat) (bytes : List UInt8),
      staged_ok (st.buf_keeper.modify (fun p => (overwrite p.1 bytes, p.2)) j) := by
    intro j bytes
    exact forall_mem_modify _ _ (fun p hp => by simpa [overwrite_length] using hp) _ _ hbuf
  have hl : ∀ (buf : staging_buffers) (j n : Nat), param.length = some j → s.length = some n →
      (buf.map fun p => p.1.length) = (st.buf_keeper.map fun p => p.1.length) →
      staged_ok buf → staged_ok (buf.modify (fun p => (p.1, n % 2 ^ 64)) j) := by
    intro buf j n hj hn hsz hb
    refine forall_mem_modify_at _ _ _ _ hb ?_
    intro x hx
    right
    show n % 2 ^ 64 ≤ x.1.length
    have h1 : (buf.map fun p => p.1.length)[j]? = some x.1.length := by
      rw [List.getElem?_map, hx]; rfl
    rw [hsz] at h1
    have h2 := hlink j hj _ h1
    have h3 : n ≤ param.buffer_length := by
      unfold fits at hfit
      rw [hj, hn] at hfit
      simpa using hfit
    rw [h2]
    exact le_trans (Nat.mod_le _ _) h3
  refine ⟨?_, ?_, ?_⟩
  · unfold store_column
    dsimp only
    split
    · rename_i j n hj hn
      split
      · exact hl _ _ _ hj hn (hsize _ _ _) (hw _ _)
      · exact hl _ _ _ hj hn rfl hbuf
    · split
      · exact hw _ _
      · exact hbuf
  · unfold store_column
    dsimp only
    split
    · split
      · rw [hsize2, hsize]
      · rw [hsize2]
    · split
      · rw [hsize]
      · rfl
  · unfold store_column
    dsimp only
    split
    · exact countP_modify_of_same _ _ (store_value_advances _) _ _
    · rfl

theorem store_columns_inv (params : List MYSQL_BIND) (ss : List column_store) (st : fetch_state)
    (hfit : ∀ bs ∈ params.zip ss, fits bs.1 bs.2 = true) (hbuf : staged_ok st.buf_keeper)
    (hlink : linked params (st.buf_keeper.map fun p => p.1.length)) :
    staged_ok (store_columns params ss st).buf_keeper
      ∧ ((store_columns params ss st).buf_keeper.map fun p => p.1.length)
          = (st.buf_keeper.map fun p => p.1.length)
      ∧ (store_columns params ss st).r.countP field.advances = st.r.countP field.advances := by
  induction params generalizing ss st with
  | nil => simp [store_columns, hbuf]
  | cons param params ih =>
    cases ss with
    | nil => simp [store_columns, hbuf]
    | cons s ss =>
      obtain ⟨h1, h2, h3⟩ := store_column_inv param s st (hfit (param, s) (by simp)) hbuf
        (fun j hj n hn => hlink param (by simp) j hj n hn)
      obtain ⟨k1, k2, k3⟩ := ih ss (store_column param s st)
        (fun bs h => hfit bs (by simp [h])) h1
        (by
          rw [h2]
          exact fun b hb => hlink b (by simp [hb]))
      simp only [store_columns]
      exact ⟨k1, by rw [k2, h2], by rw [k3, h3]⟩

theorem fetch_rows_returns (param_binds : List MYSQL_BIND)
    (fetches : List (Int × List column_store)) (st : fetch_state)
    (hfit : ∀ f ∈ fetches, f.1 = 0 → ∀ bs ∈ param_binds.zip f.2, fits bs.1 bs.2 = true)
    (hbuf : staged_ok st.buf_keeper)
    (hlink : linked param_binds (st.buf_keeper.map fun p => p.1.length))
    (hcount : st.r.countP field.advances ≤ st.buf_keeper.length) :
    ∃ back_data, (fetch_rows param_binds fetches st).2 = .returned back_data := by
  induction fetches generalizing st with
  | nil => exact ⟨[], rfl⟩
  | cons f fetches ih =>
    obtain ⟨ret, stores⟩ := f
    by_cases hret : ret = 0
    · obtain ⟨h1, h2, h3⟩ := store_columns_inv param_binds stores st
        (hfit (ret, stores) (by simp) hret) hbuf hlink
      have hlen : (store_columns param_binds stores st).buf_keeper.length
          = st.buf_keeper.length := by
        have := congrArg List.length h2
        simpa using this
      obtain ⟨r1, iter2, hr1, hle⟩ := assign_results_some _ h1
        (store_columns param_binds stores st).is_null (store_columns param_binds stores st).r 0
        (by rw [h3, hlen]; omega)
      obtain ⟨rows, hrows⟩ := ih
        { store_columns param_binds stores st with r := r1.map moved_from }
        (fun f h => hfit f (by simp [h])) h1
        (by show linked param_binds _; rw [h2]; exact hlink)
        (by
          show (r1.map moved_from).countP field.advances ≤ _
          rw [List.countP_map]
          have : (field.advances ∘ moved_from) = field.advances := by
            funext e; exact moved_from_advances e
          rw [this, hlen]
          omega)
      refine ⟨r1 :: rows, ?_⟩
      simp only [fetch_rows, hret, ne_eq, not_true_eq_false, if_false, hr1, hrows]
    · exact ⟨[], by simp [fetch_rows, hret]⟩

end mysql

namespace mysql

theorem build_result_param_inv (buf : staging_buffers) (param : MYSQL_BIND) (t : field)
    (address is_null : Nat) (hbuf : staged_ok buf) (hparam : param.length = none) :
    staged_ok (build_result_param buf param t address is_null).1
      ∧ (∃ ext, (build_result_param buf param t address is_null).1 = buf ++ ext
          ∧ ext.length = if t.advances then 1 else 0)
      ∧ (build_result_param buf param t address is_null).2.2.advances = t.advances
      ∧ ∀ j, (build_result_param buf param t address is_null).2.1.length = some j →
          ∃ p, (build_result_param buf param t address is_null).1[j]? = some p
            ∧ p.1.length = (build_result_param buf param t address is_null).2.1.buffer_length := by
  have hadd : ∀ n : Nat,
      staged_ok (buf ++ [(List.replicate n (0 : UInt8), ulong_minus_one)]) := by
    intro n p hp
    rw [List.mem_append, List.mem_singleton] at hp
    rcases hp with hp | hp
    · exact hbuf p hp
    · rw [hp]; exact Or.inl rfl
  have hget : ∀ (n j : Nat), some buf.length = some j →
      ∃ p, (buf ++ [(List.replicate n (0 : UInt8), ulong_minus_one)])[j]? = some p
        ∧ p.1.length = n := by
    intro n j hj
    injection hj with hj
    subst hj
    refine ⟨(List.replicate n (0 : UInt8), ulong_minus_one), ?_, List.length_replicate _ _⟩
    rw [List.getElem?_append_right (le_refl _), Nat.sub_self]
    rfl
  cases t with
  | arithmetic t v =>
    exact ⟨hbuf, ⟨[], (List.append_nil _).symm, rfl⟩, rfl,
      fun j hj => absurd (hparam.symm.trans hj) (by simp)⟩
  | optional_arithmetic t en st =>
    exact ⟨hbuf, ⟨[], (List.append_nil _).symm, rfl⟩, rfl,
      fun j hj => absurd (hparam.symm.trans hj) (by simp)⟩
  | string s => exact ⟨hadd _, ⟨_, rfl, rfl⟩, rfl, fun j hj => hget _ j hj⟩
  | mediumtext s => exact ⟨hadd _, ⟨_, rfl, rfl⟩, rfl, fun j hj => hget _ j hj⟩
  | optional_string s => exact ⟨hadd _, ⟨_, rfl, rfl⟩, rfl, fun j hj => hget _ j hj⟩
  | optional_mediumtext s => exact ⟨hadd _, ⟨_, rfl, rfl⟩, rfl, fun j hj => hget _ j hj⟩

theorem build_result_params_inv (es : List field) (index : Nat) (buf : staging_buffers)
    (hbuf : staged_ok buf) :
    staged_ok (build_result_params es index buf).1
      ∧ (∃ ext, (build_result_params es index buf).1 = buf ++ ext
          ∧ ext.length = es.countP field.advances)
      ∧ (build_result_params es index buf).2.2.countP field.advances
          = es.countP field.advances
      ∧ ∀ b ∈ (build_result_params es index buf).2.1, ∀ j, b.length = some j →
          ∃ p, (build_result_params es index buf).1[j]? = some p
            ∧ p.1.length = b.buffer_length := by
  induction es generalizing index buf with
  | nil =>
    exact ⟨hbuf, ⟨[], (List.append_nil _).symm, rfl⟩, rfl, fun b hb => absurd hb (by simp [build_result_params])⟩
  | cons t ts ih =>
    obtain ⟨h1, ⟨ext1, h2, h2l⟩, h3, h4⟩ := build_result_param_inv buf {} t index index hbuf rfl
    obtain ⟨k1, ⟨ext2, k2, k2l⟩, k3, k4⟩ := ih (index + 1) _ h1
    simp only [build_result_params]
    refine ⟨k1, ⟨ext1 ++ ext2, ?_, ?_⟩, ?_, ?_⟩
    · rw [k2, h2, List.append_assoc]
    · rw [List.length_append, h2l, k2l, List.countP_cons]; omega
    · rw [List.countP_cons, List.countP_cons, k3, h3]
    · intro b hb j hj
      rw [List.mem_cons] at hb
      rcases hb with hb | hb
      · subst hb
        obtain ⟨p, hp, hpl⟩ := h4 j hj
        refine ⟨p, ?_, hpl⟩
        rw [k2]
        have hlt : j < (build_result_param buf {} t index index).1.length := by
          by_contra hge
          rw [List.getElem?_eq_none (by omega)] at hp
          exact absurd hp (by simp)
        rw [List.getElem?_append_left hlt]
        exact hp
      · exact k4 b hb j hj

theorem after_execute_returns (elements : List field_type) (d : statement) (c : connection)
    (hbind : d.mysql_stmt_bind_result = 0) (hstore : d.mysql_stmt_store_result = 0)
    (hfit : ∀ f ∈ d.mysql_stmt_fetch, f.1 = 0 →
      ∀ bs ∈ (result_binds elements).zip f.2, fits bs.1 bs.2 = true) :
    ∃ back_data, (after_execute elements d c).result = .returned back_data := by
  obtain ⟨h1, ⟨ext, h2, h2l⟩, h3, h4⟩ :=
    build_result_params_inv (elements.map value_initialized) 0 [] (fun p hp => by simp at hp)
  obtain ⟨rows, hrows⟩ := fetch_rows_returns
    (build_result_params (elements.map value_initialized) 0 []).2.1 d.mysql_stmt_fetch
    { r := (build_result_params (elements.map value_initialized) 0 []).2.2,
      is_null := elements.map fun _ => false,
      buf_keeper := (build_result_params (elements.map value_initialized) 0 []).1 }
    hfit h1
    (by
      intro b hb j hj n hn
      obtain ⟨p, hp, hpl⟩ := h4 b hb j hj
      rw [List.getElem?_map] at hn
      simp only at hn
      rw [hp] at hn
      simp only [Option.map_some', Option.some.injEq] at hn
      rw [← hn, hpl])
    (by
      show List.countP _ _ ≤ List.length _
      rw [h3, h2, List.length_append, h2l]
      omega)
  refine ⟨rows, ?_⟩
  unfold after_execute
  simp only [hbind, hstore, ne_eq, not_true_eq_false, if_false]
  exact hrows

theorem before_execute_returns {A : Type} (R : ReturnType field_type) (sql : String)
    (args : List A) (d : statement) (c : connection)
    (hprepare : d.mysql_stmt_prepare = 0) (hcount : d.mysql_stmt_param_count = args.length)
    (hbind : d.mysql_stmt_bind_param = 0)
    (hmeta : R ≠ .void → d.mysql_stmt_result_metadata = some (element_size R)) :
    (before_execute R sql args d c).result = .returned ()
      ∧ (before_execute R sql args d c).conn = c := by
  have hchk : (if R = .void then ([], none) else check_output_size R d).2 = none := by
    by_cases hR : R = .void
    · simp [hR]
    · rw [if_neg hR]
      cases R with
      | void => exact absurd rfl hR
      | tuple es => simp [check_output_size, hmeta hR, element_size]
      | reflection es => simp [check_output_size, hmeta hR, element_size]
      | single t => simp [check_output_size, hmeta hR, element_size]
  unfold before_execute
  simp only [hprepare, hcount, hbind, ne_eq, not_true_eq_false, if_false, hchk]
  split <;> simp


theorem query_arity_mismatch {A : Type} (R : ReturnType field_type) (sql : String)
    (args : List A) (d : statement) (c : connection)
    (hprepare : d.mysql_stmt_prepare = 0) (hcount : d.mysql_stmt_param_count ≠ args.length) :
    (query R sql args d c).result = .thrown "param size do not match placeholder size"
      ∧ api.mysql_stmt_execute ∉ (query R sql args d c).calls := by
  have hb : before_execute R sql args d c
      = { conn := c, calls := [.mysql_stmt_prepare, .mysql_stmt_param_count],
          result := .thrown "param size do not match placeholder size" } := by
    unfold before_execute
    simp [hprepare, hcount]
  unfold query
  simp [hb]

theorem query_returns {A : Type} (R : ReturnType field_type) (sql : String)
    (args : List A) (d : statement) (c : connection)
    (hprepare : d.mysql_stmt_prepare = 0) (hcount : d.mysql_stmt_param_count = args.length)
    (hok : d.succeeds R) :
    (∃ back_data, (query R sql args d c).result = .returned back_data)
      ∧ api.mysql_stmt_execute ∈ (query R sql args d c).calls := by
  obtain ⟨hbind, hexec, hrest⟩ := hok
  obtain ⟨hb, hbc⟩ := before_execute_returns R sql args d c hprepare hcount hbind
    (fun hR => (hrest hR).1)
  unfold query
  simp only [hb, hexec, ne_eq, not_true_eq_false, if_false]
  cases R with
  | void => exact ⟨⟨[], rfl⟩, by simp⟩
  | tuple es =>
    obtain ⟨_, h2, h3, h4⟩ := hrest (by simp)
    obtain ⟨rows, hrows⟩ := after_execute_returns es d
      (before_execute (.tuple es) sql args d c).conn h2 h3 h4
    exact ⟨⟨rows, hrows⟩, by simp⟩
  | reflection es =>
    obtain ⟨_, h2, h3, h4⟩ := hrest (by simp)
    obtain ⟨rows, hrows⟩ := after_execute_returns es d
      (before_execute (.reflection es) sql args d c).conn h2 h3 h4
    exact ⟨⟨rows, hrows⟩, by simp⟩
  | single t =>
    obtain ⟨_, h2, h3, h4⟩ := hrest (by simp)
    obtain ⟨rows, hrows⟩ := after_execute_returns [t] d
      (before_execute (.single t) sql args d c).conn h2 h3 h4
    exact ⟨⟨rows, hrows⟩, by simp⟩

end mysql

theorem to_size_t_of_nonneg (i : Int) (h0 : 0 ≤ i) (h : i < 2 ^ 64) :
    to_size_t i = i.toNat := by
  unfold to_size_t
  rw [Int.emod_eq_of_lt h0 h]

theorem to_size_t_natCast (n : Nat) (h : n < 2 ^ 64) : to_size_t (n : Int) = n := by
  rw [to_size_t_of_nonneg _ (Int.natCast_nonneg n) (by exact_mod_cast h)]
  exact Int.toNat_natCast n

namespace sqlserver

theorem assign_result_some_odbc (i : Int) (hi : ind_ok i) (e : field) (buf : staging_buffers)
    (iter : Nat) (hbuf : staged_ok buf)
    (hiter : iter + (if e.advances then 1 else 0) ≤ buf.length) :
    ∃ e1, assign_result (some i) e buf iter = some (e1, iter + (if e.advances then 1 else 0))
      ∧ e1.advances = e.advances := by
  have key : ∀ (hadv : e.advances = true), i ≠ SQL_NULL_DATA →
      ∃ p s, buf[iter]? = some p ∧ string_from p.1 (to_size_t i) = some s := by
    intro hadv hne
    rw [hadv] at hiter
    have hlt : iter < buf.length := by simpa using hiter
    have hp := hbuf buf[iter] (List.getElem_mem hlt)
    rcases hi with h | ⟨h0, h1⟩
    · exact absurd h hne
    · refine ⟨buf[iter], (buf[iter]).1.take (to_size_t i), List.getElem?_eq_getElem hlt, ?_⟩
      have hsz : to_size_t i = i.toNat := to_size_t_of_nonneg i h0 (by omega)
      rw [string_from_eq, if_pos (by rw [hsz]; omega)]
  cases e with
  | arithmetic t v => exact ⟨.arithmetic t v, rfl, rfl⟩
  | optional_arithmetic t en st =>
    by_cases hn : i = SQL_NULL_DATA
    · exact ⟨.optional_arithmetic t false st, by simp [assign_result, field.advances, hn], rfl⟩
    · exact ⟨.optional_arithmetic t en st, by simp [assign_result, field.advances, hn], rfl⟩
  | string s =>
    by_cases hn : i = SQL_NULL_DATA
    · exact ⟨.string s, by simp [assign_result, field.advances, hn], rfl⟩
    · obtain ⟨p, s1, hp, hs1⟩ := key rfl hn
      exact ⟨.string s1, by simp [assign_result, field.advances, hn, hp, hs1], rfl⟩
  | optional_string s =>
    by_cases hn : i = SQL_NULL_DATA
    · exact ⟨.optional_string s, by simp [assign_result, field.advances, hn], rfl⟩
    · obtain ⟨p, s1, hp, hs1⟩ := key rfl hn
      exact ⟨.optional_string (some s1), by simp [assign_result, field.advances, hn, hp, hs1], rfl⟩

theorem assign_results_some_odbc (buf : staging_buffers) (hbuf : staged_ok buf)
    (inds : List (Option Int)) (hinds : ∀ x ∈ inds, ∃ i, x = some i ∧ ind_ok i)
    (es : List field) (iter : Nat)
    (hiter : iter + es.countP field.advances ≤ buf.length) :
    ∃ es1 iter2, assign_results buf inds es iter = some (es1, iter2)
      ∧ es1.countP field.advances ≤ es.countP field.advances := by
  induction es generalizing inds iter with
  | nil => cases inds <;> exact ⟨[], iter, by simp [assign_results], by simp⟩
  | cons e es ih =>
    cases inds with
    | nil => exact ⟨[], iter, by simp [assign_results], by simp⟩
    | cons x inds =>
      obtain ⟨i, hx, hi⟩ := hinds x (by simp)
      have hc : (e :: es).countP field.advances
          = es.countP field.advances + (if e.advances then 1 else 0) := by
        rw [List.countP_cons]
      rw [hc] at hiter
      obtain ⟨e1, he1, hadv⟩ := assign_result_some_odbc i hi e buf iter hbuf (by omega)
      obtain ⟨es1, iter2, hes1, hle⟩ := ih inds (fun y hy => hinds y (by simp [hy]))
        (iter + (if e.advances then 1 else 0)) (by omega)
      refine ⟨e1 :: es1, iter2, by simp [assign_results, hx, he1, hes1], ?_⟩
      rw [hc, List.countP_cons, hadv]
      omega

theorem store_value_advances_odbc (v : Int) (e : field) :
    (store_value v e).advances = e.advances := by
  cases e <;> rfl

theorem moved_from_advances_odbc (e : field) : (moved_from e).advances = e.advances := by
  cases e <;> rfl

theorem store_column_inv_odbc (column : bound_column) (s : column_store) (st : fetch_state)
    (hbuf : staged_ok st.buf_keeper) :
    staged_ok (store_column column s st).buf_keeper
      ∧ (store_column column s st).buf_keeper.length = st.buf_keeper.length
      ∧ (store_column column s st).r.countP field.advances = st.r.countP field.advances
      ∧ (store_column column s st).ind = st.ind.set column.StrLen_or_IndPtr (some s.ind) := by
  refine ⟨?_, ?_, ?_, rfl⟩
  · unfold store_column
    dsimp only
    split
    · exact forall_mem_modify _ _ (fun p hp => by simpa [overwrite_length] using hp) _ _ hbuf
    · exact hbuf
  · unfold store_column
    dsimp only
    split <;> simp [List.length_modify]
  · unfold store_column
    dsimp only
    split
    · exact countP_modify_of_same _ _ (store_value_advances_odbc _) _ _
    · rfl

theorem store_columns_inv_odbc (columns : List bound_column) (ss : List column_store)
    (st : fetch_state) (k : Nat)
    (hptr : ∀ j, (hj : j < columns.length) → (columns[j]).StrLen_or_IndPtr = k + j)
    (hlen : ss.length = columns.length) (hss : ∀ s ∈ ss, ind_ok s.ind)
    (hindlen : st.ind.length = k + columns.length)
    (hprev : ∀ j < k, ∃ i, st.ind[j]? = some (some i) ∧ ind_ok i)
    (hbuf : staged_ok st.buf_keeper) :
    staged_ok (store_columns columns ss st).buf_keeper
      ∧ (store_columns columns ss st).buf_keeper.length = st.buf_keeper.length
      ∧ (store_columns columns ss st).r.countP field.advances = st.r.countP field.advances
      ∧ (store_columns columns ss st).ind.length = st.ind.length
      ∧ ∀ j < k + columns.length,
          ∃ i, (store_columns columns ss st).ind[j]? = some (some i) ∧ ind_ok i := by
  induction columns generalizing ss st k with
  | nil =>
    exact ⟨hbuf, rfl, rfl, rfl, fun j hj => hprev j (by simpa using hj)⟩
  | cons column columns ih =>
    cases ss with
    | nil => simp at hlen
    | cons s ss =>
      obtain ⟨h1, h2, h3, h4⟩ := store_column_inv_odbc column s st hbuf
      have hk : column.StrLen_or_IndPtr = k := by
        simpa using hptr 0 (by simp)
      rw [hk] at h4
      have hlen1 : (store_column column s st).ind.length = st.ind.length := by
        rw [h4, List.length_set]
      obtain ⟨k1, k2, k3, k4, k5⟩ := ih ss (store_column column s st) (k + 1)
        (fun j hj => by
          have := hptr (j + 1) (by simpa using hj)
          simp only [List.getElem_cons_succ] at this
          omega)
        (by simpa using hlen)
        (fun s1 h => hss s1 (by simp [h]))
        (by rw [hlen1, hindlen, List.length_cons]; omega)
        (fun j hj => by
          rw [h4, List.getElem?_set]
          by_cases hjk : k = j
          · subst hjk
            rw [if_pos rfl, if_pos (by rw [hindlen]; simp)]
            exact ⟨s.ind, rfl, hss s (by simp)⟩
          · rw [if_neg hjk]
            exact hprev j (by omega))
        h1
      simp only [store_columns]
      refine ⟨k1, by rw [k2, h2], by rw [k3, h3], by rw [k4, hlen1], ?_⟩
      intro j hj
      exact k5 j (by simp only [List.length_cons] at hj; omega)


theorem build_result_param_inv_odbc (index : Nat) (buf : staging_buffers) (t : field)
    (address ind : Nat) (hbuf : staged_ok buf) :
    staged_ok (build_result_param index buf t address ind).1
      ∧ (build_result_param index buf t address ind).1.length
          = buf.length + (if t.advances then 1 else 0)
      ∧ (build_result_param index buf t address ind).2.2.advances = t.advances
      ∧ (build_result_param index buf t address ind).2.1.StrLen_or_IndPtr = ind := by
  have hadd : staged_ok (buf ++ [(List.replicate 65536 (0 : UInt8), -1)]) := by
    intro p hp
    rw [List.mem_append, List.mem_singleton] at hp
    rcases hp with hp | hp
    · exact hbuf p hp
    · rw [hp]; exact le_of_eq (List.length_replicate _ _).symm
  have hlen : ∀ x : List UInt8 × Int, (buf ++ [x]).length = buf.length + 1 := by
    intro x; rw [List.length_append]; rfl
  cases t with
  | arithmetic t v => exact ⟨hbuf, rfl, rfl, rfl⟩
  | optional_arithmetic t en st => exact ⟨hbuf, rfl, rfl, rfl⟩
  | string s => exact ⟨hadd, hlen _, rfl, rfl⟩
  | optional_string s => exact ⟨hadd, hlen _, rfl, rfl⟩

theorem build_result_params_inv_odbc (d : statement) (hcol : ∀ n, d.SQLBindCol n = SQL_SUCCESS)
    (es : List field) (index : Nat) (buf : staging_buffers) (hbuf : staged_ok buf) :
    ∃ built, (build_result_params d es index buf).2 = .ok built
      ∧ staged_ok built.1
      ∧ built.1.length = buf.length + es.countP field.advances
      ∧ built.2.2.countP field.advances = es.countP field.advances
      ∧ built.2.1.length = es.length
      ∧ ∀ j, (hj : j < built.2.1.length) → (built.2.1[j]).StrLen_or_IndPtr = index + j := by
  induction es generalizing index buf with
  | nil => exact ⟨(buf, [], []), rfl, hbuf, by simp, by simp, rfl,
      fun j hj => absurd hj (by simp)⟩
  | cons t ts ih =>
    obtain ⟨h1, h2, h3, h4⟩ := build_result_param_inv_odbc (index + 1) buf t index index hbuf
    obtain ⟨built, k0, k1, k2, k3, k4, k5⟩ := ih (index + 1) _ h1
    refine ⟨(built.1, (build_result_param (index + 1) buf t index index).2.1 :: built.2.1,
      (build_result_param (index + 1) buf t index index).2.2 :: built.2.2), ?_, k1, ?_, ?_, ?_, ?_⟩
    · simp only [build_result_params, hcol, ne_eq, not_true_eq_false, if_false, k0]
    · rw [k2, h2, List.countP_cons]; omega
    · simp only [List.countP_cons, k3, h3]
    · simp only [List.length_cons, k4]
    · intro j hj
      cases j with
      | zero => simpa using h4
      | succ j =>
        simp only [List.getElem_cons_succ]
        have := k5 j (by simpa using hj)
        omega

theorem fetch_rows_returns_odbc (columns : List bound_column) (d : statement)
    (fetches : List (Int × List column_store)) (st : fetch_state) (c : connection)
    (hptr : ∀ j, (hj : j < columns.length) → (columns[j]).StrLen_or_IndPtr = 0 + j)
    (hind : st.ind.length = columns.length)
    (hs : ∀ f ∈ fetches, (f.1 = SQL_SUCCESS ∨ f.1 = SQL_NO_DATA) ∧
      (f.1 = SQL_SUCCESS → f.2.length = columns.length ∧ ∀ s ∈ f.2, ind_ok s.ind))
    (hbuf : staged_ok st.buf_keeper)
    (hcount : st.r.countP field.advances ≤ st.buf_keeper.length) :
    ∃ back_data, (fetch_rows columns d fetches st c).result = .returned back_data := by
  induction fetches generalizing st with
  | nil => exact ⟨[], rfl⟩
  | cons f fetches ih =>
    obtain ⟨ret, stores⟩ := f
    obtain ⟨hret, hstores⟩ := hs (ret, stores) (by simp)
    rcases hret with hret | hret
    · simp only at hret
      obtain ⟨hl, hok⟩ := hstores hret
      obtain ⟨h1, h2, h3, h4, h5⟩ := store_columns_inv_odbc columns stores st 0 hptr hl hok
        (by rw [hind]; simp) (fun j hj => absurd hj (by simp)) hbuf
      have hinds : ∀ x ∈ (store_columns columns stores st).ind, ∃ i, x = some i ∧ ind_ok i := by
        intro x hx
        obtain ⟨j, hj, hxj⟩ := List.getElem_of_mem hx
        obtain ⟨i, hi, hiok⟩ := h5 j (by rw [h4, hind] at hj; simpa using hj)
        rw [List.getElem?_eq_getElem hj, hxj] at hi
        exact ⟨i, by simpa using hi, hiok⟩
      obtain ⟨r1, iter2, hr1, hle⟩ := assign_results_some_odbc _ h1
        (store_columns columns stores st).ind hinds (store_columns columns stores st).r 0
        (by rw [h3, h2]; omega)
      obtain ⟨rows, hrows⟩ := ih
        { store_columns columns stores st with r := r1.map moved_from }
        (by show (store_columns columns stores st).ind.length = _; rw [h4, hind])
        (fun f h => hs f (by simp [h])) h1
        (by
          show (r1.map moved_from).countP field.advances ≤ _
          rw [List.countP_map]
          have : (field.advances ∘ moved_from) = field.advances := by
            funext e; exact moved_from_advances_odbc e
          rw [this, h2]
          omega)
      refine ⟨r1 :: rows, ?_⟩
      have e1 : ret ≠ SQL_NO_DATA := by rw [hret]; decide
      have e2 : ret ≠ SQL_ERROR := by rw [hret]; decide
      simp only [fetch_rows, e1, e2, if_false, hr1, hrows]
    · simp only at hret
      exact ⟨[], by simp [fetch_rows, hret]⟩

theorem after_execute_returns_odbc (elements : List field_type) (d : statement) (c : connection)
    (hcol : ∀ n, d.SQLBindCol n = SQL_SUCCESS)
    (hs : ∀ f ∈ d.SQLFetch, (f.1 = SQL_SUCCESS ∨ f.1 = SQL_NO_DATA) ∧
      (f.1 = SQL_SUCCESS → f.2.length = elements.length ∧ ∀ s ∈ f.2, ind_ok s.ind)) :
    ∃ back_data, (after_execute elements d c).result = .returned back_data := by
  obtain ⟨built, k0, k1, k2, k3, k4, k5⟩ :=
    build_result_params_inv_odbc d hcol (elements.map value_initialized) 0 []
      (fun p hp => by simp at hp)
  have hcols : built.2.1.length = elements.length := by simpa using k4
  obtain ⟨rows, hrows⟩ := fetch_rows_returns_odbc built.2.1 d d.SQLFetch
    { r := built.2.2, ind := elements.map fun _ => none, buf_keeper := built.1 } c
    k5 (by simp [hcols]) (by rw [hcols]; exact hs) k1 (by simp only [k2, k3]; omega)
  refine ⟨rows, ?_⟩
  unfold after_execute
  simp only [k0]
  exact hrows


theorem build_bind_params_ok {A : Type} (d : statement)
    (hbind : ∀ n, d.SQLBindParameter n = SQL_SUCCESS) (args : List A) (index : Nat) :
    (build_bind_params d args index).2 = none := by
  induction args generalizing index with
  | nil => rfl
  | cons a args ih => simp [build_bind_params, hbind, ih]

theorem before_execute_returns_odbc {A : Type} (R : ReturnType field_type) (sql : String)
    (args : List A) (d : statement) (c : connection)
    (hprepare : d.SQLPrepare = SQL_SUCCESS)
    (hcount : d.SQLNumParams = (SQL_SUCCESS, (args.length : Int)))
    (hargs : args.length < 2 ^ 15)
    (hbind : ∀ n, d.SQLBindParameter n = SQL_SUCCESS)
    (hcols : R ≠ .void →
      d.SQLNumResultCols = (SQL_SUCCESS, (element_size R : Int)) ∧ element_size R < 2 ^ 15) :
    (before_execute R sql args d c).result = .returned ()
      ∧ (before_execute R sql args d c).conn = c := by
  have hchk : (if R = .void then ([], none) else check_output_size R d).2 = none := by
    by_cases hR : R = .void
    · simp [hR]
    · rw [if_neg hR]
      obtain ⟨h1, h2⟩ := hcols hR
      have hsz : to_size_t (element_size R : Int) = element_size R :=
        to_size_t_natCast _ (by omega)
      cases R with
      | void => exact absurd rfl hR
      | tuple es =>
        simp only [element_size] at hsz
        simp [check_output_size, h1, element_size, hsz]
      | reflection es =>
        simp only [element_size] at hsz
        simp [check_output_size, h1, element_size, hsz]
      | single t => simp [check_output_size, h1, element_size]
  have hsz : to_size_t (args.length : Int) = args.length := to_size_t_natCast _ (by omega)
  unfold before_execute
  simp only [hprepare, hcount, hsz, ne_eq, not_true_eq_false, if_false, hchk,
    build_bind_params_ok d hbind]
  exact ⟨trivial, trivial⟩

theorem query_arity_mismatch_odbc {A : Type} (R : ReturnType field_type) (sql : String)
    (args : List A) (d : statement) (c : connection) (N : Nat)
    (hprepare : d.SQLPrepare = SQL_SUCCESS)
    (hnum : d.SQLNumParams = (SQL_SUCCESS, (N : Int))) (hN : N < 2 ^ 15)
    (hcount : N ≠ args.length) :
    (query R sql args d c).result = .thrown "param size do not match placeholder size"
      ∧ api.SQLExecute ∉ (query R sql args d c).calls := by
  have hsz : to_size_t (N : Int) = N := to_size_t_natCast _ (by omega)
  have hb : before_execute R sql args d c
      = { conn := c, calls := [.SQLPrepare, .SQLNumParams],
          result := .thrown "param size do not match placeholder size" } := by
    unfold before_execute
    simp [hprepare, hnum, hsz, hcount]
  unfold query
  simp [hb]

theorem query_returns_odbc {A : Type} (R : ReturnType field_type) (sql : String)
    (args : List A) (d : statement) (c : connection)
    (hprepare : d.SQLPrepare = SQL_SUCCESS)
    (hcount : d.SQLNumParams = (SQL_SUCCESS, (args.length : Int)))
    (hargs : args.length < 2 ^ 15)
    (hok : d.succeeds R) :
    (∃ back_data, (query R sql args d c).result = .returned back_data)
      ∧ api.SQLExecute ∈ (query R sql args d c).calls := by
  obtain ⟨hbind, hexec, hfree, hrest⟩ := hok
  obtain ⟨hb, hbc⟩ := before_execute_returns_odbc R sql args d c hprepare hcount hargs hbind
    (fun hR => ⟨(hrest hR).1, (hrest hR).2.1⟩)
  have hbody : ∃ rows, (match R with
      | .void => ({ conn := (before_execute R sql args d c).conn, calls := [],
                    result := .returned [] } : run (List (List field)))
      | .tuple elements => after_execute elements d (before_execute R sql args d c).conn
      | .reflection members => after_execute members d (before_execute R sql args d c).conn
      | .single type => after_execute [type] d (before_execute R sql args d c).conn).result
      = .returned rows := by
    cases R with
    | void => exact ⟨[], rfl⟩
    | tuple es =>
      obtain ⟨_, _, h3, h4⟩ := hrest (by simp)
      exact after_execute_returns_odbc es d _ h3 h4
    | reflection es =>
      obtain ⟨_, _, h3, h4⟩ := hrest (by simp)
      exact after_execute_returns_odbc es d _ h3 h4
    | single t =>
      obtain ⟨_, _, h3, h4⟩ := hrest (by simp)
      exact after_execute_returns_odbc [t] d _ h3 h4
  obtain ⟨rows, hrows⟩ := hbody
  unfold query
  simp only [hb, hexec, ne_eq, not_true_eq_false, if_false]
  unfold scope_guard
  simp only [hrows, hfree, ne_eq, not_true_eq_false, if_false]
  exact ⟨⟨rows, rfl⟩, by simp⟩

end sqlserver

/-! ### C1 -/

/-- C1: a prepared statement for which the driver reports `N` placeholders, called as
`query<R>(sql, args...)`. If `N` differs from the number of arguments, the call throws
"param size do not match placeholder size" and the execute step (`mysql_stmt_execute`,
`SQLExecute`) is not called; if `N` is the number of arguments and every driver call
succeeds with the column count of `R`, the call returns (and the execute step was called).
Both for the MySQL and for the SQL Server connection; for SQL Server `N` is what
`SQLNumParams` stores in its `SQLSMALLINT`. -/
theorem C1_parameter_arity {A B : Type} (sql : String) (args : List A) (args_s : List B)
    (Rm : ReturnType mysql.field_type) (dm : mysql.statement) (cm : mysql.connection)
    (Rs : ReturnType sqlserver.field_type) (ds : sqlserver.statement)
    (cs : sqlserver.connection) (Nm Ns : Nat)
    (hm_prepare : dm.mysql_stmt_prepare = 0)
    (hm_count : dm.mysql_stmt_param_count = Nm)
    (hm_ok : Nm = args.length → dm.succeeds Rm)
    (hs_prepare : ds.SQLPrepare = sqlserver.SQL_SUCCESS)
    (hs_count : ds.SQLNumParams = (sqlserver.SQL_SUCCESS, (Ns : Int)))
    (hs_small : Ns < 2 ^ 15)
    (hs_ok : Ns = args_s.length → ds.succeeds Rs) :
    (if Nm = args.length then
      (∃ back_data, (mysql.query Rm sql args dm cm).result = .returned back_data)
        ∧ mysql.api.mysql_stmt_execute ∈ (mysql.query Rm sql args dm cm).calls
    else
      (mysql.query Rm sql args dm cm).result
          = .thrown "param size do not match placeholder size"
        ∧ mysql.api.mysql_stmt_execute ∉ (mysql.query Rm sql args dm cm).calls)
    ∧ (if Ns = args_s.length then
      (∃ back_data, (sqlserver.query Rs sql args_s ds cs).result = .returned back_data)
        ∧ sqlserver.api.SQLExecute ∈ (sqlserver.query Rs sql args_s ds cs).calls
    else
      (sqlserver.query Rs sql args_s ds cs).result
          = .thrown "param size do not match placeholder size"
        ∧ sqlserver.api.SQLExecute ∉ (sqlserver.query Rs sql args_s ds cs).calls) := by
  constructor
  · split
    · rename_i h
      exact mysql.query_returns Rm sql args dm cm hm_prepare (hm_count.trans h) (hm_ok h)
    · rename_i h
      exact mysql.query_arity_mismatch Rm sql args dm cm hm_prepare (by rw [hm_count]; exact h)
  · split
    · rename_i h
      exact sqlserver.query_returns_odbc Rs sql args_s ds cs hs_prepare (by rw [hs_count, h])
        (by omega) (hs_ok h)
    · rename_i h
      exact sqlserver.query_arity_mismatch_odbc Rs sql args_s ds cs Ns hs_prepare hs_count hs_small h

/-- C1 at concrete inputs: "select id, name from t where id = ?" called with one argument,
once with a driver that reports one placeholder and once with a driver that reports two. -/
theorem C1_parameter_arity_witness :
    ((∃ back_data, (mysql.query (.tuple [.arithmetic .uint32_t, .string])
          "select id, name from t where id = ?" [42]
          { mysql_stmt_param_count := 1, mysql_stmt_result_metadata := some 2,
            mysql_stmt_fetch := [(0, [{ is_null := false, value := some 42 },
              { is_null := false, data := some [104, 105], length := some 2 }])] }
          { id := 0, ip_ := "10.0.0.1", is_health_ := true }).result = .returned back_data)
      ∧ (∃ back_data, (sqlserver.query (.tuple [.arithmetic .uint32_t, .string])
          "select id, name from t where id = ?" [42]
          { SQLNumParams := (0, 1), SQLNumResultCols := (0, 2),
            SQLFetch := [(0, [{ ind := 4, value := some 42 },
              { ind := 2, data := some [104, 105] }])] }
          { id := 0, opt_ := { ip := "10.0.0.1" }, is_health_ := true }).result
            = .returned back_data))
    ∧ ((mysql.query (.tuple [.arithmetic .uint32_t, .string])
          "select id, name from t where id = ? and x = ?" [42]
          { mysql_stmt_param_count := 2, mysql_stmt_result_metadata := some 2 }
          { id := 0, ip_ := "10.0.0.1", is_health_ := true }).result
            = .thrown "param size do not match placeholder size"
      ∧ (sqlserver.query (.tuple [.arithmetic .uint32_t, .string])
          "select id, name from t where id = ? and x = ?" [42]
          { SQLNumParams := (0, 2), SQLNumResultCols := (0, 2) }
          { id := 0, opt_ := { ip := "10.0.0.1" }, is_health_ := true }).result
            = .thrown "param size do not match placeholder size") := by
  have h1 := C1_parameter_arity "select id, name from t where id = ?" [42] [42]
    (.tuple [.arithmetic .uint32_t, .string])
    { mysql_stmt_param_count := 1, mysql_stmt_result_metadata := some 2,
      mysql_stmt_fetch := [(0, [{ is_null := false, value := some 42 },
        { is_null := false, data := some [104, 105], length := some 2 }])] }
    { id := 0, ip_ := "10.0.0.1", is_health_ := true }
    (.tuple [.arithmetic .uint32_t, .string])
    { SQLNumParams := (0, 1), SQLNumResultCols := (0, 2),
      SQLFetch := [(0, [{ ind := 4, value := some 42 },
        { ind := 2, data := some [104, 105] }])] }
    { id := 0, opt_ := { ip := "10.0.0.1" }, is_health_ := true } 1 1 rfl rfl
    (fun _ => by unfold mysql.statement.succeeds; decide)
    rfl rfl (by norm_num)
    (fun _ => by
      simp [sqlserver.statement.succeeds, sqlserver.element_size, sqlserver.SQL_SUCCESS,
        sqlserver.SQL_NO_DATA, sqlserver.SQL_NULL_DATA])
  have h2 := C1_parameter_arity "select id, name from t where id = ? and x = ?" [42] [42]
    (.tuple [.arithmetic .uint32_t, .string])
    { mysql_stmt_param_count := 2, mysql_stmt_result_metadata := some 2 }
    { id := 0, ip_ := "10.0.0.1", is_health_ := true }
    (.tuple [.arithmetic .uint32_t, .string])
    { SQLNumParams := (0, 2), SQLNumResultCols := (0, 2) }
    { id := 0, opt_ := { ip := "10.0.0.1" }, is_health_ := true } 2 2 rfl rfl
    (fun h => absurd h (by decide)) rfl rfl (by norm_num) (fun h => absurd h (by decide))
  exact ⟨⟨h1.1.1, h1.2.1⟩, ⟨h2.1.1, h2.2.1⟩⟩

/-! ### C2 -/

/-- C2: for a non-void row shape `R` and a statement for which the driver reports `C`
columns after a successful prepare (the parameter count being right and the parameter
binding succeeding), `before_execute<R>` returns normally iff `C` is the arity of `R`: the
number of elements of a tuple, the number of members of a reflected struct, 1 for any other
type. Otherwise `query<R>` throws the column arity error of the shape and the execute step
is not called. Both for the MySQL and for the SQL Server connection. -/
theorem C2_column_arity {A B : Type} (sql : String) (args : List A) (args_s : List B)
    (Rm : ReturnType mysql.field_type) (dm : mysql.statement) (cm : mysql.connection)
    (Rs : ReturnType sqlserver.field_type) (ds : sqlserver.statement)
    (cs : sqlserver.connection) (Cm Cs : Nat)
    (hm_shape : Rm ≠ .void) (hs_shape : Rs ≠ .void)
    (hm_prepare : dm.mysql_stmt_prepare = 0)
    (hm_count : dm.mysql_stmt_param_count = args.length)
    (hm_columns : dm.mysql_stmt_result_metadata = some Cm)
    (hm_bind : dm.mysql_stmt_bind_param = 0)
    (hs_prepare : ds.SQLPrepare = sqlserver.SQL_SUCCESS)
    (hs_count : ds.SQLNumParams = (sqlserver.SQL_SUCCESS, (args_s.length : Int)))
    (hs_args : args_s.length < 2 ^ 15)
    (hs_columns : ds.SQLNumResultCols = (sqlserver.SQL_SUCCESS, (Cs : Int)))
    (hs_small : Cs < 2 ^ 15)
    (hs_bind : ∀ n, ds.SQLBindParameter n = sqlserver.SQL_SUCCESS) :
    (((mysql.before_execute Rm sql args dm cm).result = .returned () ↔
        Cm = (match Rm with
          | .tuple elements => elements.length
          | .reflection members => members.length
          | _ => 1))
      ∧ (Cm ≠ (match Rm with
          | .tuple elements => elements.length
          | .reflection members => members.length
          | _ => 1) →
        (mysql.query Rm sql args dm cm).result = .thrown (match Rm with
          | .tuple _ => "columns in the query do not match tuple element size"
          | .reflection _ => "columns in the query do not match struct element size"
          | _ => "columns size in the query must be 1")
        ∧ mysql.api.mysql_stmt_execute ∉ (mysql.query Rm sql args dm cm).calls))
    ∧ (((sqlserver.before_execute Rs sql args_s ds cs).result = .returned () ↔
        Cs = (match Rs with
          | .tuple elements => elements.length
          | .reflection members => members.length
          | _ => 1))
      ∧ (Cs ≠ (match Rs with
          | .tuple elements => elements.length
          | .reflection members => members.length
          | _ => 1) →
        (sqlserver.query Rs sql args_s ds cs).result = .thrown (match Rs with
          | .tuple _ => "columns in the query do not match tuple element size"
          | .reflection _ => "columns in the query do not match struct element size"
          | _ => "columns size in the query must be 1")
        ∧ sqlserver.api.SQLExecute ∉ (sqlserver.query Rs sql args_s ds cs).calls)) := by
  have hsz : to_size_t (args_s.length : Int) = args_s.length := to_size_t_natCast _ (by omega)
  have hcz : to_size_t (Cs : Int) = Cs := to_size_t_natCast _ (by omega)
  have hb := sqlserver.build_bind_params_ok ds hs_bind args_s 0
  constructor
  · cases Rm with
    | void => exact absurd rfl hm_shape
    | tuple es =>
      by_cases h : Cm = es.length
      · simp [mysql.query, mysql.before_execute, mysql.check_output_size, hm_prepare, hm_count,
          hm_columns, hm_bind, h]
        split <;> simp
      · simp [mysql.query, mysql.before_execute, mysql.check_output_size, hm_prepare, hm_count,
          hm_columns, hm_bind, h]
    | reflection es =>
      by_cases h : Cm = es.length
      · simp [mysql.query, mysql.before_execute, mysql.check_output_size, hm_prepare, hm_count,
          hm_columns, hm_bind, h]
        split <;> simp
      · simp [mysql.query, mysql.before_execute, mysql.check_output_size, hm_prepare, hm_count,
          hm_columns, hm_bind, h]
    | single t =>
      by_cases h : Cm = 1
      · simp [mysql.query, mysql.before_execute, mysql.check_output_size, hm_prepare, hm_count,
          hm_columns, hm_bind, h]
        split <;> simp
      · simp [mysql.query, mysql.before_execute, mysql.check_output_size, hm_prepare, hm_count,
          hm_columns, hm_bind, h]
  · cases Rs with
    | void => exact absurd rfl hs_shape
    | tuple es =>
      by_cases h : Cs = es.length
      · subst h
        simp [sqlserver.query, sqlserver.before_execute, sqlserver.check_output_size,
          hs_prepare, hs_count, hs_columns, hsz, hcz, hb]
      · simp [sqlserver.query, sqlserver.before_execute, sqlserver.check_output_size,
          hs_prepare, hs_count, hs_columns, hsz, hcz, hb, h]
    | reflection es =>
      by_cases h : Cs = es.length
      · subst h
        simp [sqlserver.query, sqlserver.before_execute, sqlserver.check_output_size,
          hs_prepare, hs_count, hs_columns, hsz, hcz, hb]
      · simp [sqlserver.query, sqlserver.before_execute, sqlserver.check_output_size,
          hs_prepare, hs_count, hs_columns, hsz, hcz, hb, h]
    | single t =>
      by_cases h : Cs = 1
      · simp [sqlserver.query, sqlserver.before_execute, sqlserver.check_output_size,
          hs_prepare, hs_count, hs_columns, hsz, hcz, hb, h]
      · have h' : ¬ (Cs : Int) = 1 := by exact_mod_cast h
        simp [sqlserver.query, sqlserver.before_execute, sqlserver.check_output_size,
          hs_prepare, hs_count, hs_columns, hsz, hcz, hb, h, h']

/-- C2 at concrete inputs: a MySQL statement with three columns queried as a tuple of two
elements is rejected before the execute step, a SQL Server statement with one column
queried as a single `int64_t` is accepted. -/
theorem C2_column_arity_witness :
    ((mysql.query (.tuple [.arithmetic .int32_t, .string]) "select a, b, c from t where id = ?"
          [42] { mysql_stmt_param_count := 1, mysql_stmt_result_metadata := some 3 }
          { id := 0, ip_ := "10.0.0.1", is_health_ := true }).result
        = .thrown "columns in the query do not match tuple element size"
      ∧ mysql.api.mysql_stmt_execute ∉
        (mysql.query (.tuple [.arithmetic .int32_t, .string])
          "select a, b, c from t where id = ?"
          [42] { mysql_stmt_param_count := 1, mysql_stmt_result_metadata := some 3 }
          { id := 0, ip_ := "10.0.0.1", is_health_ := true }).calls)
    ∧ (sqlserver.before_execute (.single (.arithmetic .int64_t))
          "select a, b, c from t where id = ?" [42]
          { SQLNumParams := (0, 1), SQLNumResultCols := (0, 1) }
          { id := 0, opt_ := { ip := "10.0.0.1" }, is_health_ := true }).result
        = .returned () := by
  have h := C2_column_arity "select a, b, c from t where id = ?" [42] [42]
    (.tuple [.arithmetic .int32_t, .string])
    { mysql_stmt_param_count := 1, mysql_stmt_result_metadata := some 3 }
    { id := 0, ip_ := "10.0.0.1", is_health_ := true }
    (.single (.arithmetic .int64_t))
    { SQLNumParams := (0, 1), SQLNumResultCols := (0, 1) }
    { id := 0, opt_ := { ip := "10.0.0.1" }, is_health_ := true } 3 1
    (by decide) (by decide) rfl rfl rfl rfl rfl rfl (by norm_num) rfl (by norm_num)
    (fun _ => rfl)
  exact ⟨h.1.2 (by decide), h.2.1.mpr rfl⟩

/-! ### C3 -/

/-- C3 fails on the code: `query<std::tuple<std::optional<int32_t>>>` over a result set of
two rows, the first NULL and the second 7 (the driver sets the NULL indicator for the first
row only and writes 7 in place for the second). Both connections return two rows whose
optional is empty: the second optional has no value although its storage holds the 7. -/
theorem C3_null_then_value_stays_empty :
    (mysql.query (.tuple [.optional_arithmetic .int32_t]) "select x from t" ([] : List Unit)
        { mysql_stmt_result_metadata := some 1,
          mysql_stmt_fetch := [(0, [{ is_null := true }]),
                               (0, [{ is_null := false, value := some 7 }])] }
        { id := 0, ip_ := "10.0.0.1", is_health_ := true }).result
      = .returned [[.optional_arithmetic .int32_t false 0],
                   [.optional_arithmetic .int32_t false 7]]
    ∧ (sqlserver.query (.tuple [.optional_arithmetic .int32_t]) "select x from t"
        ([] : List Unit)
        { SQLNumResultCols := (0, 1),
          SQLFetch := [(0, [{ ind := sqlserver.SQL_NULL_DATA }]),
                       (0, [{ ind := 4, value := some 7 }])] }
        { id := 0, opt_ := { ip := "10.0.0.1" }, is_health_ := true }).result
      = .returned [[.optional_arithmetic .int32_t false 0],
                   [.optional_arithmetic .int32_t false 7]]
    ∧ mysql.field.has_value (.optional_arithmetic .int32_t false 7) = false
    ∧ sqlserver.field.has_value (.optional_arithmetic .int32_t false 7) = false := by
  refine ⟨by decide, by decide, rfl, rfl⟩

/-! ### C4 -/

/-- C4 fails on the code: `query<std::tuple<std::optional<std::string>>>` over a result set
of two rows, the first "abc" and the second NULL (for which the driver sets the NULL
indicator and leaves buffer and length untouched). The MySQL connection returns "abc" for
the second row too, because `assign_result` does not look at the NULL flag of an optional
string; the SQL Server connection returns an engaged optional (holding the moved-from
string), because the optional of the previous row is never reset. In both the iterator
moved on by one. -/
theorem C4_null_string_not_empty :
    (mysql.query (.tuple [.optional_string]) "select name from t" ([] : List Unit)
        { mysql_stmt_result_metadata := some 1,
          mysql_stmt_fetch := [(0, [{ is_null := false, data := some [97, 98, 99],
                                      length := some 3 }]),
                               (0, [{ is_null := true }])] }
        { id := 0, ip_ := "10.0.0.1", is_health_ := true }).result
      = .returned [[.optional_string (some [97, 98, 99])],
                   [.optional_string (some [97, 98, 99])]]
    ∧ mysql.assign_result true (.optional_string none) [([97, 98, 99, 0], 3)] 0
      = some (.optional_string (some [97, 98, 99]), 1)
    ∧ (sqlserver.query (.tuple [.optional_string]) "select name from t" ([] : List Unit)
        { SQLNumResultCols := (0, 1),
          SQLFetch := [(0, [{ ind := 3, data := some [97, 98, 99] }]),
                       (0, [{ ind := sqlserver.SQL_NULL_DATA }])] }
        { id := 0, opt_ := { ip := "10.0.0.1" }, is_health_ := true }).result
      = .returned [[.optional_string (some [97, 98, 99])], [.optional_string (some [])]]
    ∧ sqlserver.assign_result (some sqlserver.SQL_NULL_DATA) (.optional_string (some []))
        [([97, 98, 99, 0], -1)] 0
      = some (.optional_string (some []), 1) := by
  refine ⟨by decide, by decide, by decide, by decide⟩

/-! ### C5 -/

/-- C5: a string-like element (`std::string`, `mysql_mediumtext` or an optional of these)
whose staging buffer is the one under the iterator, for which the driver reports the length
`L` (MySQL: through `MYSQL_BIND::length`; SQL Server: through the indicator, which is then not
`SQL_NULL_DATA`), with `L` not above the size of the buffer (itself at most the 16 MiB the
binder allocates): `assign_result` makes the element exactly the first `L` bytes of the
buffer, an optional being engaged, and moves the iterator on by one. -/
theorem C5_string_from_staging_buffer (is_field_null : Bool) (iter L : Nat)
    (old : List UInt8) (old_optional : Option (List UInt8))
    (bm : mysql.staging_buffers) (pm : List UInt8 × Nat)
    (bs : sqlserver.staging_buffers) (ps : List UInt8 × Int)
    (hm_buffer : bm[iter]? = some pm) (hm_length : pm.2 = L) (hm_fits : L ≤ pm.1.length)
    (hm_size : pm.1.length ≤ 16 * 1024 * 1024)
    (hs_buffer : bs[iter]? = some ps) (hs_fits : L ≤ ps.1.length)
    (hs_size : ps.1.length ≤ 16 * 1024 * 1024) :
    (mysql.assign_result is_field_null (.string old) bm iter
        = some (.string (pm.1.take L), iter + 1)
      ∧ mysql.assign_result is_field_null (.mediumtext old) bm iter
        = some (.mediumtext (pm.1.take L), iter + 1)
      ∧ mysql.assign_result is_field_null (.optional_string old_optional) bm iter
        = some (.optional_string (some (pm.1.take L)), iter + 1)
      ∧ mysql.assign_result is_field_null (.optional_mediumtext old_optional) bm iter
        = some (.optional_mediumtext (some (pm.1.take L)), iter + 1))
    ∧ (sqlserver.assign_result (some (L : Int)) (.string old) bs iter
        = some (.string (ps.1.take L), iter + 1)
      ∧ sqlserver.assign_result (some (L : Int)) (.optional_string old_optional) bs iter
        = some (.optional_string (some (ps.1.take L)), iter + 1)) := by
  have hne : pm.2 ≠ ulong_minus_one := by
    rw [hm_length]
    have : L ≤ 16 * 1024 * 1024 := le_trans hm_fits hm_size
    unfold ulong_minus_one
    omega
  have hsm : string_from pm.1 pm.2 = some (pm.1.take L) := by
    rw [string_from_eq, hm_length, if_pos hm_fits]
  have hnull : (L : Int) ≠ sqlserver.SQL_NULL_DATA := by
    unfold sqlserver.SQL_NULL_DATA
    omega
  have hsz : to_size_t (L : Int) = L :=
    to_size_t_natCast L (by have : L ≤ 16 * 1024 * 1024 := le_trans hs_fits hs_size; omega)
  have hss : string_from ps.1 (to_size_t (L : Int)) = some (ps.1.take L) := by
    rw [string_from_eq, hsz, if_pos hs_fits]
  refine ⟨⟨?_, ?_, ?_, ?_⟩, ?_, ?_⟩
  · simp [mysql.assign_result, hm_buffer, hne, hsm]
  · simp [mysql.assign_result, hm_buffer, hne, hsm]
  · simp [mysql.assign_result, hm_buffer, hne, hsm]
  · simp [mysql.assign_result, hm_buffer, hne, hsm]
  · simp [sqlserver.assign_result, hs_buffer, hnull, hss]
  · simp [sqlserver.assign_result, hs_buffer, hnull, hss]

/-- C5 at a concrete input: freshly allocated staging buffers of 65536 bytes into which the
driver has written nothing and for which it reports the length 0 (an empty string that is
not NULL): a string element becomes the empty string and an optional string becomes an
engaged optional holding the empty string. -/
theorem C5_string_from_staging_buffer_witness :
    (mysql.assign_result false (.string [120]) [(List.replicate 65536 0, 0)] 0
        = some (.string [], 1)
      ∧ mysql.assign_result false (.optional_string none) [(List.replicate 65536 0, 0)] 0
        = some (.optional_string (some []), 1))
    ∧ (sqlserver.assign_result (some 0) (.string [120]) [(List.replicate 65536 0, -1)] 0
        = some (.string [], 1)
      ∧ sqlserver.assign_result (some 0) (.optional_string none)
          [(List.replicate 65536 0, -1)] 0
        = some (.optional_string (some []), 1)) := by
  have h := C5_string_from_staging_buffer false 0 0 [120] none
    [(List.replicate 65536 0, 0)] (List.replicate 65536 0, 0)
    [(List.replicate 65536 0, -1)] (List.replicate 65536 0, -1)
    rfl rfl (Nat.zero_le _) (by rw [List.length_replicate]; norm_num)
    rfl (Nat.zero_le _) (by rw [List.length_replicate]; norm_num)
  exact ⟨⟨h.1.1, h.1.2.2.1⟩, ⟨h.2.1, h.2.2⟩⟩

namespace mysql

/-! ### Maps of queues -/

theorem pool_map.find_append (m1 m2 : pool_map) (X : String) :
    pool_map.find (m1 ++ m2) X = (pool_map.find m1 X).orElse fun _ => pool_map.find m2 X := by
  induction m1 with
  | nil => simp [pool_map.find]
  | cons e m1 ih =>
    obtain ⟨k, q⟩ := e
    by_cases h : k = X
    · simp [pool_map.find, h]
    · simp [pool_map.find, h, ih]

theorem pool_map.find_update (m : pool_map) (ip : String) (f : queue → queue) (X : String) :
    pool_map.find (pool_map.update m ip f) X
      = if ip = X then (pool_map.find m X).map f else pool_map.find m X := by
  induction m with
  | nil => simp [pool_map.find, pool_map.update]
  | cons e m ih =>
    obtain ⟨k, q⟩ := e
    by_cases h : k = ip
    · by_cases hX : ip = X
      · simp [pool_map.find, pool_map.update, h, hX]
      · have : ¬ k = X := by rw [h]; exact hX
        simp [pool_map.find, pool_map.update, h, hX]
    · by_cases hk : k = X
      · subst hk
        have h1 : ¬ ip = k := fun e => h e.symm
        simp [pool_map.find, pool_map.update, h, h1]
      · simp [pool_map.find, pool_map.update, h, hk, ih]

theorem pool_map.find_emplace (m : pool_map) (ip : String) (q : queue) (X : String) :
    pool_map.find (pool_map.emplace m ip q) X
      = (pool_map.find m X).orElse fun _ => if ip = X then some q else none := by
  unfold pool_map.emplace
  cases h : pool_map.find m ip with
  | some v =>
    by_cases hX : ip = X
    · subst hX; simp [h]
    · cases pool_map.find m X <;> simp [hX]
  | none =>
    rw [pool_map.find_append]
    by_cases hX : ip = X
    · simp [pool_map.find, hX]
    · simp [pool_map.find, hX]

theorem pool_map.find_subscript (m : pool_map) (ip : String) (X : String) :
    pool_map.find (pool_map.subscript m ip) X
      = (pool_map.find m X).orElse fun _ => if ip = X then some [] else none :=
  pool_map.find_emplace m ip [] X

end mysql

namespace mysql

theorem update_node_find_of_ne (st : reconciliation) (node : node_info) (X : String)
    (hX : node.ip ≠ X) :
    (update_node st node).master_pool.find X = st.master_pool.find X
      ∧ (update_node st node).slave_pool.find X = st.slave_pool.find X
      ∧ (update_node st node).master_pool_.find X = st.master_pool_.find X
      ∧ (update_node st node).slave_pool_.find X = st.slave_pool_.find X := by
  have e1 : ∀ (m : pool_map) (q : queue), (m.emplace node.ip q).find X = m.find X := by
    intro m q
    rw [pool_map.find_emplace]
    cases m.find X <;> simp [hX]
  have e2 : ∀ (m : pool_map), (m.subscript node.ip).find X = m.find X := fun m => e1 m []
  have e3 : ∀ (m : pool_map) (f : queue → queue), (m.update node.ip f).find X = m.find X := by
    intro m f
    rw [pool_map.find_update, if_neg hX]
  unfold update_node
  split
  · split
    · exact ⟨e1 _ _, rfl, e3 _ _, rfl⟩
    · split
      · exact ⟨e1 _ _, rfl, rfl, e3 _ _⟩
      · exact ⟨e2 _, rfl, rfl, rfl⟩
  · split
    · exact ⟨rfl, e1 _ _, rfl, e3 _ _⟩
    · split
      · exact ⟨rfl, e1 _ _, e3 _ _, rfl⟩
      · exact ⟨rfl, e2 _, rfl, rfl⟩

theorem update_node_conserves (st : reconciliation) (node : node_info) (X : String)
    (Q : List connection) (h : st.conserves X Q) : (update_node st node).conserves X Q := by
  by_cases hX : node.ip = X
  · subst hX
    unfold reconciliation.conserves at *
    unfold update_node
    obtain ⟨h1, h2, h3⟩ := h
    cases hm : st.master_pool_.find node.ip <;> cases hs : st.slave_pool_.find node.ip <;>
      cases hnm : st.master_pool.find node.ip <;> cases hns : st.slave_pool.find node.ip <;>
      split <;>
      simp_all [pool_map.find_update, pool_map.find_emplace, pool_map.find_subscript]
  · obtain ⟨e1, e2, e3, e4⟩ := update_node_find_of_ne st node X hX
    unfold reconciliation.conserves at *
    rw [e1, e2, e3, e4]
    exact h


theorem foldl_update_node_conserves (nodes : List node_info) (st : reconciliation)
    (X : String) (Q : List connection) (h : st.conserves X Q) :
    (nodes.foldl update_node st).conserves X Q := by
  induction nodes generalizing st with
  | nil => exact h
  | cons node nodes ih => exact ih _ (update_node_conserves st node X Q h)

theorem update_node_key_self (st : reconciliation) (node : node_info) :
    ((update_node st node).master_pool.find node.ip).isSome
      ∨ ((update_node st node).slave_pool.find node.ip).isSome := by
  unfold update_node
  split
  · left
    split
    · rw [pool_map.find_emplace]; cases st.master_pool.find node.ip <;> simp
    · split
      · rw [pool_map.find_emplace]; cases st.master_pool.find node.ip <;> simp
      · rw [pool_map.find_subscript]; cases st.master_pool.find node.ip <;> simp
  · right
    split
    · rw [pool_map.find_emplace]; cases st.slave_pool.find node.ip <;> simp
    · split
      · rw [pool_map.find_emplace]; cases st.slave_pool.find node.ip <;> simp
      · rw [pool_map.find_subscript]; cases st.slave_pool.find node.ip <;> simp

theorem update_node_key_mono (st : reconciliation) (node : node_info) (X : String)
    (h : (st.master_pool.find X).isSome ∨ (st.slave_pool.find X).isSome) :
    ((update_node st node).master_pool.find X).isSome
      ∨ ((update_node st node).slave_pool.find X).isSome := by
  have e1 : ∀ (m : pool_map) (q : queue), (m.find X).isSome →
      ((m.emplace node.ip q).find X).isSome := by
    intro m q hm
    rw [pool_map.find_emplace]
    cases hf : m.find X with
    | none => rw [hf] at hm; exact absurd hm (by simp)
    | some v => simp
  have e2 : ∀ (m : pool_map), (m.find X).isSome → ((m.subscript node.ip).find X).isSome :=
    fun m => e1 m []
  unfold update_node
  split
  · split
    · exact h.imp (e1 _ _) id
    · split
      · exact h.imp (e1 _ _) id
      · exact h.imp (e2 _) id
  · split
    · exact h.imp id (e1 _ _)
    · split
      · exact h.imp id (e1 _ _)
      · exact h.imp id (e2 _)

theorem foldl_update_node_key_mono (nodes : List node_info) (st : reconciliation) (X : String)
    (h : (st.master_pool.find X).isSome ∨ (st.slave_pool.find X).isSome) :
    ((nodes.foldl update_node st).master_pool.find X).isSome
      ∨ ((nodes.foldl update_node st).slave_pool.find X).isSome := by
  induction nodes generalizing st with
  | nil => exact h
  | cons node nodes ih => exact ih _ (update_node_key_mono st node X h)

theorem foldl_update_node_key (nodes : List node_info) (st : reconciliation) (X : String)
    (h : X ∈ nodes.map fun node => node.ip) :
    ((nodes.foldl update_node st).master_pool.find X).isSome
      ∨ ((nodes.foldl update_node st).slave_pool.find X).isSome := by
  induction nodes generalizing st with
  | nil => simp at h
  | cons node nodes ih =>
    rw [List.map_cons, List.mem_cons] at h
    rcases h with h | h
    · rw [List.foldl_cons]
      exact foldl_update_node_key_mono nodes _ X (by rw [h]; exact update_node_key_self st node)
    · exact ih _ h

/-! ### C6 -/

/-- C6 fails on the code: a host that the snapshot lists twice, as PRIMARY and as SECONDARY
(two members on one host), is a key of both maps. A connection borrowed for the master and
returned is enqueued under that ip (in `slave_pool_`, which `return_back` searches first);
reconciling with a next snapshot that still lists the ip, as PRIMARY only, moves the empty
master queue and drops `slave_pool_` with the connection. -/
theorem C6_same_ip_in_both_maps_dropped :
    "10.0.0.1" ∈ ([⟨"10.0.0.1", "3306", "PRIMARY"⟩, ⟨"10.0.0.1", "3307", "SECONDARY"⟩]
        : List node_info).map (fun node => node.ip)
    ∧ "10.0.0.1" ∈ ([⟨"10.0.0.1", "3306", "PRIMARY"⟩] : List node_info).map (fun node => node.ip)
    ∧ (get_connection .master none (update_cluster_connections
          [⟨"10.0.0.1", "3306", "PRIMARY"⟩, ⟨"10.0.0.1", "3307", "SECONDARY"⟩] {})).2
        = .returned { conn_ := some { id := 0, ip_ := "10.0.0.1", is_health_ := true } }
    ∧ enqueued (connection_guard.destroy .cluster
          { conn_ := some { id := 0, ip_ := "10.0.0.1", is_health_ := true } }
          (get_connection .master none (update_cluster_connections
            [⟨"10.0.0.1", "3306", "PRIMARY"⟩, ⟨"10.0.0.1", "3307", "SECONDARY"⟩] {})).1)
          "10.0.0.1"
        = [{ id := 0, ip_ := "10.0.0.1", is_health_ := true }]
    ∧ enqueued (update_cluster_connections [⟨"10.0.0.1", "3306", "PRIMARY"⟩]
          (connection_guard.destroy .cluster
            { conn_ := some { id := 0, ip_ := "10.0.0.1", is_health_ := true } }
            (get_connection .master none (update_cluster_connections
              [⟨"10.0.0.1", "3306", "PRIMARY"⟩, ⟨"10.0.0.1", "3307", "SECONDARY"⟩] {})).1))
          "10.0.0.1"
        = [] := by
  refine ⟨by decide, by decide, by decide, by decide, by decide⟩

/-- The reconciliation keeps the queue of an ip of the snapshot that is not a key of both
maps: the connections enqueued under it before are the connections enqueued under it
afterwards, in the same order. -/
theorem enqueued_update_cluster_connections (s : connection_pool)
    (changed_cluster : List node_info) (ip : String)
    (hin : ip ∈ changed_cluster.map fun node => node.ip)
    (hone : ¬ ((s.master_pool_.find ip).isSome ∧ (s.slave_pool_.find ip).isSome)) :
    enqueued (update_cluster_connections changed_cluster s) ip = enqueued s ip := by
  have h0 : reconciliation.conserves
      { master_pool_ := s.master_pool_, slave_pool_ := s.slave_pool_ } ip (enqueued s ip) := by
    refine ⟨?_, hone, ?_⟩
    · simp [pool_map.find, enqueued]
    · simp [pool_map.find]
  obtain ⟨h1, _, h3⟩ := foldl_update_node_conserves changed_cluster _ ip _ h0
  obtain ⟨e1, e2⟩ := h3 (foldl_update_node_key changed_cluster _ ip hin)
  rw [e1, e2] at h1
  simpa [enqueued, update_cluster_connections] using h1

theorem guard_or_create_pool (conn : Option connection) (node : node_info)
    (connect_error : Option String) (s : connection_pool) :
    (guard_or_create conn node connect_error s).1 = s
      ∨ (guard_or_create conn node connect_error s).1 = { s with created := s.created + 1 } := by
  unfold guard_or_create create_connection
  cases conn with
  | none => cases connect_error <;> simp
  | some c =>
    by_cases h : c.is_health = true
    · simp [h]
    · cases connect_error <;> simp [h]

theorem pool_map.isSome_find_update (m : pool_map) (ip : String) (f : queue → queue)
    (X : String) : ((m.update ip f).find X).isSome = (m.find X).isSome := by
  rw [pool_map.find_update]
  split
  · cases m.find X <;> rfl
  · rfl

theorem guard_or_create_maps (conn : Option connection) (node : node_info)
    (connect_error : Option String) (s : connection_pool) :
    (guard_or_create conn node connect_error s).1.master_pool_ = s.master_pool_
      ∧ (guard_or_create conn node connect_error s).1.slave_pool_ = s.slave_pool_ := by
  rcases guard_or_create_pool conn node connect_error s with h | h <;> rw [h] <;> exact ⟨rfl, rfl⟩

theorem get_connection_keys (type : conn_type) (connect_error : Option String)
    (s : connection_pool) (X : String) :
    ((get_connection type connect_error s).1.master_pool_.find X).isSome
        = (s.master_pool_.find X).isSome
      ∧ ((get_connection type connect_error s).1.slave_pool_.find X).isSome
        = (s.slave_pool_.find X).isSome := by
  cases type with
  | general =>
    obtain ⟨h1, h2⟩ := guard_or_create_maps s.pool_.head? s.node_ connect_error
      { s with pool_ := s.pool_.tail }
    simp only [get_connection, h1, h2]
    exact ⟨trivial, trivial⟩
  | master =>
    unfold get_connection
    simp only
    split
    · exact ⟨rfl, rfl⟩
    · split
      · exact ⟨rfl, rfl⟩
      · split
        · exact ⟨rfl, rfl⟩
        · rename_i node _ _ q _
          obtain ⟨h1, h2⟩ := guard_or_create_maps q.head? node connect_error
            { s with master_fetch_times_ := (s.master_fetch_times_ + 1) % 2 ^ 64,
                     master_pool_ := s.master_pool_.update node.ip List.tail }
          rw [h1, h2]
          exact ⟨pool_map.isSome_find_update _ _ _ _, rfl⟩
  | slave =>
    unfold get_connection
    simp only
    split
    · exact ⟨rfl, rfl⟩
    · split
      · exact ⟨rfl, rfl⟩
      · split
        · exact ⟨rfl, rfl⟩
        · rename_i node _ _ q _
          obtain ⟨h1, h2⟩ := guard_or_create_maps q.head? node connect_error
            { s with slave_fetch_times_ := (s.slave_fetch_times_ + 1) % 2 ^ 64,
                     slave_pool_ := s.slave_pool_.update node.ip List.tail }
          rw [h1, h2]
          exact ⟨rfl, pool_map.isSome_find_update _ _ _ _⟩

theorem return_back_keys (Model : model) (p : connection) (s : connection_pool) (X : String) :
    ((return_back Model p s).1.master_pool_.find X).isSome = (s.master_pool_.find X).isSome
      ∧ ((return_back Model p s).1.slave_pool_.find X).isSome
        = (s.slave_pool_.find X).isSome := by
  cases Model with
  | single => exact ⟨rfl, rfl⟩
  | cluster =>
    unfold return_back
    simp only
    split
    · exact ⟨rfl, pool_map.isSome_find_update _ _ _ _⟩
    · split
      · exact ⟨pool_map.isSome_find_update _ _ _ _, rfl⟩
      · exact ⟨rfl, rfl⟩

theorem pool_calls_keys (Model : model) (calls : List pool_call) (s : connection_pool)
    (X : String) :
    ((pool_calls Model calls s).master_pool_.find X).isSome = (s.master_pool_.find X).isSome
      ∧ ((pool_calls Model calls s).slave_pool_.find X).isSome
        = (s.slave_pool_.find X).isSome := by
  induction calls generalizing s with
  | nil => exact ⟨rfl, rfl⟩
  | cons call calls ih =>
    cases call with
    | get_connection type connect_error =>
      obtain ⟨h1, h2⟩ := get_connection_keys type connect_error s X
      obtain ⟨k1, k2⟩ := ih (get_connection type connect_error s).1
      exact ⟨k1.trans h1, k2.trans h2⟩
    | return_back p =>
      obtain ⟨h1, h2⟩ := return_back_keys Model p s X
      obtain ⟨k1, k2⟩ := ih (return_back Model p s).1
      exact ⟨k1.trans h1, k2.trans h2⟩

theorem update_node_key_role (st : reconciliation) (node : node_info) (X : String) :
    (((update_node st node).master_pool.find X).isSome →
        (st.master_pool.find X).isSome ∨ (node.ip = X ∧ node.role = "PRIMARY"))
      ∧ (((update_node st node).slave_pool.find X).isSome →
        (st.slave_pool.find X).isSome ∨ (node.ip = X ∧ node.role ≠ "PRIMARY")) := by
  have e1 : ∀ (m : pool_map) (q : queue), ((m.emplace node.ip q).find X).isSome →
      (m.find X).isSome ∨ node.ip = X := by
    intro m q h
    rw [pool_map.find_emplace] at h
    cases hf : m.find X with
    | some v => simp
    | none =>
      rw [hf] at h
      by_cases hX : node.ip = X
      · exact Or.inr hX
      · simp [hX] at h
  have e2 : ∀ (m : pool_map), ((m.subscript node.ip).find X).isSome →
      (m.find X).isSome ∨ node.ip = X := fun m => e1 m []
  unfold update_node
  split
  · rename_i hrole
    split
    · exact ⟨fun h => (e1 _ _ h).imp id fun hX => ⟨hX, hrole⟩, fun h => Or.inl h⟩
    · split
      · exact ⟨fun h => (e1 _ _ h).imp id fun hX => ⟨hX, hrole⟩, fun h => Or.inl h⟩
      · exact ⟨fun h => (e2 _ h).imp id fun hX => ⟨hX, hrole⟩, fun h => Or.inl h⟩
  · rename_i hrole
    split
    · exact ⟨fun h => Or.inl h, fun h => (e1 _ _ h).imp id fun hX => ⟨hX, hrole⟩⟩
    · split
      · exact ⟨fun h => Or.inl h, fun h => (e1 _ _ h).imp id fun hX => ⟨hX, hrole⟩⟩
      · exact ⟨fun h => Or.inl h, fun h => (e2 _ h).imp id fun hX => ⟨hX, hrole⟩⟩

theorem foldl_update_node_key_role (nodes : List node_info) (st : reconciliation) (X : String) :
    (((nodes.foldl update_node st).master_pool.find X).isSome →
        (st.master_pool.find X).isSome ∨ ∃ n ∈ nodes, n.ip = X ∧ n.role = "PRIMARY")
      ∧ (((nodes.foldl update_node st).slave_pool.find X).isSome →
        (st.slave_pool.find X).isSome ∨ ∃ n ∈ nodes, n.ip = X ∧ n.role ≠ "PRIMARY") := by
  induction nodes generalizing st with
  | nil => exact ⟨fun h => Or.inl h, fun h => Or.inl h⟩
  | cons node nodes ih =>
    obtain ⟨h1, h2⟩ := ih (update_node st node)
    obtain ⟨k1, k2⟩ := update_node_key_role st node X
    rw [List.foldl_cons]
    constructor
    · intro h
      rcases h1 h with h | ⟨n, hn, hX⟩
      · rcases k1 h with h | h
        · exact Or.inl h
        · exact Or.inr ⟨node, by simp, h⟩
      · exact Or.inr ⟨n, by simp [hn], hX⟩
    · intro h
      rcases h2 h with h | ⟨n, hn, hX⟩
      · rcases k2 h with h | h
        · exact Or.inl h
        · exact Or.inr ⟨node, by simp, h⟩
      · exact Or.inr ⟨n, by simp [hn], hX⟩

theorem update_cluster_connections_key_role (S : List node_info) (s : connection_pool)
    (X : String) :
    (((update_cluster_connections S s).master_pool_.find X).isSome →
        ∃ n ∈ S, n.ip = X ∧ n.role = "PRIMARY")
      ∧ (((update_cluster_connections S s).slave_pool_.find X).isSome →
        ∃ n ∈ S, n.ip = X ∧ n.role ≠ "PRIMARY") := by
  obtain ⟨h1, h2⟩ := foldl_update_node_key_role S
    { master_pool_ := s.master_pool_, slave_pool_ := s.slave_pool_ } X
  constructor
  · intro h
    rcases h1 h with h | h
    · simp [pool_map.find] at h
    · exact h
  · intro h
    rcases h2 h with h | h
    · simp [pool_map.find] at h
    · exact h

/-- C6 as amended: for every pool state reached by reconciling with a snapshot `S1` followed
by any `get_connection` / `return_back` calls, and every next snapshot `S2`, for every ip
that occurs in `S2` and that `S1` does not list both with role PRIMARY and with another
role: the connections enqueued under that ip in `master_pool_` or `slave_pool_` before
reconciling with `S2` are exactly the connections enqueued under it afterwards, in the same
order (also when the role of the node flipped and the queue moved to the other map). -/
theorem C6_queues_of_surviving_ip_kept (s0 : connection_pool) (S1 : List node_info)
    (calls : List pool_call) (S2 : List node_info) (ip : String)
    (hin : ip ∈ S2.map fun node => node.ip)
    (hone : ¬ ∃ a ∈ S1, ∃ b ∈ S1,
      a.ip = ip ∧ a.role = "PRIMARY" ∧ b.ip = ip ∧ b.role ≠ "PRIMARY") :
    enqueued (update_cluster_connections S2
        (pool_calls .cluster calls (update_cluster_connections S1 s0))) ip
      = enqueued (pool_calls .cluster calls (update_cluster_connections S1 s0)) ip := by
  apply enqueued_update_cluster_connections _ _ _ hin
  intro hboth
  obtain ⟨k1, k2⟩ := pool_calls_keys .cluster calls (update_cluster_connections S1 s0) ip
  rw [k1, k2] at hboth
  obtain ⟨r1, r2⟩ := update_cluster_connections_key_role S1 s0 ip
  obtain ⟨a, ha, ha1, ha2⟩ := r1 hboth.1
  obtain ⟨b, hb, hb1, hb2⟩ := r2 hboth.2
  exact hone ⟨a, ha, b, hb, ha1, ha2, hb1, hb2⟩

/-- C6 (amended) at a concrete input: one PRIMARY and one SECONDARY; a connection to the
SECONDARY is borrowed and returned; the next snapshot lists the SECONDARY as the only
PRIMARY. Its queue, with the connection, is found under its ip afterwards. -/
theorem C6_queues_of_surviving_ip_kept_witness :
    enqueued (update_cluster_connections [⟨"10.0.0.2", "3306", "PRIMARY"⟩]
        (pool_calls .cluster
          [.get_connection .slave none,
           .return_back { id := 0, ip_ := "10.0.0.2", is_health_ := true }]
          (update_cluster_connections
            [⟨"10.0.0.1", "3306", "PRIMARY"⟩, ⟨"10.0.0.2", "3306", "SECONDARY"⟩] {})))
        "10.0.0.2"
      = [{ id := 0, ip_ := "10.0.0.2", is_health_ := true }] :=
  C6_queues_of_surviving_ip_kept {}
    [⟨"10.0.0.1", "3306", "PRIMARY"⟩, ⟨"10.0.0.2", "3306", "SECONDARY"⟩]
    [.get_connection .slave none,
     .return_back { id := 0, ip_ := "10.0.0.2", is_health_ := true }]
    [⟨"10.0.0.2", "3306", "PRIMARY"⟩] "10.0.0.2" (by decide) (by decide)

end mysql

/-! ### Round robin -/

theorem countP_range_eq_count (p : Nat → Prop) [DecidablePred p] (n : Nat) :
    (List.range n).countP (fun k => decide (p k)) = Nat.count p n := by
  induction n with
  | zero => simp
  | succ n ih =>
    rw [List.range_succ, List.countP_append, ih, Nat.count_succ]
    by_cases h : p n <;> simp [h]

theorem ceil_div_of_mod_ne_zero (T R : Nat) (hR : 0 < R) (h : T % R ≠ 0) :
    (T + R - 1) / R = T / R + 1 := by
  have h1 : T = R * (T / R) + T % R := (Nat.div_add_mod T R).symm
  have h2 : T % R < R := Nat.mod_lt T hR
  have h3 : T + R - 1 = (T % R - 1) + R * (T / R + 1) := by
    rw [Nat.mul_add, Nat.mul_one]; omega
  rw [h3, Nat.add_mul_div_left _ _ hR, Nat.div_eq_of_lt (by omega)]
  omega

theorem round_robin_count (a R T j : Nat) (hR : 0 < R) (hj : j < R) :
    List.count j ((List.range T).map fun k => (a + k) % R) = T / R
      ∨ List.count j ((List.range T).map fun k => (a + k) % R) = (T + R - 1) / R := by
  have hcount : List.count j ((List.range T).map fun k => (a + k) % R)
      = Nat.count (fun k => k ≡ j + (R - a % R) [MOD R]) T := by
    rw [← countP_range_eq_count, List.count, List.countP_map]
    congr 1
    funext k
    simp only [Function.comp]
    rw [Bool.eq_iff_iff, beq_iff_eq, decide_eq_true_eq]
    have ha : a % R < R := Nat.mod_lt a hR
    constructor
    · intro h
      unfold Nat.ModEq
      have : (a + k) % R = j % R := by rw [h, Nat.mod_eq_of_lt hj]
      have h4 : (a % R + k) % R = j % R := by rw [← this, Nat.add_mod, Nat.mod_mod, ← Nat.add_mod]
      have h5 : k % R = (j + (R - a % R)) % R := by
        have e1 : (a % R + k + (R - a % R)) % R = (j + (R - a % R)) % R :=
          Nat.ModEq.add_right _ h4
        have e2 : a % R + k + (R - a % R) = k + R := by omega
        rw [e2, Nat.add_mod_right] at e1
        exact e1
      exact h5
    · intro h
      unfold Nat.ModEq at h
      have e1 : (k + a % R) % R = (j + (R - a % R) + a % R) % R := Nat.ModEq.add_right _ h
      have e2 : j + (R - a % R) + a % R = j + R := by omega
      rw [e2, Nat.add_mod_right, Nat.mod_eq_of_lt hj] at e1
      rw [← e1, Nat.add_comm k, Nat.add_mod a k, Nat.add_mod (a % R) k, Nat.mod_mod]
  rw [hcount, Nat.count_modEq_card T hR]
  by_cases h0 : T % R = 0
  · left
    rw [h0]
    simp
  · split
    · right
      rw [ceil_div_of_mod_ne_zero T R hR h0]
    · left
      rfl

namespace mysql

theorem get_connection_master_counters (connect_error : Option String) (s : connection_pool) :
    (get_connection .master connect_error s).1.master_fetch_times_
        = (s.master_fetch_times_ + 1) % 2 ^ 64
      ∧ (get_connection .master connect_error s).1.masters_count_ = s.masters_count_ := by
  unfold get_connection
  simp only
  split
  · exact ⟨rfl, rfl⟩
  · split
    · exact ⟨rfl, rfl⟩
    · split
      · exact ⟨rfl, rfl⟩
      · rename_i node _ _ q _
        rcases guard_or_create_pool q.head? node connect_error
          { s with master_fetch_times_ := (s.master_fetch_times_ + 1) % 2 ^ 64,
                   master_pool_ := s.master_pool_.update node.ip List.tail } with h | h
        · rw [h]; exact ⟨rfl, rfl⟩
        · rw [h]; exact ⟨rfl, rfl⟩

theorem get_connection_slave_counters (connect_error : Option String) (s : connection_pool) :
    (get_connection .slave connect_error s).1.slave_fetch_times_
        = (s.slave_fetch_times_ + 1) % 2 ^ 64
      ∧ (get_connection .slave connect_error s).1.slaves_count_ = s.slaves_count_ := by
  unfold get_connection
  simp only
  split
  · exact ⟨rfl, rfl⟩
  · split
    · exact ⟨rfl, rfl⟩
    · split
      · exact ⟨rfl, rfl⟩
      · rename_i node _ _ q _
        rcases guard_or_create_pool q.head? node connect_error
          { s with slave_fetch_times_ := (s.slave_fetch_times_ + 1) % 2 ^ 64,
                   slave_pool_ := s.slave_pool_.update node.ip List.tail } with h | h
        · rw [h]; exact ⟨rfl, rfl⟩
        · rw [h]; exact ⟨rfl, rfl⟩

theorem get_connections_master_indices (connects : List (Option String)) (s : connection_pool)
    (h : s.master_fetch_times_ + connects.length < 2 ^ 64) :
    (get_connections .master connects s).2.map Prod.fst
      = (List.range connects.length).map
          fun k => (s.master_fetch_times_ + 1 + k) % s.masters_count_ := by
  induction connects generalizing s with
  | nil => rfl
  | cons e connects ih =>
    obtain ⟨h1, h2⟩ := get_connection_master_counters e s
    rw [List.length_cons] at h
    have hlt : (s.master_fetch_times_ + 1) % 2 ^ 64 = s.master_fetch_times_ + 1 :=
      Nat.mod_eq_of_lt (by omega)
    rw [hlt] at h1
    have ih1 := ih (get_connection .master e s).1 (by rw [h1]; omega)
    rw [h1, h2] at ih1
    simp only [get_connections, List.map_cons, List.length_cons, List.range_succ_eq_map,
      List.map_map]
    rw [ih1]
    simp only [master_index, hlt, Nat.add_zero, List.cons.injEq, true_and]
    apply List.map_congr_left
    intro k _
    simp only [Function.comp, Nat.succ_eq_add_one]
    congr 1
    omega

theorem get_connections_slave_indices (connects : List (Option String)) (s : connection_pool)
    (h : s.slave_fetch_times_ + connects.length < 2 ^ 64) :
    (get_connections .slave connects s).2.map Prod.fst
      = (List.range connects.length).map
          fun k => (s.slave_fetch_times_ + 1 + k) % s.slaves_count_ := by
  induction connects generalizing s with
  | nil => rfl
  | cons e connects ih =>
    obtain ⟨h1, h2⟩ := get_connection_slave_counters e s
    rw [List.length_cons] at h
    have hlt : (s.slave_fetch_times_ + 1) % 2 ^ 64 = s.slave_fetch_times_ + 1 :=
      Nat.mod_eq_of_lt (by omega)
    rw [hlt] at h1
    have ih1 := ih (get_connection .slave e s).1 (by rw [h1]; omega)
    rw [h1, h2] at ih1
    simp only [get_connections, List.map_cons, List.length_cons, List.range_succ_eq_map,
      List.map_map]
    rw [ih1]
    simp only [slave_index, hlt, Nat.add_zero, List.cons.injEq, true_and]
    apply List.map_congr_left
    intro k _
    simp only [Function.comp, Nat.succ_eq_add_one]
    congr 1
    omega


end mysql

/-! ### C8 -/

/-- C8: in a cluster pool state with `masters_count_ == 0`, `get_connection<master>` throws
"mysql cluster no master node found now"; the only member it changes is the fetch counter,
so no queue is popped and no connection is created. Symmetrically `get_connection<slave>`
throws "mysql cluster no slave node found now" when `slaves_count_ == 0`. -/
theorem C8_no_node_of_role (sm ss : mysql.connection_pool) (connect_error : Option String)
    (hm : sm.masters_count_ = 0) (hs : ss.slaves_count_ = 0) :
    (mysql.get_connection .master connect_error sm
        = ({ sm with master_fetch_times_ := (sm.master_fetch_times_ + 1) % 2 ^ 64 },
           .thrown "mysql cluster no master node found now")
      ∧ (mysql.get_connection .master connect_error sm).1.master_pool_ = sm.master_pool_
      ∧ (mysql.get_connection .master connect_error sm).1.slave_pool_ = sm.slave_pool_
      ∧ (mysql.get_connection .master connect_error sm).1.pool_ = sm.pool_
      ∧ (mysql.get_connection .master connect_error sm).1.created = sm.created)
    ∧ (mysql.get_connection .slave connect_error ss
        = ({ ss with slave_fetch_times_ := (ss.slave_fetch_times_ + 1) % 2 ^ 64 },
           .thrown "mysql cluster no slave node found now")
      ∧ (mysql.get_connection .slave connect_error ss).1.master_pool_ = ss.master_pool_
      ∧ (mysql.get_connection .slave connect_error ss).1.slave_pool_ = ss.slave_pool_
      ∧ (mysql.get_connection .slave connect_error ss).1.pool_ = ss.pool_
      ∧ (mysql.get_connection .slave connect_error ss).1.created = ss.created) := by
  have h1 : mysql.get_connection .master connect_error sm
      = ({ sm with master_fetch_times_ := (sm.master_fetch_times_ + 1) % 2 ^ 64 },
         .thrown "mysql cluster no master node found now") := by
    unfold mysql.get_connection
    simp only [hm, if_true]
  have h2 : mysql.get_connection .slave connect_error ss
      = ({ ss with slave_fetch_times_ := (ss.slave_fetch_times_ + 1) % 2 ^ 64 },
         .thrown "mysql cluster no slave node found now") := by
    unfold mysql.get_connection
    simp only [hs, if_true]
  refine ⟨⟨h1, ?_, ?_, ?_, ?_⟩, ⟨h2, ?_, ?_, ?_, ?_⟩⟩ <;> first | rw [h1] | rw [h2]

/-- C8 at a concrete input: a cluster pool before its first reconciliation, and a cluster
pool with one master, a queued connection and no slave. -/
theorem C8_no_node_of_role_witness :
    (mysql.get_connection .master none {}).2 = .thrown "mysql cluster no master node found now"
    ∧ mysql.get_connection .slave none
        { masters_ := [⟨"10.0.0.1", "3306", "PRIMARY"⟩], masters_count_ := 1,
          master_pool_ := [("10.0.0.1", [{ id := 0, ip_ := "10.0.0.1", is_health_ := true }])],
          created := 1 }
      = ({ masters_ := [⟨"10.0.0.1", "3306", "PRIMARY"⟩], masters_count_ := 1,
           master_pool_ := [("10.0.0.1", [{ id := 0, ip_ := "10.0.0.1", is_health_ := true }])],
           slave_fetch_times_ := 1, created := 1 },
         .thrown "mysql cluster no slave node found now") := by
  have h := C8_no_node_of_role {}
    { masters_ := [⟨"10.0.0.1", "3306", "PRIMARY"⟩], masters_count_ := 1,
      master_pool_ := [("10.0.0.1", [{ id := 0, ip_ := "10.0.0.1", is_health_ := true }])],
      created := 1 } none rfl rfl
  exact ⟨by rw [h.1.1], h.2.1⟩

/-! ### Single mode pools -/

theorem mysql.return_backs_single (cs : List mysql.connection) (s : mysql.connection_pool) :
    mysql.return_backs .single cs s = { s with pool_ := s.pool_ ++ cs } := by
  induction cs generalizing s with
  | nil => simp [mysql.return_backs]
  | cons c cs ih => simp [mysql.return_backs, mysql.return_back, ih]

theorem mysql.get_connections_general_healthy (es : List (Option String))
    (s : mysql.connection_pool) (hq : ∀ c ∈ s.pool_, c.is_health = true)
    (hlen : es.length = s.pool_.length) :
    (mysql.get_connections .general es s).2.map Prod.snd
        = s.pool_.map (fun c => .returned { conn_ := some c })
      ∧ (mysql.get_connections .general es s).1 = { s with pool_ := [] } := by
  induction es generalizing s with
  | nil =>
    have : s.pool_ = [] := List.length_eq_zero.mp hlen.symm
    simp [mysql.get_connections, this]
    rw [← this]
  | cons e es ih =>
    cases hp : s.pool_ with
    | nil => rw [hp] at hlen; simp at hlen
    | cons c rest =>
      have hc : c.is_health = true := hq c (by rw [hp]; simp)
      have hcall : mysql.get_connection .general e s
          = ({ s with pool_ := rest }, .returned { conn_ := some c }) := by
        simp [mysql.get_connection, mysql.guard_or_create, hp, hc]
      obtain ⟨h1, h2⟩ := ih { s with pool_ := rest }
        (fun c1 h => hq c1 (by rw [hp]; simp only [List.mem_cons]; exact Or.inr h))
        (by rw [hp] at hlen; simpa using hlen)
      simp only [mysql.get_connections, hcall, List.map_cons, h1, h2]
      exact ⟨trivial, trivial⟩

theorem sqlserver.return_backs_single_odbc (cs : List sqlserver.connection)
    (s : sqlserver.connection_pool) :
    sqlserver.return_backs cs s = { s with pool_ := s.pool_ ++ cs } := by
  induction cs generalizing s with
  | nil => simp [sqlserver.return_backs]
  | cons c cs ih => simp [sqlserver.return_backs, sqlserver.return_back, ih]

theorem sqlserver.get_connections_healthy (es : List (Option String))
    (s : sqlserver.connection_pool) (hq : ∀ c ∈ s.pool_, c.is_health = true)
    (hlen : es.length = s.pool_.length) :
    (sqlserver.get_connections es s).2
        = s.pool_.map (fun c => .returned { conn_ := some c })
      ∧ (sqlserver.get_connections es s).1 = { s with pool_ := [] } := by
  induction es generalizing s with
  | nil =>
    have : s.pool_ = [] := List.length_eq_zero.mp hlen.symm
    simp [sqlserver.get_connections, this]
    rw [← this]
  | cons e es ih =>
    cases hp : s.pool_ with
    | nil => rw [hp] at hlen; simp at hlen
    | cons c rest =>
      have hc : c.is_health = true := hq c (by rw [hp]; simp)
      have hcall : sqlserver.get_connection e s
          = ({ s with pool_ := rest }, .returned { conn_ := some c }) := by
        simp [sqlserver.get_connection, hp, hc]
      obtain ⟨h1, h2⟩ := ih { s with pool_ := rest }
        (fun c1 h => hq c1 (by rw [hp]; simp only [List.mem_cons]; exact Or.inr h))
        (by rw [hp] at hlen; simpa using hlen)
      simp only [sqlserver.get_connections, hcall, h1, h2, List.map_cons]
      exact ⟨trivial, trivial⟩

/-! ### C9 -/

/-- C9: in a single-mode pool `get_connection<general>` leaves exactly the tail of the queue
(it removes the head when there is one); it hands out the head when the head is healthy,
and when the queue is empty or the head is unhealthy it hands out a newly created
connection (the popped one is in no queue and in no guard). Consequently, after healthy
connections have been returned in some order to a queue of healthy connections, consecutive
calls hand them out front first, in the order in which they were returned. Both for the
MySQL and for the SQL Server pool. -/
theorem C9_single_pool_fifo (s : mysql.connection_pool) (t : sqlserver.connection_pool)
    (connect_error : Option String) :
    ((mysql.get_connection .general connect_error s).1.pool_ = s.pool_.tail
      ∧ (∀ c rest, s.pool_ = c :: rest → c.is_health = true →
          mysql.get_connection .general connect_error s
            = ({ s with pool_ := rest }, .returned { conn_ := some c }))
      ∧ ((s.pool_ = [] ∨ ∃ c rest, s.pool_ = c :: rest ∧ c.is_health = false) →
          mysql.get_connection .general none s
            = ({ s with pool_ := s.pool_.tail, created := s.created + 1 },
               .returned { conn_ := some { id := s.created, ip_ := s.node_.ip,
                                           is_health_ := true } }))
      ∧ (∀ cs es, (∀ c ∈ s.pool_ ++ cs, c.is_health = true) →
          es.length = (s.pool_ ++ cs).length →
          (mysql.get_connections .general es (mysql.return_backs .single cs s)).2.map Prod.snd
            = (s.pool_ ++ cs).map (fun c => .returned { conn_ := some c })))
    ∧ ((sqlserver.get_connection connect_error t).1.pool_ = t.pool_.tail
      ∧ (∀ c rest, t.pool_ = c :: rest → c.is_health = true →
          sqlserver.get_connection connect_error t
            = ({ t with pool_ := rest }, .returned { conn_ := some c }))
      ∧ ((t.pool_ = [] ∨ ∃ c rest, t.pool_ = c :: rest ∧ c.is_health = false) →
          sqlserver.get_connection none t
            = ({ t with pool_ := t.pool_.tail, created := t.created + 1 },
               .returned { conn_ := some { id := t.created,
                                           opt_ := { ip := t.node_.ip, port := t.node_.port,
                                                     user := t.user_, passwd := t.passwd_ },
                                           is_health_ := true } }))
      ∧ (∀ cs es, (∀ c ∈ t.pool_ ++ cs, c.is_health = true) →
          es.length = (t.pool_ ++ cs).length →
          (sqlserver.get_connections es (sqlserver.return_backs cs t)).2
            = (t.pool_ ++ cs).map (fun c => .returned { conn_ := some c }))) := by
  refine ⟨⟨?_, ?_, ?_, ?_⟩, ⟨?_, ?_, ?_, ?_⟩⟩
  · rcases mysql.guard_or_create_pool s.pool_.head? s.node_ connect_error
      { s with pool_ := s.pool_.tail } with h | h
    · simp only [mysql.get_connection, h]
    · simp only [mysql.get_connection, h]
  · intro c rest hp hc
    simp [mysql.get_connection, mysql.guard_or_create, hp, hc]
  · intro h
    rcases h with h | ⟨c, rest, hp, hc⟩
    · simp [mysql.get_connection, mysql.guard_or_create, mysql.create_connection, h]
    · simp [mysql.get_connection, mysql.guard_or_create, mysql.create_connection, hp, hc]
  · intro cs es hq hlen
    rw [mysql.return_backs_single]
    exact (mysql.get_connections_general_healthy es { s with pool_ := s.pool_ ++ cs }
      hq hlen).1
  · unfold sqlserver.get_connection sqlserver.create_connection
    cases hp : t.pool_.head? with
    | none => cases connect_error <;> simp
    | some c =>
      by_cases hc : c.is_health = true
      · simp [hc]
      · cases connect_error <;> simp [hc]
  · intro c rest hp hc
    simp [sqlserver.get_connection, hp, hc]
  · intro h
    rcases h with h | ⟨c, rest, hp, hc⟩
    · simp [sqlserver.get_connection, sqlserver.create_connection, h]
    · simp [sqlserver.get_connection, sqlserver.create_connection, hp, hc]
  · intro cs es hq hlen
    rw [sqlserver.return_backs_single_odbc]
    exact (sqlserver.get_connections_healthy es { t with pool_ := t.pool_ ++ cs } hq hlen).1

/-- C9 at concrete inputs: a MySQL pool whose queue holds an unhealthy connection in front
of a healthy one hands out a new connection and keeps the healthy one; a SQL Server pool
hands out its healthy head; two healthy connections returned to an empty MySQL pool come
back in the order of their return; a SQL Server pool with an empty queue hands out a new
connection made with its node, user and password. -/
theorem C9_single_pool_fifo_witness :
    mysql.get_connection .general none
        { node_ := { ip := "10.0.0.1" },
          pool_ := [{ id := 0, ip_ := "10.0.0.1", is_health_ := false },
                    { id := 1, ip_ := "10.0.0.1", is_health_ := true }],
          created := 2 }
      = ({ node_ := { ip := "10.0.0.1" },
           pool_ := [{ id := 1, ip_ := "10.0.0.1", is_health_ := true }], created := 3 },
         .returned { conn_ := some { id := 2, ip_ := "10.0.0.1", is_health_ := true } })
    ∧ sqlserver.get_connection none
        { node_ := { ip := "10.0.0.9" },
          pool_ := [{ id := 0, opt_ := { ip := "10.0.0.9" }, is_health_ := true },
                    { id := 1, opt_ := { ip := "10.0.0.9" }, is_health_ := true }],
          created := 2 }
      = ({ node_ := { ip := "10.0.0.9" },
           pool_ := [{ id := 1, opt_ := { ip := "10.0.0.9" }, is_health_ := true }],
           created := 2 },
         .returned { conn_ := some { id := 0, opt_ := { ip := "10.0.0.9" },
                                     is_health_ := true } })
    ∧ (mysql.get_connections .general [none, none]
        (mysql.return_backs .single
          [{ id := 1, ip_ := "10.0.0.1", is_health_ := true },
           { id := 0, ip_ := "10.0.0.1", is_health_ := true }]
          { node_ := { ip := "10.0.0.1" }, created := 2 })).2.map Prod.snd
      = [.returned { conn_ := some { id := 1, ip_ := "10.0.0.1", is_health_ := true } },
         .returned { conn_ := some { id := 0, ip_ := "10.0.0.1", is_health_ := true } }]
    ∧ sqlserver.get_connection none
        { node_ := { ip := "10.0.0.9", port := "1433" }, user_ := "sa", passwd_ := "pw",
          drive_name_ := "ODBC Driver 17 for SQL Server" }
      = ({ node_ := { ip := "10.0.0.9", port := "1433" }, user_ := "sa", passwd_ := "pw",
           drive_name_ := "ODBC Driver 17 for SQL Server", created := 1 },
         .returned { conn_ := some { id := 0,
                                     opt_ := { ip := "10.0.0.9", port := "1433",
                                               user := "sa", passwd := "pw" },
                                     is_health_ := true } }) := by
  have h1 := C9_single_pool_fifo
    { node_ := { ip := "10.0.0.1" },
      pool_ := [{ id := 0, ip_ := "10.0.0.1", is_health_ := false },
                { id := 1, ip_ := "10.0.0.1", is_health_ := true }],
      created := 2 }
    { node_ := { ip := "10.0.0.9" },
      pool_ := [{ id := 0, opt_ := { ip := "10.0.0.9" }, is_health_ := true },
                { id := 1, opt_ := { ip := "10.0.0.9" }, is_health_ := true }],
      created := 2 } none
  have h2 := C9_single_pool_fifo { node_ := { ip := "10.0.0.1" }, created := 2 }
    { node_ := { ip := "10.0.0.9", port := "1433" }, user_ := "sa", passwd_ := "pw",
      drive_name_ := "ODBC Driver 17 for SQL Server" } none
  refine ⟨h1.1.2.2.1 (Or.inr ⟨_, _, rfl, rfl⟩), h1.2.2.1 _ _ rfl rfl, ?_,
    h2.2.2.2.1 (Or.inl rfl)⟩
  exact h2.1.2.2.2
    [{ id := 1, ip_ := "10.0.0.1", is_health_ := true },
     { id := 0, ip_ := "10.0.0.1", is_health_ := true }] [none, none] (by decide) rfl

/-! ### C10 -/

/-- C10 fails on the code: neither `~connection_guard` nor `return_back` looks at
`is_health()`. Destroying a guard that holds an unhealthy connection puts the connection
into the queue: into `pool_` in the two single-mode pools, into the queue of its ip in the
cluster pool. -/
theorem C10_unhealthy_connection_enqueued :
    mysql.connection.is_health { id := 0, ip_ := "10.0.0.1", is_health_ := false } = false
    ∧ (mysql.connection_guard.destroy .single
        { conn_ := some { id := 0, ip_ := "10.0.0.1", is_health_ := false } }
        { node_ := { ip := "10.0.0.1" }, created := 1 }).pool_
      = [{ id := 0, ip_ := "10.0.0.1", is_health_ := false }]
    ∧ (sqlserver.connection_guard.destroy
        { conn_ := some { id := 0, opt_ := { ip := "10.0.0.9" }, is_health_ := false } }
        { node_ := { ip := "10.0.0.9" }, created := 1 }).pool_
      = [{ id := 0, opt_ := { ip := "10.0.0.9" }, is_health_ := false }]
    ∧ (mysql.connection_guard.destroy .cluster
        { conn_ := some { id := 0, ip_ := "10.0.0.1", is_health_ := false } }
        { masters_ := [⟨"10.0.0.1", "3306", "PRIMARY"⟩], masters_count_ := 1,
          master_pool_ := [("10.0.0.1", [])], created := 1 }).master_pool_
      = [("10.0.0.1", [{ id := 0, ip_ := "10.0.0.1", is_health_ := false }])] := by
  refine ⟨rfl, by decide, by decide, by decide⟩

/-- C10 as amended: a borrowed connection whose `is_health()` is false is enqueued on return
(by `return_back` or by the destructor of its guard) like any other connection: at the tail
of `pool_` in single mode (MySQL and SQL Server), in cluster mode at the tail of the queue
of its ip in `slave_pool_`, or else in `master_pool_`. It is destroyed later: the
`get_connection` call that pops it (`general` in single mode, `master` or `slave` in cluster
mode) hands out a newly created connection and leaves it in no queue. -/
theorem C10_unhealthy_connection_discarded_on_borrow
    (c : mysql.connection) (s : mysql.connection_pool)
    (cs : sqlserver.connection) (t : sqlserver.connection_pool)
    (hc : c.is_health = false) (hcs : cs.is_health = false) :
    (mysql.return_back .single c s = ({ s with pool_ := s.pool_ ++ [c] }, none)
      ∧ mysql.connection_guard.destroy .single { conn_ := some c } s
          = { s with pool_ := s.pool_ ++ [c] }
      ∧ (∀ rest, s.pool_ = c :: rest →
          mysql.get_connection .general none s
            = ({ s with pool_ := rest, created := s.created + 1 },
               .returned { conn_ := some { id := s.created, ip_ := s.node_.ip,
                                           is_health_ := true } })))
    ∧ (sqlserver.return_back cs t = { t with pool_ := t.pool_ ++ [cs] }
      ∧ sqlserver.connection_guard.destroy { conn_ := some cs } t
          = { t with pool_ := t.pool_ ++ [cs] }
      ∧ (∀ rest, t.pool_ = cs :: rest →
          sqlserver.get_connection none t
            = ({ t with pool_ := rest, created := t.created + 1 },
               .returned { conn_ := some { id := t.created,
                                           opt_ := { ip := t.node_.ip, port := t.node_.port,
                                                     user := t.user_, passwd := t.passwd_ },
                                           is_health_ := true } })))
    ∧ ((∀ q, s.slave_pool_.find c.get_ip = some q →
          mysql.connection_guard.destroy .cluster { conn_ := some c } s
            = { s with slave_pool_ := s.slave_pool_.update c.get_ip fun q => q ++ [c] }
          ∧ (mysql.connection_guard.destroy .cluster { conn_ := some c } s).slave_pool_.find
              c.get_ip = some (q ++ [c]))
      ∧ (∀ q, s.slave_pool_.find c.get_ip = none → s.master_pool_.find c.get_ip = some q →
          mysql.connection_guard.destroy .cluster { conn_ := some c } s
            = { s with master_pool_ := s.master_pool_.update c.get_ip fun q => q ++ [c] }
          ∧ (mysql.connection_guard.destroy .cluster { conn_ := some c } s).master_pool_.find
              c.get_ip = some (q ++ [c]))
      ∧ (∀ node rest, s.masters_count_ ≠ 0 → s.masters_[mysql.master_index s]? = some node →
          s.master_pool_.find node.ip = some (c :: rest) →
          mysql.get_connection .master none s
            = ({ s with master_fetch_times_ := (s.master_fetch_times_ + 1) % 2 ^ 64,
                        master_pool_ := s.master_pool_.update node.ip List.tail,
                        created := s.created + 1 },
               .returned { conn_ := some { id := s.created, ip_ := node.ip,
                                           is_health_ := true } })
          ∧ (mysql.get_connection .master none s).1.master_pool_.find node.ip = some rest)
      ∧ (∀ node rest, s.slaves_count_ ≠ 0 → s.slaves_[mysql.slave_index s]? = some node →
          s.slave_pool_.find node.ip = some (c :: rest) →
          mysql.get_connection .slave none s
            = ({ s with slave_fetch_times_ := (s.slave_fetch_times_ + 1) % 2 ^ 64,
                        slave_pool_ := s.slave_pool_.update node.ip List.tail,
                        created := s.created + 1 },
               .returned { conn_ := some { id := s.created, ip_ := node.ip,
                                           is_health_ := true } })
          ∧ (mysql.get_connection .slave none s).1.slave_pool_.find node.ip = some rest)) := by
  refine ⟨⟨rfl, rfl, ?_⟩, ⟨rfl, rfl, ?_⟩, ⟨?_, ?_, ?_, ?_⟩⟩
  · intro rest hp
    simp [mysql.get_connection, mysql.guard_or_create, mysql.create_connection, hp, hc]
  · intro rest hp
    simp [sqlserver.get_connection, sqlserver.create_connection, hp, hcs]
  · intro q hq
    have h : mysql.connection_guard.destroy .cluster { conn_ := some c } s
        = { s with slave_pool_ := s.slave_pool_.update c.get_ip fun q => q ++ [c] } := by
      simp [mysql.connection_guard.destroy, mysql.return_back, hq]
    refine ⟨h, ?_⟩
    rw [h]
    simp [mysql.pool_map.find_update, hq]
  · intro q hs hq
    have h : mysql.connection_guard.destroy .cluster { conn_ := some c } s
        = { s with master_pool_ := s.master_pool_.update c.get_ip fun q => q ++ [c] } := by
      simp [mysql.connection_guard.destroy, mysql.return_back, hs, hq]
    refine ⟨h, ?_⟩
    rw [h]
    simp [mysql.pool_map.find_update, hq]
  · intro node rest h0 hnode hq
    have h : mysql.get_connection .master none s
        = ({ s with master_fetch_times_ := (s.master_fetch_times_ + 1) % 2 ^ 64,
                    master_pool_ := s.master_pool_.update node.ip List.tail,
                    created := s.created + 1 },
           .returned { conn_ := some { id := s.created, ip_ := node.ip,
                                       is_health_ := true } }) := by
      unfold mysql.master_index at hnode
      unfold mysql.get_connection
      simp only [h0, if_false]
      rw [hnode]
      simp [hq, mysql.guard_or_create, mysql.create_connection, hc]
    refine ⟨h, ?_⟩
    rw [h]
    simp [mysql.pool_map.find_update, hq]
  · intro node rest h0 hnode hq
    have h : mysql.get_connection .slave none s
        = ({ s with slave_fetch_times_ := (s.slave_fetch_times_ + 1) % 2 ^ 64,
                    slave_pool_ := s.slave_pool_.update node.ip List.tail,
                    created := s.created + 1 },
           .returned { conn_ := some { id := s.created, ip_ := node.ip,
                                       is_health_ := true } }) := by
      unfold mysql.slave_index at hnode
      unfold mysql.get_connection
      simp only [h0, if_false]
      rw [hnode]
      simp [hq, mysql.guard_or_create, mysql.create_connection, hc]
    refine ⟨h, ?_⟩
    rw [h]
    simp [mysql.pool_map.find_update, hq]

/-- C10 (amended) at concrete inputs: an unhealthy connection is returned to a single-mode
MySQL pool and to a single-mode SQL Server pool, and the next `get_connection` replaces it;
in a cluster pool `get_connection<slave>` pops an unhealthy connection and replaces it. -/
theorem C10_unhealthy_connection_discarded_on_borrow_witness :
    mysql.connection_guard.destroy .single
        { conn_ := some { id := 0, ip_ := "10.0.0.1", is_health_ := false } }
        { node_ := { ip := "10.0.0.1" }, created := 1 }
      = { node_ := { ip := "10.0.0.1" },
          pool_ := [{ id := 0, ip_ := "10.0.0.1", is_health_ := false }], created := 1 }
    ∧ mysql.get_connection .general none
        { node_ := { ip := "10.0.0.1" },
          pool_ := [{ id := 0, ip_ := "10.0.0.1", is_health_ := false }], created := 1 }
      = ({ node_ := { ip := "10.0.0.1" }, pool_ := [], created := 2 },
         .returned { conn_ := some { id := 1, ip_ := "10.0.0.1", is_health_ := true } })
    ∧ sqlserver.connection_guard.destroy
        { conn_ := some { id := 0, opt_ := { ip := "10.0.0.9" }, is_health_ := false } }
        { node_ := { ip := "10.0.0.9" }, created := 1 }
      = { node_ := { ip := "10.0.0.9" },
          pool_ := [{ id := 0, opt_ := { ip := "10.0.0.9" }, is_health_ := false }],
          created := 1 }
    ∧ sqlserver.get_connection none
        { node_ := { ip := "10.0.0.9", port := "1433" },
          pool_ := [{ id := 0, opt_ := { ip := "10.0.0.9" }, is_health_ := false }],
          user_ := "sa", passwd_ := "pw", created := 1 }
      = ({ node_ := { ip := "10.0.0.9", port := "1433" }, pool_ := [],
           user_ := "sa", passwd_ := "pw", created := 2 },
         .returned { conn_ := some { id := 1,
                                     opt_ := { ip := "10.0.0.9", port := "1433",
                                               user := "sa", passwd := "pw" },
                                     is_health_ := true } })
    ∧ mysql.get_connection .slave none
        { slaves_ := [⟨"10.0.0.2", "3306", "SECONDARY"⟩], slaves_count_ := 1,
          slave_pool_ := [("10.0.0.2", [{ id := 0, ip_ := "10.0.0.2", is_health_ := false }])],
          created := 1 }
      = ({ slave_fetch_times_ := 1,
           slaves_ := [⟨"10.0.0.2", "3306", "SECONDARY"⟩], slaves_count_ := 1,
           slave_pool_ := [("10.0.0.2", [])], created := 2 },
         .returned { conn_ := some { id := 1, ip_ := "10.0.0.2", is_health_ := true } }) := by
  have h1 := C10_unhealthy_connection_discarded_on_borrow
    { id := 0, ip_ := "10.0.0.1", is_health_ := false }
    { node_ := { ip := "10.0.0.1" }, created := 1 }
    { id := 0, opt_ := { ip := "10.0.0.9" }, is_health_ := false }
    { node_ := { ip := "10.0.0.9" }, created := 1 } rfl rfl
  have h2 := C10_unhealthy_connection_discarded_on_borrow
    { id := 0, ip_ := "10.0.0.1", is_health_ := false }
    { node_ := { ip := "10.0.0.1" },
      pool_ := [{ id := 0, ip_ := "10.0.0.1", is_health_ := false }], created := 1 }
    { id := 0, opt_ := { ip := "10.0.0.9" }, is_health_ := false }
    { node_ := { ip := "10.0.0.9" }, created := 1 } rfl rfl
  have h3 := C10_unhealthy_connection_discarded_on_borrow
    { id := 0, ip_ := "10.0.0.2", is_health_ := false }
    { slaves_ := [⟨"10.0.0.2", "3306", "SECONDARY"⟩], slaves_count_ := 1,
      slave_pool_ := [("10.0.0.2", [{ id := 0, ip_ := "10.0.0.2", is_health_ := false }])],
      created := 1 }
    { id := 0, opt_ := { ip := "10.0.0.9" }, is_health_ := false }
    { node_ := { ip := "10.0.0.9", port := "1433" },
      pool_ := [{ id := 0, opt_ := { ip := "10.0.0.9" }, is_health_ := false }],
      user_ := "sa", passwd_ := "pw", created := 1 } rfl rfl
  exact ⟨h1.1.2.1, h2.1.2.2 [] rfl, h1.2.1.2.1, h3.2.1.2.2 [] rfl,
    (h3.2.2.2.2.2 ⟨"10.0.0.2", "3306", "SECONDARY"⟩ [] (by decide) (by decide)
      (by decide)).1⟩

/-! ### C15 -/

/-- C15: `mysql_type_map` and `sqlserver_type_map` return the descriptors of the table of the
specification for every supported value type: for MySQL the wire type of each row and
`is_unsigned` true exactly for `uint8_t`, `uint16_t`, `uint32_t` and `uint64_t`; for ODBC the
C type and the SQL type of each row. -/
theorem C15_type_maps :
    (mysql.mysql_type_map (.arithmetic .int8_t) = (.MYSQL_TYPE_TINY, false)
      ∧ mysql.mysql_type_map (.arithmetic .uint8_t) = (.MYSQL_TYPE_TINY, true)
      ∧ mysql.mysql_type_map (.arithmetic .int16_t) = (.MYSQL_TYPE_SHORT, false)
      ∧ mysql.mysql_type_map (.arithmetic .uint16_t) = (.MYSQL_TYPE_SHORT, true)
      ∧ mysql.mysql_type_map (.arithmetic .int32_t) = (.MYSQL_TYPE_LONG, false)
      ∧ mysql.mysql_type_map (.arithmetic .uint32_t) = (.MYSQL_TYPE_LONG, true)
      ∧ mysql.mysql_type_map (.arithmetic .int64_t) = (.MYSQL_TYPE_LONGLONG, false)
      ∧ mysql.mysql_type_map (.arithmetic .uint64_t) = (.MYSQL_TYPE_LONGLONG, true)
      ∧ (mysql.mysql_type_map (.arithmetic .float)).1 = .MYSQL_TYPE_FLOAT
      ∧ (mysql.mysql_type_map (.arithmetic .double)).1 = .MYSQL_TYPE_DOUBLE
      ∧ (mysql.mysql_type_map .string).1 = .MYSQL_TYPE_STRING
      ∧ (mysql.mysql_type_map .char_array).1 = .MYSQL_TYPE_STRING
      ∧ (mysql.mysql_type_map .char_pointer).1 = .MYSQL_TYPE_STRING
      ∧ (mysql.mysql_type_map .string_view).1 = .MYSQL_TYPE_STRING
      ∧ (mysql.mysql_type_map .mysql_timestamp).1 = .MYSQL_TYPE_TIMESTAMP
      ∧ (mysql.mysql_type_map .mysql_mediumtext).1 = .MYSQL_TYPE_MEDIUM_BLOB)
    ∧ (∀ v : mysql.value_type, (mysql.mysql_type_map v).2 = true ↔
        (v = .arithmetic .uint8_t ∨ v = .arithmetic .uint16_t ∨ v = .arithmetic .uint32_t
          ∨ v = .arithmetic .uint64_t))
    ∧ (sqlserver.sqlserver_type_map (.arithmetic .int8_t) = (.SQL_C_STINYINT, .SQL_TINYINT)
      ∧ sqlserver.sqlserver_type_map (.arithmetic .uint8_t) = (.SQL_C_UTINYINT, .SQL_TINYINT)
      ∧ sqlserver.sqlserver_type_map (.arithmetic .int16_t) = (.SQL_C_SSHORT, .SQL_SMALLINT)
      ∧ sqlserver.sqlserver_type_map (.arithmetic .uint16_t) = (.SQL_C_USHORT, .SQL_SMALLINT)
      ∧ sqlserver.sqlserver_type_map (.arithmetic .int32_t) = (.SQL_C_SLONG, .SQL_INTEGER)
      ∧ sqlserver.sqlserver_type_map (.arithmetic .uint32_t) = (.SQL_C_ULONG, .SQL_INTEGER)
      ∧ sqlserver.sqlserver_type_map (.arithmetic .int64_t) = (.SQL_C_SBIGINT, .SQL_BIGINT)
      ∧ sqlserver.sqlserver_type_map (.arithmetic .uint64_t) = (.SQL_C_UBIGINT, .SQL_BIGINT)
      ∧ sqlserver.sqlserver_type_map (.arithmetic .float) = (.SQL_C_FLOAT, .SQL_REAL)
      ∧ sqlserver.sqlserver_type_map (.arithmetic .double) = (.SQL_C_DOUBLE, .SQL_DOUBLE)
      ∧ sqlserver.sqlserver_type_map .string = (.SQL_C_CHAR, .SQL_CHAR)
      ∧ sqlserver.sqlserver_type_map .char_array = (.SQL_C_CHAR, .SQL_CHAR)
      ∧ sqlserver.sqlserver_type_map .char_pointer = (.SQL_C_CHAR, .SQL_CHAR)
      ∧ sqlserver.sqlserver_type_map .string_view = (.SQL_C_CHAR, .SQL_CHAR)
      ∧ sqlserver.sqlserver_type_map .sqlserver_date = (.SQL_C_TYPE_DATE, .SQL_TYPE_DATE)
      ∧ sqlserver.sqlserver_type_map .sqlserver_datetime
          = (.SQL_C_TYPE_TIMESTAMP, .SQL_TYPE_TIMESTAMP)) := by
  refine ⟨by decide, ?_, by decide⟩
  intro v
  cases v with
  | arithmetic t => cases t <;> simp [mysql.mysql_type_map]
  | _ => simp [mysql.mysql_type_map]

/-! ### C19 -/

namespace mysql

/-- C19: in cluster mode `return_back(c)` looks the ip `x` of `c` up in `slave_pool_` first and
then in `master_pool_`. Seen through `find`, for every ip `y`: the slave queue of `y` gets `c`
appended when `y = x` (and stays absent when it is absent), the master queue of `y` gets `c`
appended when `y = x` and `x` is not a key of `slave_pool_`, every other queue is unchanged,
and `c` is left in `p` (dropped by its owner) exactly when `x` is a key of neither map, in
which case the pool is unchanged. The other members of the pool never change. -/
theorem C19_return_back_routes_by_ip (s : connection_pool) (c : connection) (y : String) :
    (return_back .cluster c s).1.slave_pool_.find y
        = (if c.get_ip = y then (s.slave_pool_.find y).map fun q => q ++ [c]
           else s.slave_pool_.find y)
      ∧ (return_back .cluster c s).1.master_pool_.find y
        = (if c.get_ip = y ∧ s.slave_pool_.find y = none
           then (s.master_pool_.find y).map fun q => q ++ [c]
           else s.master_pool_.find y)
      ∧ (return_back .cluster c s).2
        = (if s.slave_pool_.find c.get_ip = none ∧ s.master_pool_.find c.get_ip = none
           then some c else none)
      ∧ (s.slave_pool_.find c.get_ip = none ∧ s.master_pool_.find c.get_ip = none →
          (return_back .cluster c s).1 = s)
      ∧ (return_back .cluster c s).1.pool_ = s.pool_
      ∧ (return_back .cluster c s).1.masters_ = s.masters_
      ∧ (return_back .cluster c s).1.slaves_ = s.slaves_ := by
  unfold return_back
  simp only
  cases hs : s.slave_pool_.find c.get_ip with
  | some q =>
    simp only [pool_map.find_update]
    by_cases hy : c.get_ip = y
    · subst hy; simp [hs]
    · simp [hy]
  | none =>
    cases hm : s.master_pool_.find c.get_ip with
    | some q =>
      simp only [pool_map.find_update]
      by_cases hy : c.get_ip = y
      · subst hy; simp [hs, hm]
      · simp [hy]
    | none =>
      by_cases hy : c.get_ip = y
      · subst hy; simp [hs, hm]
      · simp [hy]

/-- C19 at a concrete input: the pool knows the hosts `10.0.0.1` and `10.0.0.2`; a
connection to `10.0.0.9` is returned and the pool is unchanged. -/
theorem C19_return_back_routes_by_ip_witness :
    (return_back .cluster { id := 7, ip_ := "10.0.0.9", is_health_ := true }
        (update_cluster_connections
          [⟨"10.0.0.1", "3306", "PRIMARY"⟩, ⟨"10.0.0.2", "3306", "SECONDARY"⟩] {})).1
      = update_cluster_connections
          [⟨"10.0.0.1", "3306", "PRIMARY"⟩, ⟨"10.0.0.2", "3306", "SECONDARY"⟩] {} :=
  (C19_return_back_routes_by_ip
    (update_cluster_connections
      [⟨"10.0.0.1", "3306", "PRIMARY"⟩, ⟨"10.0.0.2", "3306", "SECONDARY"⟩] {})
    { id := 7, ip_ := "10.0.0.9", is_health_ := true } "10.0.0.9").2.2.2.1 (by decide)

end mysql

/-! ### C20 -/

namespace mysql

theorem pool_map.mem_keys (m : pool_map) (X : String) :
    X ∈ m.keys ↔ (m.find X).isSome = true := by
  induction m with
  | nil => simp [pool_map.keys, pool_map.find]
  | cons e m ih =>
    obtain ⟨k, q⟩ := e
    by_cases h : k = X
    · simp [pool_map.keys, pool_map.find, h]
    · have h1 : ¬ X = k := fun e => h e.symm
      simp only [pool_map.keys] at ih
      simp [pool_map.keys, pool_map.find, h, h1, ih]

end mysql

namespace mysql

theorem update_node_within (st : reconciliation) (node : node_info) (X : String)
    (Q : List connection)
    (h : (∀ c ∈ (st.master_pool.find X).getD [], c ∈ Q)
      ∧ (∀ c ∈ (st.slave_pool.find X).getD [], c ∈ Q)
      ∧ (∀ c ∈ (st.master_pool_.find X).getD [], c ∈ Q)
      ∧ (∀ c ∈ (st.slave_pool_.find X).getD [], c ∈ Q)) :
    (∀ c ∈ ((update_node st node).master_pool.find X).getD [], c ∈ Q)
      ∧ (∀ c ∈ ((update_node st node).slave_pool.find X).getD [], c ∈ Q)
      ∧ (∀ c ∈ ((update_node st node).master_pool_.find X).getD [], c ∈ Q)
      ∧ (∀ c ∈ ((update_node st node).slave_pool_.find X).getD [], c ∈ Q) := by
  by_cases hX : node.ip = X
  · subst hX
    unfold update_node
    obtain ⟨h1, h2, h3, h4⟩ := h
    cases hm : st.master_pool_.find node.ip <;> cases hs : st.slave_pool_.find node.ip <;>
      cases hnm : st.master_pool.find node.ip <;> cases hns : st.slave_pool.find node.ip <;>
      split <;>
      simp_all [pool_map.find_update, pool_map.find_emplace, pool_map.find_subscript]
  · obtain ⟨e1, e2, e3, e4⟩ := update_node_find_of_ne st node X hX
    rw [e1, e2, e3, e4]
    exact h

theorem foldl_update_node_within (nodes : List node_info) (st : reconciliation) (X : String)
    (Q : List connection)
    (h : (∀ c ∈ (st.master_pool.find X).getD [], c ∈ Q)
      ∧ (∀ c ∈ (st.slave_pool.find X).getD [], c ∈ Q)
      ∧ (∀ c ∈ (st.master_pool_.find X).getD [], c ∈ Q)
      ∧ (∀ c ∈ (st.slave_pool_.find X).getD [], c ∈ Q)) :
    (∀ c ∈ ((nodes.foldl update_node st).master_pool.find X).getD [], c ∈ Q)
      ∧ (∀ c ∈ ((nodes.foldl update_node st).slave_pool.find X).getD [], c ∈ Q) := by
  induction nodes generalizing st with
  | nil => exact ⟨h.1, h.2.1⟩
  | cons node nodes ih => exact ih _ (update_node_within st node X Q h)

/-- C20: after `update_cluster_connections` has processed the snapshot `S`, every key of
`master_pool_` and every key of `slave_pool_` is the ip of a node of `S`, so a queue keyed by
an ip absent from `S` no longer exists; and the queues kept under a key hold only connections
that were enqueued under that key before, so the connections of a vanished queue are in the
pool no more (they are destroyed with the old maps). -/
theorem C20_keys_are_ips_of_snapshot (s : connection_pool) (S : List node_info) (X : String)
    (hX : X ∈ (update_cluster_connections S s).master_pool_.keys
      ∨ X ∈ (update_cluster_connections S s).slave_pool_.keys) :
    X ∈ S.map (fun node => node.ip)
      ∧ ∀ Y, ∀ c ∈ enqueued (update_cluster_connections S s) Y, c ∈ enqueued s Y := by
  constructor
  · obtain ⟨r1, r2⟩ := update_cluster_connections_key_role S s X
    rw [pool_map.mem_keys, pool_map.mem_keys] at hX
    rcases hX with h | h
    · obtain ⟨n, hn, hip, _⟩ := r1 h
      exact List.mem_map.mpr ⟨n, hn, hip⟩
    · obtain ⟨n, hn, hip, _⟩ := r2 h
      exact List.mem_map.mpr ⟨n, hn, hip⟩
  · intro Y c hc
    obtain ⟨w1, w2⟩ := foldl_update_node_within S
      { master_pool_ := s.master_pool_, slave_pool_ := s.slave_pool_ } Y (enqueued s Y)
      ⟨by simp [pool_map.find], by simp [pool_map.find],
       fun c hc => by simp only [enqueued, List.mem_append]; exact Or.inl hc,
       fun c hc => by simp only [enqueued, List.mem_append]; exact Or.inr hc⟩
    simp only [enqueued, update_cluster_connections, List.mem_append] at hc
    rcases hc with hc | hc
    · exact w1 c hc
    · exact w2 c hc

/-- C20 at a concrete input: the pool knows a PRIMARY `10.0.0.1` and a SECONDARY `10.0.0.2`,
the next snapshot lists `10.0.0.2` as PRIMARY and a new SECONDARY `10.0.0.3`. -/
theorem C20_keys_are_ips_of_snapshot_witness :
    "10.0.0.3" ∈ ([⟨"10.0.0.2", "3306", "PRIMARY"⟩, ⟨"10.0.0.3", "3306", "SECONDARY"⟩]
        : List node_info).map (fun node => node.ip)
      ∧ ∀ Y, ∀ c ∈ enqueued (update_cluster_connections
            [⟨"10.0.0.2", "3306", "PRIMARY"⟩, ⟨"10.0.0.3", "3306", "SECONDARY"⟩]
            (update_cluster_connections
              [⟨"10.0.0.1", "3306", "PRIMARY"⟩, ⟨"10.0.0.2", "3306", "SECONDARY"⟩] {})) Y,
          c ∈ enqueued (update_cluster_connections
              [⟨"10.0.0.1", "3306", "PRIMARY"⟩, ⟨"10.0.0.2", "3306", "SECONDARY"⟩] {}) Y :=
  C20_keys_are_ips_of_snapshot
    (update_cluster_connections
      [⟨"10.0.0.1", "3306", "PRIMARY"⟩, ⟨"10.0.0.2", "3306", "SECONDARY"⟩] {})
    [⟨"10.0.0.2", "3306", "PRIMARY"⟩, ⟨"10.0.0.3", "3306", "SECONDARY"⟩] "10.0.0.3"
    (Or.inr (by decide))

end mysql

/-! ### The health flag -/

namespace mysql

theorem before_execute_conn {A : Type} (R : ReturnType field_type) (statement_sql : String)
    (args : List A) (d : statement) (c : connection) :
    (before_execute R statement_sql args d c).conn = c
      ∨ (before_execute R statement_sql args d c).conn = { c with is_health_ := false } := by
  unfold before_execute
  split
  · exact Or.inr rfl
  · split
    · exact Or.inl rfl
    · simp only
      split
      · exact Or.inl rfl
      · split
        · split <;> exact Or.inl rfl
        · exact Or.inl rfl

theorem after_execute_conn (elements : List field_type) (d : statement) (c : connection) :
    (after_execute elements d c).conn = c := by
  unfold after_execute
  simp only
  split
  · rfl
  · split <;> rfl

theorem query_conn {A : Type} (R : ReturnType field_type) (statement_sql : String)
    (args : List A) (d : statement) (c : connection) :
    (query R statement_sql args d c).conn = c
      ∨ (query R statement_sql args d c).conn = { c with is_health_ := false } := by
  have hb := before_execute_conn R statement_sql args d c
  unfold query
  simp only
  split
  · exact hb
  · exact hb
  · exact hb
  · split
    · rcases hb with hb | hb <;> rw [hb] <;> exact Or.inr rfl
    · split
      · exact hb
      · simp only [after_execute_conn]; exact hb
      · simp only [after_execute_conn]; exact hb
      · simp only [after_execute_conn]; exact hb

theorem execute_conn (sql : String) (d : statement) (c : connection) :
    (execute sql d c).conn = c ∨ (execute sql d c).conn = { c with is_health_ := false } := by
  unfold execute
  split
  · exact Or.inr rfl
  · exact Or.inl rfl

theorem operation_conn {A : Type} (op : operation A) (c : connection) :
    op.conn c = c ∨ op.conn c = { c with is_health_ := false } := by
  cases op with
  | execute sql d => exact execute_conn sql d c
  | query R statement_sql args d => exact query_conn R statement_sql args d c
  | begin_transaction d => exact execute_conn _ d c
  | commit_transaction d => exact execute_conn _ d c
  | rollback d => exact execute_conn _ d c
  | ping mysql_ping => exact Or.inl rfl
  | get_last_insert_id mysql_stmt_insert_id => exact Or.inl rfl
  | is_health => exact Or.inl rfl

theorem operations_unhealthy {A : Type} (ops : List (operation A)) (c : connection)
    (h : c.is_health = false) : (operations ops c).is_health = false := by
  induction ops generalizing c with
  | nil => exact h
  | cons op ops ih =>
    apply ih
    rcases operation_conn op c with e | e <;> rw [e]
    · exact h
    · rfl

theorem operations_append {A : Type} (ops1 ops2 : List (operation A)) (c : connection) :
    operations (ops1 ++ ops2) c = operations ops2 (operations ops1 c) := by
  induction ops1 generalizing c with
  | nil => rfl
  | cons op ops1 ih => exact ih _

end mysql

namespace sqlserver

theorem before_execute_conn_odbc {A : Type} (R : ReturnType field_type) (statement_sql : String)
    (args : List A) (d : statement) (c : connection) :
    (before_execute R statement_sql args d c).conn = c
      ∨ (before_execute R statement_sql args d c).conn = { c with is_health_ := false } := by
  unfold before_execute
  split
  · exact Or.inr rfl
  · split
    · exact Or.inl rfl
    · split
      · exact Or.inl rfl
      · simp only
        split <;> exact Or.inl rfl

theorem fetch_rows_conn_odbc (columns : List bound_column) (d : statement)
    (fetches : List (Int × List column_store)) (st : fetch_state) (c : connection) :
    (fetch_rows columns d fetches st c).conn = c
      ∨ (fetch_rows columns d fetches st c).conn = { c with is_health_ := false } := by
  induction fetches generalizing st with
  | nil => exact Or.inl rfl
  | cons f fetches ih =>
    obtain ⟨retcode, stores⟩ := f
    unfold fetch_rows
    split
    · exact Or.inl rfl
    · split
      · exact Or.inr rfl
      · simp only
        split
        · exact Or.inl rfl
        · exact ih _

theorem after_execute_conn_odbc (elements : List field_type) (d : statement) (c : connection) :
    (after_execute elements d c).conn = c
      ∨ (after_execute elements d c).conn = { c with is_health_ := false } := by
  unfold after_execute
  simp only
  split
  · exact Or.inl rfl
  · exact fetch_rows_conn_odbc _ _ _ _ _

theorem scope_guard_conn_odbc {α : Type} (d : statement) (body : run α) :
    (scope_guard d body).conn = body.conn
      ∨ (scope_guard d body).conn = { body.conn with is_health_ := false } := by
  unfold scope_guard
  split
  · exact Or.inl rfl
  · exact Or.inl rfl
  · split
    · exact Or.inr rfl
    · exact Or.inl rfl

theorem query_conn_odbc {A : Type} (R : ReturnType field_type) (statement_sql : String)
    (args : List A) (d : statement) (c : connection) :
    (query R statement_sql args d c).conn = c
      ∨ (query R statement_sql args d c).conn = { c with is_health_ := false } := by
  have hb := before_execute_conn_odbc R statement_sql args d c
  have key : ∀ body : run (List (List field)),
      (body.conn = (before_execute R statement_sql args d c).conn
        ∨ body.conn = { (before_execute R statement_sql args d c).conn with is_health_ := false }) →
      ((scope_guard d { body with
          calls := (before_execute R statement_sql args d c).calls ++ [.SQLExecute]
            ++ body.calls }).conn = c
        ∨ (scope_guard d { body with
          calls := (before_execute R statement_sql args d c).calls ++ [.SQLExecute]
            ++ body.calls }).conn = { c with is_health_ := false }) := by
    intro body hbody
    rcases scope_guard_conn_odbc d { body with
        calls := (before_execute R statement_sql args d c).calls ++ [.SQLExecute]
          ++ body.calls } with e | e <;> rw [e] <;>
      rcases hbody with e1 | e1 <;> simp only [e1] <;>
      rcases hb with e2 | e2 <;> rw [e2] <;> simp
  unfold query
  simp only
  split
  · exact hb
  · exact hb
  · exact hb
  · split
    · rcases hb with hb | hb <;> rw [hb] <;> exact Or.inr rfl
    · apply key
      split
      · exact Or.inl rfl
      · exact after_execute_conn_odbc _ _ _
      · exact after_execute_conn_odbc _ _ _
      · exact after_execute_conn_odbc _ _ _

theorem execute_conn_odbc (sql : String) (d : statement) (c : connection) :
    (execute sql d c).conn = c ∨ (execute sql d c).conn = { c with is_health_ := false } := by
  unfold execute
  split
  · exact Or.inr rfl
  · exact scope_guard_conn_odbc d _

theorem operation_conn_odbc {A : Type} (op : operation A) (c : connection) :
    op.conn c = c ∨ op.conn c = { c with is_health_ := false } := by
  cases op with
  | execute sql d => exact execute_conn_odbc sql d c
  | query R statement_sql args d => exact query_conn_odbc R statement_sql args d c
  | begin_transaction d => exact execute_conn_odbc _ d c
  | commit_transaction d => exact execute_conn_odbc _ d c
  | rollback d => exact execute_conn_odbc _ d c
  | is_health => exact Or.inl rfl

theorem operations_unhealthy_odbc {A : Type} (ops : List (operation A)) (c : connection)
    (h : c.is_health = false) : (operations ops c).is_health = false := by
  induction ops generalizing c with
  | nil => exact h
  | cons op ops ih =>
    apply ih
    rcases operation_conn_odbc op c with e | e <;> rw [e]
    · exact h
    · rfl

theorem operations_append_odbc {A : Type} (ops1 ops2 : List (operation A)) (c : connection) :
    operations (ops1 ++ ops2) c = operations ops2 (operations ops1 c) := by
  induction ops1 generalizing c with
  | nil => rfl
  | cons op ops1 ih => exact ih _

end sqlserver
/-! ### C12 -/

/-- C12 fails on the code: a healthy connection on which a driver call of `query` fails at
one of the steps result metadata, bind param, bind result or store result (MySQL), or
`SQLNumParams`, `SQLNumResultCols`, `SQLBindParameter` or `SQLBindCol` (SQL Server). The
call throws with the native error text and `is_health()` is still true afterwards, whereas
the prepare and execute steps of the same functions clear the flag before they throw. -/
theorem C12_failed_driver_call_leaves_healthy :
    ((mysql.query (.tuple [.arithmetic .int32_t]) "select id from t where id > ?" [5]
          { mysql_stmt_param_count := 1, mysql_stmt_result_metadata := none,
            mysql_error := "Lost connection" }
          { id := 0, ip_ := "10.0.0.1", is_health_ := true }).result
        = .thrown "Failed to stmt_result_metadata : Lost connection"
      ∧ (mysql.query (.tuple [.arithmetic .int32_t]) "select id from t where id > ?" [5]
          { mysql_stmt_param_count := 1, mysql_stmt_result_metadata := none,
            mysql_error := "Lost connection" }
          { id := 0, ip_ := "10.0.0.1", is_health_ := true }).conn.is_health = true)
    ∧ ((mysql.query (.tuple [.arithmetic .int32_t]) "select id from t where id > ?" [5]
          { mysql_stmt_param_count := 1, mysql_stmt_result_metadata := some 1,
            mysql_stmt_bind_param := 1, mysql_error := "Lost connection" }
          { id := 0, ip_ := "10.0.0.1", is_health_ := true }).result
        = .thrown "Failed to stmt_bind_param : Lost connection"
      ∧ (mysql.query (.tuple [.arithmetic .int32_t]) "select id from t where id > ?" [5]
          { mysql_stmt_param_count := 1, mysql_stmt_result_metadata := some 1,
            mysql_stmt_bind_param := 1, mysql_error := "Lost connection" }
          { id := 0, ip_ := "10.0.0.1", is_health_ := true }).conn.is_health = true)
    ∧ ((mysql.query (.tuple [.arithmetic .int32_t]) "select id from t where id > ?" [5]
          { mysql_stmt_param_count := 1, mysql_stmt_result_metadata := some 1,
            mysql_stmt_bind_result := 1, mysql_error := "Lost connection" }
          { id := 0, ip_ := "10.0.0.1", is_health_ := true }).result
        = .thrown "Failed to stmt_bind_param : Lost connection"
      ∧ (mysql.query (.tuple [.arithmetic .int32_t]) "select id from t where id > ?" [5]
          { mysql_stmt_param_count := 1, mysql_stmt_result_metadata := some 1,
            mysql_stmt_bind_result := 1, mysql_error := "Lost connection" }
          { id := 0, ip_ := "10.0.0.1", is_health_ := true }).conn.is_health = true)
    ∧ ((mysql.query (.tuple [.arithmetic .int32_t]) "select id from t where id > ?" [5]
          { mysql_stmt_param_count := 1, mysql_stmt_result_metadata := some 1,
            mysql_stmt_store_result := 1, mysql_error := "Lost connection" }
          { id := 0, ip_ := "10.0.0.1", is_health_ := true }).result
        = .thrown "Failed to stmt_store_result : Lost connection"
      ∧ (mysql.query (.tuple [.arithmetic .int32_t]) "select id from t where id > ?" [5]
          { mysql_stmt_param_count := 1, mysql_stmt_result_metadata := some 1,
            mysql_stmt_store_result := 1, mysql_error := "Lost connection" }
          { id := 0, ip_ := "10.0.0.1", is_health_ := true }).conn.is_health = true)
    ∧ ((sqlserver.query (.tuple [.arithmetic .int32_t]) "select id from t where id > ?" [5]
          { SQLNumParams := (-1, 0), sqlserver_error := "Communication link failure" }
          { id := 0, opt_ := { ip := "10.0.0.1" }, is_health_ := true }).result
        = .thrown "SQLNumParams error: Communication link failure"
      ∧ (sqlserver.query (.tuple [.arithmetic .int32_t]) "select id from t where id > ?" [5]
          { SQLNumParams := (-1, 0), sqlserver_error := "Communication link failure" }
          { id := 0, opt_ := { ip := "10.0.0.1" }, is_health_ := true }).conn.is_health = true)
    ∧ ((sqlserver.query (.tuple [.arithmetic .int32_t]) "select id from t where id > ?" [5]
          { SQLNumParams := (0, 1), SQLNumResultCols := (-1, 0),
            sqlserver_error := "Communication link failure" }
          { id := 0, opt_ := { ip := "10.0.0.1" }, is_health_ := true }).result
        = .thrown "SQLNumResultCols error: Communication link failure"
      ∧ (sqlserver.query (.tuple [.arithmetic .int32_t]) "select id from t where id > ?" [5]
          { SQLNumParams := (0, 1), SQLNumResultCols := (-1, 0),
            sqlserver_error := "Communication link failure" }
          { id := 0, opt_ := { ip := "10.0.0.1" }, is_health_ := true }).conn.is_health = true)
    ∧ ((sqlserver.query (.tuple [.arithmetic .int32_t]) "select id from t where id > ?" [5]
          { SQLNumParams := (0, 1), SQLNumResultCols := (0, 1), SQLBindParameter := fun _ => -1,
            sqlserver_error := "Communication link failure" }
          { id := 0, opt_ := { ip := "10.0.0.1" }, is_health_ := true }).result
        = .thrown "SQLBindParameter error: Communication link failure"
      ∧ (sqlserver.query (.tuple [.arithmetic .int32_t]) "select id from t where id > ?" [5]
          { SQLNumParams := (0, 1), SQLNumResultCols := (0, 1), SQLBindParameter := fun _ => -1,
            sqlserver_error := "Communication link failure" }
          { id := 0, opt_ := { ip := "10.0.0.1" }, is_health_ := true }).conn.is_health = true)
    ∧ ((sqlserver.query (.tuple [.arithmetic .int32_t]) "select id from t where id > ?" [5]
          { SQLNumParams := (0, 1), SQLNumResultCols := (0, 1), SQLBindCol := fun _ => -1,
            sqlserver_error := "Communication link failure" }
          { id := 0, opt_ := { ip := "10.0.0.1" }, is_health_ := true }).result
        = .thrown "SQLBindCol error: Communication link failure"
      ∧ (sqlserver.query (.tuple [.arithmetic .int32_t]) "select id from t where id > ?" [5]
          { SQLNumParams := (0, 1), SQLNumResultCols := (0, 1), SQLBindCol := fun _ => -1,
            sqlserver_error := "Communication link failure" }
          { id := 0, opt_ := { ip := "10.0.0.1" }, is_health_ := true }).conn.is_health = true)
    ∧ ((mysql.query (.tuple [.arithmetic .int32_t]) "select id from t where id > ?" [5]
          { mysql_stmt_prepare := 1, mysql_error := "Lost connection" }
          { id := 0, ip_ := "10.0.0.1", is_health_ := true }).conn.is_health = false
      ∧ (mysql.query (.tuple [.arithmetic .int32_t]) "select id from t where id > ?" [5]
          { mysql_stmt_param_count := 1, mysql_stmt_result_metadata := some 1,
            mysql_stmt_execute := 1, mysql_error := "Lost connection" }
          { id := 0, ip_ := "10.0.0.1", is_health_ := true }).conn.is_health = false) := by
  refine ⟨⟨by decide, by decide⟩, ⟨by decide, by decide⟩, ⟨by decide, by decide⟩,
    ⟨by decide, by decide⟩, ⟨by decide, by decide⟩, ⟨by decide, by decide⟩,
    ⟨by decide, by decide⟩, ⟨by decide, by decide⟩, ⟨by decide, by decide⟩⟩

/-! ### C13 -/

/-- C13 fails on the code: a MySQL query for one `int32_t` column whose first
`mysql_stmt_fetch` returns 0 with the value 7 and whose second returns 1 (an error occurred).
The loop `while (!mysql_stmt_fetch(...))` ends as for `MYSQL_NO_DATA`: the query returns
normally with the one row fetched so far and the connection stays healthy. The SQL Server
connection throws "SQLFetch error:" followed by the native error at the same input with
`SQL_ERROR`. -/
theorem C13_fetch_error_returns_rows_so_far :
    (mysql.query (.tuple [.arithmetic .int32_t]) "select id from t" ([] : List Nat)
        { mysql_stmt_result_metadata := some 1,
          mysql_stmt_fetch := [(0, [{ is_null := false, value := some 7 }]), (1, [])],
          mysql_error := "Lost connection to MySQL server during query" }
        { id := 0, ip_ := "10.0.0.1", is_health_ := true }).result
      = .returned [[.arithmetic .int32_t 7]]
    ∧ (mysql.query (.tuple [.arithmetic .int32_t]) "select id from t" ([] : List Nat)
        { mysql_stmt_result_metadata := some 1,
          mysql_stmt_fetch := [(0, [{ is_null := false, value := some 7 }]), (1, [])],
          mysql_error := "Lost connection to MySQL server during query" }
        { id := 0, ip_ := "10.0.0.1", is_health_ := true }).conn.is_health = true
    ∧ (sqlserver.query (.tuple [.arithmetic .int32_t]) "select id from t" ([] : List Nat)
        { SQLNumResultCols := (0, 1),
          SQLFetch := [(0, [{ ind := 4, value := some 7 }]), (-1, [])],
          sqlserver_error := "Communication link failure" }
        { id := 0, opt_ := { ip := "10.0.0.1" }, is_health_ := true }).result
      = .thrown "SQLFetch error:Communication link failure" := by
  refine ⟨by decide, by decide, by decide⟩

/-! ### C14 -/

/-- C14: for every connection and every sequence of calls of `execute`, `query`, the
transaction verbs, `ping`, `get_last_insert_id` and `is_health` on it: once the flag read by
`is_health()` is false after a prefix of the calls, it is false after every longer prefix;
and no single call turns the flag from false to true. Both for the MySQL and for the SQL
Server connection (which has no `ping` and no `get_last_insert_id`). -/
theorem C14_unhealthy_is_terminal {A B : Type}
    (before later : List (mysql.operation A)) (c : mysql.connection)
    (before_s later_s : List (sqlserver.operation B)) (cs : sqlserver.connection) :
    ((mysql.operations before c).is_health = false →
        (mysql.operations (before ++ later) c).is_health = false)
      ∧ ((sqlserver.operations before_s cs).is_health = false →
        (sqlserver.operations (before_s ++ later_s) cs).is_health = false)
      ∧ (∀ op : mysql.operation A, c.is_health = false → (op.conn c).is_health = false)
      ∧ (∀ op : sqlserver.operation B, cs.is_health = false →
          (op.conn cs).is_health = false) := by
  refine ⟨?_, ?_, ?_, ?_⟩
  · intro h
    rw [mysql.operations_append]
    exact mysql.operations_unhealthy later _ h
  · intro h
    rw [sqlserver.operations_append_odbc]
    exact sqlserver.operations_unhealthy_odbc later_s _ h
  · intro op h
    exact mysql.operations_unhealthy [op] c h
  · intro op h
    exact sqlserver.operations_unhealthy_odbc [op] cs h

/-- C14 at concrete inputs: a healthy connection on which `execute` fails, followed by a
successful ping, a successful query, a commit and `is_health()`. -/
theorem C14_unhealthy_is_terminal_witness :
    (mysql.operations
        ([.execute "delete from t" { mysql_query := 1 }]
          ++ [.ping 0, .query .void "insert into t values (?)" [5] { mysql_stmt_param_count := 1 },
              .commit_transaction {}, .get_last_insert_id 9, .is_health])
        { id := 0, ip_ := "10.0.0.1", is_health_ := true }).is_health = false
    ∧ (sqlserver.operations
        ([.execute "delete from t" { SQLExecDirect := -1 }]
          ++ [.query .void "insert into t values (?)" [5] { SQLNumParams := (0, 1) },
              .commit_transaction {}, .is_health])
        { id := 0, opt_ := { ip := "10.0.0.1" }, is_health_ := true }).is_health = false :=
  have h := C14_unhealthy_is_terminal
    [.execute "delete from t" { mysql_query := 1 }]
    [.ping 0, .query .void "insert into t values (?)" [5] { mysql_stmt_param_count := 1 },
      .commit_transaction {}, .get_last_insert_id 9, .is_health]
    { id := 0, ip_ := "10.0.0.1", is_health_ := true }
    [.execute "delete from t" { SQLExecDirect := -1 }]
    [.query .void "insert into t values (?)" [5] { SQLNumParams := (0, 1) },
      .commit_transaction {}, .is_health]
    { id := 0, opt_ := { ip := "10.0.0.1" }, is_health_ := true }
  ⟨h.1 (by decide), h.2.1 (by decide)⟩

/-! ### C16 -/

/-- C16: two guards `g` (holding `a`) and `h` (holding `b`) on one pool, whatever its
`return_back` is. The move assignment `g = std::move(h)` calls `return_back` once, with `a`,
and that call is its first event, before `g` takes `b`; afterwards `g` holds `b`, `h` holds
nothing, and the destructor of `h` calls nothing and leaves the pool as it is. The
destructor of any guard calls `return_back` exactly once, as its first event and with the
connection held, when the guard holds one, and does nothing otherwise. The destructor of the
MySQL and of the SQL Server guard are instances of it. -/
theorem C16_guard_returns_once {Conn Pool : Type}
    (return_back : Conn → Pool → Pool × Option Conn) (a b : Conn) (held : Option Conn)
    (s : Pool) (Model : model) (gm : mysql.connection_guard) (sm : mysql.connection_pool)
    (gs : sqlserver.connection_guard) (ss : sqlserver.connection_pool) :
    ((connection_guard.move_assignment return_back (some a) (some b) s).events.filter
        guard_event.is_return_back = [.return_back a]
      ∧ (∃ rest, (connection_guard.move_assignment return_back (some a) (some b) s).events
            = .return_back a :: .take b :: rest
          ∧ ∀ e ∈ rest, e.is_return_back = false ∧ e ≠ .take b)
      ∧ (connection_guard.move_assignment return_back (some a) (some b) s).connection_pool_
          = (return_back a s).1
      ∧ (connection_guard.move_assignment return_back (some a) (some b) s).conn_ = some b
      ∧ (connection_guard.move_assignment return_back (some a) (some b) s).cg = none
      ∧ (connection_guard.destructor return_back
            (connection_guard.move_assignment return_back (some a) (some b) s).cg
            (connection_guard.move_assignment return_back (some a) (some b) s).connection_pool_
          ).events = []
      ∧ (connection_guard.destructor return_back
            (connection_guard.move_assignment return_back (some a) (some b) s).cg
            (connection_guard.move_assignment return_back (some a) (some b) s).connection_pool_
          ).connection_pool_ = (return_back a s).1)
    ∧ ((connection_guard.destructor return_back held s).events.filter
          guard_event.is_return_back
        = (match held with
          | some c => [.return_back c]
          | none => [])
      ∧ (connection_guard.destructor return_back held s).events.head?
        = held.map guard_event.return_back
      ∧ (connection_guard.destructor return_back held s).connection_pool_
        = (match held with
          | some c => (return_back c s).1
          | none => s))
    ∧ (mysql.connection_guard.destroy Model gm sm
        = (connection_guard.destructor (mysql.return_back Model) gm.conn_ sm).connection_pool_
      ∧ sqlserver.connection_guard.destroy gs ss
        = (connection_guard.destructor (fun p pool => (sqlserver.return_back p pool, none))
            gs.conn_ ss).connection_pool_) := by
  refine ⟨⟨?_, ?_, rfl, rfl, rfl, rfl, rfl⟩, ⟨?_, ?_, ?_⟩, ?_, ?_⟩
  · unfold connection_guard.move_assignment
    cases h : (return_back a s).2 <;> simp [guard_event.is_return_back, h]
  · unfold connection_guard.move_assignment
    cases h : (return_back a s).2 <;> simp [guard_event.is_return_back, h]
  · unfold connection_guard.destructor
    cases held with
    | none => rfl
    | some c => cases h : (return_back c s).2 <;> simp [guard_event.is_return_back, h]
  · cases held <;> rfl
  · cases held <;> rfl
  · unfold mysql.connection_guard.destroy connection_guard.destructor
    cases gm.conn_ <;> rfl
  · unfold sqlserver.connection_guard.destroy connection_guard.destructor
    cases gs.conn_ <;> rfl

/-! ### C18 -/

/-- C18 fails on the code: `get_connection<Type>` branches on `Type` only, never on `Model`.
On a cluster pool that knows one PRIMARY and one SECONDARY, `get_connection<general>()`
finds `pool_` empty and creates a connection to the default constructed `node_` (empty ip):
with a server answering there it returns a guard holding that connection, otherwise it
throws the error of the connection attempt. On a single mode pool `get_connection<master>`
and `get_connection<slave>` throw before any connection is created. -/
theorem C18_general_on_cluster_pool :
    (mysql.get_connection .general none
        (mysql.update_cluster_connections
          [⟨"10.0.0.1", "3306", "PRIMARY"⟩, ⟨"10.0.0.2", "3306", "SECONDARY"⟩] {})).2
      = .returned { conn_ := some { id := 0, ip_ := "", is_health_ := true } }
    ∧ (mysql.get_connection .general none
        (mysql.update_cluster_connections
          [⟨"10.0.0.1", "3306", "PRIMARY"⟩, ⟨"10.0.0.2", "3306", "SECONDARY"⟩] {})).1.created
      = 1
    ∧ (mysql.get_connection .general (some "Can't connect to MySQL server")
        (mysql.update_cluster_connections
          [⟨"10.0.0.1", "3306", "PRIMARY"⟩, ⟨"10.0.0.2", "3306", "SECONDARY"⟩] {})).2
      = .thrown "Failed to connect to database: Can't connect to MySQL server"
    ∧ mysql.get_connection .master none { node_ := ⟨"10.0.0.1", "3306", ""⟩ }
      = ({ node_ := ⟨"10.0.0.1", "3306", ""⟩, master_fetch_times_ := 1 },
          .thrown "mysql cluster no master node found now")
    ∧ mysql.get_connection .slave none { node_ := ⟨"10.0.0.1", "3306", ""⟩ }
      = ({ node_ := ⟨"10.0.0.1", "3306", ""⟩, slave_fetch_times_ := 1 },
          .thrown "mysql cluster no slave node found now") := by
  refine ⟨by decide, by decide, by decide, by decide, by decide⟩

/-! ### Messages of the exceptions -/

namespace except

theorem not_located_of_plain (what : String) (h : plain what) : ¬ located what := by
  rintro ⟨src_name, src_line, error_msg, e⟩
  obtain ⟨c, rest, hc, hne⟩ := h
  rw [e] at hc
  simp only [String.data_append, List.append_assoc, List.cons_append, List.cons.injEq] at hc
  exact hne hc.1.symm

theorem plain_append (a b : String) (h : plain a) : plain (a ++ b) := by
  obtain ⟨c, rest, hc, hne⟩ := h
  exact ⟨c, rest ++ b.data, by rw [String.data_append, hc]; rfl, hne⟩

end except

namespace mysql

theorem execute_thrown_plain (sql : String) (d : statement) (c : connection) (w : String)
    (h : (execute sql d c).result = .thrown w) : except.plain w := by
  unfold execute at h
  split at h
  · simp only [outcome.thrown.injEq] at h
    subst h
    repeat (first | exact ⟨_, _, rfl, by decide⟩ | apply except.plain_append)
  · simp at h

theorem check_output_size_plain (R : ReturnType field_type) (d : statement) (w : String)
    (h : (check_output_size R d).2 = some w) : except.plain w := by
  unfold check_output_size at h
  repeat' split at h
  all_goals first
    | (simp only [Option.some.injEq] at h
       subst h
       repeat (first | exact ⟨_, _, rfl, by decide⟩ | apply except.plain_append))
    | (simp at h)

theorem before_execute_thrown_plain {A : Type} (R : ReturnType field_type)
    (statement_sql : String) (args : List A) (d : statement) (c : connection) (w : String)
    (h : (before_execute R statement_sql args d c).result = .thrown w) : except.plain w := by
  unfold before_execute at h
  split at h
  · simp only [outcome.thrown.injEq] at h
    subst h
    repeat (first | exact ⟨_, _, rfl, by decide⟩ | apply except.plain_append)
  · split at h
    · simp only [outcome.thrown.injEq] at h
      subst h
      exact ⟨_, _, rfl, by decide⟩
    · simp only at h
      split at h
      · rename_i what hwhat
        simp only [outcome.thrown.injEq] at h
        subst h
        split at hwhat
        · simp at hwhat
        · exact check_output_size_plain R d _ hwhat
      · split at h
        · split at h
          · simp only [outcome.thrown.injEq] at h
            subst h
            repeat (first | exact ⟨_, _, rfl, by decide⟩ | apply except.plain_append)
          · simp at h
        · simp at h

theorem fetch_rows_result (param_binds : List MYSQL_BIND)
    (fetches : List (Int × List column_store)) (st : fetch_state) :
    (∃ back_data, (fetch_rows param_binds fetches st).2 = .returned back_data)
      ∨ (fetch_rows param_binds fetches st).2 = .undefined := by
  induction fetches generalizing st with
  | nil => exact Or.inl ⟨[], rfl⟩
  | cons f fetches ih =>
    obtain ⟨ret, stores⟩ := f
    unfold fetch_rows
    split
    · exact Or.inl ⟨[], rfl⟩
    · simp only
      split
      · exact Or.inr rfl
      · rename_i r1 _ _
        rcases ih { store_columns param_binds stores st with r := List.map moved_from r1 }
          with ⟨back_data, e⟩ | e
        · rw [e]; exact Or.inl ⟨_, rfl⟩
        · rw [e]; exact Or.inr rfl

theorem after_execute_thrown_plain (elements : List field_type) (d : statement)
    (c : connection) (w : String) (h : (after_execute elements d c).result = .thrown w) :
    except.plain w := by
  unfold after_execute at h
  simp only at h
  split at h
  · simp only [outcome.thrown.injEq] at h
    subst h
    repeat (first | exact ⟨_, _, rfl, by decide⟩ | apply except.plain_append)
  · split at h
    · simp only [outcome.thrown.injEq] at h
      subst h
      repeat (first | exact ⟨_, _, rfl, by decide⟩ | apply except.plain_append)
    · simp only at h
      rcases fetch_rows_result
        (build_result_params (List.map value_initialized elements) 0 []).2.1 d.mysql_stmt_fetch
        { r := (build_result_params (List.map value_initialized elements) 0 []).2.2,
          is_null := List.map (fun _ => false) elements,
          buf_keeper := (build_result_params (List.map value_initialized elements) 0 []).1 }
        with ⟨back_data, e⟩ | e
      · rw [e] at h; simp at h
      · rw [e] at h; simp at h

theorem query_thrown_plain {A : Type} (R : ReturnType field_type) (statement_sql : String)
    (args : List A) (d : statement) (c : connection) (w : String)
    (h : (query R statement_sql args d c).result = .thrown w) : except.plain w := by
  unfold query at h
  simp only at h
  split at h
  · rename_i what hb
    simp only [outcome.thrown.injEq] at h
    subst h
    exact before_execute_thrown_plain R statement_sql args d c _ hb
  · simp at h
  · simp at h
  · split at h
    · simp only [outcome.thrown.injEq] at h
      subst h
      apply except.plain_append
      split <;> exact ⟨_, _, rfl, by decide⟩
    · split at h
      · simp at h
      · exact after_execute_thrown_plain _ d _ w h
      · exact after_execute_thrown_plain _ d _ w h
      · exact after_execute_thrown_plain _ d _ w h

theorem get_connection_thrown_plain (type : conn_type) (connect_error : Option String)
    (s : connection_pool) (w : String)
    (h : (get_connection type connect_error s).2 = .thrown w) : except.plain w := by
  have hc : ∀ (node : node_info) (s1 : connection_pool),
      (create_connection node connect_error s1).2 = .thrown w → except.plain w := by
    intro node s1 h1
    unfold create_connection at h1
    split at h1
    · simp only [outcome.thrown.injEq] at h1
      subst h1
      repeat (first | exact ⟨_, _, rfl, by decide⟩ | apply except.plain_append)
    · simp at h1
  have hg : ∀ (conn : Option connection) (node : node_info) (s1 : connection_pool),
      (guard_or_create conn node connect_error s1).2 = .thrown w → except.plain w := by
    intro conn node s1 h1
    unfold guard_or_create at h1
    split at h1
    · split at h1
      · simp at h1
      · exact hc _ _ h1
    · exact hc _ _ h1
  unfold get_connection at h
  split at h
  · simp only at h
    split at h
    · simp only [outcome.thrown.injEq] at h
      subst h
      exact ⟨_, _, rfl, by decide⟩
    · split at h
      · simp at h
      · split at h
        · simp at h
        · exact hg _ _ _ h
  · simp only at h
    split at h
    · simp only [outcome.thrown.injEq] at h
      subst h
      exact ⟨_, _, rfl, by decide⟩
    · split at h
      · simp at h
      · split at h
        · simp at h
        · exact hg _ _ _ h
  · exact hg _ _ _ h

end mysql

namespace sqlserver

theorem build_result_params_error_plain_odbc (d : statement) (ts : List field) (index : Nat)
    (buf : staging_buffers) (w : String)
    (h : (build_result_params d ts index buf).2 = .error w) : except.plain w := by
  induction ts generalizing index buf with
  | nil => simp [build_result_params] at h
  | cons t ts ih =>
    unfold build_result_params at h
    simp only at h
    split at h
    · simp only [Except.error.injEq] at h
      subst h
      repeat (first | exact ⟨_, _, rfl, by decide⟩ | apply except.plain_append)
    · simp only at h
      split at h
      · simp at h
      · rename_i what hwhat
        simp only [Except.error.injEq] at h
        subst h
        exact ih _ _ hwhat

theorem build_bind_params_plain_odbc {A : Type} (d : statement) (args : List A) (index : Nat)
    (w : String) (h : (build_bind_params d args index).2 = some w) : except.plain w := by
  induction args generalizing index with
  | nil => simp [build_bind_params] at h
  | cons a args ih =>
    unfold build_bind_params at h
    split at h
    · simp only [Option.some.injEq] at h
      subst h
      repeat (first | exact ⟨_, _, rfl, by decide⟩ | apply except.plain_append)
    · exact ih _ h

theorem check_output_size_plain_odbc (R : ReturnType field_type) (d : statement) (w : String)
    (h : (check_output_size R d).2 = some w) : except.plain w := by
  unfold check_output_size at h
  repeat' split at h
  all_goals first
    | (simp only [Option.some.injEq] at h
       subst h
       repeat (first | exact ⟨_, _, rfl, by decide⟩ | apply except.plain_append))
    | (simp at h)

theorem before_execute_thrown_plain_odbc {A : Type} (R : ReturnType field_type)
    (statement_sql : String) (args : List A) (d : statement) (c : connection) (w : String)
    (h : (before_execute R statement_sql args d c).result = .thrown w) : except.plain w := by
  unfold before_execute at h
  split at h
  · simp only [outcome.thrown.injEq] at h
    subst h
    repeat (first | exact ⟨_, _, rfl, by decide⟩ | apply except.plain_append)
  · split at h
    · simp only [outcome.thrown.injEq] at h
      subst h
      repeat (first | exact ⟨_, _, rfl, by decide⟩ | apply except.plain_append)
    · split at h
      · simp only [outcome.thrown.injEq] at h
        subst h
        exact ⟨_, _, rfl, by decide⟩
      · simp only at h
        split at h
        · rename_i what hwhat
          simp only [outcome.thrown.injEq] at h
          subst h
          split at hwhat
          · simp at hwhat
          · exact check_output_size_plain_odbc R d _ hwhat
        · simp only at h
          split at h
          · rename_i what hwhat
            simp only [outcome.thrown.injEq] at h
            subst h
            exact build_bind_params_plain_odbc d args 0 _ hwhat
          · simp at h

theorem fetch_rows_thrown_plain_odbc (columns : List bound_column) (d : statement)
    (fetches : List (Int × List column_store)) (st : fetch_state) (c : connection) (w : String)
    (h : (fetch_rows columns d fetches st c).result = .thrown w) : except.plain w := by
  induction fetches generalizing st with
  | nil => simp [fetch_rows] at h
  | cons f fetches ih =>
    obtain ⟨retcode, stores⟩ := f
    unfold fetch_rows at h
    split at h
    · simp at h
    · split at h
      · simp only [outcome.thrown.injEq] at h
        subst h
        repeat (first | exact ⟨_, _, rfl, by decide⟩ | apply except.plain_append)
      · simp only at h
        split at h
        · simp at h
        · simp only at h
          split at h
          · simp at h
          · rename_i other hother
            rw [h] at hother
            exact ih _ (by assumption)

theorem after_execute_thrown_plain_odbc (elements : List field_type) (d : statement)
    (c : connection) (w : String) (h : (after_execute elements d c).result = .thrown w) :
    except.plain w := by
  unfold after_execute at h
  simp only at h
  split at h
  · rename_i what hwhat
    simp only [outcome.thrown.injEq] at h
    subst h
    exact build_result_params_error_plain_odbc d _ _ _ _ hwhat
  · exact fetch_rows_thrown_plain_odbc _ d _ _ c w h

theorem scope_guard_thrown_odbc {α : Type} (d : statement) (body : run α) (w : String)
    (h : (scope_guard d body).result = .thrown w) : body.result = .thrown w := by
  unfold scope_guard at h
  split at h
  · exact h
  · exact h
  · split at h
    · simp at h
    · exact h

theorem query_thrown_plain_odbc {A : Type} (R : ReturnType field_type) (statement_sql : String)
    (args : List A) (d : statement) (c : connection) (w : String)
    (h : (query R statement_sql args d c).result = .thrown w) : except.plain w := by
  unfold query at h
  simp only at h
  split at h
  · rename_i what hb
    simp only [outcome.thrown.injEq] at h
    subst h
    exact before_execute_thrown_plain_odbc R statement_sql args d c _ hb
  · simp at h
  · simp at h
  · split at h
    · simp only [outcome.thrown.injEq] at h
      subst h
      repeat (first | exact ⟨_, _, rfl, by decide⟩ | apply except.plain_append)
    · have h1 := scope_guard_thrown_odbc d _ w h
      simp only at h1
      split at h1
      · simp at h1
      · exact after_execute_thrown_plain_odbc _ d _ w h1
      · exact after_execute_thrown_plain_odbc _ d _ w h1
      · exact after_execute_thrown_plain_odbc _ d _ w h1

theorem execute_thrown_plain_odbc (sql : String) (d : statement) (c : connection) (w : String)
    (h : (execute sql d c).result = .thrown w) : except.plain w := by
  unfold execute at h
  split at h
  · simp only [outcome.thrown.injEq] at h
    subst h
    repeat (first | exact ⟨_, _, rfl, by decide⟩ | apply except.plain_append)
  · have h1 := scope_guard_thrown_odbc d _ w h
    simp at h1

end sqlserver

/-! ### C17 -/

/-- C17 fails on the code: `execute` on a driver failure, `query` with one argument too few
and `get_connection<master>` without a master throw exceptions whose `what()` is the bare
message given to the one-argument constructor; none has the form
"Exception occured at file:line. message". -/
theorem C17_what_without_location :
    ((mysql.execute "select 1" { mysql_query := 1, mysql_error := "MySQL server has gone away" }
          { id := 0, ip_ := "10.0.0.1", is_health_ := true }).result
        = .thrown (except.exception.of_msg
            "Failed to excute sql<select 1>: MySQL server has gone away").what
      ∧ ¬ except.located (except.exception.of_msg
            "Failed to excute sql<select 1>: MySQL server has gone away").what)
    ∧ ((mysql.query .void "insert into t values (?, ?)" [5] { mysql_stmt_param_count := 2 }
          { id := 0, ip_ := "10.0.0.1", is_health_ := true }).result
        = .thrown (except.exception.of_msg "param size do not match placeholder size").what
      ∧ ¬ except.located
          (except.exception.of_msg "param size do not match placeholder size").what)
    ∧ ((mysql.get_connection .master none {}).2
        = .thrown (except.exception.of_msg "mysql cluster no master node found now").what
      ∧ ¬ except.located
          (except.exception.of_msg "mysql cluster no master node found now").what) := by
  refine ⟨⟨by decide, ?_⟩, ⟨by decide, ?_⟩, ⟨by decide, ?_⟩⟩
  · exact except.not_located_of_plain _ ⟨_, _, rfl, by decide⟩
  · exact except.not_located_of_plain _ ⟨_, _, rfl, by decide⟩
  · exact except.not_located_of_plain _ ⟨_, _, rfl, by decide⟩

/-- C17 as amended: the `what()` of an exception built with the one-argument constructor (or
with message and code) is the message as it is; the form "Exception occured at file:line.
message" is the `what()` of an exception built with a constructor that takes `src_name` and
`src_line`, for instance from `EXCEPTION_SRC` and `EXCEPTION_LINE`. Every exception thrown
by `execute` or `query` of a MySQL or SQL Server connection or by `get_connection` of the
MySQL pool is built with the one-argument constructor from a message that does not start
that way, so its `what()` does not have that form. -/
theorem C17_what_is_the_message {A B : Type} (error_msg file : String)
    (error_code src_line : Int) (w : String)
    (sql : String) (dm : mysql.statement) (cm : mysql.connection)
    (Rm : ReturnType mysql.field_type) (args : List A)
    (ds : sqlserver.statement) (cs : sqlserver.connection)
    (Rs : ReturnType sqlserver.field_type) (args_s : List B)
    (type : conn_type) (connect_error : Option String) (s : mysql.connection_pool) :
    ((except.exception.of_msg error_msg).what = error_msg
      ∧ (except.exception.with_code error_msg error_code).what = error_msg
      ∧ (except.exception.with_location error_msg (except.EXCEPTION_SRC file) src_line).what
        = "Exception occured at " ++ except.EXCEPTION_SRC file ++ ":" ++ toString src_line
            ++ ". " ++ error_msg
      ∧ except.located
          (except.exception.with_location error_msg (except.EXCEPTION_SRC file) src_line).what
      ∧ except.located
          (except.exception.with_code_and_location error_msg error_code
            (except.EXCEPTION_SRC file) src_line).what)
    ∧ ((mysql.execute sql dm cm).result = .thrown w → ¬ except.located w)
    ∧ ((mysql.query Rm sql args dm cm).result = .thrown w → ¬ except.located w)
    ∧ ((sqlserver.execute sql ds cs).result = .thrown w → ¬ except.located w)
    ∧ ((sqlserver.query Rs sql args_s ds cs).result = .thrown w → ¬ except.located w)
    ∧ ((mysql.get_connection type connect_error s).2 = .thrown w → ¬ except.located w) := by
  refine ⟨⟨rfl, rfl, rfl, ⟨_, _, _, rfl⟩, ⟨_, _, _, rfl⟩⟩, ?_, ?_, ?_, ?_, ?_⟩
  · exact fun h => except.not_located_of_plain w (mysql.execute_thrown_plain sql dm cm w h)
  · exact fun h => except.not_located_of_plain w (mysql.query_thrown_plain Rm sql args dm cm w h)
  · exact fun h =>
      except.not_located_of_plain w (sqlserver.execute_thrown_plain_odbc sql ds cs w h)
  · exact fun h =>
      except.not_located_of_plain w (sqlserver.query_thrown_plain_odbc Rs sql args_s ds cs w h)
  · exact fun h =>
      except.not_located_of_plain w
        (mysql.get_connection_thrown_plain type connect_error s w h)

/-- C17 (amended) at concrete inputs: `execute`, a `query` whose bind fails, and
`get_connection<slave>` whose connection attempt fails, for both drivers; and the basename
that `EXCEPTION_SRC` gives for a path. -/
theorem C17_what_is_the_message_witness :
    (¬ except.located "Failed to excute sql<select 1>: server has gone away"
      ∧ ¬ except.located "Failed to stmt_bind_param : server has gone away"
      ∧ ¬ except.located "Failed to excute sql<select 1>: link failure"
      ∧ ¬ except.located "SQLBindParameter error: link failure"
      ∧ ¬ except.located "Failed to connect to database: timeout")
    ∧ except.EXCEPTION_SRC "/home/dev/sql-plus-plus/include/mysql_connection.hpp"
      = "mysql_connection.hpp" :=
  have h := C17_what_is_the_message "m" "/home/dev/sql-plus-plus/include/mysql_connection.hpp"
    0 98
  ⟨⟨(h "Failed to excute sql<select 1>: server has gone away" "select 1"
        { mysql_query := 1, mysql_error := "server has gone away" }
        { id := 0, ip_ := "10.0.0.1", is_health_ := true } .void ([] : List Nat)
        {} { id := 0, opt_ := { ip := "10.0.0.1" }, is_health_ := true } .void ([] : List Nat)
        .master none {}).2.1 (by decide),
    (h "Failed to stmt_bind_param : server has gone away" "insert into t values (?)"
        { mysql_stmt_param_count := 1, mysql_stmt_bind_param := 1,
          mysql_error := "server has gone away" }
        { id := 0, ip_ := "10.0.0.1", is_health_ := true } .void [5]
        {} { id := 0, opt_ := { ip := "10.0.0.1" }, is_health_ := true } .void ([] : List Nat)
        .master none {}).2.2.1 (by decide),
    (h "Failed to excute sql<select 1>: link failure" "select 1"
        {} { id := 0, ip_ := "10.0.0.1", is_health_ := true } .void ([] : List Nat)
        { SQLExecDirect := -1, sqlserver_error := "link failure" }
        { id := 0, opt_ := { ip := "10.0.0.1" }, is_health_ := true } .void ([] : List Nat)
        .master none {}).2.2.2.1 (by decide),
    (h "SQLBindParameter error: link failure" "insert into t values (?)"
        {} { id := 0, ip_ := "10.0.0.1", is_health_ := true } .void ([] : List Nat)
        { SQLNumParams := (0, 1), SQLBindParameter := fun _ => -1,
          sqlserver_error := "link failure" }
        { id := 0, opt_ := { ip := "10.0.0.1" }, is_health_ := true } .void [5]
        .master none {}).2.2.2.2.1 (by decide),
    (h "Failed to connect to database: timeout" "select 1"
        {} { id := 0, ip_ := "10.0.0.1", is_health_ := true } .void ([] : List Nat)
        {} { id := 0, opt_ := { ip := "10.0.0.1" }, is_health_ := true } .void ([] : List Nat)
        .slave (some "timeout")
        (mysql.update_cluster_connections
          [⟨"10.0.0.1", "3306", "PRIMARY"⟩, ⟨"10.0.0.2", "3306", "SECONDARY"⟩] {})).2.2.2.2.2
      (by decide)⟩,
   by decide⟩

/-! ### Where the connections of a pool are -/

namespace mysql

theorem occurrences_append (n : Nat) (l1 l2 : List connection) :
    occurrences n (l1 ++ l2) = occurrences n l1 + occurrences n l2 := by
  simp [occurrences, List.countP_append]

theorem occurrences_nil (n : Nat) : occurrences n [] = 0 := rfl

theorem occurrences_cons (n : Nat) (c : connection) (l : List connection) :
    occurrences n (c :: l) = occurrences n l + if c.id = n then 1 else 0 := by
  simp [occurrences, List.countP_cons]

theorem occurrences_head_tail (n : Nat) (q : List connection) :
    occurrences n q = occurrences n q.head?.toList + occurrences n q.tail := by
  cases q with
  | nil => rfl
  | cons c q =>
    simp only [List.head?_cons, Option.toList, List.tail_cons]
    rw [← occurrences_append]
    rfl

theorem pool_map.connections_append (m1 m2 : pool_map) :
    pool_map.connections (m1 ++ m2) = pool_map.connections m1 ++ pool_map.connections m2 := by
  induction m1 with
  | nil => rfl
  | cons e m1 ih =>
    obtain ⟨k, q⟩ := e
    simp [pool_map.connections, ih]

theorem pool_map.occurrences_update (n : Nat) (m : pool_map) (X : String) (f : queue → queue)
    (q : queue) (h : pool_map.find m X = some q) :
    occurrences n (pool_map.update m X f).connections + occurrences n q
      = occurrences n m.connections + occurrences n (f q) := by
  induction m with
  | nil => simp [pool_map.find] at h
  | cons e m ih =>
    obtain ⟨k, q1⟩ := e
    by_cases hk : k = X
    · simp only [pool_map.find, hk, if_true, Option.some.injEq] at h
      subst h
      simp only [pool_map.update, hk, if_true, pool_map.connections, occurrences_append]
      omega
    · simp only [pool_map.find, hk, if_false] at h
      have := ih h
      simp only [pool_map.update, hk, if_false, pool_map.connections, occurrences_append]
      omega

theorem pool_map.update_of_find_none (m : pool_map) (X : String) (f : queue → queue)
    (h : pool_map.find m X = none) : pool_map.update m X f = m := by
  induction m with
  | nil => rfl
  | cons e m ih =>
    obtain ⟨k, q1⟩ := e
    by_cases hk : k = X
    · simp [pool_map.find, hk] at h
    · simp only [pool_map.find, hk, if_false] at h
      simp [pool_map.update, hk, ih h]

theorem pool_map.connections_emplace_of_none (m : pool_map) (X : String) (q : queue)
    (h : pool_map.find m X = none) :
    (pool_map.emplace m X q).connections = m.connections ++ q := by
  unfold pool_map.emplace
  rw [h]
  simp [pool_map.connections_append, pool_map.connections]

theorem pool_map.emplace_of_some (m : pool_map) (X : String) (q q1 : queue)
    (h : pool_map.find m X = some q1) : pool_map.emplace m X q = m := by
  unfold pool_map.emplace
  rw [h]

theorem occurrences_held_append (n : Nat) (gs : List connection_guard) (g : connection_guard) :
    occurrences n ((gs ++ [g]).filterMap fun g => g.conn_)
      = occurrences n (gs.filterMap fun g => g.conn_) + occurrences n g.conn_.toList := by
  rw [List.filterMap_append, occurrences_append]
  cases h : g.conn_ <;> simp [List.filterMap, h]

theorem occurrences_held_eraseIdx (n : Nat) (gs : List connection_guard) (i : Nat)
    (g : connection_guard) (h : gs[i]? = some g) :
    occurrences n ((gs.eraseIdx i).filterMap fun g => g.conn_) + occurrences n g.conn_.toList
      = occurrences n (gs.filterMap fun g => g.conn_) := by
  induction gs generalizing i with
  | nil => simp at h
  | cons g1 gs ih =>
    cases i with
    | zero =>
      simp only [List.getElem?_cons_zero, Option.some.injEq] at h
      subst h
      cases hc : g1.conn_ <;>
        simp [List.filterMap_cons, hc, occurrences, List.countP_cons]
    | succ i =>
      simp only [List.getElem?_cons_succ] at h
      have := ih i h
      cases hc : g1.conn_ <;>
        simp only [List.eraseIdx_cons_succ, List.filterMap_cons, hc] <;>
        simp only [occurrences, List.countP_cons] at * <;> omega

theorem occurrences_held_set (n : Nat) (gs : List connection_guard) (i : Nat)
    (g g1 : connection_guard) (h : gs[i]? = some g) :
    occurrences n ((gs.set i g1).filterMap fun g => g.conn_) + occurrences n g.conn_.toList
      = occurrences n (gs.filterMap fun g => g.conn_) + occurrences n g1.conn_.toList := by
  induction gs generalizing i with
  | nil => simp at h
  | cons g0 gs ih =>
    cases i with
    | zero =>
      simp only [List.getElem?_cons_zero, Option.some.injEq] at h
      subst h
      cases hc : g0.conn_ <;> cases hc1 : g1.conn_ <;>
        (simp [List.filterMap_cons, hc, hc1, occurrences, List.countP_cons]; try omega)
    | succ i =>
      simp only [List.getElem?_cons_succ] at h
      have := ih i h
      cases hc : g0.conn_ <;>
        simp only [List.set_cons_succ, List.filterMap_cons, hc] <;>
        simp only [occurrences, List.countP_cons] at * <;> omega

theorem guard_or_create_occurrences (n : Nat) (conn : Option connection) (node : node_info)
    (connect_error : Option String) (s : connection_pool) :
    queued (guard_or_create conn node connect_error s).1 = queued s
      ∧ occurrences n
            ((returned_guard (guard_or_create conn node connect_error s).2).filterMap
              fun g => g.conn_)
          + occurrences n (conn.filter fun c => !c.is_health).toList
          + (if n < s.created then 1 else 0)
        = occurrences n conn.toList
          + (if n < (guard_or_create conn node connect_error s).1.created then 1 else 0) := by
  unfold guard_or_create create_connection
  cases conn with
  | none =>
    cases connect_error with
    | some what => simp [occurrences_nil, queued, returned_guard]
    | none =>
      simp only [queued, returned_guard, Option.filter, Option.toList, List.filterMap_cons,
        List.filterMap_nil, occurrences_cons, occurrences_nil, true_and]
      split_ifs <;> omega
  | some c =>
    by_cases h : c.is_health = true
    · simp [h, occurrences_cons, occurrences_nil, queued, Option.filter, returned_guard]
    · cases connect_error with
      | some what =>
        simp [h, occurrences_cons, occurrences_nil, queued, Option.filter, returned_guard]
      | none =>
        simp only [Bool.not_eq_true] at h
        simp only [h, queued, returned_guard, Option.filter, Option.toList,
          List.filterMap_cons, List.filterMap_nil, occurrences_cons, occurrences_nil, true_and,
          Bool.false_eq_true, if_false, Bool.not_false, if_true]
        split_ifs <;> omega

end mysql

namespace mysql

theorem get_connection_occurrences (n : Nat) (type : conn_type) (connect_error : Option String)
    (s : connection_pool) :
    occurrences n (queued (get_connection type connect_error s).1)
        + occurrences n
            ((returned_guard (get_connection type connect_error s).2).filterMap
              fun g => g.conn_)
        + occurrences n (get_connection_destroys type s).toList
        + (if n < s.created then 1 else 0)
      = occurrences n (queued s)
        + (if n < (get_connection type connect_error s).1.created then 1 else 0) := by
  cases type with
  | general =>
    obtain ⟨hq, hocc⟩ := guard_or_create_occurrences n s.pool_.head? s.node_ connect_error
      { s with pool_ := s.pool_.tail }
    have ht := occurrences_head_tail n s.pool_
    simp only [get_connection, get_connection_destroys, popped, hq]
    simp only [queued, occurrences_append] at *
    omega
  | master =>
    unfold get_connection get_connection_destroys popped master_index
    simp only
    by_cases h0 : s.masters_count_ = 0
    · simp [h0, returned_guard, Option.filter, occurrences_nil, queued]
    · simp only [h0, if_false]
      cases hnode : s.masters_[(s.master_fetch_times_ + 1) % 2 ^ 64 % s.masters_count_]? with
      | none => simp [returned_guard, Option.filter, occurrences_nil, queued]
      | some node =>
        simp only
        obtain hfind | ⟨q, hfind⟩ : s.master_pool_.find node.ip = none
            ∨ ∃ q, s.master_pool_.find node.ip = some q := by
          cases s.master_pool_.find node.ip <;> simp
        · simp [hfind, returned_guard, Option.filter, occurrences_nil, queued]
        · simp only [hfind]
          obtain ⟨hq, hocc⟩ := guard_or_create_occurrences n q.head? node connect_error
            { s with master_fetch_times_ := (s.master_fetch_times_ + 1) % 2 ^ 64,
                     master_pool_ := s.master_pool_.update node.ip List.tail }
          have hu := pool_map.occurrences_update n s.master_pool_ node.ip List.tail q hfind
          have ht := occurrences_head_tail n q
          rw [hq]
          simp only [queued, occurrences_append] at *
          omega
  | slave =>
    unfold get_connection get_connection_destroys popped slave_index
    simp only
    by_cases h0 : s.slaves_count_ = 0
    · simp [h0, returned_guard, Option.filter, occurrences_nil, queued]
    · simp only [h0, if_false]
      cases hnode : s.slaves_[(s.slave_fetch_times_ + 1) % 2 ^ 64 % s.slaves_count_]? with
      | none => simp [returned_guard, Option.filter, occurrences_nil, queued]
      | some node =>
        simp only
        obtain hfind | ⟨q, hfind⟩ : s.slave_pool_.find node.ip = none
            ∨ ∃ q, s.slave_pool_.find node.ip = some q := by
          cases s.slave_pool_.find node.ip <;> simp
        · simp [hfind, returned_guard, Option.filter, occurrences_nil, queued]
        · simp only [hfind]
          obtain ⟨hq, hocc⟩ := guard_or_create_occurrences n q.head? node connect_error
            { s with slave_fetch_times_ := (s.slave_fetch_times_ + 1) % 2 ^ 64,
                     slave_pool_ := s.slave_pool_.update node.ip List.tail }
          have hu := pool_map.occurrences_update n s.slave_pool_ node.ip List.tail q hfind
          have ht := occurrences_head_tail n q
          rw [hq]
          simp only [queued, occurrences_append] at *
          omega

theorem return_back_occurrences (n : Nat) (Model : model) (p : connection)
    (s : connection_pool) :
    occurrences n (queued (return_back Model p s).1)
        + occurrences n (return_back Model p s).2.toList
      = occurrences n (queued s) + occurrences n [p]
    ∧ (return_back Model p s).1.created = s.created := by
  cases Model with
  | single => simp [return_back, queued, occurrences_append, occurrences_nil, Nat.add_assoc]
  | cluster =>
    unfold return_back
    simp only
    cases hs : s.slave_pool_.find p.get_ip with
    | some q =>
      have hu := pool_map.occurrences_update n s.slave_pool_ p.get_ip (fun q => q ++ [p]) q hs
      simp only [queued, occurrences_append, Option.toList, occurrences_nil] at *
      exact ⟨by omega, trivial⟩
    | none =>
      cases hm : s.master_pool_.find p.get_ip with
      | some q =>
        have hu := pool_map.occurrences_update n s.master_pool_ p.get_ip (fun q => q ++ [p]) q hm
        simp only [queued, occurrences_append, Option.toList, occurrences_nil] at *
        exact ⟨by omega, trivial⟩
      | none => simp [Option.toList]

end mysql

namespace mysql

theorem update_node_emptied (st : reconciliation) (node : node_info) (X : String)
    (h : st.emptied X) : (update_node st node).emptied X := by
  by_cases hX : node.ip = X
  · subst hX
    unfold reconciliation.emptied at *
    unfold update_node
    obtain ⟨h1, h2⟩ := h
    cases hm : st.master_pool_.find node.ip <;> cases hs : st.slave_pool_.find node.ip <;>
      cases hnm : st.master_pool.find node.ip <;> cases hns : st.slave_pool.find node.ip <;>
      split <;>
      simp_all [pool_map.find_update, pool_map.find_emplace, pool_map.find_subscript]
  · obtain ⟨e1, e2, e3, e4⟩ := update_node_find_of_ne st node X hX
    unfold reconciliation.emptied at *
    rw [e1, e2, e3, e4]
    exact h

theorem pool_map.occurrences_emplace (n : Nat) (m : pool_map) (X : String) (q : queue)
    (h : (m.find X).isSome → q = []) :
    occurrences n (m.emplace X q).connections = occurrences n m.connections + occurrences n q := by
  cases hf : m.find X with
  | some q1 =>
    rw [pool_map.emplace_of_some m X q q1 hf, h (by simp [hf])]
    rfl
  | none => rw [pool_map.connections_emplace_of_none m X q hf, occurrences_append]

theorem pool_map.occurrences_clear (n : Nat) (m : pool_map) (X : String) (q : queue)
    (h : m.find X = some q) :
    occurrences n (m.update X fun _ => []).connections + occurrences n q
      = occurrences n m.connections := by
  have := pool_map.occurrences_update n m X (fun _ => []) q h
  simpa [occurrences_nil] using this

theorem update_node_occurrences (n : Nat) (st : reconciliation) (node : node_info)
    (h : st.emptied node.ip) :
    (update_node st node).occurrences n = st.occurrences n := by
  obtain ⟨h1, h2⟩ := h
  obtain hm | ⟨qm, hm⟩ : st.master_pool_.find node.ip = none
      ∨ ∃ q, st.master_pool_.find node.ip = some q := by
    cases st.master_pool_.find node.ip <;> simp
  · obtain hs | ⟨qs, hs⟩ : st.slave_pool_.find node.ip = none
        ∨ ∃ q, st.slave_pool_.find node.ip = some q := by
      cases st.slave_pool_.find node.ip <;> simp
    · unfold update_node
      simp only [hm, hs]
      split
      · simp only [reconciliation.occurrences, pool_map.subscript]
        rw [pool_map.occurrences_emplace n _ _ _ (fun _ => rfl)]
        simp [occurrences_nil]
      · simp only [reconciliation.occurrences, pool_map.subscript]
        rw [pool_map.occurrences_emplace n _ _ _ (fun _ => rfl)]
        simp [occurrences_nil]
    · have hc := pool_map.occurrences_clear n st.slave_pool_ node.ip qs hs
      unfold update_node
      simp only [hm, hs]
      split
      · simp only [reconciliation.occurrences]
        rw [pool_map.occurrences_emplace n _ _ _ (fun hk => by simpa [hm, hs] using h1 hk)]
        omega
      · simp only [reconciliation.occurrences]
        rw [pool_map.occurrences_emplace n _ _ _ (fun hk => by simpa [hm, hs] using h2 hk)]
        omega
  · have hc := pool_map.occurrences_clear n st.master_pool_ node.ip qm hm
    obtain hs | ⟨qs, hs⟩ : st.slave_pool_.find node.ip = none
        ∨ ∃ q, st.slave_pool_.find node.ip = some q := by
      cases st.slave_pool_.find node.ip <;> simp
    · unfold update_node
      simp only [hm, hs]
      split
      · simp only [reconciliation.occurrences]
        rw [pool_map.occurrences_emplace n _ _ _ (fun hk => by simpa [hm, hs] using h1 hk)]
        omega
      · simp only [reconciliation.occurrences]
        rw [pool_map.occurrences_emplace n _ _ _ (fun hk => by simpa [hm, hs] using h2 hk)]
        omega
    · have hcs := pool_map.occurrences_clear n st.slave_pool_ node.ip qs hs
      unfold update_node
      simp only [hm, hs]
      split
      · simp only [reconciliation.occurrences]
        rw [pool_map.occurrences_emplace n _ _ _ (fun hk => by simpa [hm, hs] using h1 hk)]
        omega
      · simp only [reconciliation.occurrences]
        rw [pool_map.occurrences_emplace n _ _ _ (fun hk => by simpa [hm, hs] using h2 hk)]
        omega

theorem foldl_update_node_occurrences (n : Nat) (nodes : List node_info) (st : reconciliation)
    (h : ∀ X, st.emptied X) :
    (nodes.foldl update_node st).occurrences n = st.occurrences n := by
  induction nodes generalizing st with
  | nil => rfl
  | cons node nodes ih =>
    rw [List.foldl_cons, ih _ (fun X => update_node_emptied st node X (h X))]
    exact update_node_occurrences n st node (h node.ip)

theorem update_cluster_connections_occurrences (n : Nat) (S : List node_info)
    (s : connection_pool) :
    occurrences n (queued (update_cluster_connections S s))
        + occurrences n (reconciled S s).master_pool_.connections
        + occurrences n (reconciled S s).slave_pool_.connections
      = occurrences n (queued s)
    ∧ (update_cluster_connections S s).created = s.created := by
  have h := foldl_update_node_occurrences n S
    { master_pool_ := s.master_pool_, slave_pool_ := s.slave_pool_ }
    (fun X => by simp [reconciliation.emptied, pool_map.find])
  simp only [reconciliation.occurrences, pool_map.connections, occurrences_nil] at h
  simp only [update_cluster_connections, reconciled, queued, occurrences_append]
  exact ⟨by omega, trivial⟩

end mysql

namespace mysql

theorem destructor_occurrences (n : Nat) (Model : model) (conn_ : Option connection)
    (s : connection_pool) :
    occurrences n (queued (connection_guard.destructor (return_back Model) conn_ s
          ).connection_pool_)
        + occurrences n (deleted_by
            (connection_guard.destructor (return_back Model) conn_ s).events)
      = occurrences n (queued s) + occurrences n conn_.toList
    ∧ (connection_guard.destructor (return_back Model) conn_ s).connection_pool_.created
      = s.created := by
  cases conn_ with
  | none => simp [connection_guard.destructor, deleted_by, occurrences_nil]
  | some a =>
    obtain ⟨h1, h2⟩ := return_back_occurrences n Model a s
    unfold connection_guard.destructor
    simp only [h2, and_true]
    cases hl : (return_back Model a s).2 <;>
      simp only [hl, deleted_by, List.filterMap_cons, List.filterMap_nil, Option.toList] at * <;>
      omega

theorem self_move_assignment_occurrences (n : Nat) (Model : model) (conn_ : Option connection)
    (s : connection_pool) :
    occurrences n (queued (connection_guard.self_move_assignment (return_back Model) conn_ s
          ).connection_pool_)
        + occurrences n (connection_guard.self_move_assignment (return_back Model) conn_ s
          ).conn_.toList
        + occurrences n (deleted_by
            (connection_guard.self_move_assignment (return_back Model) conn_ s).events)
      = occurrences n (queued s) + occurrences n conn_.toList
    ∧ (connection_guard.self_move_assignment (return_back Model) conn_ s
        ).connection_pool_.created = s.created := by
  cases conn_ with
  | none => simp [connection_guard.self_move_assignment, deleted_by, occurrences_nil]
  | some a =>
    obtain ⟨h1, h2⟩ := return_back_occurrences n Model a s
    unfold connection_guard.self_move_assignment
    simp only [h2, and_true]
    cases hl : (return_back Model a s).2 <;>
      simp only [hl, deleted_by, List.filterMap_cons, List.filterMap_nil, Option.toList,
        occurrences_nil] at * <;>
      omega

theorem move_assignment_occurrences (n : Nat) (Model : model) (conn_ cg : Option connection)
    (s : connection_pool) :
    occurrences n (queued (connection_guard.move_assignment (return_back Model) conn_ cg s
          ).connection_pool_)
        + occurrences n (connection_guard.move_assignment (return_back Model) conn_ cg s
          ).conn_.toList
        + occurrences n (connection_guard.move_assignment (return_back Model) conn_ cg s
          ).cg.toList
        + occurrences n (deleted_by
            (connection_guard.move_assignment (return_back Model) conn_ cg s).events)
      = occurrences n (queued s) + occurrences n conn_.toList + occurrences n cg.toList
    ∧ (connection_guard.move_assignment (return_back Model) conn_ cg s
        ).connection_pool_.created = s.created := by
  cases conn_ with
  | none =>
    cases cg <;>
      simp [connection_guard.move_assignment, deleted_by, occurrences_nil, Nat.add_assoc]
  | some a =>
    obtain ⟨h1, h2⟩ := return_back_occurrences n Model a s
    unfold connection_guard.move_assignment
    cases cg with
    | none =>
      simp only [h2, and_true, deleted_by, List.filterMap_cons, List.filterMap_nil,
        occurrences_nil]
      simp only [Option.toList] at *
      omega
    | some b =>
      simp only [h2, and_true]
      cases hl : (return_back Model a s).2 <;>
        simp only [hl, deleted_by, List.filterMap_cons, List.filterMap_nil, Option.toList,
          List.filterMap_append, List.append_nil, List.nil_append, List.cons_append,
          occurrences_nil, occurrences_cons] at * <;>
        omega

end mysql

namespace mysql

theorem execute_conn_id (sql : String) (d : statement) (c : connection) :
    (execute sql d c).conn.id = c.id := by
  rcases execute_conn sql d c with e | e <;> rw [e]

theorem pool_system.call_occurrences (n : Nat) (Model : model) (sys : pool_system)
    (call : system_call) :
    (sys.call Model call).occurrences n + (if n < sys.pool.created then 1 else 0)
      = sys.occurrences n + (if n < (sys.call Model call).pool.created then 1 else 0) := by
  cases call with
  | get_connection type connect_error =>
    have h := get_connection_occurrences n type connect_error sys.pool
    simp only [pool_system.call, pool_system.occurrences, pool_system.held,
      List.filterMap_append, occurrences_append]
    omega
  | destroy g =>
    obtain hg | ⟨guard, hg⟩ : sys.guards[g]? = none ∨ ∃ guard, sys.guards[g]? = some guard := by
      cases sys.guards[g]? <;> simp
    · simp only [pool_system.call, hg]
    · obtain ⟨h1, h2⟩ := destructor_occurrences n Model guard.conn_ sys.pool
      have h3 := occurrences_held_eraseIdx n sys.guards g guard hg
      simp only [pool_system.call, hg, pool_system.occurrences, pool_system.held,
        occurrences_append, h2]
      omega
  | move_assign g h =>
    obtain hg | ⟨this, hg⟩ : sys.guards[g]? = none ∨ ∃ guard, sys.guards[g]? = some guard := by
      cases sys.guards[g]? <;> simp
    · simp only [pool_system.call, hg]
    · obtain hh | ⟨cg, hh⟩ : sys.guards[h]? = none ∨ ∃ guard, sys.guards[h]? = some guard := by
        cases sys.guards[h]? <;> simp
      · simp only [pool_system.call, hg, hh]
      · by_cases hgh : g = h
        · subst hgh
          obtain rfl : this = cg := by
            rw [hg] at hh
            exact Option.some.inj hh
          obtain ⟨h1, h2⟩ := self_move_assignment_occurrences n Model this.conn_ sys.pool
          have h3 := occurrences_held_set n sys.guards g this
            { conn_ := (connection_guard.self_move_assignment (return_back Model) this.conn_
                sys.pool).conn_ } hg
          simp only [pool_system.call, hg, if_true, pool_system.occurrences,
            pool_system.held, occurrences_append, h2] at *
          omega
        · obtain ⟨h1, h2⟩ := move_assignment_occurrences n Model this.conn_ cg.conn_ sys.pool
          have h3 := occurrences_held_set n sys.guards g this
            { conn_ := (connection_guard.move_assignment (return_back Model) this.conn_
                cg.conn_ sys.pool).conn_ } hg
          have hh1 : (sys.guards.set g
              { conn_ := (connection_guard.move_assignment (return_back Model) this.conn_
                  cg.conn_ sys.pool).conn_ })[h]? = some cg := by
            rw [List.getElem?_set_ne hgh]
            exact hh
          have h4 := occurrences_held_set n _ h cg
            { conn_ := (connection_guard.move_assignment (return_back Model) this.conn_
                cg.conn_ sys.pool).cg } hh1
          simp only [pool_system.call, hg, hh, hgh, if_false, pool_system.occurrences,
            pool_system.held, occurrences_append, h2] at *
          omega
  | move_construct h =>
    obtain hh | ⟨cg, hh⟩ : sys.guards[h]? = none ∨ ∃ guard, sys.guards[h]? = some guard := by
      cases sys.guards[h]? <;> simp
    · simp only [pool_system.call, hh]
    · have h3 := occurrences_held_set n sys.guards h cg { conn_ := none } hh
      have h4 := occurrences_held_append n (sys.guards.set h { conn_ := none })
        { conn_ := cg.conn_ }
      simp only [pool_system.call, hh, pool_system.occurrences, pool_system.held,
        Option.toList, occurrences_nil] at *
      omega
  | execute g sql d =>
    obtain hg | ⟨guard, hg⟩ : sys.guards[g]? = none ∨ ∃ guard, sys.guards[g]? = some guard := by
      cases sys.guards[g]? <;> simp
    · simp only [pool_system.call, hg]
    · obtain ⟨conn_⟩ := guard
      cases conn_ with
      | none =>
        simp only [pool_system.call, hg]
      | some c =>
        have h3 := occurrences_held_set n sys.guards g { conn_ := some c }
          { conn_ := some (execute sql d c).conn } hg
        simp only [pool_system.call, hg, pool_system.occurrences, pool_system.held,
          Option.toList, occurrences_cons, occurrences_nil, execute_conn_id] at *
        omega
  | update_cluster_connections changed_cluster =>
    obtain ⟨h1, h2⟩ := update_cluster_connections_occurrences n changed_cluster sys.pool
    simp only [pool_system.call, pool_system.occurrences, pool_system.held,
      occurrences_append, h2]
    omega

theorem pool_system.calls_occurrences (n : Nat) (Model : model) (calls : List system_call)
    (sys : pool_system)
    (h : sys.occurrences n = if n < sys.pool.created then 1 else 0) :
    (pool_system.calls Model calls sys).occurrences n
      = if n < (pool_system.calls Model calls sys).pool.created then 1 else 0 := by
  induction calls generalizing sys with
  | nil => exact h
  | cons call calls ih =>
    apply ih
    have := pool_system.call_occurrences n Model sys call
    omega

end mysql

/-! ### C11 -/

namespace mysql

/-- C11: a pool that starts empty (no queue, no guard, nothing created) and any sequence of
steps: `get_connection` calls, ends of guard lifetimes, move assignments and move
constructions of guards, calls of `execute` through a guard (which may turn the connection
unhealthy), and rounds of `update_cluster_connections`. After the sequence, hence after each
of its prefixes, every connection created so far (identity below `created`) occurs exactly
once among the connections held by the guards, those stored in the queues of `master_pool_`,
`slave_pool_` and `pool_`, and those destroyed, and no other identity occurs there; so no
connection is held by two guards, or stored in two queues or twice in one queue. -/
theorem C11_each_connection_in_one_place (Model : model) (node : node_info)
    (calls : List system_call) (n : Nat) :
    (pool_system.calls Model calls { pool := { node_ := node } }).occurrences n
        = (if n < (pool_system.calls Model calls { pool := { node_ := node } }).pool.created
           then 1 else 0)
      ∧ occurrences n (pool_system.calls Model calls { pool := { node_ := node } }).held ≤ 1
      ∧ occurrences n (queued (pool_system.calls Model calls { pool := { node_ := node } }).pool)
          ≤ 1 := by
  have h := pool_system.calls_occurrences n Model calls { pool := { node_ := node } }
    (by simp [pool_system.occurrences, pool_system.held, queued, pool_map.connections,
      occurrences_nil])
  refine ⟨h, ?_, ?_⟩
  · unfold pool_system.occurrences at h
    split at h <;> omega
  · unfold pool_system.occurrences at h
    split at h <;> omega

end mysql

/-! ### C25 -/

/-- C25: for all nodes `a` and `b`, `a == b` is the same whatever ports the two nodes are
given (only role and ip are compared), and `a < b` holds exactly when the ip of `a` is below
the ip of `b` in the order of strings. -/
theorem C25_node_comparison (a b : node_info) (port_a port_b : String) :
    node_info.operator_eq { a with port := port_a } { b with port := port_b }
        = node_info.operator_eq a b
      ∧ (node_info.operator_eq a b = true ↔ a.role = b.role ∧ a.ip = b.ip)
      ∧ (node_info.operator_lt a b = true ↔ a.ip < b.ip) := by
  refine ⟨rfl, ?_, ?_⟩
  · simp [node_info.operator_eq]
  · simp [node_info.operator_lt]

/-! ### C29 -/

/-- C29 fails on the code: for a `uint32_t` the parameter binder sets `is_unsigned` as
`mysql_type_map` says (true), the result binder sets buffer and wire type only and leaves
`is_unsigned` of the zero-initialised slot false; the wire types agree. The same holds for
`uint8_t`, `uint16_t`, `uint64_t` and for an optional of them. -/
theorem C29_result_slot_is_signed :
    (mysql.mysql_type_map (.arithmetic .uint32_t)) = (.MYSQL_TYPE_LONG, true)
    ∧ (mysql.build_bind_param {} (.value (.arithmetic .uint32_t 4000000000)) 0).map
          (fun param => (param.buffer_type, param.is_unsigned))
        = .ok (.MYSQL_TYPE_LONG, true)
    ∧ ((mysql.build_result_param [] {} (.arithmetic .uint32_t 0) 0 0).2.1.buffer_type,
        (mysql.build_result_param [] {} (.arithmetic .uint32_t 0) 0 0).2.1.is_unsigned)
        = (.MYSQL_TYPE_LONG, false)
    ∧ (∀ u : arith_type,
        (mysql.build_result_param [] {} (.arithmetic u 0) 0 0).2.1.is_unsigned = false
        ∧ (mysql.build_result_param [] {} (.optional_arithmetic u false 0) 0 0).2.1.is_unsigned
          = false
        ∧ (mysql.build_result_param [] {} (.arithmetic u 0) 0 0).2.1.buffer_type
          = (mysql.mysql_type_map (.arithmetic u)).1) := by
  refine ⟨rfl, rfl, rfl, ?_⟩
  intro u
  cases u <;> exact ⟨rfl, rfl, rfl⟩

/-! ### C24 -/

/-- C24 fails on the code: a `mysql_mediumtext` is bound as a `MYSQL_TYPE_MEDIUM_BLOB` with
its content and length, but the binder for an optional passes the optional itself to
`mysql_type_map` in its `mysql_mediumtext` branch, so a `std::optional<mysql_mediumtext>`
argument, holding a value or empty, is rejected by the `static_assert` of `mysql_type_map`.
For every other value the optional that holds it is bound exactly as the value, an empty
optional gets `MYSQL_TYPE_NULL`; the SQL Server binder binds every optional that holds a
value as the value and an empty optional with a null data pointer and `SQL_NULL_DATA`. -/
theorem C24_optional_mediumtext_rejected (param : mysql.MYSQL_BIND) (address index : Nat)
    (v : mysql.param_value) (Um : mysql.value_type) (vs : sqlserver.param_value)
    (U : sqlserver.value_type) :
    (mysql.build_bind_param {} (.value (.mysql_mediumtext [104, 105])) 0
        = .ok { buffer := .element 0, buffer_length := 2,
                buffer_type := .MYSQL_TYPE_MEDIUM_BLOB }
      ∧ mysql.build_bind_param {} (.optional (.mysql_mediumtext [104, 105])) 0
        = .error "can not map to mysql type"
      ∧ mysql.build_bind_param {} (.nullopt .mysql_mediumtext) 0
        = .error "can not map to mysql type")
    ∧ mysql.build_bind_param param (.optional v) address
        = (match v with
          | .mysql_mediumtext _ => .error "can not map to mysql type"
          | _ => mysql.build_bind_param param (.value v) address)
    ∧ mysql.build_bind_param param (.nullopt Um) address
        = (match Um with
          | .mysql_mediumtext => .error "can not map to mysql type"
          | _ => .ok { param with buffer_type := .MYSQL_TYPE_NULL })
    ∧ sqlserver.build_bind_param index (.optional vs) address
        = sqlserver.build_bind_param index (.value vs) address
    ∧ (sqlserver.build_bind_param index (.nullopt U) address).StrLen_or_IndPtr
        = some sqlserver.SQL_NULL_DATA
    ∧ (sqlserver.build_bind_param index (.nullopt U) address).ParameterValuePtr = .null := by
  refine ⟨⟨rfl, rfl, rfl⟩, ?_, ?_, rfl, rfl, rfl⟩
  · cases v <;> rfl
  · cases Um <;> rfl

/-! ### Keys and role vectors after a reconciliation -/

namespace mysql

theorem pool_map.keys_emplace (m : pool_map) (ip : String) (q : queue) :
    (m.emplace ip q).keys = if ip ∈ m.keys then m.keys else m.keys ++ [ip] := by
  unfold pool_map.emplace
  cases h : m.find ip with
  | some v =>
    have : ip ∈ m.keys := (pool_map.mem_keys m ip).2 (by simp [h])
    simp [this]
  | none =>
    have : ¬ ip ∈ m.keys := fun hin => by
      have := (pool_map.mem_keys m ip).1 hin
      simp [h] at this
    rw [if_neg this]
    simp [pool_map.keys]

theorem update_node_new (st : reconciliation) (node : node_info) :
    (node.role = "PRIMARY" ∧ ∃ q,
        (update_node st node).master_pool = st.master_pool.emplace node.ip q
        ∧ (update_node st node).slave_pool = st.slave_pool
        ∧ (update_node st node).masters_ = st.masters_ ++ [node]
        ∧ (update_node st node).slaves_ = st.slaves_)
      ∨ (node.role ≠ "PRIMARY" ∧ ∃ q,
        (update_node st node).slave_pool = st.slave_pool.emplace node.ip q
        ∧ (update_node st node).master_pool = st.master_pool
        ∧ (update_node st node).slaves_ = st.slaves_ ++ [node]
        ∧ (update_node st node).masters_ = st.masters_) := by
  unfold update_node
  split
  · rename_i hrole
    refine Or.inl ⟨hrole, ?_⟩
    split
    · exact ⟨_, rfl, rfl, rfl, rfl⟩
    · split
      · exact ⟨_, rfl, rfl, rfl, rfl⟩
      · exact ⟨[], rfl, rfl, rfl, rfl⟩
  · rename_i hrole
    refine Or.inr ⟨hrole, ?_⟩
    split
    · exact ⟨_, rfl, rfl, rfl, rfl⟩
    · split
      · exact ⟨_, rfl, rfl, rfl, rfl⟩
      · exact ⟨[], rfl, rfl, rfl, rfl⟩

theorem foldl_update_node_vectors (nodes : List node_info) (st : reconciliation) :
    (nodes.foldl update_node st).masters_
        = st.masters_ ++ nodes.filter (fun n => decide (n.role = "PRIMARY"))
      ∧ (nodes.foldl update_node st).slaves_
        = st.slaves_ ++ nodes.filter (fun n => !decide (n.role = "PRIMARY")) := by
  induction nodes generalizing st with
  | nil => simp
  | cons node nodes ih =>
    rw [List.foldl_cons]
    obtain ⟨h1, h2⟩ := ih (update_node st node)
    rcases update_node_new st node with ⟨hrole, q, _, _, hm, hs⟩ | ⟨hrole, q, _, _, hs, hm⟩
    · rw [h1, h2, hm, hs]
      simp [hrole]
    · rw [h1, h2, hm, hs]
      simp [hrole]

theorem foldl_update_node_keys_of_nodup (nodes : List node_info) (st : reconciliation)
    (hnodup : (nodes.map fun n => n.ip).Nodup)
    (hnew : ∀ n ∈ nodes, n.ip ∉ st.master_pool.keys ∧ n.ip ∉ st.slave_pool.keys) :
    (nodes.foldl update_node st).master_pool.keys
        = st.master_pool.keys
          ++ (nodes.filter fun n => decide (n.role = "PRIMARY")).map (fun n => n.ip)
      ∧ (nodes.foldl update_node st).slave_pool.keys
        = st.slave_pool.keys
          ++ (nodes.filter fun n => !decide (n.role = "PRIMARY")).map (fun n => n.ip) := by
  induction nodes generalizing st with
  | nil => simp
  | cons node nodes ih =>
    rw [List.foldl_cons]
    rw [List.map_cons, List.nodup_cons] at hnodup
    obtain ⟨hnot, hnodup⟩ := hnodup
    obtain ⟨hm0, hs0⟩ := hnew node (List.mem_cons_self _ _)
    have hne : ∀ n ∈ nodes, n.ip ≠ node.ip := by
      intro n hn e
      exact hnot (List.mem_map.2 ⟨n, hn, e⟩)
    rcases update_node_new st node with ⟨hrole, q, hm, hs, _, _⟩ | ⟨hrole, q, hs, hm, _, _⟩
    · have hk : (update_node st node).master_pool.keys = st.master_pool.keys ++ [node.ip] := by
        rw [hm, pool_map.keys_emplace, if_neg hm0]
      obtain ⟨h1, h2⟩ := ih (update_node st node) hnodup (by
        intro n hn
        obtain ⟨a, b⟩ := hnew n (List.mem_cons_of_mem _ hn)
        rw [hk, hs]
        refine ⟨?_, b⟩
        simp only [List.mem_append, List.mem_singleton, not_or]
        exact ⟨a, hne n hn⟩)
      rw [h1, h2, hk, hs]
      simp [hrole]
    · have hk : (update_node st node).slave_pool.keys = st.slave_pool.keys ++ [node.ip] := by
        rw [hs, pool_map.keys_emplace, if_neg hs0]
      obtain ⟨h1, h2⟩ := ih (update_node st node) hnodup (by
        intro n hn
        obtain ⟨a, b⟩ := hnew n (List.mem_cons_of_mem _ hn)
        rw [hk, hm]
        refine ⟨a, ?_⟩
        simp only [List.mem_append, List.mem_singleton, not_or]
        exact ⟨b, hne n hn⟩)
      rw [h1, h2, hk, hm]
      simp [hrole]

theorem update_cluster_connections_vectors (S : List node_info) (s : connection_pool) :
    (update_cluster_connections S s).masters_ = S.filter (fun n => decide (n.role = "PRIMARY"))
      ∧ (update_cluster_connections S s).slaves_
        = S.filter (fun n => !decide (n.role = "PRIMARY"))
      ∧ (update_cluster_connections S s).masters_count_
        = (update_cluster_connections S s).master_pool_.keys.length % 256
      ∧ (update_cluster_connections S s).slaves_count_
        = (update_cluster_connections S s).slave_pool_.keys.length % 256 := by
  obtain ⟨h1, h2⟩ := foldl_update_node_vectors S
    { master_pool_ := s.master_pool_, slave_pool_ := s.slave_pool_ }
  refine ⟨by simpa [update_cluster_connections] using h1,
    by simpa [update_cluster_connections] using h2, ?_, ?_⟩
  · simp [update_cluster_connections, pool_map.keys]
  · simp [update_cluster_connections, pool_map.keys]

theorem update_cluster_connections_keys_of_nodup (S : List node_info) (s : connection_pool)
    (hS : (S.map fun n => n.ip).Nodup) :
    (update_cluster_connections S s).master_pool_.keys
        = (S.filter fun n => decide (n.role = "PRIMARY")).map (fun n => n.ip)
      ∧ (update_cluster_connections S s).slave_pool_.keys
        = (S.filter fun n => !decide (n.role = "PRIMARY")).map (fun n => n.ip) := by
  obtain ⟨h1, h2⟩ := foldl_update_node_keys_of_nodup S
    { master_pool_ := s.master_pool_, slave_pool_ := s.slave_pool_ } hS
    (fun n _ => by simp [pool_map.keys])
  exact ⟨by simpa [update_cluster_connections, pool_map.keys] using h1,
    by simpa [update_cluster_connections, pool_map.keys] using h2⟩

theorem members_nodup (role : String) (k : Nat) :
    ((members role k).map fun n => n.ip).Nodup := by
  unfold members
  rw [List.map_map]
  apply List.Nodup.map _ (List.nodup_range k)
  intro i j h
  have := congrArg (fun s : String => s.data.length) h
  simpa using this

theorem members_keys (role : String) (k : Nat) (s : connection_pool) :
    (role = "PRIMARY" →
        (update_cluster_connections (members role k) s).master_pool_.keys.length = k)
      ∧ (role ≠ "PRIMARY" →
        (update_cluster_connections (members role k) s).slave_pool_.keys.length = k) := by
  obtain ⟨h1, h2⟩ := update_cluster_connections_keys_of_nodup (members role k) s
    (members_nodup role k)
  constructor
  · intro hrole
    have hall : (members role k).filter (fun n => decide (n.role = "PRIMARY"))
        = members role k := by
      rw [List.filter_eq_self]
      intro n hn
      simp only [members, List.mem_map] at hn
      obtain ⟨i, _, rfl⟩ := hn
      simp [hrole]
    rw [h1, hall]
    simp [members]
  · intro hrole
    have hall : (members role k).filter (fun n => !decide (n.role = "PRIMARY"))
        = members role k := by
      rw [List.filter_eq_self]
      intro n hn
      simp only [members, List.mem_map] at hn
      obtain ⟨i, _, rfl⟩ := hn
      simp [hrole]
    rw [h2, hall]
    simp [members]

end mysql

/-! ### C21 -/

namespace mysql

/-- C21 fails on the code: two PRIMARY members on one host give one key and two entries of
`masters_`; a host with a PRIMARY and a SECONDARY member is a key of both maps; and 256
PRIMARY members on 256 hosts give 256 keys and `masters_count_` 0. -/
theorem C21_members_sharing_a_host :
    ((update_cluster_connections
          [⟨"10.0.0.1", "3306", "PRIMARY"⟩, ⟨"10.0.0.1", "3307", "PRIMARY"⟩] {}
        ).master_pool_.keys.length = 1
      ∧ (update_cluster_connections
          [⟨"10.0.0.1", "3306", "PRIMARY"⟩, ⟨"10.0.0.1", "3307", "PRIMARY"⟩] {}
        ).masters_.length = 2)
    ∧ ("10.0.0.1" ∈ (update_cluster_connections
          [⟨"10.0.0.1", "3306", "PRIMARY"⟩, ⟨"10.0.0.1", "3307", "SECONDARY"⟩] {}
        ).master_pool_.keys
      ∧ "10.0.0.1" ∈ (update_cluster_connections
          [⟨"10.0.0.1", "3306", "PRIMARY"⟩, ⟨"10.0.0.1", "3307", "SECONDARY"⟩] {}
        ).slave_pool_.keys)
    ∧ ((update_cluster_connections (members "PRIMARY" 256) {}).master_pool_.keys.length = 256
      ∧ (update_cluster_connections (members "PRIMARY" 256) {}).masters_count_ = 0) := by
  refine ⟨⟨by decide, by decide⟩, ⟨by decide, by decide⟩, ?_⟩
  have km := (members_keys "PRIMARY" 256 {}).1 rfl
  obtain ⟨_, _, m3, _⟩ := update_cluster_connections_vectors (members "PRIMARY" 256) {}
  exact ⟨km, by rw [m3, km]⟩

/-- C21 as amended: for every pool state and every snapshot `S` that lists no ip twice, after
`update_cluster_connections` with `S` the keys of `master_pool_` are the ips of the PRIMARY
nodes of `S` and `masters_` are those nodes, so the number of keys is the length of
`masters_`, and `masters_count_` is that number modulo 256 (the number itself when it is
below 256); the same for `slave_pool_`, `slaves_` and `slaves_count_` with the other nodes;
and no ip is a key of both maps. -/
theorem C21_keys_match_role_vectors (s : connection_pool) (S : List node_info)
    (hS : (S.map fun n => n.ip).Nodup) :
    (update_cluster_connections S s).master_pool_.keys.length
        = (update_cluster_connections S s).masters_.length
      ∧ (update_cluster_connections S s).slave_pool_.keys.length
        = (update_cluster_connections S s).slaves_.length
      ∧ (update_cluster_connections S s).masters_count_
        = (update_cluster_connections S s).masters_.length % 256
      ∧ (update_cluster_connections S s).slaves_count_
        = (update_cluster_connections S s).slaves_.length % 256
      ∧ (update_cluster_connections S s).master_pool_.keys
        = (update_cluster_connections S s).masters_.map (fun n => n.ip)
      ∧ (update_cluster_connections S s).slave_pool_.keys
        = (update_cluster_connections S s).slaves_.map (fun n => n.ip)
      ∧ ∀ X, ¬ (X ∈ (update_cluster_connections S s).master_pool_.keys
          ∧ X ∈ (update_cluster_connections S s).slave_pool_.keys) := by
  obtain ⟨k1, k2⟩ := update_cluster_connections_keys_of_nodup S s hS
  obtain ⟨v1, v2, v3, v4⟩ := update_cluster_connections_vectors S s
  have e1 : (update_cluster_connections S s).master_pool_.keys
      = (update_cluster_connections S s).masters_.map (fun n => n.ip) := by rw [k1, v1]
  have e2 : (update_cluster_connections S s).slave_pool_.keys
      = (update_cluster_connections S s).slaves_.map (fun n => n.ip) := by rw [k2, v2]
  refine ⟨by rw [e1, List.length_map], by rw [e2, List.length_map],
    by rw [v3, e1, List.length_map], by rw [v4, e2, List.length_map], e1, e2, ?_⟩
  rintro X ⟨hm, hs⟩
  rw [k1, List.mem_map] at hm
  rw [k2, List.mem_map] at hs
  obtain ⟨a, ha, haX⟩ := hm
  obtain ⟨b, hb, hbX⟩ := hs
  rw [List.mem_filter] at ha hb
  have hab : a = b :=
    List.inj_on_of_nodup_map hS ha.1 hb.1 (haX.trans hbX.symm)
  subst hab
  simp only [ha.2, Bool.not_true] at hb
  exact absurd hb.2 (by simp)

/-- C21 (amended) at a concrete input: one PRIMARY and two SECONDARY members on three
hosts. -/
theorem C21_keys_match_role_vectors_witness :
    (update_cluster_connections
        [⟨"10.0.0.1", "3306", "PRIMARY"⟩, ⟨"10.0.0.2", "3306", "SECONDARY"⟩,
         ⟨"10.0.0.3", "3306", "SECONDARY"⟩] {}).slave_pool_.keys.length
      = (update_cluster_connections
        [⟨"10.0.0.1", "3306", "PRIMARY"⟩, ⟨"10.0.0.2", "3306", "SECONDARY"⟩,
         ⟨"10.0.0.3", "3306", "SECONDARY"⟩] {}).slaves_.length :=
  (C21_keys_match_role_vectors {}
    [⟨"10.0.0.1", "3306", "PRIMARY"⟩, ⟨"10.0.0.2", "3306", "SECONDARY"⟩,
     ⟨"10.0.0.3", "3306", "SECONDARY"⟩] (by decide)).2.1

end mysql

/-! ### Reconciling twice -/

namespace mysql

theorem pool_map.find_emplace_of_some (m : pool_map) (ip : String) (q v : queue) (X : String)
    (h : m.find X = some v) : (m.emplace ip q).find X = some v := by
  rw [pool_map.find_emplace, h]
  rfl

theorem update_node_find_preserved (st : reconciliation) (node : node_info) (X : String)
    (v : queue) :
    (st.master_pool.find X = some v → (update_node st node).master_pool.find X = some v)
      ∧ (st.slave_pool.find X = some v → (update_node st node).slave_pool.find X = some v) := by
  rcases update_node_new st node with ⟨_, q, hm, hs, _, _⟩ | ⟨_, q, hs, hm, _, _⟩
  · rw [hm, hs]
    exact ⟨pool_map.find_emplace_of_some _ _ _ _ _, id⟩
  · rw [hm, hs]
    exact ⟨id, pool_map.find_emplace_of_some _ _ _ _ _⟩

theorem foldl_update_node_find_preserved (nodes : List node_info) (st : reconciliation)
    (X : String) (v : queue) :
    (st.master_pool.find X = some v →
        (nodes.foldl update_node st).master_pool.find X = some v)
      ∧ (st.slave_pool.find X = some v →
        (nodes.foldl update_node st).slave_pool.find X = some v) := by
  induction nodes generalizing st with
  | nil => exact ⟨id, id⟩
  | cons node nodes ih =>
    rw [List.foldl_cons]
    obtain ⟨h1, h2⟩ := update_node_find_preserved st node X v
    obtain ⟨k1, k2⟩ := ih (update_node st node)
    exact ⟨fun h => k1 (h1 h), fun h => k2 (h2 h)⟩

/-- The relation between the loop of a first round (state `st1`, which ends with the new maps
`M` and `L`) and the loop of a second round over the same snapshot that starts from `M` and
`L` (state `st2`), after the same number of nodes. -/
theorem update_node_again (st1 st2 : reconciliation) (M L : pool_map) (node : node_info)
    (hM : node.role = "PRIMARY" →
      M.find node.ip = (update_node st1 node).master_pool.find node.ip)
    (hL : node.role ≠ "PRIMARY" →
      L.find node.ip = (update_node st1 node).slave_pool.find node.ip)
    (hR : st2.master_pool = st1.master_pool ∧ st2.slave_pool = st1.slave_pool
      ∧ st2.masters_ = st1.masters_ ∧ st2.slaves_ = st1.slaves_
      ∧ (∀ X, st1.master_pool.find X = none → st2.master_pool_.find X = M.find X)
      ∧ (∀ X, (st2.master_pool_.find X).isSome = (M.find X).isSome)
      ∧ (∀ X, st1.slave_pool.find X = none → st2.slave_pool_.find X = L.find X)
      ∧ (∀ X, (st2.slave_pool_.find X).isSome = (L.find X).isSome)) :
    (update_node st2 node).master_pool = (update_node st1 node).master_pool
      ∧ (update_node st2 node).slave_pool = (update_node st1 node).slave_pool
      ∧ (update_node st2 node).masters_ = (update_node st1 node).masters_
      ∧ (update_node st2 node).slaves_ = (update_node st1 node).slaves_
      ∧ (∀ X, (update_node st1 node).master_pool.find X = none →
          (update_node st2 node).master_pool_.find X = M.find X)
      ∧ (∀ X, ((update_node st2 node).master_pool_.find X).isSome = (M.find X).isSome)
      ∧ (∀ X, (update_node st1 node).slave_pool.find X = none →
          (update_node st2 node).slave_pool_.find X = L.find X)
      ∧ (∀ X, ((update_node st2 node).slave_pool_.find X).isSome = (L.find X).isSome) := by
  obtain ⟨r1, r2, r3, r4, r5, r6, r7, r8⟩ := hR
  rcases update_node_new st1 node with ⟨hrole, q1, hm, hs, hms, hss⟩ | ⟨hrole, q1, hs, hm, hss, hms⟩
  · -- a PRIMARY node
    have hfind : (st1.master_pool.emplace node.ip q1).find node.ip
        = (st1.master_pool.find node.ip).orElse fun _ => some q1 := by
      rw [pool_map.find_emplace]; simp
    have hMx := hM hrole
    rw [hm, hfind] at hMx
    have hsome : (M.find node.ip).isSome = true := by
      rw [hMx]; cases st1.master_pool.find node.ip <;> rfl
    obtain ⟨q2, hq2⟩ : ∃ q2, st2.master_pool_.find node.ip = some q2 := by
      have := r6 node.ip
      rw [hsome] at this
      exact Option.isSome_iff_exists.1 this
    have e2 : update_node st2 node
        = { st2 with master_pool := st2.master_pool.emplace node.ip q2,
                     master_pool_ := st2.master_pool_.update node.ip fun _ => [],
                     masters_ := st2.masters_ ++ [node] } := by
      simp only [update_node, hrole, if_true, hq2]
    rw [e2, hm, hs, hms, hss]
    refine ⟨?_, r2, by rw [r3], r4, ?_, ?_, r7, r8⟩
    · show st2.master_pool.emplace node.ip q2 = st1.master_pool.emplace node.ip q1
      rw [r1]
      cases h1 : st1.master_pool.find node.ip with
      | some v =>
        rw [pool_map.emplace_of_some _ _ _ _ h1, pool_map.emplace_of_some _ _ _ _ h1]
      | none =>
        have := r5 node.ip h1
        rw [hq2, hMx, h1] at this
        simp only [Option.orElse, Option.some.injEq] at this
        rw [this]
    · intro X hX
      show (st2.master_pool_.update node.ip fun _ => []).find X = M.find X
      rw [pool_map.find_emplace] at hX
      rw [pool_map.find_update]
      by_cases hip : node.ip = X
      · subst hip
        cases h1 : st1.master_pool.find node.ip <;> simp [h1] at hX
      · rw [if_neg hip]
        apply r5
        cases h1 : st1.master_pool.find X with
        | none => rfl
        | some v => simp [h1] at hX
    · intro X
      show ((st2.master_pool_.update node.ip fun _ => []).find X).isSome = (M.find X).isSome
      rw [pool_map.isSome_find_update]
      exact r6 X
  · -- a node of another role
    have hfind : (st1.slave_pool.emplace node.ip q1).find node.ip
        = (st1.slave_pool.find node.ip).orElse fun _ => some q1 := by
      rw [pool_map.find_emplace]; simp
    have hLx := hL hrole
    rw [hs, hfind] at hLx
    have hsome : (L.find node.ip).isSome = true := by
      rw [hLx]; cases st1.slave_pool.find node.ip <;> rfl
    obtain ⟨q2, hq2⟩ : ∃ q2, st2.slave_pool_.find node.ip = some q2 := by
      have := r8 node.ip
      rw [hsome] at this
      exact Option.isSome_iff_exists.1 this
    have e2 : update_node st2 node
        = { st2 with slave_pool := st2.slave_pool.emplace node.ip q2,
                     slave_pool_ := st2.slave_pool_.update node.ip fun _ => [],
                     slaves_ := st2.slaves_ ++ [node] } := by
      simp only [update_node, hrole, if_false, hq2]
    rw [e2, hm, hs, hms, hss]
    refine ⟨r1, ?_, r3, by rw [r4], r5, r6, ?_, ?_⟩
    · show st2.slave_pool.emplace node.ip q2 = st1.slave_pool.emplace node.ip q1
      rw [r2]
      cases h1 : st1.slave_pool.find node.ip with
      | some v =>
        rw [pool_map.emplace_of_some _ _ _ _ h1, pool_map.emplace_of_some _ _ _ _ h1]
      | none =>
        have := r7 node.ip h1
        rw [hq2, hLx, h1] at this
        simp only [Option.orElse, Option.some.injEq] at this
        rw [this]
    · intro X hX
      show (st2.slave_pool_.update node.ip fun _ => []).find X = L.find X
      rw [pool_map.find_emplace] at hX
      rw [pool_map.find_update]
      by_cases hip : node.ip = X
      · subst hip
        cases h1 : st1.slave_pool.find node.ip <;> simp [h1] at hX
      · rw [if_neg hip]
        apply r7
        cases h1 : st1.slave_pool.find X with
        | none => rfl
        | some v => simp [h1] at hX
    · intro X
      show ((st2.slave_pool_.update node.ip fun _ => []).find X).isSome = (L.find X).isSome
      rw [pool_map.isSome_find_update]
      exact r8 X

theorem foldl_update_node_again (nodes : List node_info) (st1 st2 : reconciliation)
    (M L : pool_map)
    (hM : (nodes.foldl update_node st1).master_pool = M)
    (hL : (nodes.foldl update_node st1).slave_pool = L)
    (hR : st2.master_pool = st1.master_pool ∧ st2.slave_pool = st1.slave_pool
      ∧ st2.masters_ = st1.masters_ ∧ st2.slaves_ = st1.slaves_
      ∧ (∀ X, st1.master_pool.find X = none → st2.master_pool_.find X = M.find X)
      ∧ (∀ X, (st2.master_pool_.find X).isSome = (M.find X).isSome)
      ∧ (∀ X, st1.slave_pool.find X = none → st2.slave_pool_.find X = L.find X)
      ∧ (∀ X, (st2.slave_pool_.find X).isSome = (L.find X).isSome)) :
    (nodes.foldl update_node st2).master_pool = M
      ∧ (nodes.foldl update_node st2).slave_pool = L
      ∧ (nodes.foldl update_node st2).masters_ = (nodes.foldl update_node st1).masters_
      ∧ (nodes.foldl update_node st2).slaves_ = (nodes.foldl update_node st1).slaves_ := by
  induction nodes generalizing st1 st2 with
  | nil =>
    obtain ⟨r1, r2, r3, r4, _⟩ := hR
    exact ⟨r1.trans hM, r2.trans hL, r3, r4⟩
  | cons node nodes ih =>
    rw [List.foldl_cons] at hM hL
    simp only [List.foldl_cons]
    apply ih (update_node st1 node) (update_node st2 node) hM hL
    apply update_node_again st1 st2 M L node _ _ hR
    · intro hrole
      rcases update_node_new st1 node with ⟨_, q1, hm, _, _, _⟩ | ⟨hne, _⟩
      · have hsome : ((update_node st1 node).master_pool.find node.ip).isSome = true := by
          rw [hm, pool_map.find_emplace]
          cases st1.master_pool.find node.ip <;> simp
        obtain ⟨v, hv⟩ := Option.isSome_iff_exists.1 hsome
        rw [← hM, (foldl_update_node_find_preserved nodes _ node.ip v).1 hv, hv]
      · exact absurd hrole hne
    · intro hrole
      rcases update_node_new st1 node with ⟨he, _⟩ | ⟨_, q1, hs, _, _, _⟩
      · exact absurd he hrole
      · have hsome : ((update_node st1 node).slave_pool.find node.ip).isSome = true := by
          rw [hs, pool_map.find_emplace]
          cases st1.slave_pool.find node.ip <;> simp
        obtain ⟨v, hv⟩ := Option.isSome_iff_exists.1 hsome
        rw [← hL, (foldl_update_node_find_preserved nodes _ node.ip v).2 hv, hv]

end mysql

/-! ### C22 -/

namespace mysql

/-- C22: for every pool state `P` and every snapshot `S`, `update_cluster_connections` with
`S` applied to the result of `update_cluster_connections` with `S` changes nothing: the pool
is the same, with the same `master_pool_` and `slave_pool_` (keys and queues, each queue
with its connections in order), `masters_`, `slaves_`, `masters_count_` and
`slaves_count_`. -/
theorem C22_reconciliation_idempotent (P : connection_pool) (S : List node_info) :
    update_cluster_connections S (update_cluster_connections S P)
      = update_cluster_connections S P := by
  obtain ⟨h1, h2, h3, h4⟩ := foldl_update_node_again S
    { master_pool_ := P.master_pool_, slave_pool_ := P.slave_pool_ }
    { master_pool_ := (update_cluster_connections S P).master_pool_,
      slave_pool_ := (update_cluster_connections S P).slave_pool_ }
    (update_cluster_connections S P).master_pool_
    (update_cluster_connections S P).slave_pool_ rfl rfl
    ⟨rfl, rfl, rfl, rfl, fun _ _ => rfl, fun _ => rfl, fun _ _ => rfl, fun _ => rfl⟩
  have e : ∀ s : connection_pool, update_cluster_connections S s
      = { s with
          master_pool_ := (S.foldl update_node
            { master_pool_ := s.master_pool_, slave_pool_ := s.slave_pool_ }).master_pool,
          masters_count_ := (S.foldl update_node
            { master_pool_ := s.master_pool_, slave_pool_ := s.slave_pool_ }).master_pool.length
              % 256,
          slave_pool_ := (S.foldl update_node
            { master_pool_ := s.master_pool_, slave_pool_ := s.slave_pool_ }).slave_pool,
          slaves_count_ := (S.foldl update_node
            { master_pool_ := s.master_pool_, slave_pool_ := s.slave_pool_ }).slave_pool.length
              % 256,
          masters_ := (S.foldl update_node
            { master_pool_ := s.master_pool_, slave_pool_ := s.slave_pool_ }).masters_,
          slaves_ := (S.foldl update_node
            { master_pool_ := s.master_pool_, slave_pool_ := s.slave_pool_ }).slaves_ } :=
    fun _ => rfl
  rw [e (update_cluster_connections S P), h1, h2, h3, h4]
  rfl

end mysql

/-! ### The lookups of `get_connection` -/

namespace mysql

theorem pool_map.length_emplace_le (m : pool_map) (ip : String) (q : queue) :
    (m.emplace ip q).length ≤ m.length + 1 := by
  unfold pool_map.emplace
  cases m.find ip <;> simp

theorem pool_map.isSome_find_emplace_self (m : pool_map) (ip : String) (q : queue) :
    ((m.emplace ip q).find ip).isSome = true := by
  rw [pool_map.find_emplace]
  cases m.find ip <;> simp

theorem pool_map.isSome_find_emplace_of_isSome (m : pool_map) (ip : String) (q : queue)
    (X : String) (h : (m.find X).isSome = true) : ((m.emplace ip q).find X).isSome = true := by
  obtain ⟨v, hv⟩ := Option.isSome_iff_exists.1 h
  rw [pool_map.find_emplace_of_some m ip q v X hv]
  rfl

theorem update_node_lookups (st : reconciliation) (node : node_info)
    (h : st.master_pool.length ≤ st.masters_.length
      ∧ (∀ n ∈ st.masters_, (st.master_pool.find n.ip).isSome = true)
      ∧ st.slave_pool.length ≤ st.slaves_.length
      ∧ (∀ n ∈ st.slaves_, (st.slave_pool.find n.ip).isSome = true)) :
    (update_node st node).master_pool.length ≤ (update_node st node).masters_.length
      ∧ (∀ n ∈ (update_node st node).masters_,
          ((update_node st node).master_pool.find n.ip).isSome = true)
      ∧ (update_node st node).slave_pool.length ≤ (update_node st node).slaves_.length
      ∧ (∀ n ∈ (update_node st node).slaves_,
          ((update_node st node).slave_pool.find n.ip).isSome = true) := by
  obtain ⟨h1, h2, h3, h4⟩ := h
  rcases update_node_new st node with ⟨_, q, hm, hs, hms, hss⟩ | ⟨_, q, hs, hm, hss, hms⟩
  · rw [hm, hs, hms, hss]
    refine ⟨?_, ?_, h3, h4⟩
    · have := pool_map.length_emplace_le st.master_pool node.ip q
      rw [List.length_append, List.length_singleton]
      omega
    · intro n hn
      rw [List.mem_append, List.mem_singleton] at hn
      rcases hn with hn | hn
      · exact pool_map.isSome_find_emplace_of_isSome _ _ _ _ (h2 n hn)
      · rw [hn]; exact pool_map.isSome_find_emplace_self _ _ _
  · rw [hm, hs, hms, hss]
    refine ⟨h1, h2, ?_, ?_⟩
    · have := pool_map.length_emplace_le st.slave_pool node.ip q
      rw [List.length_append, List.length_singleton]
      omega
    · intro n hn
      rw [List.mem_append, List.mem_singleton] at hn
      rcases hn with hn | hn
      · exact pool_map.isSome_find_emplace_of_isSome _ _ _ _ (h4 n hn)
      · rw [hn]; exact pool_map.isSome_find_emplace_self _ _ _

theorem foldl_update_node_lookups (nodes : List node_info) (st : reconciliation)
    (h : st.master_pool.length ≤ st.masters_.length
      ∧ (∀ n ∈ st.masters_, (st.master_pool.find n.ip).isSome = true)
      ∧ st.slave_pool.length ≤ st.slaves_.length
      ∧ (∀ n ∈ st.slaves_, (st.slave_pool.find n.ip).isSome = true)) :
    (nodes.foldl update_node st).master_pool.length ≤ (nodes.foldl update_node st).masters_.length
      ∧ (∀ n ∈ (nodes.foldl update_node st).masters_,
          ((nodes.foldl update_node st).master_pool.find n.ip).isSome = true)
      ∧ (nodes.foldl update_node st).slave_pool.length
          ≤ (nodes.foldl update_node st).slaves_.length
      ∧ (∀ n ∈ (nodes.foldl update_node st).slaves_,
          ((nodes.foldl update_node st).slave_pool.find n.ip).isSome = true) := by
  induction nodes generalizing st with
  | nil => exact h
  | cons node nodes ih => exact ih _ (update_node_lookups st node h)

theorem update_cluster_connections_lookups (S : List node_info) (s : connection_pool) :
    lookups_hit (update_cluster_connections S s) := by
  obtain ⟨h1, h2, h3, h4⟩ := foldl_update_node_lookups S
    { master_pool_ := s.master_pool_, slave_pool_ := s.slave_pool_ }
    ⟨Nat.le_refl _, fun n hn => absurd hn (List.not_mem_nil n), Nat.le_refl _,
      fun n hn => absurd hn (List.not_mem_nil n)⟩
  refine ⟨?_, h2, ?_, h4⟩
  · exact Nat.le_trans (Nat.mod_le _ _) h1
  · exact Nat.le_trans (Nat.mod_le _ _) h3

theorem get_connection_vectors (type : conn_type) (connect_error : Option String)
    (s : connection_pool) :
    (get_connection type connect_error s).1.masters_ = s.masters_
      ∧ (get_connection type connect_error s).1.masters_count_ = s.masters_count_
      ∧ (get_connection type connect_error s).1.slaves_ = s.slaves_
      ∧ (get_connection type connect_error s).1.slaves_count_ = s.slaves_count_ := by
  have hg : ∀ (conn : Option connection) (node : node_info) (s1 : connection_pool),
      (guard_or_create conn node connect_error s1).1.masters_ = s1.masters_
        ∧ (guard_or_create conn node connect_error s1).1.masters_count_ = s1.masters_count_
        ∧ (guard_or_create conn node connect_error s1).1.slaves_ = s1.slaves_
        ∧ (guard_or_create conn node connect_error s1).1.slaves_count_ = s1.slaves_count_ := by
    intro conn node s1
    rcases guard_or_create_pool conn node connect_error s1 with h | h <;> rw [h] <;>
      exact ⟨rfl, rfl, rfl, rfl⟩
  unfold get_connection
  split
  · simp only
    split
    · exact ⟨rfl, rfl, rfl, rfl⟩
    · split
      · exact ⟨rfl, rfl, rfl, rfl⟩
      · split
        · exact ⟨rfl, rfl, rfl, rfl⟩
        · exact hg _ _ _
  · simp only
    split
    · exact ⟨rfl, rfl, rfl, rfl⟩
    · split
      · exact ⟨rfl, rfl, rfl, rfl⟩
      · split
        · exact ⟨rfl, rfl, rfl, rfl⟩
        · exact hg _ _ _
  · exact hg _ _ _

theorem return_back_vectors (Model : model) (p : connection) (s : connection_pool) :
    (return_back Model p s).1.masters_ = s.masters_
      ∧ (return_back Model p s).1.masters_count_ = s.masters_count_
      ∧ (return_back Model p s).1.slaves_ = s.slaves_
      ∧ (return_back Model p s).1.slaves_count_ = s.slaves_count_ := by
  unfold return_back
  split
  · split
    · exact ⟨rfl, rfl, rfl, rfl⟩
    · split <;> exact ⟨rfl, rfl, rfl, rfl⟩
  · exact ⟨rfl, rfl, rfl, rfl⟩

theorem lookups_hit_of_same (s1 s : connection_pool) (h : lookups_hit s)
    (hv : s1.masters_ = s.masters_ ∧ s1.masters_count_ = s.masters_count_
      ∧ s1.slaves_ = s.slaves_ ∧ s1.slaves_count_ = s.slaves_count_)
    (hk : ∀ X, (s1.master_pool_.find X).isSome = (s.master_pool_.find X).isSome
      ∧ (s1.slave_pool_.find X).isSome = (s.slave_pool_.find X).isSome) :
    lookups_hit s1 := by
  obtain ⟨h1, h2, h3, h4⟩ := h
  obtain ⟨v1, v2, v3, v4⟩ := hv
  unfold lookups_hit
  rw [v1, v2, v3, v4]
  exact ⟨h1, fun n hn => by rw [(hk n.ip).1]; exact h2 n hn, h3,
    fun n hn => by rw [(hk n.ip).2]; exact h4 n hn⟩

theorem get_connection_lookups (type : conn_type) (connect_error : Option String)
    (s : connection_pool) (h : lookups_hit s) :
    lookups_hit (get_connection type connect_error s).1 :=
  lookups_hit_of_same _ s h (get_connection_vectors type connect_error s)
    (get_connection_keys type connect_error s)

theorem return_back_lookups (Model : model) (p : connection) (s : connection_pool)
    (h : lookups_hit s) : lookups_hit (return_back Model p s).1 :=
  lookups_hit_of_same _ s h (return_back_vectors Model p s) (return_back_keys Model p s)

theorem pool_system.call_lookups (Model : model) (sys : pool_system) (call : system_call)
    (h : lookups_hit sys.pool) : lookups_hit (sys.call Model call).pool := by
  cases call with
  | get_connection type connect_error => exact get_connection_lookups type connect_error _ h
  | destroy g =>
    simp only [pool_system.call]
    split
    · exact h
    · rename_i guard _
      unfold connection_guard.destructor
      cases guard.conn_ with
      | none => exact h
      | some a => exact return_back_lookups Model a _ h
  | move_assign g k =>
    simp only [pool_system.call]
    split
    · rename_i this cg _ _
      split
      · unfold connection_guard.self_move_assignment
        cases this.conn_ with
        | none => exact h
        | some a => exact return_back_lookups Model a _ h
      · unfold connection_guard.move_assignment
        cases this.conn_ <;> cases cg.conn_ <;>
          first
            | exact h
            | exact return_back_lookups Model _ _ h
    · exact h
  | move_construct k =>
    simp only [pool_system.call]
    split <;> exact h
  | execute g sql d =>
    simp only [pool_system.call]
    split <;> exact h
  | update_cluster_connections changed_cluster =>
    exact update_cluster_connections_lookups changed_cluster _

theorem pool_system.calls_lookups (Model : model) (calls : List system_call)
    (sys : pool_system) (h : lookups_hit sys.pool) :
    lookups_hit (pool_system.calls Model calls sys).pool := by
  induction calls generalizing sys with
  | nil => exact h
  | cons call calls ih => exact ih _ (pool_system.call_lookups Model sys call h)

theorem guard_or_create_defined (conn : Option connection) (node : node_info)
    (connect_error : Option String) (s : connection_pool) :
    (guard_or_create conn node connect_error s).2 ≠ .undefined := by
  unfold guard_or_create create_connection
  cases conn with
  | none => cases connect_error <;> simp
  | some c =>
    by_cases hc : c.is_health = true
    · simp [hc]
    · cases connect_error <;> simp [hc]

theorem lookups_hit_index (s : connection_pool) (h : lookups_hit s) (k : Nat) :
    (0 < s.masters_count_ →
        ∃ n, s.masters_[k % s.masters_count_]? = some n ∧ n.ip ∈ s.master_pool_.keys)
      ∧ (0 < s.slaves_count_ →
        ∃ n, s.slaves_[k % s.slaves_count_]? = some n ∧ n.ip ∈ s.slave_pool_.keys) := by
  obtain ⟨h1, h2, h3, h4⟩ := h
  constructor
  · intro h0
    have hlt : k % s.masters_count_ < s.masters_.length :=
      Nat.lt_of_lt_of_le (Nat.mod_lt _ h0) h1
    refine ⟨s.masters_[k % s.masters_count_], List.getElem?_eq_getElem hlt, ?_⟩
    rw [pool_map.mem_keys]
    exact h2 _ (List.getElem_mem hlt)
  · intro h0
    have hlt : k % s.slaves_count_ < s.slaves_.length :=
      Nat.lt_of_lt_of_le (Nat.mod_lt _ h0) h3
    refine ⟨s.slaves_[k % s.slaves_count_], List.getElem?_eq_getElem hlt, ?_⟩
    rw [pool_map.mem_keys]
    exact h4 _ (List.getElem_mem hlt)

theorem get_connection_defined (type : conn_type) (connect_error : Option String)
    (s : connection_pool) (h : lookups_hit s) :
    (get_connection type connect_error s).2 ≠ .undefined := by
  cases type with
  | general => exact guard_or_create_defined _ _ _ _
  | master =>
    unfold get_connection
    simp only
    split
    · simp
    · rename_i h0
      obtain ⟨n, hn, hkey⟩ := (lookups_hit_index s h ((s.master_fetch_times_ + 1) % 2 ^ 64)).1
        (Nat.pos_of_ne_zero h0)
      rw [pool_map.mem_keys] at hkey
      obtain ⟨q, hq⟩ := Option.isSome_iff_exists.1 hkey
      simp only [hn, hq]
      exact guard_or_create_defined _ _ _ _
  | slave =>
    unfold get_connection
    simp only
    split
    · simp
    · rename_i h0
      obtain ⟨n, hn, hkey⟩ := (lookups_hit_index s h ((s.slave_fetch_times_ + 1) % 2 ^ 64)).2
        (Nat.pos_of_ne_zero h0)
      rw [pool_map.mem_keys] at hkey
      obtain ⟨q, hq⟩ := Option.isSome_iff_exists.1 hkey
      simp only [hn, hq]
      exact guard_or_create_defined _ _ _ _

end mysql

/-! ### C27 -/

namespace mysql

/-- C27: a pool that starts empty and any sequence of steps (rounds of
`update_cluster_connections` with arbitrary snapshots, `get_connection` calls, and
`return_back` calls made by guards that are destroyed or assigned to). In the state reached,
for every value `k` of a fetch counter: when `masters_count_` is positive, `k` modulo
`masters_count_` is a position of `masters_` and the ip of the node there is a key of
`master_pool_`; the same for the slaves; and no `get_connection` call made in that state
has undefined behaviour. -/
theorem C27_lookups_never_miss (Model : model) (node : node_info) (calls : List system_call)
    (k : Nat) (type : conn_type) (connect_error : Option String) :
    (0 < (pool_system.calls Model calls { pool := { node_ := node } }).pool.masters_count_ →
        ∃ n, (pool_system.calls Model calls { pool := { node_ := node } }).pool.masters_[
              k % (pool_system.calls Model calls { pool := { node_ := node } }
                ).pool.masters_count_]? = some n
          ∧ n.ip ∈ (pool_system.calls Model calls { pool := { node_ := node } }
              ).pool.master_pool_.keys)
      ∧ (0 < (pool_system.calls Model calls { pool := { node_ := node } }).pool.slaves_count_ →
        ∃ n, (pool_system.calls Model calls { pool := { node_ := node } }).pool.slaves_[
              k % (pool_system.calls Model calls { pool := { node_ := node } }
                ).pool.slaves_count_]? = some n
          ∧ n.ip ∈ (pool_system.calls Model calls { pool := { node_ := node } }
              ).pool.slave_pool_.keys)
      ∧ (get_connection type connect_error
          (pool_system.calls Model calls { pool := { node_ := node } }).pool).2
        ≠ .undefined := by
  have h : lookups_hit (pool_system.calls Model calls { pool := { node_ := node } }).pool :=
    pool_system.calls_lookups Model calls _
      ⟨Nat.le_refl _, fun n hn => absurd hn (List.not_mem_nil n), Nat.le_refl _,
        fun n hn => absurd hn (List.not_mem_nil n)⟩
  exact ⟨(lookups_hit_index _ h k).1, (lookups_hit_index _ h k).2,
    get_connection_defined type connect_error _ h⟩

/-- C27 at a concrete input: a cluster pool reconciled with one PRIMARY and two SECONDARY
members, a borrowed and returned slave connection, and the counter value 7. -/
theorem C27_lookups_never_miss_witness :
    (∃ n, (pool_system.calls .cluster
          [.update_cluster_connections
            [⟨"10.0.0.1", "3306", "PRIMARY"⟩, ⟨"10.0.0.2", "3306", "SECONDARY"⟩,
             ⟨"10.0.0.3", "3306", "SECONDARY"⟩],
           .get_connection .slave none, .destroy 0] { pool := {} }).pool.masters_[
            7 % (pool_system.calls .cluster
              [.update_cluster_connections
                [⟨"10.0.0.1", "3306", "PRIMARY"⟩, ⟨"10.0.0.2", "3306", "SECONDARY"⟩,
                 ⟨"10.0.0.3", "3306", "SECONDARY"⟩],
               .get_connection .slave none, .destroy 0] { pool := {} }).pool.masters_count_]?
          = some n
        ∧ n.ip ∈ (pool_system.calls .cluster
          [.update_cluster_connections
            [⟨"10.0.0.1", "3306", "PRIMARY"⟩, ⟨"10.0.0.2", "3306", "SECONDARY"⟩,
             ⟨"10.0.0.3", "3306", "SECONDARY"⟩],
           .get_connection .slave none, .destroy 0] { pool := {} }).pool.master_pool_.keys)
    ∧ (∃ n, (pool_system.calls .cluster
          [.update_cluster_connections
            [⟨"10.0.0.1", "3306", "PRIMARY"⟩, ⟨"10.0.0.2", "3306", "SECONDARY"⟩,
             ⟨"10.0.0.3", "3306", "SECONDARY"⟩],
           .get_connection .slave none, .destroy 0] { pool := {} }).pool.slaves_[
            7 % (pool_system.calls .cluster
              [.update_cluster_connections
                [⟨"10.0.0.1", "3306", "PRIMARY"⟩, ⟨"10.0.0.2", "3306", "SECONDARY"⟩,
                 ⟨"10.0.0.3", "3306", "SECONDARY"⟩],
               .get_connection .slave none, .destroy 0] { pool := {} }).pool.slaves_count_]?
          = some n
        ∧ n.ip ∈ (pool_system.calls .cluster
          [.update_cluster_connections
            [⟨"10.0.0.1", "3306", "PRIMARY"⟩, ⟨"10.0.0.2", "3306", "SECONDARY"⟩,
             ⟨"10.0.0.3", "3306", "SECONDARY"⟩],
           .get_connection .slave none, .destroy 0] { pool := {} }).pool.slave_pool_.keys) :=
  have h := C27_lookups_never_miss .cluster { ip := "" }
    [.update_cluster_connections
      [⟨"10.0.0.1", "3306", "PRIMARY"⟩, ⟨"10.0.0.2", "3306", "SECONDARY"⟩,
       ⟨"10.0.0.3", "3306", "SECONDARY"⟩],
     .get_connection .slave none, .destroy 0] 7 .master none
  ⟨h.1 (by decide), h.2.1 (by decide)⟩

end mysql

/-! ### The scoped `SQLFreeStmt` -/

namespace sqlserver

theorem build_bind_params_calls_odbc {A : Type} (d : statement) (args : List A) (index : Nat) :
    api.SQLFreeStmt ∉ (build_bind_params d args index).1 := by
  induction args generalizing index with
  | nil => simp [build_bind_params]
  | cons a args ih =>
    unfold build_bind_params
    split
    · simp
    · simp only [List.mem_cons, not_or]
      exact ⟨by simp, ih _⟩

theorem before_execute_calls_odbc {A : Type} (R : ReturnType field_type) (statement_sql : String)
    (args : List A) (d : statement) (c : connection) :
    api.SQLFreeStmt ∉ (before_execute R statement_sql args d c).calls := by
  have hb := build_bind_params_calls_odbc d args 0
  have hc : api.SQLFreeStmt ∉ (check_output_size R d).1 := by
    unfold check_output_size
    split <;> simp
  unfold before_execute
  split
  · simp
  · split
    · simp
    · split
      · simp
      · simp only
        split
        · split
          · simp
          · simp [hc]
        · split
          · simp [hb]
          · simp [hb, hc]

theorem fetch_rows_not_terminated_odbc (columns : List bound_column) (d : statement)
    (fetches : List (Int × List column_store)) (st : fetch_state) (c : connection) :
    (fetch_rows columns d fetches st c).result ≠ .terminated := by
  induction fetches generalizing st with
  | nil => simp [fetch_rows]
  | cons f fetches ih =>
    obtain ⟨retcode, stores⟩ := f
    unfold fetch_rows
    split
    · simp
    · split
      · simp
      · simp only
        split
        · simp
        · simp only
          split
          · simp
          · rename_i other hother
            intro e
            rw [e] at hother
            exact ih _ (by assumption)

theorem after_execute_not_terminated_odbc (elements : List field_type) (d : statement)
    (c : connection) : (after_execute elements d c).result ≠ .terminated := by
  unfold after_execute
  simp only
  split
  · simp
  · exact fetch_rows_not_terminated_odbc _ _ _ _ _

theorem scope_guard_last_odbc {α : Type} (d : statement) (body : run α)
    (h1 : body.result ≠ .undefined) (h2 : body.result ≠ .terminated) :
    (scope_guard d body).calls.getLast? = some .SQLFreeStmt := by
  unfold scope_guard
  split
  · rename_i e; exact absurd e h1
  · rename_i e; exact absurd e h2
  · split <;> simp

theorem scope_guard_undefined_odbc {α : Type} (d : statement) (body : run α)
    (h : body.result = .undefined) : (scope_guard d body).result = .undefined := by
  unfold scope_guard
  simp [h]

end sqlserver

/-! ### C26 -/

namespace sqlserver

/-- C26 fails on the code: the `scope_guard` that calls `SQLFreeStmt` is constructed after
the check of `SQLExecDirect` and `SQLExecute`. An `execute` whose `SQLExecDirect` fails throws
after that one driver call, a `query` whose `SQLExecute` fails throws after prepare, parameter
count and execute, and a `query` with an argument too few throws after prepare and parameter
count: none of them calls `SQLFreeStmt`. -/
theorem C26_no_close_when_execution_fails :
    (execute "select 1" { SQLExecDirect := -1, sqlserver_error := "syntax error" }
        { id := 0, opt_ := { ip := "10.0.0.1" }, is_health_ := true }).calls = [.SQLExecDirect]
    ∧ (execute "select 1" { SQLExecDirect := -1, sqlserver_error := "syntax error" }
        { id := 0, opt_ := { ip := "10.0.0.1" }, is_health_ := true }).result
      = .thrown "Failed to excute sql<select 1>: syntax error"
    ∧ (query .void "delete from t" ([] : List Nat)
        { SQLExecute := -1, sqlserver_error := "deadlock" }
        { id := 0, opt_ := { ip := "10.0.0.1" }, is_health_ := true }).calls
      = [.SQLPrepare, .SQLNumParams, .SQLExecute]
    ∧ (query .void "delete from t" ([] : List Nat)
        { SQLExecute := -1, sqlserver_error := "deadlock" }
        { id := 0, opt_ := { ip := "10.0.0.1" }, is_health_ := true }).result
      = .thrown "failed to SQLExecute : deadlock"
    ∧ (query .void "delete from t where id = ?" ([] : List Nat) { SQLNumParams := (0, 1) }
        { id := 0, opt_ := { ip := "10.0.0.1" }, is_health_ := true }).calls
      = [.SQLPrepare, .SQLNumParams] := by
  refine ⟨by decide, by decide, by decide, by decide, by decide⟩

/-- C26 as amended: a call of `execute` whose `SQLExecDirect` succeeds, and a call of `query`
(any overload) whose `before_execute` returns and whose `SQLExecute` succeeds, makes
`SQLFreeStmt` its last driver call, whether what follows returns or throws (when
`SQLFreeStmt` itself fails the program terminates, when decoding a row has undefined
behaviour nothing is promised). A call that throws before or at the execute step does not
call `SQLFreeStmt`. -/
theorem C26_close_after_execution {A : Type} (sql : String) (d : statement) (c : connection)
    (R : ReturnType field_type) (args : List A) :
    (d.SQLExecDirect = SQL_SUCCESS → (execute sql d c).calls.getLast? = some .SQLFreeStmt)
      ∧ (d.SQLExecDirect ≠ SQL_SUCCESS → api.SQLFreeStmt ∉ (execute sql d c).calls)
      ∧ ((before_execute R sql args d c).result = .returned () → d.SQLExecute = SQL_SUCCESS →
          (query R sql args d c).result ≠ .undefined →
          (query R sql args d c).calls.getLast? = some .SQLFreeStmt)
      ∧ ((before_execute R sql args d c).result ≠ .returned () ∨ d.SQLExecute ≠ SQL_SUCCESS →
          api.SQLFreeStmt ∉ (query R sql args d c).calls) := by
  refine ⟨?_, ?_, ?_, ?_⟩
  · intro h
    unfold execute
    rw [if_neg (by simp [h])]
    exact scope_guard_last_odbc d _ (by simp) (by simp)
  · intro h
    unfold execute
    rw [if_pos h]
    simp
  · intro hb hexec hdef
    have hq : query R sql args d c
        = scope_guard d
            { (match R with
                | .void =>
                  ({ conn := (before_execute R sql args d c).conn, calls := [],
                     result := .returned [] } : run (List (List field)))
                | .tuple elements => after_execute elements d (before_execute R sql args d c).conn
                | .reflection members =>
                  after_execute members d (before_execute R sql args d c).conn
                | .single type => after_execute [type] d (before_execute R sql args d c).conn)
              with calls := (before_execute R sql args d c).calls ++ [.SQLExecute]
                ++ (match R with
                | .void =>
                  ({ conn := (before_execute R sql args d c).conn, calls := [],
                     result := .returned [] } : run (List (List field)))
                | .tuple elements => after_execute elements d (before_execute R sql args d c).conn
                | .reflection members =>
                  after_execute members d (before_execute R sql args d c).conn
                | .single type =>
                  after_execute [type] d (before_execute R sql args d c).conn).calls } := by
      unfold query
      simp only [hb, hexec, ne_eq, not_true_eq_false, if_false]
    rw [hq] at hdef ⊢
    apply scope_guard_last_odbc
    · intro e
      exact hdef (scope_guard_undefined_odbc d _ e)
    · cases R with
      | void => simp
      | tuple elements => exact after_execute_not_terminated_odbc _ _ _
      | reflection members => exact after_execute_not_terminated_odbc _ _ _
      | single type => exact after_execute_not_terminated_odbc _ _ _
  · intro h
    have hbc := before_execute_calls_odbc R sql args d c
    unfold query
    simp only
    split
    · exact hbc
    · exact hbc
    · exact hbc
    · rename_i u hu
      rcases h with h | h
      · exact absurd hu h
      · rw [if_pos h]
        simp [hbc]

/-- C26 (amended) at concrete inputs: an `execute` that succeeds, a `query` that reads one
row and then fails in `SQLFetch`, an `execute` whose `SQLExecDirect` fails and a `query` whose
`SQLExecute` fails. -/
theorem C26_close_after_execution_witness :
    (execute "delete from t" {} { id := 0, opt_ := { ip := "10.0.0.1" }, is_health_ := true }
        ).calls.getLast? = some .SQLFreeStmt
    ∧ api.SQLFreeStmt ∉ (execute "delete from t" { SQLExecDirect := -1 }
        { id := 0, opt_ := { ip := "10.0.0.1" }, is_health_ := true }).calls
    ∧ (query (.tuple [.arithmetic .int32_t]) "select id from t" ([] : List Nat)
        { SQLNumResultCols := (0, 1),
          SQLFetch := [(0, [{ ind := 4, value := some 7 }]), (-1, [])] }
        { id := 0, opt_ := { ip := "10.0.0.1" }, is_health_ := true }).calls.getLast?
      = some .SQLFreeStmt
    ∧ api.SQLFreeStmt ∉ (query (.tuple [.arithmetic .int32_t]) "select id from t"
        ([] : List Nat) { SQLNumResultCols := (0, 1), SQLExecute := -1 }
        { id := 0, opt_ := { ip := "10.0.0.1" }, is_health_ := true }).calls :=
  ⟨(C26_close_after_execution "delete from t" {}
      { id := 0, opt_ := { ip := "10.0.0.1" }, is_health_ := true } .void ([] : List Nat)).1
      (by decide),
   (C26_close_after_execution "delete from t" { SQLExecDirect := -1 }
      { id := 0, opt_ := { ip := "10.0.0.1" }, is_health_ := true } .void ([] : List Nat)).2.1
      (by decide),
   (C26_close_after_execution "select id from t"
      { SQLNumResultCols := (0, 1),
        SQLFetch := [(0, [{ ind := 4, value := some 7 }]), (-1, [])] }
      { id := 0, opt_ := { ip := "10.0.0.1" }, is_health_ := true }
      (.tuple [.arithmetic .int32_t]) ([] : List Nat)).2.2.1 (by decide) (by decide)
      (by decide),
   (C26_close_after_execution "select id from t"
      { SQLNumResultCols := (0, 1), SQLExecute := -1 }
      { id := 0, opt_ := { ip := "10.0.0.1" }, is_health_ := true }
      (.tuple [.arithmetic .int32_t]) ([] : List Nat)).2.2.2 (Or.inr (by decide))⟩

end sqlserver

/-! ### Staging buffers and the iterator of the row decoder -/

namespace mysql

end mysql

namespace sqlserver

end sqlserver

theorem set_union_nil_left (range2 : List node_info) : set_union [] range2 = range2 := by
  rw [set_union]

theorem set_union_nil_right (range1 : List node_info) : set_union range1 [] = range1 := by
  cases range1 with
  | nil => rw [set_union]
  | cons a l => rw [set_union]

theorem set_union_cons (a b : node_info) (l1 l2 : List node_info) :
    set_union (a :: l1) (b :: l2)
      = if a.operator_lt b then a :: set_union l1 (b :: l2)
        else if b.operator_lt a then b :: set_union (a :: l1) l2
        else a :: set_union l1 l2 := by
  rw [set_union]

theorem operator_lt_eq_true (a b : node_info) : a.operator_lt b = true ↔ a.ip < b.ip := by
  simp [node_info.operator_lt]

theorem operator_lt_eq_false (a b : node_info) : ¬ a.operator_lt b = true ↔ b.ip ≤ a.ip := by
  rw [operator_lt_eq_true]
  exact not_lt

theorem mem_set_union (l1 l2 : List node_info) :
    ∀ x ∈ set_union l1 l2, x ∈ l1 ∨ x ∈ l2 := by
  induction l1 generalizing l2 with
  | nil => intro x hx; rw [set_union_nil_left] at hx; exact Or.inr hx
  | cons a l1 ih =>
    induction l2 with
    | nil => intro x hx; rw [set_union_nil_right] at hx; exact Or.inl hx
    | cons b l2 ih2 =>
      intro x hx
      rw [set_union_cons] at hx
      split_ifs at hx with h1 h2
      · rcases List.mem_cons.mp hx with h | h
        · exact Or.inl (h ▸ List.mem_cons_self _ _)
        · rcases ih _ x h with h | h
          · exact Or.inl (List.mem_cons_of_mem _ h)
          · exact Or.inr h
      · rcases List.mem_cons.mp hx with h | h
        · exact Or.inr (h ▸ List.mem_cons_self _ _)
        · rcases ih2 x h with h | h
          · exact Or.inl h
          · exact Or.inr (List.mem_cons_of_mem _ h)
      · rcases List.mem_cons.mp hx with h | h
        · exact Or.inl (h ▸ List.mem_cons_self _ _)
        · rcases ih _ x h with h | h
          · exact Or.inl (List.mem_cons_of_mem _ h)
          · exact Or.inr (List.mem_cons_of_mem _ h)

theorem mem_set_union_left (l1 l2 : List node_info) :
    ∀ x ∈ l1, x ∈ set_union l1 l2 := by
  induction l1 generalizing l2 with
  | nil => intro x hx; simp at hx
  | cons a l1 ih =>
    induction l2 with
    | nil => intro x hx; rw [set_union_nil_right]; exact hx
    | cons b l2 ih2 =>
      intro x hx
      rw [set_union_cons]
      split_ifs with h1 h2
      · rcases List.mem_cons.mp hx with h | h
        · exact h ▸ List.mem_cons_self _ _
        · exact List.mem_cons_of_mem _ (ih _ x h)
      · exact List.mem_cons_of_mem _ (ih2 x hx)
      · rcases List.mem_cons.mp hx with h | h
        · exact h ▸ List.mem_cons_self _ _
        · exact List.mem_cons_of_mem _ (ih _ x h)

theorem ip_mem_set_union_right (l1 l2 : List node_info) :
    ∀ x ∈ l2, x.ip ∈ (set_union l1 l2).map node_info.ip := by
  induction l1 generalizing l2 with
  | nil => intro x hx; rw [set_union_nil_left]; exact List.mem_map_of_mem _ hx
  | cons a l1 ih =>
    induction l2 with
    | nil => intro x hx; simp at hx
    | cons b l2 ih2 =>
      intro x hx
      rw [set_union_cons]
      split_ifs with h1 h2
      · rw [List.map_cons]
        exact List.mem_cons_of_mem _ (ih _ x hx)
      · rw [List.map_cons]
        rcases List.mem_cons.mp hx with h | h
        · exact h ▸ List.mem_cons_self _ _
        · exact List.mem_cons_of_mem _ (ih2 x h)
      · rw [List.map_cons]
        rcases List.mem_cons.mp hx with h | h
        · have hab : a.ip = b.ip :=
            le_antisymm ((operator_lt_eq_false b a).mp h2) ((operator_lt_eq_false a b).mp h1)
          rw [h, ← hab]
          exact List.mem_cons_self _ _
        · exact List.mem_cons_of_mem _ (ih _ x h)

theorem set_union_sorted (l1 l2 : List node_info) (h1 : sorted_by_ip l1)
    (h2 : sorted_by_ip l2) : sorted_by_ip (set_union l1 l2) := by
  induction l1 generalizing l2 with
  | nil => rw [set_union_nil_left]; exact h2
  | cons a l1 ih =>
    induction l2 with
    | nil => rw [set_union_nil_right]; exact h1
    | cons b l2 ih2 =>
      have ha := List.pairwise_cons.mp h1
      have hb := List.pairwise_cons.mp h2
      rw [set_union_cons]
      split_ifs with c1 c2
      · have hab : a.ip < b.ip := (operator_lt_eq_true a b).mp c1
        refine List.pairwise_cons.mpr ⟨?_, ih _ ha.2 h2⟩
        intro x hx
        rcases mem_set_union _ _ x hx with h | h
        · exact ha.1 x h
        · rcases List.mem_cons.mp h with h | h
          · rw [h]; exact le_of_lt hab
          · exact le_trans (le_of_lt hab) (hb.1 x h)
      · have hba : b.ip < a.ip := (operator_lt_eq_true b a).mp c2
        refine List.pairwise_cons.mpr ⟨?_, ih2 hb.2⟩
        intro x hx
        rcases mem_set_union _ _ x hx with h | h
        · rcases List.mem_cons.mp h with h | h
          · rw [h]; exact le_of_lt hba
          · exact le_trans (le_of_lt hba) (ha.1 x h)
        · exact hb.1 x h
      · have hab : a.ip ≤ b.ip := (operator_lt_eq_false b a).mp c2
        refine List.pairwise_cons.mpr ⟨?_, ih _ ha.2 hb.2⟩
        intro x hx
        rcases mem_set_union _ _ x hx with h | h
        · exact ha.1 x h
        · exact le_trans hab (hb.1 x h)

namespace mysql

theorem monitor_loop_seeds (sort : List node_info → List node_info)
    (hsorted : ∀ l, sorted_by_ip (sort l)) (attempts : Nat → attempt)
    (seeds : List node_info) (k : Nat) (s : sentinel) (hs : sorted_by_ip s.seed_nodes_) :
    sorted_by_ip (monitor_loop sort attempts seeds k s).seed_nodes_
      ∧ ∀ n ∈ s.seed_nodes_,
          n.ip ∈ (monitor_loop sort attempts seeds k s).seed_nodes_.map node_info.ip := by
  induction seeds generalizing k s with
  | nil => exact ⟨hs, fun n hn => List.mem_map_of_mem _ hn⟩
  | cons node seeds ih =>
    have hconn : ∀ s1 : sentinel, s1.seed_nodes_ = s.seed_nodes_ →
        sorted_by_ip (monitor_loop sort attempts seeds (k + 1)
            { s1 with conn_ := none }).seed_nodes_
          ∧ ∀ n ∈ s.seed_nodes_, n.ip ∈ (monitor_loop sort attempts seeds (k + 1)
            { s1 with conn_ := none }).seed_nodes_.map node_info.ip := by
      intro s1 h1
      have := ih (k + 1) { s1 with conn_ := none } (by show sorted_by_ip s1.seed_nodes_; rw [h1]; exact hs)
      refine ⟨this.1, fun n hn => this.2 n ?_⟩
      show n ∈ s1.seed_nodes_
      rw [h1]; exact hn
    have hseed : (if s.conn_.isNone then
          ({ s with conn_ := some { ip := node.ip, port := node.port, user := s.global_user_,
                                    passwd := s.global_passwd_ } } : sentinel)
        else s).seed_nodes_ = s.seed_nodes_ := by
      split_ifs <;> rfl
    simp only [monitor_loop]
    generalize (if s.conn_.isNone then
          ({ s with conn_ := some { ip := node.ip, port := node.port, user := s.global_user_,
                                    passwd := s.global_passwd_ } } : sentinel)
        else s) = s1 at hseed
    cases attempts k with
    | throws what => exact hconn s1 hseed
    | returns fetched =>
      simp only
      by_cases he : fetched.isEmpty = true
      · rw [if_pos he]
        exact hconn s1 hseed
      · rw [if_neg he]
        by_cases hv : vector_ne (sort fetched) s1.online_nodes_ = true
        · rw [if_pos hv]
          refine ⟨set_union_sorted _ _ (hsorted _) (by rw [hseed]; exact hs), ?_⟩
          intro n hn
          exact ip_mem_set_union_right _ _ n (by rw [hseed]; exact hn)
        · rw [if_neg hv]
          rw [hseed]
          exact ⟨hs, fun n hn => List.mem_map_of_mem _ hn⟩

end mysql

namespace mysql

theorem monitor_loop_first_success (sort : List node_info → List node_info)
    (attempts : Nat → attempt) (j : Nat) (fetched : List node_info) (hne : fetched ≠ [])
    (seeds : List node_info) (k : Nat) (s : sentinel) (hj : j < seeds.length)
    (hfail : ∀ i < j, (attempts (k + i)).failed = true)
    (hret : attempts (k + j) = .returns fetched) :
    (monitor_loop sort attempts seeds k s).seed_nodes_
        = (if vector_ne (sort fetched) s.online_nodes_ then
            set_union (sort fetched) s.seed_nodes_ else s.seed_nodes_)
      ∧ (monitor_loop sort attempts seeds k s).online_nodes_
        = (if vector_ne (sort fetched) s.online_nodes_ then sort fetched
            else s.online_nodes_) := by
  induction j generalizing seeds k s with
  | zero =>
    cases seeds with
    | nil => simp at hj
    | cons node seeds =>
      have hseed : (if s.conn_.isNone then
            ({ s with conn_ := some { ip := node.ip, port := node.port,
                                      user := s.global_user_,
                                      passwd := s.global_passwd_ } } : sentinel)
          else s).seed_nodes_ = s.seed_nodes_ := by
        split_ifs <;> rfl
      have honline : (if s.conn_.isNone then
            ({ s with conn_ := some { ip := node.ip, port := node.port,
                                      user := s.global_user_,
                                      passwd := s.global_passwd_ } } : sentinel)
          else s).online_nodes_ = s.online_nodes_ := by
        split_ifs <;> rfl
      have he : ¬ fetched.isEmpty = true := by
        rw [List.isEmpty_iff]; exact hne
      rw [Nat.add_zero] at hret
      simp only [monitor_loop, hret]
      generalize (if s.conn_.isNone then
            ({ s with conn_ := some { ip := node.ip, port := node.port,
                                      user := s.global_user_,
                                      passwd := s.global_passwd_ } } : sentinel)
          else s) = s1 at hseed honline
      rw [if_neg he, honline]
      by_cases hv : vector_ne (sort fetched) s.online_nodes_ = true
      · rw [if_pos hv, if_pos hv, if_pos hv, hseed]
        exact ⟨rfl, rfl⟩
      · rw [if_neg hv, if_neg hv, if_neg hv]
        exact ⟨hseed, honline⟩
  | succ j ih =>
    cases seeds with
    | nil => simp at hj
    | cons node seeds =>
      have hseed : (if s.conn_.isNone then
            ({ s with conn_ := some { ip := node.ip, port := node.port,
                                      user := s.global_user_,
                                      passwd := s.global_passwd_ } } : sentinel)
          else s).seed_nodes_ = s.seed_nodes_ := by
        split_ifs <;> rfl
      have honline : (if s.conn_.isNone then
            ({ s with conn_ := some { ip := node.ip, port := node.port,
                                      user := s.global_user_,
                                      passwd := s.global_passwd_ } } : sentinel)
          else s).online_nodes_ = s.online_nodes_ := by
        split_ifs <;> rfl
      have h0 := hfail 0 (Nat.succ_pos j)
      rw [Nat.add_zero] at h0
      have hnext : ∀ s1 : sentinel, s1.seed_nodes_ = s.seed_nodes_ →
          s1.online_nodes_ = s.online_nodes_ →
          (monitor_loop sort attempts seeds (k + 1) { s1 with conn_ := none }).seed_nodes_
              = (if vector_ne (sort fetched) s.online_nodes_ then
                  set_union (sort fetched) s.seed_nodes_ else s.seed_nodes_)
            ∧ (monitor_loop sort attempts seeds (k + 1)
                { s1 with conn_ := none }).online_nodes_
              = (if vector_ne (sort fetched) s.online_nodes_ then sort fetched
                  else s.online_nodes_) := by
        intro s1 h1 h2
        have := ih seeds (k + 1) { s1 with conn_ := none }
          (by simpa using hj)
          (fun i hi => by
            have := hfail (i + 1) (by omega)
            rw [show k + 1 + i = k + (i + 1) by omega]
            exact this)
          (by rw [show k + 1 + j = k + (j + 1) by omega]; exact hret)
        rw [← h1, ← h2]
        exact this
      simp only [monitor_loop]
      generalize (if s.conn_.isNone then
            ({ s with conn_ := some { ip := node.ip, port := node.port,
                                      user := s.global_user_,
                                      passwd := s.global_passwd_ } } : sentinel)
          else s) = s1 at hseed honline
      cases hk : attempts k with
      | throws what => exact hnext s1 hseed honline
      | returns first =>
        rw [hk] at h0
        simp only
        rw [if_pos (by simpa [attempt.failed] using h0)]
        exact hnext s1 hseed honline

end mysql

/-- Claim C23: one pass of the monitor loop (`mysql.monitor_pass`) over the seeds, for any
`std::sort` (a function that returns a sorted permutation) and whatever the iterations
meet. If `seed_nodes_` is sorted by ip, then afterwards it is still sorted by ip and holds
every ip it held before; and when the pass fetches a member list (iteration `j` returns a
vector that is not empty after the iterations before it threw or returned an empty one)
whose sorted form is `!=` to `online_nodes_`, then `seed_nodes_` holds every ip of the
fetched list and `online_nodes_` is the sorted fetched list. -/
theorem C23_seeds_never_forgotten (sort : List node_info → List node_info)
    (attempts : Nat → mysql.attempt) (s : mysql.sentinel)
    (hperm : ∀ l, (sort l).Perm l) (hsorted : ∀ l, sorted_by_ip (sort l))
    (hs : sorted_by_ip s.seed_nodes_) :
    sorted_by_ip (mysql.monitor_pass sort attempts s).seed_nodes_
      ∧ (∀ n ∈ s.seed_nodes_,
          n.ip ∈ (mysql.monitor_pass sort attempts s).seed_nodes_.map node_info.ip)
      ∧ ∀ (j : Nat) (fetched : List node_info), j < s.seed_nodes_.length →
          (∀ i < j, (attempts i).failed = true) → attempts j = .returns fetched →
          fetched ≠ [] → vector_ne (sort fetched) s.online_nodes_ = true →
          (∀ n ∈ fetched,
              n.ip ∈ (mysql.monitor_pass sort attempts s).seed_nodes_.map node_info.ip)
            ∧ (mysql.monitor_pass sort attempts s).online_nodes_ = sort fetched := by
  obtain ⟨h1, h2⟩ := mysql.monitor_loop_seeds sort hsorted attempts s.seed_nodes_ 0 s hs
  refine ⟨h1, h2, ?_⟩
  intro j fetched hj hfail hret hne hv
  obtain ⟨k1, k2⟩ := mysql.monitor_loop_first_success sort attempts j fetched hne
    s.seed_nodes_ 0 s hj (fun i hi => by rw [Nat.zero_add]; exact hfail i hi)
    (by rw [Nat.zero_add]; exact hret)
  rw [if_pos hv] at k1 k2
  refine ⟨?_, k2⟩
  intro n hn
  show n.ip ∈ (mysql.monitor_loop sort attempts s.seed_nodes_ 0 s).seed_nodes_.map node_info.ip
  rw [k1]
  exact List.mem_map_of_mem _
    (mem_set_union_left _ _ n ((hperm fetched).mem_iff.mpr hn))

/-- C23 at a concrete input: the seeds and the online nodes are 10.0.0.1 and 10.0.0.2,
insertion sort by ip stands for `std::sort`, and the first iteration fetches 10.0.0.3
and 10.0.0.1. -/
theorem C23_seeds_never_forgotten_witness :
    sorted_by_ip [⟨"10.0.0.1", "3306", "PRIMARY"⟩, ⟨"10.0.0.2", "3306", "SECONDARY"⟩]
      ∧ (∀ n ∈ [(⟨"10.0.0.3", "3306", "PRIMARY"⟩ : node_info),
            ⟨"10.0.0.1", "3306", "SECONDARY"⟩],
          n.ip ∈ (mysql.monitor_pass (List.insertionSort fun a b => a.ip ≤ b.ip)
            (fun _ => .returns [⟨"10.0.0.3", "3306", "PRIMARY"⟩,
              ⟨"10.0.0.1", "3306", "SECONDARY"⟩])
            { seed_nodes_ := [⟨"10.0.0.1", "3306", "PRIMARY"⟩,
                ⟨"10.0.0.2", "3306", "SECONDARY"⟩],
              online_nodes_ := [⟨"10.0.0.1", "3306", "PRIMARY"⟩,
                ⟨"10.0.0.2", "3306", "SECONDARY"⟩] }).seed_nodes_.map node_info.ip)
      ∧ (mysql.monitor_pass (List.insertionSort fun a b => a.ip ≤ b.ip)
            (fun _ => .returns [⟨"10.0.0.3", "3306", "PRIMARY"⟩,
              ⟨"10.0.0.1", "3306", "SECONDARY"⟩])
            { seed_nodes_ := [⟨"10.0.0.1", "3306", "PRIMARY"⟩,
                ⟨"10.0.0.2", "3306", "SECONDARY"⟩],
              online_nodes_ := [⟨"10.0.0.1", "3306", "PRIMARY"⟩,
                ⟨"10.0.0.2", "3306", "SECONDARY"⟩] }).online_nodes_
          = List.insertionSort (fun a b => a.ip ≤ b.ip)
              [⟨"10.0.0.3", "3306", "PRIMARY"⟩, ⟨"10.0.0.1", "3306", "SECONDARY"⟩] := by
  have hsort : sorted_by_ip
      [⟨"10.0.0.1", "3306", "PRIMARY"⟩, ⟨"10.0.0.2", "3306", "SECONDARY"⟩] := by
    simp only [sorted_by_ip, List.pairwise_cons, List.mem_singleton, forall_eq,
      List.not_mem_nil, false_implies, implies_true, List.Pairwise.nil, and_true,
      String.le_iff_toList_le]
    decide
  have h := C23_seeds_never_forgotten (List.insertionSort fun a b => a.ip ≤ b.ip)
    (fun _ => .returns [⟨"10.0.0.3", "3306", "PRIMARY"⟩, ⟨"10.0.0.1", "3306", "SECONDARY"⟩])
    { seed_nodes_ := [⟨"10.0.0.1", "3306", "PRIMARY"⟩, ⟨"10.0.0.2", "3306", "SECONDARY"⟩],
      online_nodes_ := [⟨"10.0.0.1", "3306", "PRIMARY"⟩, ⟨"10.0.0.2", "3306", "SECONDARY"⟩] }
    (fun l => List.perm_insertionSort _ l)
    (fun l =>
      haveI : IsTotal node_info (fun a b => a.ip ≤ b.ip) := ⟨fun a b => le_total a.ip b.ip⟩
      haveI : IsTrans node_info (fun a b => a.ip ≤ b.ip) :=
        ⟨fun _ _ _ hab hbc => le_trans hab hbc⟩
      List.sorted_insertionSort _ l)
    hsort
  have h3 := h.2.2 0 _ (by decide) (fun i hi => absurd hi (Nat.not_lt_zero i)) rfl
    (by simp)
    (by
      have h31 : ¬ ("10.0.0.3" : String) ≤ "10.0.0.1" := by
        rw [String.le_iff_toList_le]; decide
      simp [vector_ne, List.insertionSort, List.orderedInsert, node_info.operator_eq, h31])
  exact ⟨hsort, h3.1, h3.2⟩

/-! ### C7 -/

namespace mysql

theorem get_connections_master_state (connects : List (Option String)) (s : connection_pool)
    (h : s.master_fetch_times_ + connects.length < 2 ^ 64) :
    (get_connections .master connects s).1.masters_ = s.masters_
      ∧ (get_connections .master connects s).1.masters_count_ = s.masters_count_
      ∧ (get_connections .master connects s).1.master_fetch_times_
        = s.master_fetch_times_ + connects.length := by
  induction connects generalizing s with
  | nil => exact ⟨rfl, rfl, rfl⟩
  | cons e connects ih =>
    obtain ⟨v1, v2, _, _⟩ := get_connection_vectors .master e s
    obtain ⟨c1, _⟩ := get_connection_master_counters e s
    rw [List.length_cons] at h
    have hlt : (s.master_fetch_times_ + 1) % 2 ^ 64 = s.master_fetch_times_ + 1 :=
      Nat.mod_eq_of_lt (by omega)
    rw [hlt] at c1
    obtain ⟨i1, i2, i3⟩ := ih (get_connection .master e s).1 (by rw [c1]; omega)
    refine ⟨?_, ?_, ?_⟩
    · show (get_connections .master connects (get_connection .master e s).1).1.masters_ = _
      rw [i1, v1]
    · show (get_connections .master connects (get_connection .master e s).1).1.masters_count_
        = _
      rw [i2, v2]
    · show (get_connections .master connects
        (get_connection .master e s).1).1.master_fetch_times_ = _
      rw [i3, c1, List.length_cons]
      omega

theorem get_connections_slave_state (connects : List (Option String)) (s : connection_pool)
    (h : s.slave_fetch_times_ + connects.length < 2 ^ 64) :
    (get_connections .slave connects s).1.slaves_ = s.slaves_
      ∧ (get_connections .slave connects s).1.slaves_count_ = s.slaves_count_
      ∧ (get_connections .slave connects s).1.slave_fetch_times_
        = s.slave_fetch_times_ + connects.length := by
  induction connects generalizing s with
  | nil => exact ⟨rfl, rfl, rfl⟩
  | cons e connects ih =>
    obtain ⟨_, _, v1, v2⟩ := get_connection_vectors .slave e s
    obtain ⟨c1, _⟩ := get_connection_slave_counters e s
    rw [List.length_cons] at h
    have hlt : (s.slave_fetch_times_ + 1) % 2 ^ 64 = s.slave_fetch_times_ + 1 :=
      Nat.mod_eq_of_lt (by omega)
    rw [hlt] at c1
    obtain ⟨i1, i2, i3⟩ := ih (get_connection .slave e s).1 (by rw [c1]; omega)
    refine ⟨?_, ?_, ?_⟩
    · show (get_connections .slave connects (get_connection .slave e s).1).1.slaves_ = _
      rw [i1, v1]
    · show (get_connections .slave connects (get_connection .slave e s).1).1.slaves_count_
        = _
      rw [i2, v2]
    · show (get_connections .slave connects
        (get_connection .slave e s).1).1.slave_fetch_times_ = _
      rw [i3, c1, List.length_cons]
      omega

theorem get_connections_call (type : conn_type) (connects : List (Option String))
    (s : connection_pool) (k : Nat) (e : Option String) (h : connects[k]? = some e) :
    (get_connections type connects s).2[k]?
      = some ((match type with
          | .master => master_index (get_connections type (connects.take k) s).1
          | .slave => slave_index (get_connections type (connects.take k) s).1
          | .general => 0),
        (get_connection type e (get_connections type (connects.take k) s).1).2) := by
  induction connects generalizing s k with
  | nil => simp at h
  | cons e0 connects ih =>
    cases k with
    | zero =>
      simp only [List.getElem?_cons_zero, Option.some.injEq] at h
      subst h
      simp only [get_connections, List.take_zero, List.getElem?_cons_zero]
    | succ k =>
      simp only [List.getElem?_cons_succ] at h
      have := ih (get_connection type e0 s).1 k h
      simp only [get_connections, List.take_succ_cons, List.getElem?_cons_succ]
      exact this

/-- C7 fails on the code in two ways. At the wrap-around of the 64 bit counter: with three
masters and `master_fetch_times_` two below 2^64, two consecutive `get_connection<master>`
calls both select index 0 (the counter becomes 2^64 - 1, a multiple of 3, and then 0), so
master 0 is selected twice, which is neither floor(2/3) = 0 nor ceil(2/3) = 1. And when
`masters_count_` is not the number of masters: after reconciliation with two PRIMARY
members on one host `masters_` holds two masters and `masters_count_` is 1, two consecutive
calls both select index 0, and the master at position 1 is selected 0 times, which is
neither floor(2/2) nor ceil(2/2). -/
theorem C7_selection_unfair :
    ((get_connections .master [none, none]
        { master_fetch_times_ := 2 ^ 64 - 2,
          masters_ := [⟨"10.0.0.1", "3306", "PRIMARY"⟩, ⟨"10.0.0.2", "3306", "PRIMARY"⟩,
                       ⟨"10.0.0.3", "3306", "PRIMARY"⟩],
          masters_count_ := 3,
          master_pool_ := [("10.0.0.1", []), ("10.0.0.2", []), ("10.0.0.3", [])] }).2.map
        Prod.fst = [0, 0]
      ∧ (get_connections .master [none, none]
        { master_fetch_times_ := 2 ^ 64 - 2,
          masters_ := [⟨"10.0.0.1", "3306", "PRIMARY"⟩, ⟨"10.0.0.2", "3306", "PRIMARY"⟩,
                       ⟨"10.0.0.3", "3306", "PRIMARY"⟩],
          masters_count_ := 3,
          master_pool_ := [("10.0.0.1", []), ("10.0.0.2", []), ("10.0.0.3", [])] }).2.map
        Prod.snd
        = [.returned { conn_ := some { id := 0, ip_ := "10.0.0.1", is_health_ := true } },
           .returned { conn_ := some { id := 1, ip_ := "10.0.0.1", is_health_ := true } }]
      ∧ List.count 0 [0, 0] ≠ 2 / 3 ∧ List.count 0 [0, 0] ≠ (2 + 3 - 1) / 3)
    ∧ ((update_cluster_connections
          [⟨"10.0.0.1", "3306", "PRIMARY"⟩, ⟨"10.0.0.1", "3307", "PRIMARY"⟩] {}).masters_
        = [⟨"10.0.0.1", "3306", "PRIMARY"⟩, ⟨"10.0.0.1", "3307", "PRIMARY"⟩]
      ∧ (update_cluster_connections
          [⟨"10.0.0.1", "3306", "PRIMARY"⟩, ⟨"10.0.0.1", "3307", "PRIMARY"⟩] {}
        ).masters_count_ = 1
      ∧ (get_connections .master [none, none]
          (update_cluster_connections
            [⟨"10.0.0.1", "3306", "PRIMARY"⟩, ⟨"10.0.0.1", "3307", "PRIMARY"⟩] {})).2.map
          Prod.fst = [0, 0]
      ∧ List.count 1 [0, 0] ≠ 2 / 2 ∧ List.count 1 [0, 0] ≠ (2 + 2 - 1) / 2) := by
  refine ⟨⟨by decide, by decide, by decide, by decide⟩,
    ⟨by decide, by decide, by decide, by decide, by decide⟩⟩

/-- C7 as amended: in a cluster pool state whose `masters_` holds `R >= 1` masters and whose
`masters_count_` is `R`, for every starting value of `master_fetch_times_` and every `T`
such that the 64 bit counter does not wrap around during the calls (start + T < 2^64): the
k-th of `T` consecutive `get_connection<master>` calls computes the index
(start + 1 + k) mod R, which is (incremented counter) mod R; the call is made in a state
with the same masters and it selects the master `masters_[index]` (it pops the queue of
that master, or creates a connection to it); and each of the `R` masters, the one at
position `jm` for every `jm < R`, is selected floor(T/R) or ceil(T/R) times;
`get_connection<slave>` is symmetric. -/
theorem C7_round_robin (s : connection_pool) (connects : List (Option String)) (jm : Nat)
    (ss : connection_pool) (connects_s : List (Option String)) (js : Nat)
    (hm_count : 1 ≤ s.masters_count_)
    (hm_masters : s.masters_.length = s.masters_count_)
    (hm_nowrap : s.master_fetch_times_ + connects.length < 2 ^ 64)
    (hm_index : jm < s.masters_count_)
    (hs_count : 1 ≤ ss.slaves_count_)
    (hs_slaves : ss.slaves_.length = ss.slaves_count_)
    (hs_nowrap : ss.slave_fetch_times_ + connects_s.length < 2 ^ 64)
    (hs_index : js < ss.slaves_count_) :
    ((get_connections .master connects s).2.map Prod.fst
        = (List.range connects.length).map
            (fun k => (s.master_fetch_times_ + 1 + k) % s.masters_count_)
      ∧ (∃ master, s.masters_[jm]? = some master)
      ∧ (List.count jm ((get_connections .master connects s).2.map Prod.fst)
            = connects.length / s.masters_count_
          ∨ List.count jm ((get_connections .master connects s).2.map Prod.fst)
            = (connects.length + s.masters_count_ - 1) / s.masters_count_)
      ∧ ∀ k connect_error, connects[k]? = some connect_error →
          (get_connections .master connects s).2[k]?
            = some (master_index (get_connections .master (connects.take k) s).1,
                (get_connection .master connect_error
                  (get_connections .master (connects.take k) s).1).2)
          ∧ master_index (get_connections .master (connects.take k) s).1
            = (s.master_fetch_times_ + 1 + k) % s.masters_count_
          ∧ (get_connections .master (connects.take k) s).1.masters_ = s.masters_
          ∧ ∃ master,
              s.masters_[master_index (get_connections .master (connects.take k) s).1]?
                = some master
              ∧ ∀ q, (get_connections .master (connects.take k) s).1.master_pool_.find
                    master.ip = some q →
                  get_connection .master connect_error
                      (get_connections .master (connects.take k) s).1
                    = guard_or_create q.head? master connect_error
                        { (get_connections .master (connects.take k) s).1 with
                          master_fetch_times_ :=
                            ((get_connections .master (connects.take k) s
                              ).1.master_fetch_times_ + 1) % 2 ^ 64,
                          master_pool_ :=
                            (get_connections .master (connects.take k) s
                              ).1.master_pool_.update master.ip List.tail })
    ∧ ((get_connections .slave connects_s ss).2.map Prod.fst
        = (List.range connects_s.length).map
            (fun k => (ss.slave_fetch_times_ + 1 + k) % ss.slaves_count_)
      ∧ (∃ slave, ss.slaves_[js]? = some slave)
      ∧ (List.count js ((get_connections .slave connects_s ss).2.map Prod.fst)
            = connects_s.length / ss.slaves_count_
          ∨ List.count js ((get_connections .slave connects_s ss).2.map Prod.fst)
            = (connects_s.length + ss.slaves_count_ - 1) / ss.slaves_count_)
      ∧ ∀ k connect_error, connects_s[k]? = some connect_error →
          (get_connections .slave connects_s ss).2[k]?
            = some (slave_index (get_connections .slave (connects_s.take k) ss).1,
                (get_connection .slave connect_error
                  (get_connections .slave (connects_s.take k) ss).1).2)
          ∧ slave_index (get_connections .slave (connects_s.take k) ss).1
            = (ss.slave_fetch_times_ + 1 + k) % ss.slaves_count_
          ∧ (get_connections .slave (connects_s.take k) ss).1.slaves_ = ss.slaves_
          ∧ ∃ slave,
              ss.slaves_[slave_index (get_connections .slave (connects_s.take k) ss).1]?
                = some slave
              ∧ ∀ q, (get_connections .slave (connects_s.take k) ss).1.slave_pool_.find
                    slave.ip = some q →
                  get_connection .slave connect_error
                      (get_connections .slave (connects_s.take k) ss).1
                    = guard_or_create q.head? slave connect_error
                        { (get_connections .slave (connects_s.take k) ss).1 with
                          slave_fetch_times_ :=
                            ((get_connections .slave (connects_s.take k) ss
                              ).1.slave_fetch_times_ + 1) % 2 ^ 64,
                          slave_pool_ :=
                            (get_connections .slave (connects_s.take k) ss
                              ).1.slave_pool_.update slave.ip List.tail }) := by
  have hm := get_connections_master_indices connects s hm_nowrap
  have hs := get_connections_slave_indices connects_s ss hs_nowrap
  refine ⟨⟨hm, ?_, ?_, ?_⟩, ⟨hs, ?_, ?_, ?_⟩⟩
  · exact ⟨s.masters_[jm], List.getElem?_eq_getElem (by omega)⟩
  · rw [hm]
    exact round_robin_count _ _ _ _ (by omega) hm_index
  · intro k connect_error hk
    have hkl : k < connects.length := by
      by_contra hc
      rw [List.getElem?_eq_none (by omega)] at hk
      simp at hk
    have htake : (connects.take k).length = k := by
      rw [List.length_take]; omega
    obtain ⟨t1, t2, t3⟩ := get_connections_master_state (connects.take k) s
      (by rw [htake]; omega)
    rw [htake] at t3
    have hidx : master_index (get_connections .master (connects.take k) s).1
        = (s.master_fetch_times_ + 1 + k) % s.masters_count_ := by
      unfold master_index
      rw [t2, t3, Nat.mod_eq_of_lt (by omega : s.master_fetch_times_ + k + 1 < 2 ^ 64)]
      congr 1
      omega
    have hlt : master_index (get_connections .master (connects.take k) s).1
        < s.masters_.length := by
      rw [hidx, hm_masters]
      exact Nat.mod_lt _ (by omega)
    refine ⟨get_connections_call .master connects s k connect_error hk, hidx, t1,
      s.masters_[master_index (get_connections .master (connects.take k) s).1],
      List.getElem?_eq_getElem hlt, ?_⟩
    intro q hq
    have h0 : ¬ (get_connections .master (connects.take k) s).1.masters_count_ = 0 := by
      rw [t2]; omega
    have hnode : (get_connections .master (connects.take k) s).1.masters_[
          ((get_connections .master (connects.take k) s).1.master_fetch_times_ + 1)
            % 2 ^ 64 % (get_connections .master (connects.take k) s).1.masters_count_]?
        = some (s.masters_[master_index (get_connections .master (connects.take k) s).1]) := by
      rw [t1]
      exact List.getElem?_eq_getElem hlt
    unfold get_connection
    simp only [h0, if_false]
    rw [hnode]
    simp only [hq]
  · exact ⟨ss.slaves_[js], List.getElem?_eq_getElem (by omega)⟩
  · rw [hs]
    exact round_robin_count _ _ _ _ (by omega) hs_index
  · intro k connect_error hk
    have hkl : k < connects_s.length := by
      by_contra hc
      rw [List.getElem?_eq_none (by omega)] at hk
      simp at hk
    have htake : (connects_s.take k).length = k := by
      rw [List.length_take]; omega
    obtain ⟨t1, t2, t3⟩ := get_connections_slave_state (connects_s.take k) ss
      (by rw [htake]; omega)
    rw [htake] at t3
    have hidx : slave_index (get_connections .slave (connects_s.take k) ss).1
        = (ss.slave_fetch_times_ + 1 + k) % ss.slaves_count_ := by
      unfold slave_index
      rw [t2, t3, Nat.mod_eq_of_lt (by omega : ss.slave_fetch_times_ + k + 1 < 2 ^ 64)]
      congr 1
      omega
    have hlt : slave_index (get_connections .slave (connects_s.take k) ss).1
        < ss.slaves_.length := by
      rw [hidx, hs_slaves]
      exact Nat.mod_lt _ (by omega)
    refine ⟨get_connections_call .slave connects_s ss k connect_error hk, hidx, t1,
      ss.slaves_[slave_index (get_connections .slave (connects_s.take k) ss).1],
      List.getElem?_eq_getElem hlt, ?_⟩
    intro q hq
    have h0 : ¬ (get_connections .slave (connects_s.take k) ss).1.slaves_count_ = 0 := by
      rw [t2]; omega
    have hnode : (get_connections .slave (connects_s.take k) ss).1.slaves_[
          ((get_connections .slave (connects_s.take k) ss).1.slave_fetch_times_ + 1)
            % 2 ^ 64 % (get_connections .slave (connects_s.take k) ss).1.slaves_count_]?
        = some (ss.slaves_[slave_index (get_connections .slave (connects_s.take k) ss).1]) := by
      rw [t1]
      exact List.getElem?_eq_getElem hlt
    unfold get_connection
    simp only [h0, if_false]
    rw [hnode]
    simp only [hq]

/-- C7 (amended) at a concrete input: three masters and three slaves on six hosts, counters
at 0, four consecutive calls: the indices are 1, 2, 0, 1, the master at position 0 is
10.0.0.1 and is selected once, floor(4/3), and the third call selects it. -/
theorem C7_round_robin_witness :
    (get_connections .master [none, none, none, none]
        (update_cluster_connections
          [⟨"10.0.0.1", "3306", "PRIMARY"⟩, ⟨"10.0.0.2", "3306", "PRIMARY"⟩,
           ⟨"10.0.0.3", "3306", "PRIMARY"⟩, ⟨"10.0.0.4", "3306", "SECONDARY"⟩,
           ⟨"10.0.0.5", "3306", "SECONDARY"⟩, ⟨"10.0.0.6", "3306", "SECONDARY"⟩] {})).2.map
        Prod.fst = [1, 2, 0, 1]
    ∧ (∃ master, (update_cluster_connections
          [⟨"10.0.0.1", "3306", "PRIMARY"⟩, ⟨"10.0.0.2", "3306", "PRIMARY"⟩,
           ⟨"10.0.0.3", "3306", "PRIMARY"⟩, ⟨"10.0.0.4", "3306", "SECONDARY"⟩,
           ⟨"10.0.0.5", "3306", "SECONDARY"⟩, ⟨"10.0.0.6", "3306", "SECONDARY"⟩] {}
        ).masters_[0]? = some master)
    ∧ (List.count 0 ((get_connections .master [none, none, none, none]
        (update_cluster_connections
          [⟨"10.0.0.1", "3306", "PRIMARY"⟩, ⟨"10.0.0.2", "3306", "PRIMARY"⟩,
           ⟨"10.0.0.3", "3306", "PRIMARY"⟩, ⟨"10.0.0.4", "3306", "SECONDARY"⟩,
           ⟨"10.0.0.5", "3306", "SECONDARY"⟩, ⟨"10.0.0.6", "3306", "SECONDARY"⟩] {})).2.map
        Prod.fst) = 4 / 3
      ∨ List.count 0 ((get_connections .master [none, none, none, none]
        (update_cluster_connections
          [⟨"10.0.0.1", "3306", "PRIMARY"⟩, ⟨"10.0.0.2", "3306", "PRIMARY"⟩,
           ⟨"10.0.0.3", "3306", "PRIMARY"⟩, ⟨"10.0.0.4", "3306", "SECONDARY"⟩,
           ⟨"10.0.0.5", "3306", "SECONDARY"⟩, ⟨"10.0.0.6", "3306", "SECONDARY"⟩] {})).2.map
        Prod.fst) = (4 + 3 - 1) / 3)
    ∧ master_index (get_connections .master ([none, none, none, none].take 2)
        (update_cluster_connections
          [⟨"10.0.0.1", "3306", "PRIMARY"⟩, ⟨"10.0.0.2", "3306", "PRIMARY"⟩,
           ⟨"10.0.0.3", "3306", "PRIMARY"⟩, ⟨"10.0.0.4", "3306", "SECONDARY"⟩,
           ⟨"10.0.0.5", "3306", "SECONDARY"⟩, ⟨"10.0.0.6", "3306", "SECONDARY"⟩] {})).1
      = (0 + 1 + 2) % 3 := by
  have h := C7_round_robin
    (update_cluster_connections
      [⟨"10.0.0.1", "3306", "PRIMARY"⟩, ⟨"10.0.0.2", "3306", "PRIMARY"⟩,
       ⟨"10.0.0.3", "3306", "PRIMARY"⟩, ⟨"10.0.0.4", "3306", "SECONDARY"⟩,
       ⟨"10.0.0.5", "3306", "SECONDARY"⟩, ⟨"10.0.0.6", "3306", "SECONDARY"⟩] {})
    [none, none, none, none] 0
    { slaves_ := [⟨"10.0.0.4", "3306", "SECONDARY"⟩],
      slaves_count_ := 1,
      slave_pool_ := [("10.0.0.4", [])] } [none] 0
    (by decide) (by decide) (by decide) (by decide) (by decide) (by decide) (by decide)
    (by decide)
  exact ⟨h.1.1, h.1.2.1, h.1.2.2.1, (h.1.2.2.2 2 none rfl).2.1⟩

end mysql

/-! ### C30 -/

namespace mysql

/-- C30 fails on the code: the counts are numbers of keys, and a key is an ip. After
reconciliation with two PRIMARY members on one host (two endpoints, ports 3306 and 3307)
the role has 2 endpoints, a number below 256, and `masters_count_` is 1; the same for two
SECONDARY members on one host and `slaves_count_`. -/
theorem C30_two_endpoints_count_one :
    (([⟨"10.0.0.1", "3306", "PRIMARY"⟩, ⟨"10.0.0.1", "3307", "PRIMARY"⟩]
          : List node_info).filter (fun n => decide (n.role = "PRIMARY"))).length = 2
    ∧ (update_cluster_connections
        [⟨"10.0.0.1", "3306", "PRIMARY"⟩, ⟨"10.0.0.1", "3307", "PRIMARY"⟩] {}).masters_
      = [⟨"10.0.0.1", "3306", "PRIMARY"⟩, ⟨"10.0.0.1", "3307", "PRIMARY"⟩]
    ∧ (update_cluster_connections
        [⟨"10.0.0.1", "3306", "PRIMARY"⟩, ⟨"10.0.0.1", "3307", "PRIMARY"⟩] {}
      ).masters_count_ = 1
    ∧ (([⟨"10.0.0.2", "3306", "SECONDARY"⟩, ⟨"10.0.0.2", "3307", "SECONDARY"⟩]
          : List node_info).filter (fun n => !decide (n.role = "PRIMARY"))).length = 2
    ∧ (update_cluster_connections
        [⟨"10.0.0.2", "3306", "SECONDARY"⟩, ⟨"10.0.0.2", "3307", "SECONDARY"⟩] {}).slaves_
      = [⟨"10.0.0.2", "3306", "SECONDARY"⟩, ⟨"10.0.0.2", "3307", "SECONDARY"⟩]
    ∧ (update_cluster_connections
        [⟨"10.0.0.2", "3306", "SECONDARY"⟩, ⟨"10.0.0.2", "3307", "SECONDARY"⟩] {}
      ).slaves_count_ = 1 := by
  refine ⟨by decide, by decide, by decide, by decide, by decide, by decide⟩

/-- C30 as amended: after `update_cluster_connections` with any snapshot `S`,
`masters_count_` is the number of keys of `master_pool_` modulo 256 and `slaves_count_` the
number of keys of `slave_pool_` modulo 256, so a count is the number of keys exactly when
that number is below 256. When no ip occurs twice in `S`, the number of keys of a role is
the number of endpoints of the role (the PRIMARY nodes of `S` for the masters, the other
nodes for the slaves, which are then `masters_` and `slaves_`): the count equals the number
of endpoints of the role exactly when that number is below 256, and a role with exactly 256
endpoints has count 0. -/
theorem C30_counts_modulo_256 (s : connection_pool) (S : List node_info) :
    (update_cluster_connections S s).masters_count_
        = (update_cluster_connections S s).master_pool_.keys.length % 256
      ∧ (update_cluster_connections S s).slaves_count_
        = (update_cluster_connections S s).slave_pool_.keys.length % 256
      ∧ ((update_cluster_connections S s).masters_count_
          = (update_cluster_connections S s).master_pool_.keys.length
        ↔ (update_cluster_connections S s).master_pool_.keys.length < 256)
      ∧ ((update_cluster_connections S s).slaves_count_
          = (update_cluster_connections S s).slave_pool_.keys.length
        ↔ (update_cluster_connections S s).slave_pool_.keys.length < 256)
      ∧ ((S.map fun n => n.ip).Nodup →
        ((update_cluster_connections S s).master_pool_.keys.length
            = (S.filter fun n => decide (n.role = "PRIMARY")).length
          ∧ (update_cluster_connections S s).masters_
            = S.filter (fun n => decide (n.role = "PRIMARY"))
          ∧ ((update_cluster_connections S s).masters_count_
              = (S.filter fun n => decide (n.role = "PRIMARY")).length
            ↔ (S.filter fun n => decide (n.role = "PRIMARY")).length < 256)
          ∧ ((S.filter fun n => decide (n.role = "PRIMARY")).length = 256 →
              (update_cluster_connections S s).masters_count_ = 0))
        ∧ ((update_cluster_connections S s).slave_pool_.keys.length
            = (S.filter fun n => !decide (n.role = "PRIMARY")).length
          ∧ (update_cluster_connections S s).slaves_
            = S.filter (fun n => !decide (n.role = "PRIMARY"))
          ∧ ((update_cluster_connections S s).slaves_count_
              = (S.filter fun n => !decide (n.role = "PRIMARY")).length
            ↔ (S.filter fun n => !decide (n.role = "PRIMARY")).length < 256)
          ∧ ((S.filter fun n => !decide (n.role = "PRIMARY")).length = 256 →
              (update_cluster_connections S s).slaves_count_ = 0))) := by
  obtain ⟨v1, v2, h3, h4⟩ := update_cluster_connections_vectors S s
  refine ⟨h3, h4, ?_, ?_, ?_⟩
  · rw [h3]
    constructor
    · intro h
      omega
    · exact Nat.mod_eq_of_lt
  · rw [h4]
    constructor
    · intro h
      omega
    · exact Nat.mod_eq_of_lt
  · intro hS
    obtain ⟨k1, k2⟩ := update_cluster_connections_keys_of_nodup S s hS
    have e1 : (update_cluster_connections S s).master_pool_.keys.length
        = (S.filter fun n => decide (n.role = "PRIMARY")).length := by
      rw [k1, List.length_map]
    have e2 : (update_cluster_connections S s).slave_pool_.keys.length
        = (S.filter fun n => !decide (n.role = "PRIMARY")).length := by
      rw [k2, List.length_map]
    refine ⟨⟨e1, v1, ?_, ?_⟩, ⟨e2, v2, ?_, ?_⟩⟩
    · rw [h3, e1]
      constructor
      · intro h
        omega
      · exact Nat.mod_eq_of_lt
    · intro h
      rw [h3, e1, h]
    · rw [h4, e2]
      constructor
      · intro h
        omega
      · exact Nat.mod_eq_of_lt
    · intro h
      rw [h4, e2, h]

/-- C30 (amended) at concrete inputs: one PRIMARY and two SECONDARY members on three hosts
give `slaves_count_` 2, the number of slave endpoints; 256 PRIMARY members on 256 hosts give
`masters_count_` 0. -/
theorem C30_counts_modulo_256_witness :
    ((update_cluster_connections
        [⟨"10.0.0.1", "3306", "PRIMARY"⟩, ⟨"10.0.0.2", "3306", "SECONDARY"⟩,
         ⟨"10.0.0.3", "3306", "SECONDARY"⟩] {}).slaves_count_
      = (([⟨"10.0.0.1", "3306", "PRIMARY"⟩, ⟨"10.0.0.2", "3306", "SECONDARY"⟩,
           ⟨"10.0.0.3", "3306", "SECONDARY"⟩] : List node_info).filter
          fun n => !decide (n.role = "PRIMARY")).length)
    ∧ ((members "PRIMARY" 256).filter fun n => decide (n.role = "PRIMARY")).length = 256
    ∧ (update_cluster_connections (members "PRIMARY" 256) {}).masters_count_ = 0 := by
  have h1 := (C30_counts_modulo_256 {}
    [⟨"10.0.0.1", "3306", "PRIMARY"⟩, ⟨"10.0.0.2", "3306", "SECONDARY"⟩,
     ⟨"10.0.0.3", "3306", "SECONDARY"⟩]).2.2.2.2 (by decide)
  have h2 := (C30_counts_modulo_256 {} (members "PRIMARY" 256)).2.2.2.2
    (members_nodup "PRIMARY" 256)
  have hlen : ((members "PRIMARY" 256).filter
      fun n => decide (n.role = "PRIMARY")).length = 256 := by
    have hall : (members "PRIMARY" 256).filter (fun n => decide (n.role = "PRIMARY"))
        = members "PRIMARY" 256 := by
      rw [List.filter_eq_self]
      intro n hn
      simp only [members, List.mem_map] at hn
      obtain ⟨i, _, rfl⟩ := hn
      simp
    rw [hall]
    simp [members]
  exact ⟨h1.2.2.2.1.mpr (by decide), hlen, h2.1.2.2.2 hlen⟩

end mysql

end sqlcpp
